import Mathlib

/-!
# LED animation engine (led_animation.c): shallow embedding

Machine integers are natural numbers reduced explicitly: `uint32_t`
arithmetic is taken modulo `2^32`, `uint16_t` modulo `2^16`, `uint8_t`
modulo `2^8`; the `int8_t` repeat counter is an integer wrapped into
`-128..127`.  A division or remainder by zero is undefined in C and is
modelled by `none`.
-/

namespace LedAnimation

/-! ## Machine arithmetic -/

/-- Truncation to `uint32_t`. -/
def u32 (x : Nat) : Nat := x % 4294967296

/-- Truncation to `uint16_t`. -/
def u16 (x : Nat) : Nat := x % 65536

/-- Truncation to `uint8_t`. -/
def u8 (x : Nat) : Nat := x % 256

/-- Subtraction of two `uint32_t` values, `a - b` modulo `2^32`. -/
def sub32 (a b : Nat) : Nat := (u32 a + (4294967296 - u32 b)) % 4294967296

/-- Product of two `uint32_t` values modulo `2^32`. -/
def mul32 (a b : Nat) : Nat := (a * b) % 4294967296

/-- Conversion of an integer to `int8_t` (two's complement wrap). -/
def toInt8 (x : Int) : Int := (x + 128) % 256 - 128

/-- Conversion of a (possibly negative) `int` to `uint32_t`. -/
def intToU32 (x : Int) : Nat := (x % 4294967296).toNat

/-- The macro `LED_MAX_BRIGHTNESS`. -/
def LED_MAX_BRIGHTNESS : Nat := 255

/-- The macro `MAX_COLOR_CHANNELS`. -/
def MAX_COLOR_CHANNELS : Nat := 4

/-- The macro `BRIGHTNESS_TO_DUTY_CYCLE(brightness, MAX_DUTY_CYCLE)`; the
operands are a `uint8_t` and a `uint16_t`, so the product fits an `int`. -/
def BRIGHTNESS_TO_DUTY_CYCLE (brightness maxDuty : Nat) : Nat :=
  (brightness * maxDuty) / 255

/-! ## Fade curve -/

/-- The function `GetFadeBrightnessQuadratic` (the strategy selected by
`USE_LED_ANIMATION_QUADRATIC`); `none` when the code divides by zero. -/
def GetFadeBrightnessQuadratic (elapsed duration maxDutyCycle : Nat) (isFadingIn : Bool) :
    Option Nat :=
  if duration = 0 then none
  else
    let normalizedTime := mul32 elapsed maxDutyCycle / duration
    if maxDutyCycle = 0 then none
    else if isFadingIn then
      some (mul32 normalizedTime normalizedTime / maxDutyCycle)
    else
      let inverseTime := sub32 maxDutyCycle normalizedTime
      some (mul32 inverseTime inverseTime / maxDutyCycle)

/-- The function pointer `CalculateFadeBrightness`, bound to the quadratic strategy. -/
def CalculateFadeBrightness (elapsed duration maxDutyCycle : Nat) (isFadingIn : Bool) :
    Option Nat :=
  GetFadeBrightnessQuadratic elapsed duration maxDutyCycle isFadingIn

/-! ## Data model -/

/-- The enum `LED_Status_t`. -/
inductive LED_Status_t
  | LED_SUCCESS
  | LED_ERROR_INVALID_COLOR
  | LED_ERROR_INVALID_BRIGHTNESS
  | LED_ERROR_PATTERN_NOT_SUPPORTED
  | LED_ERROR_NULL_POINTER
  | LED_ERROR_INVALID_ANIMATION_TYPE
  | LED_ERROR_INVALID_LED_TYPE
  | LED_ERROR_INVALID_ARGUMENT
  | LED_ERROR_INVALID_VALUE
  | LED_ERROR_INVALID_LED_POLARITY
  | LED_ANIMATION_COMPLETED
  deriving DecidableEq, Repr

/-- The enum `LED_Type_t`. -/
inductive LED_Type_t
  | LED_TYPE_INVALID
  | LED_TYPE_RGB
  | LED_TYPE_RGY
  | LED_TYPE_RGBW
  | LED_TYPE_SINGLE_COLOR
  | LED_TYPE_DUAL_COLOR
  | LED_TYPE_LAST
  deriving DecidableEq, Repr

/-- The enum `LED_Animation_Type_t`. -/
inductive LED_Animation_Type_t
  | LED_ANIMATION_INVALID
  | LED_ANIMATION_NONE
  | LED_ANIMATION_OFF
  | LED_ANIMATION_SOLID
  | LED_ANIMATION_BLINK
  | LED_ANIMATION_FLASH
  | LED_ANIMATION_BREATH
  | LED_ANIMATION_PULSE
  | LED_ANIMATION_FADE_IN
  | LED_ANIMATION_FADE_OUT
  | LED_ANIMATION_ALTERNATING_COLORS
  | LED_ANIMATION_COLOR_CYCLE
  | LED_ANIMATION_LAST
  deriving DecidableEq, Repr

open LED_Status_t LED_Type_t LED_Animation_Type_t

/-- The macro `IS_VALID_LED_TYPE`. -/
def IS_VALID_LED_TYPE : LED_Type_t → Bool
  | LED_TYPE_INVALID => false
  | LED_TYPE_LAST => false
  | _ => true

/-- The macro `IS_VALID_LED_ANIMATION_TYPE`. -/
def IS_VALID_LED_ANIMATION_TYPE : LED_Animation_Type_t → Bool
  | LED_ANIMATION_INVALID => false
  | LED_ANIMATION_LAST => false
  | _ => true

/-- The struct `LED_Controller_t`.  A function pointer is represented by the
flag "is not NULL"; `PwmConfig` is `none` for a NULL pointer and otherwise
tells, for each index of the `PWM_Channel_t` array it points to, whether
that channel's `setDutyCycle` is not NULL. -/
structure LED_Controller_t where
  Start : Bool
  Stop : Bool
  PwmConfig : Option (Nat → Bool)
  LedType : LED_Type_t
  MaxDutyCycle : Nat

/-- The struct `LED_Handle_t`.  The pointer `animationData` is an address
(0 is NULL); `callback` is the flag "is not NULL". -/
structure LED_Handle_t where
  controller : LED_Controller_t
  animationType : LED_Animation_Type_t
  isRunning : Bool
  animationData : Nat
  startTime : Nat
  lastTick : Nat
  callback : Bool
  repeatTimes : Int
  currentColor : Nat → Nat

/-- The struct `LED_Animation_Solid_t`; `color` is an address. -/
structure LED_Animation_Solid_t where
  color : Nat
  executionTimeMs : Nat

/-- The struct `LED_Animation_Blink_t`. -/
structure LED_Animation_Blink_t where
  color : Nat
  periodMs : Nat
  repeatTimes : Int

/-- The struct `LED_Animation_Flash_t`. -/
structure LED_Animation_Flash_t where
  color : Nat
  onTimeMs : Nat
  offTimeMs : Nat
  repeatTimes : Int

/-- The struct `LED_Animation_Breath_t`. -/
structure LED_Animation_Breath_t where
  color : Nat
  riseTimeMs : Nat
  fallTimeMs : Nat
  repeatTimes : Int
  invert : Bool

/-- The struct `LED_Animation_FadeIn_t`. -/
structure LED_Animation_FadeIn_t where
  color : Nat
  durationMs : Nat
  repeatTimes : Int

/-- The struct `LED_Animation_FadeOut_t`. -/
structure LED_Animation_FadeOut_t where
  color : Nat
  durationMs : Nat
  repeatTimes : Int

/-- The struct `LED_Animation_Pulse_t`. -/
structure LED_Animation_Pulse_t where
  color : Nat
  riseTimeMs : Nat
  holdOnTimeMs : Nat
  holdOffTimeMs : Nat
  fallTimeMs : Nat
  repeatTimes : Int

/-- The struct `LED_Animation_AlternatingColors_t`. -/
structure LED_Animation_AlternatingColors_t where
  colors : Nat
  colorCount : Nat
  durationMs : Nat
  repeatTimes : Int

/-- The struct `LED_Animation_ColorCycle_t`. -/
structure LED_Animation_ColorCycle_t where
  colors : Nat
  colorCount : Nat
  transitionMs : Nat
  holdTimeMs : Nat
  repeatTimes : Int
  leaveLastColor : Bool

/-- What the engine reads but never writes.  The configuration structs are
reached through the type-erased pointer `animationData`: each field `solid`,
`blink`, ... gives what the memory at an address reads as when it is cast to
that struct.  `bytes p i` is `((uint8_t*)p)[i]` and `ptrs p i` is
`((uint8_t**)p)[i]`.  Floating point is not modelled: `blend n d cur next`
stands for `(uint8_t)(cur + (n / (float)d) * (next - cur))`, and `stale i`
for what lies on the stack behind the three-element array
`interpolatedColor` when index `i >= 3` of it is read. -/
structure Env where
  solid : Nat → LED_Animation_Solid_t
  blink : Nat → LED_Animation_Blink_t
  flash : Nat → LED_Animation_Flash_t
  breath : Nat → LED_Animation_Breath_t
  fadeIn : Nat → LED_Animation_FadeIn_t
  fadeOut : Nat → LED_Animation_FadeOut_t
  pulse : Nat → LED_Animation_Pulse_t
  alternating : Nat → LED_Animation_AlternatingColors_t
  colorCycle : Nat → LED_Animation_ColorCycle_t
  bytes : Nat → Nat → Nat
  ptrs : Nat → Nat → Nat
  blend : Nat → Nat → Nat → Nat → Nat
  stale : Nat → Nat

/-- The `uint8_t` array behind a color pointer; `none` for NULL. -/
def Env.colorAt (env : Env) (p : Nat) : Option (Nat → Nat) :=
  if p = 0 then none else some (fun i => u8 (env.bytes p i))

/-- The side effects the engine has on its collaborators. -/
inductive Event
  | setDutyCycle (channel : Nat) (duty : Nat)
  | controllerStart
  | controllerStop
  | callback (animationType : LED_Animation_Type_t) (status : LED_Status_t)
  deriving DecidableEq, Repr

/-- The handle after a call, the side effects of the call in order, and the
status returned. -/
structure Result where
  handle : LED_Handle_t
  events : List Event
  status : LED_Status_t

/-! ## Color and duty-cycle application -/

/-- The function `CalculateColorCount`. -/
def CalculateColorCount : LED_Type_t → Nat
  | LED_TYPE_RGB => 3
  | LED_TYPE_RGY => 3
  | LED_TYPE_RGBW => 4
  | LED_TYPE_SINGLE_COLOR => 1
  | LED_TYPE_DUAL_COLOR => 2
  | LED_TYPE_INVALID => 0
  | LED_TYPE_LAST => 0

/-- The function `LED_Animation_SetCurrentColor` for non-NULL arguments: the
loop `currentColor[i] = colorValues[i]` for `i < colorCount`. -/
def LED_Animation_SetCurrentColor (this : LED_Handle_t) (colorValues : Nat → Nat)
    (colorCount : Nat) : LED_Handle_t :=
  { this with
    currentColor := fun i => if i < colorCount then colorValues i else this.currentColor i }

/-- The `for` loop of `SetColorGeneric`, from index `i` with `n` channels
left: the writes made and the status with which the loop ends. -/
def SetColorGeneric_loop (maxDuty : Nat) (chans : Nat → Bool) (colorValues : Nat → Nat) :
    Nat → Nat → List Event × LED_Status_t
  | _, 0 => ([], LED_SUCCESS)
  | i, n + 1 =>
    if colorValues i > LED_MAX_BRIGHTNESS then ([], LED_ERROR_INVALID_VALUE)
    else if chans i = false then ([], LED_ERROR_NULL_POINTER)
    else
      let rest := SetColorGeneric_loop maxDuty chans colorValues (i + 1) n
      (Event.setDutyCycle i (u16 (BRIGHTNESS_TO_DUTY_CYCLE (colorValues i) maxDuty)) :: rest.1,
        rest.2)

/-- The function `SetColorGeneric`; `colorValues` is `none` for NULL. -/
def SetColorGeneric (this : LED_Handle_t) (colorValues : Option (Nat → Nat))
    (colorCount : Nat) : Result :=
  match this.controller.PwmConfig, colorValues with
  | none, _ => ⟨this, [], LED_ERROR_NULL_POINTER⟩
  | _, none => ⟨this, [], LED_ERROR_NULL_POINTER⟩
  | some chans, some cv =>
    if colorCount > MAX_COLOR_CHANNELS then ⟨this, [], LED_ERROR_INVALID_ARGUMENT⟩
    else
      let this1 := LED_Animation_SetCurrentColor this cv colorCount
      let r := SetColorGeneric_loop this.controller.MaxDutyCycle chans cv 0 colorCount
      ⟨this1, r.1, r.2⟩

/-- The `for` loop of `SetDutyCycleGeneric`. -/
def SetDutyCycleGeneric_loop (maxDuty : Nat) (chans : Nat → Bool) (duty : Nat → Nat) :
    Nat → Nat → List Event × LED_Status_t
  | _, 0 => ([], LED_SUCCESS)
  | i, n + 1 =>
    if duty i > maxDuty then ([], LED_ERROR_INVALID_VALUE)
    else if chans i = false then ([], LED_ERROR_NULL_POINTER)
    else
      let rest := SetDutyCycleGeneric_loop maxDuty chans duty (i + 1) n
      (Event.setDutyCycle i (u16 (duty i)) :: rest.1, rest.2)

/-- The function `SetDutyCycleGeneric`; `DutyCycleValues` is `none` for NULL. -/
def SetDutyCycleGeneric (this : LED_Handle_t) (DutyCycleValues : Option (Nat → Nat))
    (DutyCycleCount : Nat) : Result :=
  match this.controller.PwmConfig, DutyCycleValues with
  | none, _ => ⟨this, [], LED_ERROR_NULL_POINTER⟩
  | _, none => ⟨this, [], LED_ERROR_NULL_POINTER⟩
  | some chans, some dv =>
    if DutyCycleCount > MAX_COLOR_CHANNELS then ⟨this, [], LED_ERROR_INVALID_ARGUMENT⟩
    else
      let r := SetDutyCycleGeneric_loop this.controller.MaxDutyCycle chans dv 0 DutyCycleCount
      ⟨this, r.1, r.2⟩

/-- The error path shared by `ExecuteColorSetting` and
`ExecuteDutyCycleSetting`: on a failing `result` the callback (if any) is
invoked with the failing status and the archetype tag is reset to NONE. -/
def abortOnError (r : Result) : Result :=
  if r.status ≠ LED_SUCCESS then
    ⟨{ r.handle with animationType := LED_ANIMATION_NONE },
      r.events ++
        (if r.handle.callback then [Event.callback r.handle.animationType r.status] else []),
      r.status⟩
  else r

/-- The function `ExecuteColorSetting`. -/
def ExecuteColorSetting (this : LED_Handle_t) (colorValues : Option (Nat → Nat)) : Result :=
  match colorValues with
  | none => ⟨this, [], LED_ERROR_NULL_POINTER⟩
  | some cv =>
    abortOnError (SetColorGeneric this (some cv) (CalculateColorCount this.controller.LedType))

/-- The function `ExecuteDutyCycleSetting`. -/
def ExecuteDutyCycleSetting (this : LED_Handle_t) (dutyCycleValues : Option (Nat → Nat)) :
    Result :=
  match dutyCycleValues with
  | none => ⟨this, [], LED_ERROR_NULL_POINTER⟩
  | some dv =>
    abortOnError
      (SetDutyCycleGeneric this (some dv) (CalculateColorCount this.controller.LedType))

/-- The function `HandleRepeatLogic`. -/
def HandleRepeatLogic (this : LED_Handle_t) (PatternRepeatTimes : Int)
    (StopOnCompletion : Bool) : Result :=
  let this1 :=
    if PatternRepeatTimes ≠ -1 then
      { this with repeatTimes := toInt8 (this.repeatTimes - 1) }
    else this
  if this1.repeatTimes = 0 then
    ⟨{ this1 with isRunning := false },
      (if this1.callback then [Event.callback this1.animationType LED_SUCCESS] else []) ++
        (if StopOnCompletion then [Event.controllerStop] else []),
      LED_ANIMATION_COMPLETED⟩
  else ⟨this1, [], LED_SUCCESS⟩

/-! ## Lifecycle operations -/

/-- The function `LED_AnimationValidateController`; `none` is a NULL controller. -/
def LED_AnimationValidateController (Controller : Option LED_Controller_t) : LED_Status_t :=
  match Controller with
  | none => LED_ERROR_NULL_POINTER
  | some c =>
    if c.Start = false ∨ c.Stop = false ∨ c.PwmConfig.isNone then LED_ERROR_NULL_POINTER
    else if IS_VALID_LED_TYPE c.LedType = false then LED_ERROR_INVALID_LED_TYPE
    else LED_SUCCESS

/-- The function `LED_Animation_Init` on a non-NULL handle. -/
def LED_Animation_Init (this : LED_Handle_t) (Controller : Option LED_Controller_t)
    (callback : Bool) : Result :=
  match Controller with
  | none => ⟨this, [], LED_ERROR_NULL_POINTER⟩
  | some c =>
    let status := LED_AnimationValidateController (some c)
    if status ≠ LED_SUCCESS then ⟨this, [], status⟩
    else
      ⟨{ this with
          controller := c
          animationType := LED_ANIMATION_NONE
          animationData := 0
          isRunning := false
          startTime := 0
          callback := callback },
        [], LED_SUCCESS⟩

/-- The function `LED_Animation_Start` on a non-NULL handle. -/
def LED_Animation_Start (this : LED_Handle_t) : Result :=
  ⟨{ this with isRunning := true, startTime := 0 }, [], LED_SUCCESS⟩

/-- The function `LED_Animation_Stop` on a non-NULL handle. -/
def LED_Animation_Stop (this : LED_Handle_t) : Result :=
  ⟨{ this with isRunning := false }, [], LED_SUCCESS⟩

/-- The function `LED_Animation_SetOff` on a non-NULL handle. -/
def LED_Animation_SetOff (this : LED_Handle_t) : Result :=
  ⟨{ this with animationType := LED_ANIMATION_OFF, animationData := 0, isRunning := false },
    [], LED_SUCCESS⟩

/-- The function `LED_Animation_SetAnimation` on a non-NULL handle. -/
def LED_Animation_SetAnimation (this : LED_Handle_t) (animationData : Nat)
    (animationType : LED_Animation_Type_t) : Result :=
  ⟨{ this with animationType := animationType, animationData := animationData,
               isRunning := false }, [], LED_SUCCESS⟩

/-- The function `LED_Animation_SetSolid` on a non-NULL handle. -/
def LED_Animation_SetSolid (this : LED_Handle_t) (Solid : Nat) : Result :=
  if Solid = 0 then ⟨this, [], LED_ERROR_NULL_POINTER⟩
  else
    ⟨{ this with animationType := LED_ANIMATION_SOLID, animationData := Solid,
                 isRunning := false }, [], LED_SUCCESS⟩

/-- The function `LED_Animation_SetFlash` on a non-NULL handle. -/
def LED_Animation_SetFlash (env : Env) (this : LED_Handle_t) (Flash : Nat) : Result :=
  if Flash = 0 then ⟨this, [], LED_ERROR_NULL_POINTER⟩
  else
    ⟨{ this with animationType := LED_ANIMATION_FLASH, animationData := Flash,
                 isRunning := false, repeatTimes := (env.flash Flash).repeatTimes },
      [], LED_SUCCESS⟩

/-- The function `LED_Animation_SetBlink` on a non-NULL handle. -/
def LED_Animation_SetBlink (env : Env) (this : LED_Handle_t) (Blink : Nat) : Result :=
  if Blink = 0 then ⟨this, [], LED_ERROR_NULL_POINTER⟩
  else
    ⟨{ this with animationType := LED_ANIMATION_BLINK, animationData := Blink,
                 isRunning := false, repeatTimes := (env.blink Blink).repeatTimes },
      [], LED_SUCCESS⟩

/-- The function `LED_Animation_SetBreath` on a non-NULL handle. -/
def LED_Animation_SetBreath (this : LED_Handle_t) (Breath : Nat) : Result :=
  if Breath = 0 then ⟨this, [], LED_ERROR_NULL_POINTER⟩
  else
    ⟨{ this with animationType := LED_ANIMATION_BREATH, animationData := Breath,
                 isRunning := false }, [], LED_SUCCESS⟩

/-- The function `LED_Animation_SetFadeIn` on a non-NULL handle. -/
def LED_Animation_SetFadeIn (this : LED_Handle_t) (FadeIn : Nat) : Result :=
  if FadeIn = 0 then ⟨this, [], LED_ERROR_NULL_POINTER⟩
  else
    ⟨{ this with animationType := LED_ANIMATION_FADE_IN, animationData := FadeIn,
                 isRunning := false }, [], LED_SUCCESS⟩

/-- The function `LED_Animation_SetFadeOut` on a non-NULL handle. -/
def LED_Animation_SetFadeOut (this : LED_Handle_t) (FadeOut : Nat) : Result :=
  if FadeOut = 0 then ⟨this, [], LED_ERROR_NULL_POINTER⟩
  else
    ⟨{ this with animationType := LED_ANIMATION_FADE_OUT, animationData := FadeOut,
                 isRunning := false }, [], LED_SUCCESS⟩

/-- The function `LED_Animation_SetPulse` on a non-NULL handle. -/
def LED_Animation_SetPulse (this : LED_Handle_t) (Pulse : Nat) : Result :=
  if Pulse = 0 then ⟨this, [], LED_ERROR_NULL_POINTER⟩
  else
    ⟨{ this with animationType := LED_ANIMATION_PULSE, animationData := Pulse,
                 isRunning := false }, [], LED_SUCCESS⟩

/-- The function `LED_Animation_SetAlternatingColors` on a non-NULL handle. -/
def LED_Animation_SetAlternatingColors (this : LED_Handle_t) (AlternatingColors : Nat) :
    Result :=
  if AlternatingColors = 0 then ⟨this, [], LED_ERROR_NULL_POINTER⟩
  else
    ⟨{ this with animationType := LED_ANIMATION_ALTERNATING_COLORS,
                 animationData := AlternatingColors, isRunning := false }, [], LED_SUCCESS⟩

/-- The function `LED_Animation_SetColorCycle` on a non-NULL handle. -/
def LED_Animation_SetColorCycle (this : LED_Handle_t) (ColorCycle : Nat) : Result :=
  if ColorCycle = 0 then ⟨this, [], LED_ERROR_NULL_POINTER⟩
  else
    ⟨{ this with animationType := LED_ANIMATION_COLOR_CYCLE, animationData := ColorCycle,
                 isRunning := false }, [], LED_SUCCESS⟩

/-! ## Executors -/

/-- The function `LED_AnimationNoneExecute`. -/
def LED_AnimationNoneExecute (this : LED_Handle_t) : Result :=
  ⟨this, [], LED_SUCCESS⟩

/-- The function `LED_AnimationOffExecute`. -/
def LED_AnimationOffExecute (this : LED_Handle_t) : Result :=
  if this.isRunning = false then ⟨this, [], LED_SUCCESS⟩
  else if this.callback then
    ⟨{ this with isRunning := false, animationType := LED_ANIMATION_NONE },
      [Event.controllerStop, Event.callback this.animationType LED_SUCCESS], LED_SUCCESS⟩
  else ⟨{ this with isRunning := false }, [Event.controllerStop], LED_SUCCESS⟩

/-- The function `LED_AnimationSolidExecute`. -/
def LED_AnimationSolidExecute (env : Env) (this : LED_Handle_t) (tick : Nat) : Result :=
  if this.animationData = 0 then ⟨this, [], LED_ERROR_NULL_POINTER⟩
  else
    let Solid := env.solid this.animationData
    if this.isRunning = false then ⟨this, [], LED_SUCCESS⟩
    else
      let first : Result :=
        if this.startTime = 0 then
          let r := ExecuteColorSetting { this with startTime := tick } (env.colorAt Solid.color)
          ⟨r.handle, Event.controllerStart :: r.events, r.status⟩
        else ⟨this, [], LED_SUCCESS⟩
      if first.status ≠ LED_SUCCESS then first
      else
        let elapsedTime := sub32 tick first.handle.startTime
        if Solid.executionTimeMs > 0 ∧ elapsedTime ≥ Solid.executionTimeMs then
          ⟨{ first.handle with isRunning := false },
            first.events ++ [Event.controllerStop] ++
              (if first.handle.callback then
                [Event.callback first.handle.animationType LED_SUCCESS] else []),
            LED_SUCCESS⟩
        else ⟨first.handle, first.events, LED_SUCCESS⟩

/-- The first-tick block shared by Flash and Blink: when the start marker is
0 the start tick and the repeat count are recorded and the color is applied
once; the status is the one of that application (success when the block
is skipped). -/
def beginColorRun (env : Env) (this : LED_Handle_t) (tick : Nat) (repeatTimes : Int)
    (color : Nat) : Result :=
  if this.startTime = 0 then
    ExecuteColorSetting { this with startTime := tick, repeatTimes := repeatTimes }
      (env.colorAt color)
  else ⟨this, [], LED_SUCCESS⟩

/-- The function `LED_AnimationFlashExecute`. -/
def LED_AnimationFlashExecute (env : Env) (this : LED_Handle_t) (tick : Nat) : Result :=
  if this.animationData = 0 then ⟨this, [], LED_ERROR_NULL_POINTER⟩
  else
    let Flash := env.flash this.animationData
    if this.isRunning = false then ⟨this, [], LED_SUCCESS⟩
    else
      let first := beginColorRun env this tick Flash.repeatTimes Flash.color
      if first.status ≠ LED_SUCCESS then first
      else
        let elapsedTime := sub32 tick first.handle.startTime
        let totalPeriodMs := u16 (Flash.onTimeMs + Flash.offTimeMs)
        let phase : List Event :=
          if elapsedTime < Flash.onTimeMs then [Event.controllerStart]
          else if elapsedTime < totalPeriodMs then [Event.controllerStop]
          else []
        if elapsedTime ≥ totalPeriodMs then
          let r := HandleRepeatLogic { first.handle with startTime := tick } Flash.repeatTimes false
          ⟨r.handle, first.events ++ phase ++ r.events, LED_SUCCESS⟩
        else ⟨first.handle, first.events ++ phase, LED_SUCCESS⟩

/-- The function `LED_AnimationBlinkExecute`. -/
def LED_AnimationBlinkExecute (env : Env) (this : LED_Handle_t) (tick : Nat) : Result :=
  if this.animationData = 0 then ⟨this, [], LED_ERROR_NULL_POINTER⟩
  else
    let Blink := env.blink this.animationData
    if this.isRunning = false then ⟨this, [], LED_SUCCESS⟩
    else
      let first := beginColorRun env this tick Blink.repeatTimes Blink.color
      if first.status ≠ LED_SUCCESS then first
      else
        let elapsedTime := sub32 tick first.handle.startTime
        if elapsedTime ≥ Blink.periodMs then
          let r := HandleRepeatLogic { first.handle with startTime := tick } Blink.repeatTimes false
          ⟨r.handle, first.events ++ r.events, LED_SUCCESS⟩
        else if elapsedTime ≥ Blink.periodMs / 2 then
          ⟨first.handle, first.events ++ [Event.controllerStop], LED_SUCCESS⟩
        else ⟨first.handle, first.events ++ [Event.controllerStart], LED_SUCCESS⟩

/-- The loop that fills `dutyCycleValues[i]` for `i < colorCount` in the
curve-driven executors: `f i` is the `uint32_t` brightness computed for
channel `i` (`none` when computing it is undefined), stored as `uint16_t`. -/
def fillDutyCycleValues (f : Nat → Option Nat) : Nat → Nat → Option (List Nat)
  | _, 0 => some []
  | i, n + 1 =>
    match f i with
    | none => none
    | some v =>
      match fillDutyCycleValues f (i + 1) n with
      | none => none
      | some vs => some (u16 v :: vs)

/-- The peak duty of channel `i` in the curve-driven executors:
`BRIGHTNESS_TO_DUTY_CYCLE(((uint8_t*)color)[i], MaxDutyCycle)`; `none` when
`color` is NULL. -/
def channelPeak (env : Env) (this : LED_Handle_t) (color : Nat) (i : Nat) : Option Nat :=
  match env.colorAt color with
  | none => none
  | some cv => some (BRIGHTNESS_TO_DUTY_CYCLE (cv i) this.controller.MaxDutyCycle)

/-- The function `GetBreathBrightness`. -/
def GetBreathBrightness (timeInCycle : Nat) (Breath : LED_Animation_Breath_t)
    (maxDutyCycle : Nat) : Option Nat :=
  let riseTimeMs := Breath.riseTimeMs
  if timeInCycle < riseTimeMs then
    CalculateFadeBrightness timeInCycle riseTimeMs maxDutyCycle (if Breath.invert then false else true)
  else
    CalculateFadeBrightness (sub32 timeInCycle riseTimeMs) Breath.fallTimeMs maxDutyCycle
      (if Breath.invert then true else false)

/-- The first-tick block shared by Breath, FadeIn, FadeOut, Pulse,
AlternatingColors and ColorCycle: when the start marker is 0 the start tick
and the repeat count are recorded and the controller is started. -/
def beginRun (this : LED_Handle_t) (tick : Nat) (repeatTimes : Int) : LED_Handle_t × List Event :=
  if this.startTime = 0 then
    ({ this with startTime := tick, repeatTimes := repeatTimes }, [Event.controllerStart])
  else (this, [])

/-- The function `LED_AnimationBreathExecute`; `none` when the code runs into
undefined behaviour (remainder or division by zero, NULL color). -/
def LED_AnimationBreathExecute (env : Env) (this : LED_Handle_t) (tick : Nat) :
    Option Result :=
  if this.animationData = 0 then some ⟨this, [], LED_ERROR_NULL_POINTER⟩
  else if this.isRunning = false then some ⟨this, [], LED_SUCCESS⟩
  else
    let Breath := env.breath this.animationData
    let b := beginRun this tick Breath.repeatTimes
    let elapsedTime := sub32 tick b.1.startTime
    let totalCycleTimeMs := Breath.riseTimeMs + Breath.fallTimeMs
    if totalCycleTimeMs = 0 then none
    else
      let timeInCycle := elapsedTime % totalCycleTimeMs
      let colorCount := CalculateColorCount this.controller.LedType
      match fillDutyCycleValues
          (fun i => (channelPeak env this Breath.color i).bind
            (GetBreathBrightness timeInCycle Breath)) 0 colorCount with
      | none => none
      | some duty =>
        let result := ExecuteDutyCycleSetting b.1 (some (fun i => duty.getD i 0))
        if result.status ≠ LED_SUCCESS then
          some ⟨result.handle, b.2 ++ result.events, result.status⟩
        else if elapsedTime ≥ totalCycleTimeMs then
          let r := HandleRepeatLogic { result.handle with startTime := tick } Breath.repeatTimes
            (if Breath.invert then false else true)
          some ⟨r.handle, b.2 ++ result.events ++ r.events, LED_SUCCESS⟩
        else some ⟨result.handle, b.2 ++ result.events, LED_SUCCESS⟩

/-- The function `LED_AnimationFadeInExecute`. -/
def LED_AnimationFadeInExecute (env : Env) (this : LED_Handle_t) (tick : Nat) :
    Option Result :=
  if this.animationData = 0 then some ⟨this, [], LED_ERROR_NULL_POINTER⟩
  else if this.isRunning = false then some ⟨this, [], LED_SUCCESS⟩
  else
    let FadeIn := env.fadeIn this.animationData
    let b := beginRun this tick FadeIn.repeatTimes
    let elapsedTime := sub32 tick b.1.startTime
    let colorCount := CalculateColorCount this.controller.LedType
    match fillDutyCycleValues
        (fun i => (channelPeak env this FadeIn.color i).bind
          (fun maxDutyCycle =>
            CalculateFadeBrightness elapsedTime FadeIn.durationMs maxDutyCycle true))
        0 colorCount with
    | none => none
    | some duty =>
      let result := ExecuteDutyCycleSetting b.1 (some (fun i => duty.getD i 0))
      if result.status ≠ LED_SUCCESS then
        some ⟨result.handle, b.2 ++ result.events, result.status⟩
      else if elapsedTime ≥ FadeIn.durationMs then
        let r := HandleRepeatLogic result.handle FadeIn.repeatTimes false
        some ⟨{ r.handle with startTime := tick }, b.2 ++ result.events ++ r.events, LED_SUCCESS⟩
      else some ⟨result.handle, b.2 ++ result.events, LED_SUCCESS⟩

/-- The function `LED_AnimationFadeOutExecute`. -/
def LED_AnimationFadeOutExecute (env : Env) (this : LED_Handle_t) (tick : Nat) :
    Option Result :=
  if this.animationData = 0 then some ⟨this, [], LED_ERROR_NULL_POINTER⟩
  else if this.isRunning = false then some ⟨this, [], LED_SUCCESS⟩
  else
    let FadeOut := env.fadeOut this.animationData
    let b := beginRun this tick FadeOut.repeatTimes
    let elapsedTime := sub32 tick b.1.startTime
    let colorCount := CalculateColorCount this.controller.LedType
    match fillDutyCycleValues
        (fun i => (channelPeak env this FadeOut.color i).bind
          (fun maxDutyCycle =>
            CalculateFadeBrightness elapsedTime FadeOut.durationMs maxDutyCycle false))
        0 colorCount with
    | none => none
    | some duty =>
      let result := ExecuteDutyCycleSetting b.1 (some (fun i => duty.getD i 0))
      if result.status ≠ LED_SUCCESS then
        some ⟨result.handle, b.2 ++ result.events, result.status⟩
      else if elapsedTime ≥ FadeOut.durationMs then
        let r := HandleRepeatLogic result.handle FadeOut.repeatTimes true
        some ⟨{ r.handle with startTime := tick }, b.2 ++ result.events ++ r.events, LED_SUCCESS⟩
      else some ⟨result.handle, b.2 ++ result.events, LED_SUCCESS⟩

/-- The function `GetPulseBrightness`; `none` when a division is undefined or
when no branch assigns `Brightness`. -/
def GetPulseBrightness (timeInCycle : Nat) (Pulse : LED_Animation_Pulse_t)
    (maxDutyCycle : Nat) : Option Nat :=
  let riseTimeMs := Pulse.riseTimeMs
  let holdOnTimeMs := Pulse.holdOnTimeMs
  let holdOffTimeMs := Pulse.holdOffTimeMs
  let fallTimeMs := Pulse.fallTimeMs
  if timeInCycle < riseTimeMs then
    CalculateFadeBrightness timeInCycle riseTimeMs maxDutyCycle true
  else if timeInCycle < riseTimeMs + holdOnTimeMs then some maxDutyCycle
  else if timeInCycle < riseTimeMs + holdOnTimeMs + fallTimeMs then
    CalculateFadeBrightness (sub32 (sub32 timeInCycle riseTimeMs) holdOnTimeMs) fallTimeMs
      maxDutyCycle false
  else if timeInCycle < riseTimeMs + holdOnTimeMs + fallTimeMs + holdOffTimeMs then some 0
  else none

/-- The function `LED_AnimationPulseExecute`. -/
def LED_AnimationPulseExecute (env : Env) (this : LED_Handle_t) (tick : Nat) :
    Option Result :=
  if this.animationData = 0 then some ⟨this, [], LED_ERROR_NULL_POINTER⟩
  else if this.isRunning = false then some ⟨this, [], LED_SUCCESS⟩
  else
    let Pulse := env.pulse this.animationData
    let b := beginRun this tick Pulse.repeatTimes
    let elapsedTime := sub32 tick b.1.startTime
    let totalCycleTimeMs :=
      Pulse.riseTimeMs + Pulse.holdOnTimeMs + Pulse.fallTimeMs + Pulse.holdOffTimeMs
    if totalCycleTimeMs = 0 then none
    else
      let timeInCycle := elapsedTime % totalCycleTimeMs
      let colorCount := CalculateColorCount this.controller.LedType
      match fillDutyCycleValues
          (fun i => (channelPeak env this Pulse.color i).bind
            (GetPulseBrightness timeInCycle Pulse)) 0 colorCount with
      | none => none
      | some duty =>
        let result := ExecuteDutyCycleSetting b.1 (some (fun i => duty.getD i 0))
        if result.status ≠ LED_SUCCESS then
          some ⟨result.handle, b.2 ++ result.events, result.status⟩
        else if elapsedTime ≥ totalCycleTimeMs then
          let r := HandleRepeatLogic { result.handle with startTime := tick } Pulse.repeatTimes
            false
          some ⟨r.handle, b.2 ++ result.events ++ r.events, LED_SUCCESS⟩
        else some ⟨result.handle, b.2 ++ result.events, LED_SUCCESS⟩

/-- The function `LED_AnimationAlternatingColorsExecute`; `none` when the
code runs into undefined behaviour (signed overflow of the cycle time,
remainder by a zero cycle time, NULL palette).  The product
`durationMs * colorCount` multiplies two `uint16_t`, which C promotes to
`int` (32 bits): from `2^31` on the multiplication overflows, which is
undefined; below, the `int` value converts to `uint32_t` unchanged. -/
def LED_AnimationAlternatingColorsExecute (env : Env) (this : LED_Handle_t) (tick : Nat) :
    Option Result :=
  if this.animationData = 0 then some ⟨this, [], LED_ERROR_NULL_POINTER⟩
  else if this.isRunning = false then some ⟨this, [], LED_SUCCESS⟩
  else
    let AlternatingColors := env.alternating this.animationData
    let b := beginRun this tick AlternatingColors.repeatTimes
    let elapsedTime := sub32 tick b.1.startTime
    if AlternatingColors.durationMs * AlternatingColors.colorCount ≥ 2147483648 then none
    else
      let cycleTimeMs := u32 (AlternatingColors.durationMs * AlternatingColors.colorCount)
      if cycleTimeMs = 0 then none
      else if AlternatingColors.durationMs = 0 then none
      else if AlternatingColors.colors = 0 then none
      else
        let timeInCurrentCycle := elapsedTime % cycleTimeMs
        let colorIndex := timeInCurrentCycle / AlternatingColors.durationMs
        let currentColor := env.ptrs AlternatingColors.colors colorIndex
        let result := ExecuteColorSetting b.1 (env.colorAt currentColor)
        if result.status ≠ LED_SUCCESS then
          some ⟨result.handle, b.2 ++ result.events, result.status⟩
        else if AlternatingColors.repeatTimes ≠ -1 ∧
            elapsedTime ≥ mul32 cycleTimeMs (intToU32 AlternatingColors.repeatTimes) then
          some ⟨{ result.handle with isRunning := false },
            b.2 ++ result.events ++ [Event.controllerStop] ++
              (if result.handle.callback then
                [Event.callback result.handle.animationType LED_SUCCESS] else []),
            LED_SUCCESS⟩
        else some ⟨result.handle, b.2 ++ result.events, LED_SUCCESS⟩

/-- The local array `interpolatedColor[3] = {r, g, b}` of the ColorCycle
transition phase, as `ExecuteColorSetting` reads it. -/
def interpolatedColor (env : Env) (num den : Nat) (currentColor nextColor : Nat → Nat) :
    Nat → Nat
  | 0 => u8 (env.blend num den (currentColor 0) (nextColor 0))
  | 1 => u8 (env.blend num den (currentColor 1) (nextColor 1))
  | 2 => u8 (env.blend num den (currentColor 2) (nextColor 2))
  | i + 3 => u8 (env.stale (i + 3))

/-- The function `LED_AnimationColorCycleExecute`; `none` when the code runs
into undefined behaviour (remainder or division by zero, NULL palette or
palette entry dereferenced). -/
def LED_AnimationColorCycleExecute (env : Env) (this : LED_Handle_t) (tick : Nat) :
    Option Result :=
  if this.animationData = 0 then some ⟨this, [], LED_ERROR_NULL_POINTER⟩
  else if this.isRunning = false then some ⟨this, [], LED_SUCCESS⟩
  else
    let ColorCycle := env.colorCycle this.animationData
    let b := beginRun this tick ColorCycle.repeatTimes
    let elapsedTime := sub32 tick b.1.startTime
    let cycleTimeMs := ColorCycle.transitionMs + ColorCycle.holdTimeMs
    let totalCycleTimeMs :=
      if b.1.repeatTimes = -1 ∨ b.1.repeatTimes > 1 then mul32 cycleTimeMs ColorCycle.colorCount
      else sub32 (mul32 cycleTimeMs ColorCycle.colorCount) ColorCycle.transitionMs
    if cycleTimeMs = 0 then none
    else if ColorCycle.colorCount = 0 then none
    else if ColorCycle.colors = 0 then none
    else
      let timeInCycle := elapsedTime % cycleTimeMs
      let colorIndex := (elapsedTime / cycleTimeMs) % ColorCycle.colorCount
      let nextColorIndex := (colorIndex + 1) % ColorCycle.colorCount
      let currentColor := env.ptrs ColorCycle.colors colorIndex
      let nextColor := env.ptrs ColorCycle.colors nextColorIndex
      let applied : Option Result :=
        if timeInCycle < ColorCycle.holdTimeMs then
          some (ExecuteColorSetting b.1 (env.colorAt currentColor))
        else
          match env.colorAt currentColor, env.colorAt nextColor with
          | some cur, some next =>
            some (ExecuteColorSetting b.1
              (some (interpolatedColor env (sub32 timeInCycle ColorCycle.holdTimeMs)
                ColorCycle.transitionMs cur next)))
          | _, _ => none
      match applied with
      | none => none
      | some result =>
        if result.status ≠ LED_SUCCESS then
          some ⟨result.handle, b.2 ++ result.events, result.status⟩
        else if elapsedTime ≥ totalCycleTimeMs then
          let r := HandleRepeatLogic { result.handle with startTime := tick }
            ColorCycle.repeatTimes (if ColorCycle.leaveLastColor then true else false)
          some ⟨r.handle, b.2 ++ result.events ++ r.events, LED_SUCCESS⟩
        else some ⟨result.handle, b.2 ++ result.events, LED_SUCCESS⟩

/-! ## The tick entry point -/

/-- The `switch` of `LED_Animation_Update`. -/
def dispatch (env : Env) (this : LED_Handle_t) (tick : Nat) : Option Result :=
  match this.animationType with
  | LED_ANIMATION_NONE => some (LED_AnimationNoneExecute this)
  | LED_ANIMATION_OFF => some (LED_AnimationOffExecute this)
  | LED_ANIMATION_SOLID => some (LED_AnimationSolidExecute env this tick)
  | LED_ANIMATION_FLASH => some (LED_AnimationFlashExecute env this tick)
  | LED_ANIMATION_BLINK => some (LED_AnimationBlinkExecute env this tick)
  | LED_ANIMATION_BREATH => LED_AnimationBreathExecute env this tick
  | LED_ANIMATION_FADE_IN => LED_AnimationFadeInExecute env this tick
  | LED_ANIMATION_FADE_OUT => LED_AnimationFadeOutExecute env this tick
  | LED_ANIMATION_PULSE => LED_AnimationPulseExecute env this tick
  | LED_ANIMATION_ALTERNATING_COLORS => LED_AnimationAlternatingColorsExecute env this tick
  | LED_ANIMATION_COLOR_CYCLE => LED_AnimationColorCycleExecute env this tick
  | _ => some ⟨this, [], LED_SUCCESS⟩

/-- The function `LED_Animation_Update` on a non-NULL handle; `none` when the
executor it dispatches to runs into undefined behaviour. -/
def LED_Animation_Update (env : Env) (this : LED_Handle_t) (tick : Nat) : Option Result :=
  if this.lastTick = tick then some ⟨this, [], LED_SUCCESS⟩
  else if IS_VALID_LED_ANIMATION_TYPE this.animationType = false then
    some ⟨this, [], LED_ERROR_INVALID_ANIMATION_TYPE⟩
  else
    match dispatch env this tick with
    | none => none
    | some r => some ⟨{ r.handle with lastTick := tick }, r.events, r.status⟩

/-- Successive calls of `LED_Animation_Update` with the ticks of a list, in
order: the final handle and all side effects; `none` as soon as one call is
undefined. -/
def updateAll (env : Env) : LED_Handle_t → List Nat → Option (LED_Handle_t × List Event)
  | this, [] => some (this, [])
  | this, tick :: ticks =>
    match LED_Animation_Update env this tick with
    | none => none
    | some r =>
      match updateAll env r.handle ticks with
      | none => none
      | some (h, evs) => some (h, r.events ++ evs)

/-- The function `LED_Animation_GetColor` on non-NULL arguments: the number
of channels and the bytes copied out of `currentColor`. -/
def LED_Animation_GetColor (this : LED_Handle_t) : List Nat × Nat × LED_Status_t :=
  let colorCount := CalculateColorCount this.controller.LedType
  ((List.range colorCount).map this.currentColor, colorCount, LED_SUCCESS)


/-! ## Observations on event traces and a concrete configuration -/

/-- Whether an event is an invocation of the completion callback. -/
def Event.isCallback : Event → Bool
  | Event.callback _ _ => true
  | _ => false

/-- The `repeatTimes` field of the configuration at address `p`, read as the
struct of archetype `t`; `none` for the tags without a repeat count. -/
def configRepeatTimes (env : Env) (t : LED_Animation_Type_t) (p : Nat) : Option Int :=
  match t with
  | LED_ANIMATION_BLINK => some (env.blink p).repeatTimes
  | LED_ANIMATION_FLASH => some (env.flash p).repeatTimes
  | LED_ANIMATION_BREATH => some (env.breath p).repeatTimes
  | LED_ANIMATION_FADE_IN => some (env.fadeIn p).repeatTimes
  | LED_ANIMATION_FADE_OUT => some (env.fadeOut p).repeatTimes
  | LED_ANIMATION_PULSE => some (env.pulse p).repeatTimes
  | LED_ANIMATION_ALTERNATING_COLORS => some (env.alternating p).repeatTimes
  | LED_ANIMATION_COLOR_CYCLE => some (env.colorCycle p).repeatTimes
  | _ => none

/-- The fields of a handle that color and duty-cycle application never
touch: everything but the archetype tag and the current color. -/
def SameRun (h h1 : LED_Handle_t) : Prop :=
  h1.controller = h.controller ∧ h1.isRunning = h.isRunning ∧
  h1.animationData = h.animationData ∧ h1.startTime = h.startTime ∧
  h1.lastTick = h.lastTick ∧ h1.callback = h.callback ∧ h1.repeatTimes = h.repeatTimes

/-- No event of the trace is the completion callback invoked with the
success status. -/
def NoSuccessCallback (evs : List Event) : Prop :=
  ∀ t, Event.callback t LED_SUCCESS ∉ evs

/-- What a step of an infinitely repeating run keeps of the handle `h` it
starts from: still running, same config, same tag unless an error reset it
to NONE, cached repeat count -1 once the run has begun, and no completion
reported. -/
def InfiniteStep (h : LED_Handle_t) (r : Result) : Prop :=
  r.handle.isRunning = true ∧ r.handle.animationData = h.animationData ∧
  (r.handle.animationType = h.animationType ∨ r.handle.animationType = LED_ANIMATION_NONE) ∧
  (r.handle.startTime = 0 ∨ r.handle.repeatTimes = -1) ∧
  NoSuccessCallback r.events

/-- A running Blink on the config at address `p`, with cycle start `s`,
remaining repeat count `R`, last processed tick `last` and a callback
registered. -/
def BlinkRun (p s : Nat) (R : Int) (last : Nat) (h : LED_Handle_t) : Prop :=
  h.animationType = LED_ANIMATION_BLINK ∧ h.animationData = p ∧ h.isRunning = true ∧
  h.startTime = s ∧ h.repeatTimes = R ∧ h.lastTick = last ∧ h.callback = true

/-- An RGB controller with three populated channels and maximum duty 1000. -/
def demoController : LED_Controller_t :=
  { Start := true, Stop := true, PwmConfig := some (fun _ => true),
    LedType := LED_TYPE_RGB, MaxDutyCycle := 1000 }

/-- A memory holding one configuration of each archetype (whatever the
address), the color 255, 0, 0 at address 16, the color 200, 100, 50 at
address 24 and a palette at address 32 whose entries all point to the first
color.  Its `blend` is an exact-integer stand-in for the single-precision
blend of the source: where the float expression rounds below an integer the
two differ by one. -/
def demoEnv : Env :=
  { solid := fun _ => ⟨16, 0⟩
    blink := fun _ => ⟨16, 500, 2⟩
    flash := fun _ => ⟨16, 50, 200, 2⟩
    breath := fun _ => ⟨24, 300, 300, -1, false⟩
    fadeIn := fun _ => ⟨24, 200, -1⟩
    fadeOut := fun _ => ⟨24, 200, -1⟩
    pulse := fun _ => ⟨24, 100, 50, 50, 100, -1⟩
    alternating := fun _ => ⟨32, 2, 100, -1⟩
    colorCycle := fun _ => ⟨32, 2, 100, 100, -1, false⟩
    bytes := fun p i =>
      if p = 16 then [255, 0, 0].getD i 0
      else if p = 24 then [200, 100, 50].getD i 0
      else 0
    ptrs := fun _ _ => 16
    blend := fun n d cur next => (cur * d + n * next - n * cur) / d
    stale := fun _ => 0 }

/-- A handle as `LED_Animation_Init` leaves it on `demoController`, with a
callback registered. -/
def demoHandle : LED_Handle_t :=
  { controller := demoController, animationType := LED_ANIMATION_NONE, isRunning := false,
    animationData := 0, startTime := 0, lastTick := 0, callback := true, repeatTimes := 0,
    currentColor := fun _ => 0 }

/-- The memory `demoEnv` with a Flash of 40000 ms on and 40000 ms off. -/
def longFlashEnv : Env :=
  { demoEnv with flash := fun _ => ⟨16, 40000, 40000, 2⟩ }


/-! ## Initialization through a nullable handle pointer -/

/-- The function `LED_Animation_Init` with the handle pointer explicit:
`none` is a NULL `this`, for which the null-pointer error is returned before
anything else is looked at. -/
def LED_Animation_Init_ptr (this : Option LED_Handle_t) (Controller : Option LED_Controller_t)
    (callback : Bool) : Option LED_Handle_t × LED_Status_t :=
  match this with
  | none => (none, LED_ERROR_NULL_POINTER)
  | some h =>
    let r := LED_Animation_Init h Controller callback
    (some r.handle, r.status)

/-- The number of populated channels among the first `n` entries of a
`PWM_Channel_t` array: those whose `setDutyCycle` is not NULL. -/
def populatedChannels (chans : Nat → Bool) (n : Nat) : Nat :=
  ((List.range n).filter (fun i => chans i)).length

/-- The result `r` has the current-color snapshot and the controller of the
handle `h`. -/
def KeepsSnapshot (h : LED_Handle_t) (r : Result) : Prop :=
  r.handle.currentColor = h.currentColor ∧ r.handle.controller = h.controller

/-- Entry `idx` of the palette of a ColorCycle config, as the bytes the
executor reads through `((uint8_t**)colors)[idx]`. -/
def paletteColor (env : Env) (cfg : LED_Animation_ColorCycle_t) (idx : Nat) : Nat → Nat :=
  fun i => u8 (env.bytes (env.ptrs cfg.colors idx) i)

/-- The elapsed time the ColorCycle executor computes on a tick: the tick
minus the start tick, which is the tick itself on the first tick of a run. -/
def colorCycleElapsed (env : Env) (h : LED_Handle_t) (tick : Nat) : Nat :=
  sub32 tick (beginRun h tick (env.colorCycle h.animationData).repeatTimes).1.startTime

/-! ## Transition manager (led_transition_manager.c): data model -/

/-- The enum `LED_Transition_Type_t` of the header, with `LED_TRANSITION_SOFT`
added: the `switch` of `LED_Transition_StateOngoing` has a case for it although
the header does not declare it. -/
inductive LED_Transition_Type_t
  | LED_TRANSITION_INVALID
  | LED_TRANSITION_IMMINENT
  | LED_TRANSITION_INTERPOLATE
  | LED_TRANSITION_UPON_COMPLETION
  | LED_TRANSITION_AT_CLEAN_ENTRY
  | LED_TRANSITION_LAST
  | LED_TRANSITION_SOFT
  deriving DecidableEq, Repr

/-- The enum `LED_Transition_State_t`. -/
inductive LED_Transition_State_t
  | LED_TRANSITION_STATE_INVALID
  | LED_TRANSITION_STATE_IDLE
  | LED_TRANSITION_STATE_SETUP
  | LED_TRANSITION_STATE_ONGOING
  | LED_TRANSITION_STATE_COMPLETED
  | LED_TRANSITION_STATE_LAST
  deriving DecidableEq, Repr

/-- Modelled from the spec: the event enum of the transition manager, whose
declaration is not in the header; the source uses the two values
`LED_TRANSITION_EVT_INVALID` and `LED_TRANSITION_EVT_START` (the start event
armed by `ExecAnimation` and consumed by the next `Update`). -/
inductive LED_Transition_Event_t
  | LED_TRANSITION_EVT_INVALID
  | LED_TRANSITION_EVT_START
  deriving DecidableEq, Repr

open LED_Transition_Type_t LED_Transition_State_t LED_Transition_Event_t

/-- The struct `LED_Transition_Handle_t`.  The pointers `transitionMap` and
`targetAnimData` are addresses (0 is NULL); the animation handle behind
`LedHandle` is held by value.  The field `event`, which the source reads and
writes, is not in the header's declaration and is added here. -/
structure LED_Transition_Handle_t where
  transitionMap : Nat
  LedHandle : LED_Handle_t
  targetAnimData : Nat
  lastTick : Nat
  Duration : Nat
  mapSize : Nat
  targetAnimType : LED_Animation_Type_t
  transitionType : LED_Transition_Type_t
  state : LED_Transition_State_t
  event : LED_Transition_Event_t
  currentColor : Nat → Nat
  targetColor : Nat → Nat

/-- The function `LED_Transition_ExecAnimation` on a non-NULL handle; the
status codes `LED_STATUS_SUCCESS` and `LED_STATUS_ERROR_NULL_POINTER` of the
source are the values `LED_SUCCESS` and `LED_ERROR_NULL_POINTER`. -/
def LED_Transition_ExecAnimation (this : LED_Transition_Handle_t) (animData : Nat)
    (animType : LED_Animation_Type_t) : LED_Transition_Handle_t × LED_Status_t :=
  if animData = 0 then (this, LED_ERROR_NULL_POINTER)
  else if this.state = LED_TRANSITION_STATE_IDLE then
    ({ this with targetAnimData := animData, targetAnimType := animType,
                 event := LED_TRANSITION_EVT_START }, LED_SUCCESS)
  else (this, LED_SUCCESS)

/-! ## Further concrete configurations -/

/-- The memory `demoEnv` with a Breath of repeat count 3 and a ColorCycle of
two colors, hold 100 ms, transition 100 ms, repeat count 1 and
`leaveLastColor` set. -/
def finiteEnv : Env :=
  { demoEnv with
    breath := fun _ => ⟨24, 300, 300, 3, false⟩
    colorCycle := fun _ => ⟨32, 2, 100, 100, 1, true⟩ }

/-- A running FadeIn handle on `demoController` whose snapshot holds the
color 9, 8, 7. -/
def fadeInHandle : LED_Handle_t :=
  { demoHandle with animationType := LED_ANIMATION_FADE_IN, animationData := 8,
                    isRunning := true, currentColor := fun i => [9, 8, 7].getD i 0 }

/-- A running Breath handle with one repeat left, its cycle started at tick 1. -/
def breathLastCycle : LED_Handle_t :=
  { demoHandle with animationType := LED_ANIMATION_BREATH, animationData := 8,
                    isRunning := true, startTime := 1, repeatTimes := 1 }

/-- A running ColorCycle handle with one repeat left, its run started at
tick 1. -/
def colorCycleLastRepeat : LED_Handle_t :=
  { demoHandle with animationType := LED_ANIMATION_COLOR_CYCLE, animationData := 8,
                    isRunning := true, startTime := 1, repeatTimes := 1 }

/-- A running ColorCycle handle in the middle of a run started at tick 1. -/
def colorCycleRunning : LED_Handle_t :=
  { demoHandle with animationType := LED_ANIMATION_COLOR_CYCLE, animationData := 8,
                    isRunning := true, startTime := 1, repeatTimes := -1 }

/-- An idle transition handle on `demoHandle`, with no rule table and no
pending target. -/
def demoTransition : LED_Transition_Handle_t :=
  { transitionMap := 0, LedHandle := demoHandle, targetAnimData := 0, lastTick := 0,
    Duration := 0, mapSize := 0, targetAnimType := LED_ANIMATION_INVALID,
    transitionType := LED_TRANSITION_INVALID, state := LED_TRANSITION_STATE_IDLE,
    event := LED_TRANSITION_EVT_INVALID, currentColor := fun _ => 0,
    targetColor := fun _ => 0 }

open LED_Transition_Type_t LED_Transition_State_t LED_Transition_Event_t

/-! ## Transition manager: rule table, macros and collaborators -/

/-- The macro `IS_VALID_TRANSITION_STATE`. -/
def IS_VALID_TRANSITION_STATE : LED_Transition_State_t → Bool
  | LED_TRANSITION_STATE_INVALID => false
  | LED_TRANSITION_STATE_LAST => false
  | _ => true

/-- The struct `LED_Transition_Config_t`: one rule of the transition map.
The two config pointers are addresses. -/
structure LED_Transition_Config_t where
  StartAnim : Nat
  EndAnim : Nat
  TransitionType : LED_Transition_Type_t
  Duration : Nat

/-- Modelled from the spec: the two status values the transition manager
hands to the completion callback, `LED_STATUS_ANIMATION_TRANSITION_STARTED`
and `LED_STATUS_ANIMATION_TRANSITION_COMPLETED`; the enum `LED_Status_t` of
the header does not declare them. -/
inductive LED_Transition_Status_t
  | LED_STATUS_ANIMATION_TRANSITION_STARTED
  | LED_STATUS_ANIMATION_TRANSITION_COMPLETED
  deriving DecidableEq, Repr

open LED_Transition_Status_t

/-- The side effects of the transition manager: those of the animation
engine it drives, and its own invocations of the completion callback. -/
inductive TransitionEvent
  | engine (e : Event)
  | callback (animationType : LED_Animation_Type_t) (status : LED_Transition_Status_t)
  deriving DecidableEq, Repr

/-- What `led_transition_manager.c` reads and calls without a declaration
under src/, taken as parameters, next to the memory `env` of the engine.

* `rules map i` is entry `i` of the `LED_Transition_Config_t` array at
  address `map`.
* The three `TRANSITION_..._MS` macros are compile-time constants (the
  header only has `DEFAULT_TRANSITION_..._MS` values).
* The two `USE_..._INTERPOLATION` switches select the blend.
* `LED_Animation_GetCurrentColor h n` is the call with handle `h` when the
  count variable holds `n`: the bytes left in the array and the value of the
  count variable afterwards; `none` when the call is undefined.  The source
  passes the count by value in `LED_Transition_HandleInterpolate` and by
  address in `LED_Transition_StateOngoing`.
* `LED_Animation_GetTargetColor data type old n` are the bytes left in the
  array that held `old`; `LED_Animation_ShouldStartHigh type data` is the
  flag returned.
* `quadraticBlend f cur target` stands for the float expression
  `cur + (int32_t)((target - cur) * t * t)` with `t = f / 1000.0f`, stored
  as `uint8_t`. -/
structure TransitionEnv where
  env : Env
  rules : Nat → Nat → LED_Transition_Config_t
  TRANSITION_INTERPOLATE_TIME_MS : Nat
  TRANSITION_UPON_COMPLETION_TIMEOUT_MS : Nat
  TRANSITION_AT_CLEAN_ENTRY_TIMEOUT_MS : Nat
  USE_LINEAR_INTERPOLATION : Bool
  USE_QUADRATIC_INTERPOLATION : Bool
  LED_Animation_GetCurrentColor : LED_Handle_t → Nat → Option ((Nat → Nat) × Nat)
  LED_Animation_GetTargetColor : Nat → LED_Animation_Type_t → (Nat → Nat) → Nat → (Nat → Nat)
  LED_Animation_ShouldStartHigh : LED_Animation_Type_t → Nat → Bool
  quadraticBlend : Nat → Nat → Nat → Nat

/-- Modelled from the spec: `LED_Animation_GetCurrentColor`, which is not
under src/, read as taking the count by value: it "snapshots the current
displayed color", copying the handle's `currentColor`, and leaves the count
as it was. -/
def currentColorByCount (h : LED_Handle_t) (n : Nat) : Option ((Nat → Nat) × Nat) :=
  some (h.currentColor, n)

/-- Modelled from the spec: `LED_Animation_GetCurrentColor`, which is not
under src/, read as `LED_Animation_GetColor` of led_animation.c, whose
parameter list matches the call with `&colorCount`: it stores the channel
count of the controller through the pointer and copies that many bytes of
`currentColor`; the call is undefined when the array of length `n` it is given
is shorter than that. -/
def currentColorAsGetColor (h : LED_Handle_t) (n : Nat) : Option ((Nat → Nat) × Nat) :=
  if CalculateColorCount h.controller.LedType ≤ n then
    some (h.currentColor, (LED_Animation_GetColor h).2.1)
  else none

/-- The integer value of an `LED_Animation_Type_t` enumerator. -/
def LED_Animation_Type_t.value : LED_Animation_Type_t → Nat
  | LED_ANIMATION_INVALID => 0
  | LED_ANIMATION_NONE => 1
  | LED_ANIMATION_OFF => 2
  | LED_ANIMATION_SOLID => 3
  | LED_ANIMATION_BLINK => 4
  | LED_ANIMATION_FLASH => 5
  | LED_ANIMATION_BREATH => 6
  | LED_ANIMATION_PULSE => 7
  | LED_ANIMATION_FADE_IN => 8
  | LED_ANIMATION_FADE_OUT => 9
  | LED_ANIMATION_ALTERNATING_COLORS => 10
  | LED_ANIMATION_COLOR_CYCLE => 11
  | LED_ANIMATION_LAST => 12

/-- The function `CalculateColorCount` on the integer value of its argument:
the `switch` over the enumerators of `LED_Type_t` (RGB = 1, RGY = 2, RGBW = 3,
SINGLE_COLOR = 4, DUAL_COLOR = 5), every other value taking `default`. -/
def CalculateColorCount_value : Nat → Nat
  | 1 => CalculateColorCount LED_TYPE_RGB
  | 2 => CalculateColorCount LED_TYPE_RGY
  | 3 => CalculateColorCount LED_TYPE_RGBW
  | 4 => CalculateColorCount LED_TYPE_SINGLE_COLOR
  | 5 => CalculateColorCount LED_TYPE_DUAL_COLOR
  | _ => 0

/-- A 32-bit pattern read as `int32_t`. -/
def toInt32 (x : Nat) : Int :=
  if u32 x < 2147483648 then (u32 x : Int) else (u32 x : Int) - 4294967296

/-! ## Transition manager: operations -/

/-- The function `LED_Transition_Init` on a non-NULL `this`; `none` is a NULL
`LedHandle`.  The tag `LED_ANIMATION_TYPE_INVALID` of the source is the
enumerator `LED_ANIMATION_INVALID` of the header.  The fields the function
does not assign keep what `this` held. -/
def LED_Transition_Init (this : LED_Transition_Handle_t) (LedHandle : Option LED_Handle_t) :
    LED_Transition_Handle_t × LED_Status_t :=
  match LedHandle with
  | none => (this, LED_ERROR_NULL_POINTER)
  | some h =>
    ({ this with
        transitionMap := 0
        mapSize := 0
        LedHandle := h
        state := LED_TRANSITION_STATE_IDLE
        targetAnimData := 0
        targetAnimType := LED_ANIMATION_INVALID }, LED_SUCCESS)

/-- The function `LED_Transition_SetMapping` on a non-NULL `this`; the
`uint32_t mapSize` is stored in the `uint8_t` field. -/
def LED_Transition_SetMapping (this : LED_Transition_Handle_t) (transitionsMap : Nat)
    (mapSize : Nat) : LED_Transition_Handle_t × LED_Status_t :=
  if transitionsMap = 0 ∨ mapSize = 0 then (this, LED_ERROR_NULL_POINTER)
  else ({ this with transitionMap := transitionsMap, mapSize := u8 mapSize }, LED_SUCCESS)

/-- The function `LED_Transition_SetNextState`. -/
def LED_Transition_SetNextState (this : LED_Transition_Handle_t)
    (nextState : LED_Transition_State_t) : LED_Transition_Handle_t :=
  if IS_VALID_TRANSITION_STATE nextState then
    { this with state := nextState, event := LED_TRANSITION_EVT_INVALID }
  else this

/-- The function `LED_Transition_StateIdle`. -/
def LED_Transition_StateIdle (this : LED_Transition_Handle_t) : LED_Transition_Handle_t :=
  if this.event = LED_TRANSITION_EVT_START then
    LED_Transition_SetNextState this LED_TRANSITION_STATE_SETUP
  else this

/-- The loop of `LED_Transition_FindTransition` from index `i` with `n`
entries left: the index of the first entry on which `p` holds. -/
def findTransitionIndex (p : Nat → Bool) : Nat → Nat → Option Nat
  | _, 0 => none
  | i, n + 1 => if p i then some i else findTransitionIndex p (i + 1) n

/-- The test of `LED_Transition_FindTransition` on entry `i` of the map. -/
def ruleMatches (tenv : TransitionEnv) (this : LED_Transition_Handle_t) (i : Nat) : Bool :=
  decide ((tenv.rules this.transitionMap i).StartAnim = this.LedHandle.animationData ∧
    (tenv.rules this.transitionMap i).EndAnim = this.targetAnimData)

/-- The function `LED_Transition_FindTransition`: the handle and the flag
returned; `none` when entries of a NULL map would be read. -/
def LED_Transition_FindTransition (tenv : TransitionEnv) (this : LED_Transition_Handle_t) :
    Option (LED_Transition_Handle_t × Bool) :=
  if this.transitionMap = 0 ∧ this.mapSize ≠ 0 then none
  else
    match findTransitionIndex (ruleMatches tenv this) 0 this.mapSize with
    | some i =>
      some ({ this with transitionType := (tenv.rules this.transitionMap i).TransitionType },
        true)
    | none => some (this, false)

/-- The function `LED_Transition_SetDefaultType`. -/
def LED_Transition_SetDefaultType (this : LED_Transition_Handle_t) : LED_Transition_Handle_t :=
  { this with transitionType := LED_TRANSITION_IMMINENT }

/-- The function `LED_Transition_HandleInterpolate`; `memcmp` over the first
`colorCount` bytes differs from 0 when some byte differs. -/
def LED_Transition_HandleInterpolate (tenv : TransitionEnv) (this : LED_Transition_Handle_t) :
    Option LED_Transition_Handle_t :=
  let colorCount := CalculateColorCount this.LedHandle.controller.LedType
  match tenv.LED_Animation_GetCurrentColor this.LedHandle colorCount with
  | none => none
  | some (cur, _) =>
    let currentColor := fun i => if i < colorCount then cur i else this.currentColor i
    let target := tenv.LED_Animation_GetTargetColor this.targetAnimData this.targetAnimType
      this.targetColor colorCount
    let startHigh := tenv.LED_Animation_ShouldStartHigh this.targetAnimType this.targetAnimData
    let targetColor :=
      if startHigh = false then fun i => if i < colorCount then 0 else target i else target
    let interpolationNeeded :=
      (List.range colorCount).any (fun i => decide (currentColor i ≠ targetColor i))
    some { this with
      currentColor := currentColor
      targetColor := targetColor
      transitionType :=
        if interpolationNeeded = false then LED_TRANSITION_IMMINENT else this.transitionType }

/-- The function `LED_Transition_CallCallbackIfExists`. -/
def LED_Transition_CallCallbackIfExists (this : LED_Transition_Handle_t)
    (Status : LED_Transition_Status_t) : List TransitionEvent :=
  if this.LedHandle.callback then
    [TransitionEvent.callback this.LedHandle.animationType Status]
  else []

/-- The function `LED_Transition_StateSetup`. -/
def LED_Transition_StateSetup (tenv : TransitionEnv) (this : LED_Transition_Handle_t)
    (tick : Nat) : Option (LED_Transition_Handle_t × List TransitionEvent) :=
  match LED_Transition_FindTransition tenv this with
  | none => none
  | some (found, transitionFound) =>
    let this1 := if transitionFound = false then LED_Transition_SetDefaultType found else found
    match (if this1.transitionType = LED_TRANSITION_INTERPOLATE then
        LED_Transition_HandleInterpolate tenv this1 else some this1) with
    | none => none
    | some this2 =>
      let this3 := { this2 with lastTick := tick }
      some (LED_Transition_SetNextState this3 LED_TRANSITION_STATE_ONGOING,
        LED_Transition_CallCallbackIfExists this3 LED_STATUS_ANIMATION_TRANSITION_STARTED)

/-- The function `AreColorsOff`. -/
def AreColorsOff (colors : Nat → Nat) (colorCount : Nat) : Bool :=
  (List.range colorCount).all (fun i => decide (colors i = 0))

/-- The `fraction_scaled` of the two interpolation functions. -/
def fractionScaled (tenv : TransitionEnv) (elapsed : Nat) : Nat :=
  let timeInCycle := elapsed % tenv.TRANSITION_INTERPOLATE_TIME_MS
  let fraction_scaled := mul32 timeInCycle 1000 / tenv.TRANSITION_INTERPOLATE_TIME_MS
  if fraction_scaled > 1000 then 1000 else fraction_scaled

/-- The call `LED_Animation_ExecuteColorSetting(this->LedHandle, color)` that
ends both interpolation functions, taken to be `ExecuteColorSetting` of
led_animation.c; its status is dropped. -/
def applyInterpolated (this : LED_Transition_Handle_t) (color : Nat → Nat) :
    LED_Transition_Handle_t × List TransitionEvent :=
  let r := ExecuteColorSetting this.LedHandle (some color)
  ({ this with LedHandle := r.handle }, r.events.map TransitionEvent.engine)

/-- The function `PerformLinearInterpolation`, reached only with
`elapsed < TRANSITION_INTERPOLATE_TIME_MS`.  The product of `fraction_scaled`
and the `int32_t` difference is taken in 32 bits and read back as `int32_t`;
the division truncates towards zero. -/
def PerformLinearInterpolation (tenv : TransitionEnv) (this : LED_Transition_Handle_t)
    (elapsed : Nat) : LED_Transition_Handle_t × List TransitionEvent :=
  let fraction_scaled := fractionScaled tenv elapsed
  applyInterpolated this (fun i =>
    ((((this.currentColor i : Int) +
      Int.tdiv (toInt32 (intToU32 ((fraction_scaled : Int) *
        ((this.targetColor i : Int) - (this.currentColor i : Int))))) 1000) % 256).toNat))

/-- The function `PerformQuadraticInterpolation`, with the float blend as a
parameter. -/
def PerformQuadraticInterpolation (tenv : TransitionEnv) (this : LED_Transition_Handle_t)
    (elapsed : Nat) : LED_Transition_Handle_t × List TransitionEvent :=
  let fraction_scaled := fractionScaled tenv elapsed
  applyInterpolated this (fun i =>
    u8 (tenv.quadraticBlend fraction_scaled (this.currentColor i) (this.targetColor i)))

/-- The block that `LED_Transition_StateOngoing` repeats in each branch that
ends a transition: the callback (if any) is invoked with the
transition-completed status, the engine is given the target through
`LED_Animation_SetAnimation` and started with `LED_Animation_Start`, and the
state machine returns to IDLE. -/
def performHandoff (this : LED_Transition_Handle_t) :
    LED_Transition_Handle_t × List TransitionEvent :=
  let evs := LED_Transition_CallCallbackIfExists this LED_STATUS_ANIMATION_TRANSITION_COMPLETED
  let h1 := (LED_Animation_SetAnimation this.LedHandle this.targetAnimData
    this.targetAnimType).handle
  let h2 := (LED_Animation_Start h1).handle
  (LED_Transition_SetNextState { this with LedHandle := h2 } LED_TRANSITION_STATE_IDLE, evs)

/-- The function `LED_Transition_StateOngoing`; `none` when the call of
`LED_Animation_GetCurrentColor` is undefined.  In the `AT_CLEAN_ENTRY` case
the array `color` has the length `CalculateColorCount` returns for the
integer value of the archetype tag `animationType`. -/
def LED_Transition_StateOngoing (tenv : TransitionEnv) (this : LED_Transition_Handle_t)
    (tick : Nat) : Option (LED_Transition_Handle_t × List TransitionEvent) :=
  let elapsed := sub32 tick this.lastTick
  if this.LedHandle.isRunning = false then some (performHandoff this)
  else
    match this.transitionType with
    | LED_TRANSITION_IMMINENT => some (performHandoff this)
    | LED_TRANSITION_SOFT => some (this, [])
    | LED_TRANSITION_INTERPOLATE =>
      if elapsed ≥ tenv.TRANSITION_INTERPOLATE_TIME_MS then some (performHandoff this)
      else
        let r1 :=
          if tenv.USE_LINEAR_INTERPOLATION then PerformLinearInterpolation tenv this elapsed
          else (this, [])
        let r2 :=
          if tenv.USE_QUADRATIC_INTERPOLATION then
            PerformQuadraticInterpolation tenv r1.1 elapsed
          else (r1.1, [])
        some (r2.1, r1.2 ++ r2.2)
    | LED_TRANSITION_UPON_COMPLETION =>
      if elapsed > tenv.TRANSITION_UPON_COMPLETION_TIMEOUT_MS then
        some ({ this with transitionType := LED_TRANSITION_IMMINENT }, [])
      else if this.LedHandle.isRunning = false then some (performHandoff this)
      else some (this, [])
    | LED_TRANSITION_AT_CLEAN_ENTRY =>
      let colorCount := u8 (CalculateColorCount_value this.LedHandle.animationType.value)
      match tenv.LED_Animation_GetCurrentColor this.LedHandle colorCount with
      | none => none
      | some (color, colorCount1) =>
        let r := if AreColorsOff color (u8 colorCount1) then performHandoff this else (this, [])
        if elapsed > tenv.TRANSITION_AT_CLEAN_ENTRY_TIMEOUT_MS then
          some ({ r.1 with transitionType := LED_TRANSITION_IMMINENT }, r.2)
        else some r
    | _ => some (this, [])

/-- The `switch` of `LED_Transition_Update` over the state. -/
def transitionStep (tenv : TransitionEnv) (this : LED_Transition_Handle_t) (tick : Nat) :
    Option (LED_Transition_Handle_t × List TransitionEvent) :=
  match this.state with
  | LED_TRANSITION_STATE_IDLE => some (LED_Transition_StateIdle this, [])
  | LED_TRANSITION_STATE_SETUP => LED_Transition_StateSetup tenv this tick
  | LED_TRANSITION_STATE_ONGOING => LED_Transition_StateOngoing tenv this tick
  | _ => some (this, [])

/-- What a call of `LED_Transition_Update` leaves behind: the handle, the
file-level variable `last_tick`, the side effects in order, and the status. -/
structure TransitionResult where
  handle : LED_Transition_Handle_t
  last_tick : Nat
  events : List TransitionEvent
  status : LED_Status_t

/-- The function `LED_Transition_Update` on a non-NULL handle, with the
file-level `static uint32_t last_tick` passed in and out; `none` when the
state function or the engine's `LED_Animation_Update` is undefined. -/
def LED_Transition_Update (tenv : TransitionEnv) (last_tick : Nat)
    (this : LED_Transition_Handle_t) (tick : Nat) : Option TransitionResult :=
  if last_tick = tick then some ⟨this, last_tick, [], LED_SUCCESS⟩
  else
    match transitionStep tenv this tick with
    | none => none
    | some (this1, evs) =>
      match LED_Animation_Update tenv.env this1.LedHandle tick with
      | none => none
      | some r =>
        some ⟨{ this1 with LedHandle := r.handle }, tick,
          evs ++ r.events.map TransitionEvent.engine, LED_SUCCESS⟩

/-! ## Sequences of calls on one transition handle -/

/-- A call of the public interface of the transition manager after `Init`. -/
inductive TransitionCall
  | setMapping (transitionsMap : Nat) (mapSize : Nat)
  | execAnimation (animData : Nat) (animType : LED_Animation_Type_t)
  | update (tick : Nat)

/-- The transition handle together with the file-level `last_tick`. -/
structure TransitionSystem where
  handle : LED_Transition_Handle_t
  last_tick : Nat

/-- One call on the system; `none` when it is undefined. -/
def applyCall (tenv : TransitionEnv) (s : TransitionSystem) :
    TransitionCall → Option TransitionSystem
  | TransitionCall.setMapping m n => some ⟨(LED_Transition_SetMapping s.handle m n).1, s.last_tick⟩
  | TransitionCall.execAnimation d t =>
    some ⟨(LED_Transition_ExecAnimation s.handle d t).1, s.last_tick⟩
  | TransitionCall.update tick =>
    match LED_Transition_Update tenv s.last_tick s.handle tick with
    | none => none
    | some r => some ⟨r.handle, r.last_tick⟩

/-- A finite sequence of calls, in order. -/
def applyCalls (tenv : TransitionEnv) : TransitionSystem → List TransitionCall →
    Option TransitionSystem
  | s, [] => some s
  | s, c :: cs =>
    match applyCall tenv s c with
    | none => none
    | some s1 => applyCalls tenv s1 cs

open LED_Transition_Type_t LED_Transition_State_t LED_Transition_Event_t
open LED_Transition_Status_t

/-! ## Observations on the transition manager and concrete configurations -/

/-- The step result `r` is a handoff from `this`: the state machine is back
in IDLE, the engine holds the pending target config and tag, is running with
the start marker reset, and the only side effect is the callback (if one is
registered) with the transition-completed status. -/
def HandedOff (this : LED_Transition_Handle_t)
    (r : LED_Transition_Handle_t × List TransitionEvent) : Prop :=
  r.1.state = LED_TRANSITION_STATE_IDLE ∧
  r.1.LedHandle.animationData = this.targetAnimData ∧
  r.1.LedHandle.animationType = this.targetAnimType ∧
  r.1.LedHandle.isRunning = true ∧
  r.1.LedHandle.startTime = 0 ∧
  r.2 = (if this.LedHandle.callback then
    [TransitionEvent.callback this.LedHandle.animationType
      LED_STATUS_ANIMATION_TRANSITION_COMPLETED] else [])

/-- The step result `r` waits: the engine's config, tag and running flag and
the state of the state machine are those of `this`, and nothing was invoked. -/
def StillWaiting (this : LED_Transition_Handle_t)
    (r : LED_Transition_Handle_t × List TransitionEvent) : Prop :=
  r.1.state = this.state ∧
  r.1.LedHandle.animationData = this.LedHandle.animationData ∧
  r.1.LedHandle.animationType = this.LedHandle.animationType ∧
  r.1.LedHandle.isRunning = this.LedHandle.isRunning ∧
  r.2 = []

/-- The states the state machine is meant to be in: IDLE, SETUP, ONGOING. -/
def ReachableState (s : LED_Transition_State_t) : Prop :=
  s = LED_TRANSITION_STATE_IDLE ∨ s = LED_TRANSITION_STATE_SETUP ∨
    s = LED_TRANSITION_STATE_ONGOING

/-- The policy `LED_Transition_StateSetup` has resolved once the lookup
`LED_Transition_FindTransition` and the default `LED_Transition_SetDefaultType`
are done, before it looks at Interpolate; `none` when the lookup is undefined. -/
def resolvedPolicy (tenv : TransitionEnv) (this : LED_Transition_Handle_t) :
    Option LED_Transition_Type_t :=
  (LED_Transition_FindTransition tenv this).map (fun r =>
    (if r.2 = false then LED_Transition_SetDefaultType r.1 else r.1).transitionType)

/-- The starting color of the target as `LED_Transition_HandleInterpolate`
leaves it in `targetColor`: what `LED_Animation_GetTargetColor` gives, or zero
on every channel of the controller when `LED_Animation_ShouldStartHigh` is
false. -/
def targetStartColor (tenv : TransitionEnv) (this : LED_Transition_Handle_t) : Nat → Nat :=
  fun i =>
    if tenv.LED_Animation_ShouldStartHigh this.targetAnimType this.targetAnimData = false ∧
        i < CalculateColorCount this.LedHandle.controller.LedType then 0
    else tenv.LED_Animation_GetTargetColor this.targetAnimData this.targetAnimType
      this.targetColor (CalculateColorCount this.LedHandle.controller.LedType) i

/-- The invocations of the callback by the transition manager itself. -/
def TransitionEvent.isTransitionCallback : TransitionEvent → Bool
  | TransitionEvent.callback _ _ => true
  | TransitionEvent.engine _ => false

/-- The channel writes among the side effects. -/
def TransitionEvent.isWrite : TransitionEvent → Bool
  | TransitionEvent.engine (Event.setDutyCycle _ _) => true
  | _ => false

/-- Two rule tables at addresses 40 and 48 that differ only in the
`Duration` of their entries.  Entry 0 does not start at config 8; entries 1
and 2 both lead from config 8 to config 12; entry 3 leads from config 8 to
config 20 by interpolation. -/
def demoRules (map i : Nat) : LED_Transition_Config_t :=
  if map = 40 then
    [(⟨4, 12, LED_TRANSITION_IMMINENT, 0⟩ : LED_Transition_Config_t),
      ⟨8, 12, LED_TRANSITION_UPON_COMPLETION, 100⟩,
      ⟨8, 12, LED_TRANSITION_AT_CLEAN_ENTRY, 100⟩,
      ⟨8, 20, LED_TRANSITION_INTERPOLATE, 50⟩].getD i ⟨0, 0, LED_TRANSITION_INVALID, 0⟩
  else if map = 48 then
    [(⟨4, 12, LED_TRANSITION_IMMINENT, 7⟩ : LED_Transition_Config_t),
      ⟨8, 12, LED_TRANSITION_UPON_COMPLETION, 900⟩,
      ⟨8, 12, LED_TRANSITION_AT_CLEAN_ENTRY, 900⟩,
      ⟨8, 20, LED_TRANSITION_INTERPOLATE, 150⟩].getD i ⟨0, 0, LED_TRANSITION_INVALID, 0⟩
  else ⟨0, 0, LED_TRANSITION_INVALID, 0⟩

/-- The memory `demoEnv` with the two rule tables, the timing macros at the
values of the header's `DEFAULT_TRANSITION_..._MS`, linear interpolation, a
target color 200, 100, 50 that starts high, and the current color read with
the count by value. -/
def demoTransitionEnv : TransitionEnv :=
  { env := demoEnv
    rules := demoRules
    TRANSITION_INTERPOLATE_TIME_MS := 200
    TRANSITION_UPON_COMPLETION_TIMEOUT_MS := 5000
    TRANSITION_AT_CLEAN_ENTRY_TIMEOUT_MS := 2000
    USE_LINEAR_INTERPOLATION := true
    USE_QUADRATIC_INTERPOLATION := false
    LED_Animation_GetCurrentColor := currentColorByCount
    LED_Animation_GetTargetColor := fun _ _ _ _ i => [200, 100, 50].getD i 0
    LED_Animation_ShouldStartHigh := fun _ _ => true
    quadraticBlend := fun _ cur _ => cur }

/-- The environment `demoTransitionEnv` with the current color read as
`LED_Animation_GetColor` reads it (count by address). -/
def demoTransitionEnvByAddress : TransitionEnv :=
  { demoTransitionEnv with LED_Animation_GetCurrentColor := currentColorAsGetColor }

/-- A running Breath handle on `demoController` (config at address 8) that
displays the color 200, 100, 50. -/
def breathRunning : LED_Handle_t :=
  { demoHandle with animationType := LED_ANIMATION_BREATH, animationData := 8,
                    isRunning := true, startTime := 1, repeatTimes := -1,
                    currentColor := fun i => [200, 100, 50].getD i 0 }

/-- A transition handle in state ONGOING since tick 1000 on the running
Breath, with a Blink at address 12 pending. -/
def ongoingTransition (policy : LED_Transition_Type_t) : LED_Transition_Handle_t :=
  { demoTransition with
    transitionMap := 40, mapSize := 4, LedHandle := breathRunning, targetAnimData := 12,
    targetAnimType := LED_ANIMATION_BLINK, lastTick := 1000, transitionType := policy,
    state := LED_TRANSITION_STATE_ONGOING }

/-- A transition handle in state ONGOING since tick 1000 whose engine, with
a Breath config set, is not running; a Blink at address 12 is pending. -/
def stoppedEngineTransition (policy : LED_Transition_Type_t) : LED_Transition_Handle_t :=
  { demoTransition with
    LedHandle := { breathRunning with isRunning := false }, targetAnimData := 12,
    targetAnimType := LED_ANIMATION_BLINK, lastTick := 1000, transitionType := policy,
    state := LED_TRANSITION_STATE_ONGOING }

/-- The running Breath handle with nothing displayed yet (color 0, 0, 0). -/
def breathDark : LED_Handle_t :=
  { breathRunning with currentColor := fun _ => 0 }

/-- A transition handle in state SETUP on the dark running Breath with the
rule table at address `map` and the config at address 20 pending. -/
def setupDark (map : Nat) : LED_Transition_Handle_t :=
  { demoTransition with
    transitionMap := map, mapSize := 4, LedHandle := breathDark, targetAnimData := 20,
    targetAnimType := LED_ANIMATION_BLINK, state := LED_TRANSITION_STATE_SETUP }

/-- The state of the state machine and the engine's config pointer after a
Setup step at tick `tSetup` followed by an Ongoing step at tick `tOngoing`. -/
def ongoingAfterSetup (tenv : TransitionEnv) (this : LED_Transition_Handle_t)
    (tSetup tOngoing : Nat) : Option (LED_Transition_State_t × Nat) :=
  (LED_Transition_StateSetup tenv this tSetup).bind (fun r =>
    (LED_Transition_StateOngoing tenv r.1 tOngoing).map (fun r2 =>
      (r2.1.state, r2.1.LedHandle.animationData)))

/-- A transition handle in state ONGOING since tick 1000 with policy
AT_CLEAN_ENTRY on the running FadeIn handle `fadeInHandle`, which displays
the color 9, 8, 7; a Blink at address 12 is pending. -/
def cleanEntryOnFadeIn : LED_Transition_Handle_t :=
  { ongoingTransition LED_TRANSITION_AT_CLEAN_ENTRY with LedHandle := fadeInHandle }

/-- A transition handle in state SETUP on the running Breath with the rule
table at address `map` and the config at address `target` pending. -/
def setupTransition (map target : Nat) : LED_Transition_Handle_t :=
  { demoTransition with
    transitionMap := map, mapSize := 4, LedHandle := breathRunning, targetAnimData := target,
    targetAnimType := LED_ANIMATION_BLINK, state := LED_TRANSITION_STATE_SETUP }


/-! ## The calls of the fade curve made by the executors -/

/-- The arguments of one call of `CalculateFadeBrightness`. -/
structure CurveCall where
  elapsed : Nat
  duration : Nat
  maxDutyCycle : Nat
  isFadingIn : Bool

/-- The value of the call. -/
def CurveCall.eval (c : CurveCall) : Option Nat :=
  CalculateFadeBrightness c.elapsed c.duration c.maxDutyCycle c.isFadingIn

/-- The call of the curve in `GetBreathBrightness`: the rise phase passes
`riseTimeMs` as duration, the other branch passes `fallTimeMs`. -/
def breathCurveCall (timeInCycle : Nat) (Breath : LED_Animation_Breath_t)
    (maxDutyCycle : Nat) : CurveCall :=
  if timeInCycle < Breath.riseTimeMs then
    ⟨timeInCycle, Breath.riseTimeMs, maxDutyCycle, if Breath.invert then false else true⟩
  else
    ⟨sub32 timeInCycle Breath.riseTimeMs, Breath.fallTimeMs, maxDutyCycle,
      if Breath.invert then true else false⟩

/-- The call of the curve in `GetPulseBrightness`, if the branch taken makes
one: the rise and the fall branch do, the two hold branches do not. -/
def pulseCurveCall (timeInCycle : Nat) (Pulse : LED_Animation_Pulse_t)
    (maxDutyCycle : Nat) : Option CurveCall :=
  if timeInCycle < Pulse.riseTimeMs then
    some ⟨timeInCycle, Pulse.riseTimeMs, maxDutyCycle, true⟩
  else if timeInCycle < Pulse.riseTimeMs + Pulse.holdOnTimeMs then none
  else if timeInCycle < Pulse.riseTimeMs + Pulse.holdOnTimeMs + Pulse.fallTimeMs then
    some ⟨sub32 (sub32 timeInCycle Pulse.riseTimeMs) Pulse.holdOnTimeMs, Pulse.fallTimeMs,
      maxDutyCycle, false⟩
  else none

/-- The call of the curve the FadeIn executor makes for a channel. -/
def fadeInCurveCall (elapsedTime : Nat) (FadeIn : LED_Animation_FadeIn_t)
    (maxDutyCycle : Nat) : CurveCall :=
  ⟨elapsedTime, FadeIn.durationMs, maxDutyCycle, true⟩

/-- The call of the curve the FadeOut executor makes for a channel. -/
def fadeOutCurveCall (elapsedTime : Nat) (FadeOut : LED_Animation_FadeOut_t)
    (maxDutyCycle : Nat) : CurveCall :=
  ⟨elapsedTime, FadeOut.durationMs, maxDutyCycle, false⟩

/-- The calls of `CalculateFadeBrightness` made by the channel loop of a
curve-driven executor, in channel order: for every `i < colorCount` the loop
computes the peak
`BRIGHTNESS_TO_DUTY_CYCLE(((uint8_t*)color)[i], MaxDutyCycle)` and evaluates
the brightness of the channel with it; `call` is the curve call that
evaluation makes for a peak, if it makes one.  With a NULL `color` the loop
is undefined at its first read, before any call. -/
def channelCurveCalls (env : Env) (this : LED_Handle_t) (color : Nat)
    (call : Nat → Option CurveCall) : List CurveCall :=
  match env.colorAt color with
  | none => []
  | some cv =>
    (List.range (CalculateColorCount this.controller.LedType)).filterMap
      (fun i => call (BRIGHTNESS_TO_DUTY_CYCLE (cv i) this.controller.MaxDutyCycle))

/-- The values the channel loop stores in `dutyCycleValues` for the calls of
the curve it makes, in channel order: the `uint32_t` value of each call, kept
as `uint16_t`; `none` when a call is undefined. -/
def callValues : List CurveCall → Option (List Nat)
  | [] => some []
  | c :: cs =>
    match c.eval with
    | none => none
    | some v =>
      match callValues cs with
      | none => none
      | some vs => some (u16 v :: vs)

/-- The calls of the curve `LED_AnimationBreathExecute` makes on a tick
(through `GetBreathBrightness`, once per channel): none when it returns
before the loop (NULL data, not running) or is undefined before it (cycle
time 0). -/
def breathCurveCalls (env : Env) (this : LED_Handle_t) (tick : Nat) : List CurveCall :=
  if this.animationData = 0 then []
  else if this.isRunning = false then []
  else
    let Breath := env.breath this.animationData
    let b := beginRun this tick Breath.repeatTimes
    let elapsedTime := sub32 tick b.1.startTime
    let totalCycleTimeMs := Breath.riseTimeMs + Breath.fallTimeMs
    if totalCycleTimeMs = 0 then []
    else
      let timeInCycle := elapsedTime % totalCycleTimeMs
      channelCurveCalls env this Breath.color
        (fun maxDutyCycle => some (breathCurveCall timeInCycle Breath maxDutyCycle))

/-- The calls of the curve `LED_AnimationPulseExecute` makes on a tick
(through `GetPulseBrightness`, once per channel in the rise and in the fall
phase, none in the hold phases). -/
def pulseCurveCalls (env : Env) (this : LED_Handle_t) (tick : Nat) : List CurveCall :=
  if this.animationData = 0 then []
  else if this.isRunning = false then []
  else
    let Pulse := env.pulse this.animationData
    let b := beginRun this tick Pulse.repeatTimes
    let elapsedTime := sub32 tick b.1.startTime
    let totalCycleTimeMs :=
      Pulse.riseTimeMs + Pulse.holdOnTimeMs + Pulse.fallTimeMs + Pulse.holdOffTimeMs
    if totalCycleTimeMs = 0 then []
    else
      let timeInCycle := elapsedTime % totalCycleTimeMs
      channelCurveCalls env this Pulse.color (pulseCurveCall timeInCycle Pulse)

/-- The calls of the curve `LED_AnimationFadeInExecute` makes on a tick, once
per channel. -/
def fadeInCurveCalls (env : Env) (this : LED_Handle_t) (tick : Nat) : List CurveCall :=
  if this.animationData = 0 then []
  else if this.isRunning = false then []
  else
    let FadeIn := env.fadeIn this.animationData
    let b := beginRun this tick FadeIn.repeatTimes
    let elapsedTime := sub32 tick b.1.startTime
    channelCurveCalls env this FadeIn.color
      (fun maxDutyCycle => some (fadeInCurveCall elapsedTime FadeIn maxDutyCycle))

/-- The calls of the curve `LED_AnimationFadeOutExecute` makes on a tick,
once per channel. -/
def fadeOutCurveCalls (env : Env) (this : LED_Handle_t) (tick : Nat) : List CurveCall :=
  if this.animationData = 0 then []
  else if this.isRunning = false then []
  else
    let FadeOut := env.fadeOut this.animationData
    let b := beginRun this tick FadeOut.repeatTimes
    let elapsedTime := sub32 tick b.1.startTime
    channelCurveCalls env this FadeOut.color
      (fun maxDutyCycle => some (fadeOutCurveCall elapsedTime FadeOut maxDutyCycle))

/-- The memory `demoEnv` with a Breath that has no rise phase
(`riseTimeMs = 0`, `fallTimeMs = 300`). -/
def noRiseBreathEnv : Env :=
  { demoEnv with breath := fun _ => ⟨24, 0, 300, -1, false⟩ }

/-- A running handle on the demo controller whose animation data is the
config at address 8, started at tick 1; the animation type is that of the
executor it is given to. -/
def curveRunning (type : LED_Animation_Type_t) : LED_Handle_t :=
  { demoHandle with animationType := type, animationData := 8, isRunning := true,
                    startTime := 1, repeatTimes := -1 }

/-- The memory `demoEnv` with a FadeIn whose `durationMs` is 0. -/
def zeroFadeEnv : Env :=
  { demoEnv with fadeIn := fun _ => ⟨24, 0, -1⟩ }

open LED_Transition_Type_t LED_Transition_State_t LED_Transition_Event_t
open LED_Transition_Status_t

/-! ## Further observations and concrete configurations -/

/-- The macro `IS_VALID_TRANSITION_TYPE` of the header; no function of
led_transition_manager.c applies it. -/
def IS_VALID_TRANSITION_TYPE : LED_Transition_Type_t → Bool
  | LED_TRANSITION_IMMINENT => true
  | LED_TRANSITION_INTERPOLATE => true
  | LED_TRANSITION_UPON_COMPLETION => true
  | LED_TRANSITION_AT_CLEAN_ENTRY => true
  | _ => false

/-- The value the file-level `static uint32_t last_tick = 0;` of
led_transition_manager.c holds before the first `Update`. -/
def initialLastTick : Nat := 0

/-- The value `PerformLinearInterpolation` stores in `interpolatedColor[i]`
for the scaled fraction, the current and the target byte of the channel. -/
def linearChannel (fraction_scaled cur target : Nat) : Nat :=
  (((cur : Int) +
    Int.tdiv (toInt32 (intToU32 ((fraction_scaled : Int) * ((target : Int) - (cur : Int)))))
      1000) % 256).toNat

/-- The cycle boundaries of a run whose config has repeat count
`PatternRepeatTimes`: `HandleRepeatLogic` called `k` times in a row on the
handle, with all the side effects in order. -/
def repeatBoundaries (PatternRepeatTimes : Int) (StopOnCompletion : Bool) :
    Nat → LED_Handle_t → LED_Handle_t × List Event
  | 0, h => (h, [])
  | k + 1, h =>
    let r := HandleRepeatLogic h PatternRepeatTimes StopOnCompletion
    let rest := repeatBoundaries PatternRepeatTimes StopOnCompletion k r.handle
    (rest.1, r.events ++ rest.2)

/-- The number of invocations of the controller's start hook in a trace. -/
def countStart (evs : List Event) : Nat :=
  (evs.filter (fun e => decide (e = Event.controllerStart))).length

/-- The duty values written to channel `ch` in a trace, in order. -/
def writesTo (ch : Nat) : List Event → List Nat
  | [] => []
  | Event.setDutyCycle c d :: evs => if c = ch then d :: writesTo ch evs else writesTo ch evs
  | _ :: evs => writesTo ch evs

/-- A handle as `LED_Animation_Init` leaves it when the memory it lies in
held 7 in `lastTick`, a field `Init` does not assign. -/
def staleTickHandle : LED_Handle_t :=
  { demoHandle with lastTick := 7 }

/-- The memory `demoEnv` with a FadeIn of 200 ms on the color 200, 100, 50
that runs once. -/
def fadeOnceEnv : Env :=
  { demoEnv with fadeIn := fun _ => ⟨24, 200, 1⟩ }

/-- The memory `demoEnv` with a FadeIn of 200 ms on the color 255, 0, 0. -/
def redFadeEnv : Env :=
  { demoEnv with fadeIn := fun _ => ⟨16, 200, -1⟩ }

/-- The environment `demoTransitionEnv` with a rule table whose entries all
lead from config 8 to config 12 with `TransitionType` 0, the value
`LED_TRANSITION_INVALID` of a field left out of an initializer. -/
def invalidRuleEnv : TransitionEnv :=
  { demoTransitionEnv with rules := fun _ _ => ⟨8, 12, LED_TRANSITION_INVALID, 0⟩ }

/-- The environment `demoTransitionEnv` with an interpolation time of
5000000 ms. -/
def slowBlendEnv : TransitionEnv :=
  { demoTransitionEnv with TRANSITION_INTERPOLATE_TIME_MS := 5000000 }


/-! ## Arithmetic lemmas -/

theorem mul32_of_le (a b : Nat) (ha : a ≤ 65535) (hb : b ≤ 65535) : mul32 a b = a * b := by
  unfold mul32
  have h : a * b ≤ 65535 * 65535 := Nat.mul_le_mul ha hb
  exact Nat.mod_eq_of_lt (by omega)

theorem sub32_of_le (a b : Nat) (hba : b ≤ a) (ha : a < 4294967296) : sub32 a b = a - b := by
  unfold sub32 u32
  omega

theorem normalized_le (e d p : Nat) (he : e ≤ d) : e * p / d ≤ p := by
  apply Nat.div_le_of_le_mul
  exact Nat.mul_le_mul_right p he

theorem sq_div_le (n p : Nat) (hn : n ≤ p) : n * n / p ≤ p := by
  apply Nat.div_le_of_le_mul
  exact Nat.mul_le_mul hn hn

/-! ## Fade curve -/

/-- Closed form of the rising curve when nothing overflows. -/
theorem fade_rising_eq (e d p : Nat) (hd1 : 1 ≤ d) (hd : d ≤ 65535) (hp1 : 1 ≤ p)
    (hp : p ≤ 65535) (he : e ≤ d) :
    GetFadeBrightnessQuadratic e d p true = some ((e * p / d) * (e * p / d) / p) := by
  have hn := normalized_le e d p he
  unfold GetFadeBrightnessQuadratic
  rw [if_neg (by omega), if_neg (by omega)]
  simp only [if_true, mul32_of_le e p (by omega) hp]
  rw [mul32_of_le _ _ (by omega) (by omega)]

/-- Closed form of the falling curve when nothing overflows. -/
theorem fade_falling_eq (e d p : Nat) (hd1 : 1 ≤ d) (hd : d ≤ 65535) (hp1 : 1 ≤ p)
    (hp : p ≤ 65535) (he : e ≤ d) :
    GetFadeBrightnessQuadratic e d p false
      = some ((p - e * p / d) * (p - e * p / d) / p) := by
  have hn := normalized_le e d p he
  unfold GetFadeBrightnessQuadratic
  rw [if_neg (by omega), if_neg (by omega)]
  have hs : p - e * p / d ≤ 65535 := Nat.le_trans (Nat.sub_le _ _) hp
  simp only [mul32_of_le e p (by omega) hp, Bool.false_eq_true, if_false]
  rw [sub32_of_le _ _ hn (by omega), mul32_of_le _ _ hs hs]

/-- C2: for every duration and peak in 1..65535 the quadratic curve is 0 at
elapsed 0 and the peak at elapsed = duration when rising, and the peak at 0
and 0 at the duration when falling. -/
theorem fade_curve_boundary (d p : Nat) (hd1 : 1 ≤ d) (hd : d ≤ 65535) (hp1 : 1 ≤ p)
    (hp : p ≤ 65535) :
    GetFadeBrightnessQuadratic 0 d p true = some 0 ∧
    GetFadeBrightnessQuadratic d d p true = some p ∧
    GetFadeBrightnessQuadratic 0 d p false = some p ∧
    GetFadeBrightnessQuadratic d d p false = some 0 := by
  have hdp : d * p / d = p := Nat.mul_div_cancel_left p (by omega)
  have hpp : p * p / p = p := Nat.mul_div_cancel p (by omega)
  refine ⟨?_, ?_, ?_, ?_⟩
  · rw [fade_rising_eq 0 d p hd1 hd hp1 hp (by omega)]
    simp
  · rw [fade_rising_eq d d p hd1 hd hp1 hp (le_refl d), hdp, hpp]
  · rw [fade_falling_eq 0 d p hd1 hd hp1 hp (by omega)]
    simp [hpp]
  · rw [fade_falling_eq d d p hd1 hd hp1 hp (le_refl d), hdp]
    simp

theorem fade_curve_boundary_witness :
    (1 ≤ 200 ∧ 200 ≤ 65535 ∧ 1 ≤ 1000 ∧ 1000 ≤ 65535) ∧
    (GetFadeBrightnessQuadratic 0 200 1000 true = some 0 ∧
    GetFadeBrightnessQuadratic 200 200 1000 true = some 1000 ∧
    GetFadeBrightnessQuadratic 0 200 1000 false = some 1000 ∧
    GetFadeBrightnessQuadratic 200 200 1000 false = some 0) :=
  ⟨by decide, fade_curve_boundary 200 1000 (by decide) (by decide) (by decide) (by decide)⟩

/-- C3: for fixed duration and peak in 1..65535 the quadratic curve is
non-decreasing in the elapsed time when rising and non-increasing when
falling, over elapsed times up to the duration. -/
theorem fade_curve_monotone (d p e1 e2 : Nat) (hd1 : 1 ≤ d) (hd : d ≤ 65535) (hp1 : 1 ≤ p)
    (hp : p ≤ 65535) (h12 : e1 ≤ e2) (h2 : e2 ≤ d) :
    (∃ v1 v2, GetFadeBrightnessQuadratic e1 d p true = some v1 ∧
      GetFadeBrightnessQuadratic e2 d p true = some v2 ∧ v1 ≤ v2) ∧
    (∃ w1 w2, GetFadeBrightnessQuadratic e1 d p false = some w1 ∧
      GetFadeBrightnessQuadratic e2 d p false = some w2 ∧ w2 ≤ w1) := by
  have hn : e1 * p / d ≤ e2 * p / d := Nat.div_le_div_right (Nat.mul_le_mul_right p h12)
  constructor
  · refine ⟨_, _, fade_rising_eq e1 d p hd1 hd hp1 hp (by omega),
      fade_rising_eq e2 d p hd1 hd hp1 hp h2, ?_⟩
    exact Nat.div_le_div_right (Nat.mul_le_mul hn hn)
  · refine ⟨_, _, fade_falling_eq e1 d p hd1 hd hp1 hp (by omega),
      fade_falling_eq e2 d p hd1 hd hp1 hp h2, ?_⟩
    have hs : p - e2 * p / d ≤ p - e1 * p / d := Nat.sub_le_sub_left hn p
    exact Nat.div_le_div_right (Nat.mul_le_mul hs hs)

theorem fade_curve_monotone_witness :
    (1 ≤ 200 ∧ 200 ≤ 65535 ∧ 1 ≤ 1000 ∧ 1000 ≤ 65535 ∧ 50 ≤ 150 ∧ 150 ≤ 200) ∧
    ((∃ v1 v2, GetFadeBrightnessQuadratic 50 200 1000 true = some v1 ∧
      GetFadeBrightnessQuadratic 150 200 1000 true = some v2 ∧ v1 ≤ v2) ∧
    (∃ w1 w2, GetFadeBrightnessQuadratic 50 200 1000 false = some w1 ∧
      GetFadeBrightnessQuadratic 150 200 1000 false = some w2 ∧ w2 ≤ w1)) :=
  ⟨by decide, fade_curve_monotone 200 1000 50 150 (by decide) (by decide) (by decide)
    (by decide) (by decide) (by decide)⟩

/-- C4: for duration and peak in 1..65535, both directions and every elapsed
time up to the duration, no intermediate product reaches 2^32, the
subtraction does not go below zero, the value returned is the one of exact
arithmetic, and it lies in 0..peak. -/
theorem fade_curve_range (d p e : Nat) (dir : Bool) (hd1 : 1 ≤ d) (hd : d ≤ 65535)
    (hp1 : 1 ≤ p) (hp : p ≤ 65535) (he : e ≤ d) :
    e * p < 4294967296 ∧
    e * p / d ≤ p ∧
    (e * p / d) * (e * p / d) < 4294967296 ∧
    (p - e * p / d) * (p - e * p / d) < 4294967296 ∧
    ∃ v, GetFadeBrightnessQuadratic e d p dir = some v ∧ 0 ≤ v ∧ v ≤ p ∧
      v = (if dir then (e * p / d) * (e * p / d) / p
           else (p - e * p / d) * (p - e * p / d) / p) := by
  have hn := normalized_le e d p he
  have h1 : e * p ≤ 65535 * 65535 := Nat.mul_le_mul (by omega) hp
  have h2 : (e * p / d) * (e * p / d) ≤ 65535 * 65535 :=
    Nat.mul_le_mul (by omega) (by omega)
  have hs : p - e * p / d ≤ 65535 := Nat.le_trans (Nat.sub_le _ _) hp
  have h3 : (p - e * p / d) * (p - e * p / d) ≤ 65535 * 65535 := Nat.mul_le_mul hs hs
  refine ⟨by omega, hn, by omega, by omega, ?_⟩
  cases dir
  · refine ⟨_, fade_falling_eq e d p hd1 hd hp1 hp he, Nat.zero_le _, ?_, by simp⟩
    exact sq_div_le _ _ (Nat.sub_le _ _)
  · refine ⟨_, fade_rising_eq e d p hd1 hd hp1 hp he, Nat.zero_le _, ?_, by simp⟩
    exact sq_div_le _ _ hn

theorem fade_curve_range_witness :
    (1 ≤ 65535 ∧ 65535 ≤ 65535 ∧ 1 ≤ 65535 ∧ 65535 ≤ 65535 ∧ 65534 ≤ 65535) ∧
    (65534 * 65535 < 4294967296 ∧
    65534 * 65535 / 65535 ≤ 65535 ∧
    (65534 * 65535 / 65535) * (65534 * 65535 / 65535) < 4294967296 ∧
    (65535 - 65534 * 65535 / 65535) * (65535 - 65534 * 65535 / 65535) < 4294967296 ∧
    ∃ v, GetFadeBrightnessQuadratic 65534 65535 65535 true = some v ∧ 0 ≤ v ∧ v ≤ 65535 ∧
      v = (if true then (65534 * 65535 / 65535) * (65534 * 65535 / 65535) / 65535
           else (65535 - 65534 * 65535 / 65535) * (65535 - 65534 * 65535 / 65535) / 65535)) :=
  ⟨by decide, fade_curve_range 65535 65535 65534 true (by decide) (by decide) (by decide)
    (by decide) (by decide)⟩


/-! ## Re-arming and tick dedup -/

/-- C10: each of the nine SetXxx operations, given a non-NULL config,
returns success, sets the matching archetype tag and the config reference
and clears the running flag; given a NULL config it returns the
null-pointer error, has no side effect and leaves the handle unchanged. -/
theorem set_rearms (env : Env) (this : LED_Handle_t) (cfg : Nat) (hcfg : cfg ≠ 0) :
    ((LED_Animation_SetSolid this cfg).status = LED_SUCCESS ∧
      (LED_Animation_SetSolid this cfg).handle.animationType = LED_ANIMATION_SOLID ∧
      (LED_Animation_SetSolid this cfg).handle.animationData = cfg ∧
      (LED_Animation_SetSolid this cfg).handle.isRunning = false) ∧
    ((LED_Animation_SetBlink env this cfg).status = LED_SUCCESS ∧
      (LED_Animation_SetBlink env this cfg).handle.animationType = LED_ANIMATION_BLINK ∧
      (LED_Animation_SetBlink env this cfg).handle.animationData = cfg ∧
      (LED_Animation_SetBlink env this cfg).handle.isRunning = false) ∧
    ((LED_Animation_SetFlash env this cfg).status = LED_SUCCESS ∧
      (LED_Animation_SetFlash env this cfg).handle.animationType = LED_ANIMATION_FLASH ∧
      (LED_Animation_SetFlash env this cfg).handle.animationData = cfg ∧
      (LED_Animation_SetFlash env this cfg).handle.isRunning = false) ∧
    ((LED_Animation_SetBreath this cfg).status = LED_SUCCESS ∧
      (LED_Animation_SetBreath this cfg).handle.animationType = LED_ANIMATION_BREATH ∧
      (LED_Animation_SetBreath this cfg).handle.animationData = cfg ∧
      (LED_Animation_SetBreath this cfg).handle.isRunning = false) ∧
    ((LED_Animation_SetFadeIn this cfg).status = LED_SUCCESS ∧
      (LED_Animation_SetFadeIn this cfg).handle.animationType = LED_ANIMATION_FADE_IN ∧
      (LED_Animation_SetFadeIn this cfg).handle.animationData = cfg ∧
      (LED_Animation_SetFadeIn this cfg).handle.isRunning = false) ∧
    ((LED_Animation_SetFadeOut this cfg).status = LED_SUCCESS ∧
      (LED_Animation_SetFadeOut this cfg).handle.animationType = LED_ANIMATION_FADE_OUT ∧
      (LED_Animation_SetFadeOut this cfg).handle.animationData = cfg ∧
      (LED_Animation_SetFadeOut this cfg).handle.isRunning = false) ∧
    ((LED_Animation_SetPulse this cfg).status = LED_SUCCESS ∧
      (LED_Animation_SetPulse this cfg).handle.animationType = LED_ANIMATION_PULSE ∧
      (LED_Animation_SetPulse this cfg).handle.animationData = cfg ∧
      (LED_Animation_SetPulse this cfg).handle.isRunning = false) ∧
    ((LED_Animation_SetAlternatingColors this cfg).status = LED_SUCCESS ∧
      (LED_Animation_SetAlternatingColors this cfg).handle.animationType
        = LED_ANIMATION_ALTERNATING_COLORS ∧
      (LED_Animation_SetAlternatingColors this cfg).handle.animationData = cfg ∧
      (LED_Animation_SetAlternatingColors this cfg).handle.isRunning = false) ∧
    ((LED_Animation_SetColorCycle this cfg).status = LED_SUCCESS ∧
      (LED_Animation_SetColorCycle this cfg).handle.animationType = LED_ANIMATION_COLOR_CYCLE ∧
      (LED_Animation_SetColorCycle this cfg).handle.animationData = cfg ∧
      (LED_Animation_SetColorCycle this cfg).handle.isRunning = false) ∧
    (LED_Animation_SetSolid this 0 = ⟨this, [], LED_ERROR_NULL_POINTER⟩ ∧
      LED_Animation_SetBlink env this 0 = ⟨this, [], LED_ERROR_NULL_POINTER⟩ ∧
      LED_Animation_SetFlash env this 0 = ⟨this, [], LED_ERROR_NULL_POINTER⟩ ∧
      LED_Animation_SetBreath this 0 = ⟨this, [], LED_ERROR_NULL_POINTER⟩ ∧
      LED_Animation_SetFadeIn this 0 = ⟨this, [], LED_ERROR_NULL_POINTER⟩ ∧
      LED_Animation_SetFadeOut this 0 = ⟨this, [], LED_ERROR_NULL_POINTER⟩ ∧
      LED_Animation_SetPulse this 0 = ⟨this, [], LED_ERROR_NULL_POINTER⟩ ∧
      LED_Animation_SetAlternatingColors this 0 = ⟨this, [], LED_ERROR_NULL_POINTER⟩ ∧
      LED_Animation_SetColorCycle this 0 = ⟨this, [], LED_ERROR_NULL_POINTER⟩) := by
  simp [LED_Animation_SetSolid, LED_Animation_SetBlink, LED_Animation_SetFlash,
    LED_Animation_SetBreath, LED_Animation_SetFadeIn, LED_Animation_SetFadeOut,
    LED_Animation_SetPulse, LED_Animation_SetAlternatingColors, LED_Animation_SetColorCycle,
    hcfg]

theorem set_rearms_witness :
    (16 : Nat) ≠ 0 ∧
    (LED_Animation_SetBlink demoEnv demoHandle 16).handle.animationType = LED_ANIMATION_BLINK ∧
    LED_Animation_SetColorCycle demoHandle 0 = ⟨demoHandle, [], LED_ERROR_NULL_POINTER⟩ :=
  ⟨by decide, (set_rearms demoEnv demoHandle 16 (by decide)).2.1.2.1,
    (set_rearms demoEnv demoHandle 16 (by decide)).2.2.2.2.2.2.2.2.2.2.2.2.2.2.2.2.2⟩

/-- C5: when a call of Update with some tick has returned, a second call with
the same tick returns the handle unchanged and has no side effect at all. -/
theorem update_idempotent (env : Env) (this : LED_Handle_t) (tick : Nat) (r : Result)
    (h : LED_Animation_Update env this tick = some r) :
    ∃ s, LED_Animation_Update env r.handle tick = some ⟨r.handle, [], s⟩ := by
  unfold LED_Animation_Update at h
  by_cases h1 : this.lastTick = tick
  · rw [if_pos h1] at h
    cases h
    exact ⟨LED_SUCCESS, by simp [LED_Animation_Update, h1]⟩
  · rw [if_neg h1] at h
    by_cases h2 : IS_VALID_LED_ANIMATION_TYPE this.animationType = false
    · rw [if_pos h2] at h
      cases h
      exact ⟨LED_ERROR_INVALID_ANIMATION_TYPE, by simp [LED_Animation_Update, h1, h2]⟩
    · rw [if_neg h2] at h
      cases hd : dispatch env this tick with
      | none => rw [hd] at h; cases h
      | some r1 =>
        rw [hd] at h
        cases h
        exact ⟨LED_SUCCESS, by simp [LED_Animation_Update]⟩

theorem update_idempotent_witness :
    ∃ r, LED_Animation_Update demoEnv
        (LED_Animation_Start (LED_Animation_SetSolid demoHandle 8).handle).handle 100 = some r ∧
      r.events ≠ [] ∧
      ∃ s, LED_Animation_Update demoEnv r.handle 100 = some ⟨r.handle, [], s⟩ :=
  ⟨_, rfl, by decide, update_idempotent demoEnv
    (LED_Animation_Start (LED_Animation_SetSolid demoHandle 8).handle).handle 100 _ rfl⟩


/-! ## Solid scenario -/

/-- A running Solid with no execution time that has passed its first tick
stays as it is, whatever the tick. -/
theorem solid_infinite_step (env : Env) (h : LED_Handle_t) (tick : Nat)
    (ht : h.animationType = LED_ANIMATION_SOLID) (hd : h.animationData ≠ 0)
    (hx : (env.solid h.animationData).executionTimeMs = 0)
    (hr : h.isRunning = true) (hs : h.startTime ≠ 0) :
    ∃ h1, LED_Animation_Update env h tick = some ⟨h1, [], LED_SUCCESS⟩ ∧
      h1.animationType = LED_ANIMATION_SOLID ∧ h1.animationData = h.animationData ∧
      h1.isRunning = true ∧ h1.startTime ≠ 0 := by
  by_cases hl : h.lastTick = tick
  · exact ⟨h, by simp [LED_Animation_Update, hl], ht, rfl, hr, hs⟩
  · refine ⟨{ h with lastTick := tick }, ?_, ht, rfl, hr, hs⟩
    simp [LED_Animation_Update, hl, ht, IS_VALID_LED_ANIMATION_TYPE, dispatch,
      LED_AnimationSolidExecute, hd, hr, hs, hx]

theorem solid_infinite_run (env : Env) (ticks : List Nat) :
    ∀ h : LED_Handle_t, h.animationType = LED_ANIMATION_SOLID → h.animationData ≠ 0 →
      (env.solid h.animationData).executionTimeMs = 0 → h.isRunning = true →
      h.startTime ≠ 0 →
      ∃ h1, updateAll env h ticks = some (h1, []) ∧ h1.isRunning = true := by
  induction ticks with
  | nil => intro h _ _ _ hr _; exact ⟨h, rfl, hr⟩
  | cons t ts ih =>
    intro h ht hd hx hr hs
    obtain ⟨h1, hu, ht1, hd1, hr1, hs1⟩ := solid_infinite_step env h t ht hd hx hr hs
    obtain ⟨h2, hu2, hr2⟩ := ih h1 ht1 (by rw [hd1]; exact hd) (by rw [hd1]; exact hx) hr1 hs1
    exact ⟨h2, by simp [updateAll, hu, hu2], hr2⟩

/-- C1: on an RGB controller with maximum duty 1000, a Solid of color
255, 0, 0 and execution time 0, after SetSolid, Start and one Update at tick
100 (the last processed tick being another one): the start hook is invoked,
channel 0 is written 1000 and channels 1 and 2 are written 0, and the
running flag is true after this Update and after any further Updates. -/
theorem solid_scenario (env : Env) (this : LED_Handle_t) (p c : Nat) (chans : Nat → Bool)
    (hp : p ≠ 0) (hc : c ≠ 0) (hsolid : env.solid p = ⟨c, 0⟩)
    (hR : env.bytes c 0 = 255) (hG : env.bytes c 1 = 0) (hB : env.bytes c 2 = 0)
    (htype : this.controller.LedType = LED_TYPE_RGB)
    (hmax : this.controller.MaxDutyCycle = 1000)
    (hpwm : this.controller.PwmConfig = some chans) (hch : ∀ i, i < 3 → chans i = true)
    (hlast : this.lastTick ≠ 100) :
    ∃ r, LED_Animation_Update env
        (LED_Animation_Start (LED_Animation_SetSolid this p).handle).handle 100 = some r ∧
      r.status = LED_SUCCESS ∧
      r.events = [Event.controllerStart, Event.setDutyCycle 0 1000, Event.setDutyCycle 1 0,
        Event.setDutyCycle 2 0] ∧
      r.handle.isRunning = true ∧
      ∀ ticks : List Nat, ∃ h evs, updateAll env r.handle ticks = some (h, evs) ∧
        h.isRunning = true := by
  have h0 := hch 0 (by omega)
  have h1 := hch 1 (by omega)
  have h2 := hch 2 (by omega)
  have hu : ∃ r, LED_Animation_Update env
        (LED_Animation_Start (LED_Animation_SetSolid this p).handle).handle 100 = some r ∧
      r.status = LED_SUCCESS ∧
      r.events = [Event.controllerStart, Event.setDutyCycle 0 1000, Event.setDutyCycle 1 0,
        Event.setDutyCycle 2 0] ∧
      r.handle.isRunning = true ∧ r.handle.animationType = LED_ANIMATION_SOLID ∧
      r.handle.animationData = p ∧ r.handle.startTime = 100 := by
    simp [LED_Animation_Update, LED_Animation_Start, LED_Animation_SetSolid, hp, hlast,
      IS_VALID_LED_ANIMATION_TYPE, dispatch, LED_AnimationSolidExecute, hsolid, Env.colorAt, hc,
      ExecuteColorSetting, SetColorGeneric, hpwm, htype, CalculateColorCount, MAX_COLOR_CHANNELS,
      SetColorGeneric_loop, abortOnError, LED_Animation_SetCurrentColor, hR, hG, hB, u8, u16,
      LED_MAX_BRIGHTNESS, h0, h1, h2, hmax, BRIGHTNESS_TO_DUTY_CYCLE]
  obtain ⟨r, hr, hst, hev, hrun, hty, hda, hsta⟩ := hu
  refine ⟨r, hr, hst, hev, hrun, ?_⟩
  intro ticks
  obtain ⟨h', hu', hr'⟩ := solid_infinite_run env ticks r.handle hty (by rw [hda]; exact hp)
    (by rw [hda, hsolid]) hrun (by rw [hsta]; decide)
  exact ⟨h', [], hu', hr'⟩

theorem solid_scenario_witness :
    ((8 : Nat) ≠ 0 ∧ (16 : Nat) ≠ 0 ∧ demoEnv.solid 8 = ⟨16, 0⟩ ∧ demoEnv.bytes 16 0 = 255 ∧
      demoHandle.controller.MaxDutyCycle = 1000 ∧ demoHandle.lastTick ≠ 100) ∧
    ∃ r, LED_Animation_Update demoEnv
        (LED_Animation_Start (LED_Animation_SetSolid demoHandle 8).handle).handle 100 = some r ∧
      r.status = LED_SUCCESS ∧
      r.events = [Event.controllerStart, Event.setDutyCycle 0 1000, Event.setDutyCycle 1 0,
        Event.setDutyCycle 2 0] ∧
      r.handle.isRunning = true ∧
      ∀ ticks : List Nat, ∃ h evs, updateAll demoEnv r.handle ticks = some (h, evs) ∧
        h.isRunning = true :=
  ⟨⟨by decide, by decide, rfl, rfl, rfl, by decide⟩,
    solid_scenario demoEnv demoHandle 8 16 (fun _ => true) (by decide) (by decide) rfl rfl rfl
      rfl rfl rfl rfl (fun _ _ => rfl) (by decide)⟩


/-! ## Frame lemmas for color and duty-cycle application -/

theorem SetColorGeneric_loop_events (maxDuty : Nat) (chans : Nat → Bool) (cv : Nat → Nat)
    (n : Nat) : ∀ i ev, ev ∈ (SetColorGeneric_loop maxDuty chans cv i n).1 →
      ∃ c d, ev = Event.setDutyCycle c d := by
  induction n with
  | zero => intro i ev h; simp [SetColorGeneric_loop] at h
  | succ n ih =>
    intro i ev h
    unfold SetColorGeneric_loop at h
    split at h
    · simp at h
    · split at h
      · simp at h
      · simp only [List.mem_cons] at h
        rcases h with h | h
        · exact ⟨_, _, h⟩
        · exact ih _ _ h

theorem SetDutyCycleGeneric_loop_events (maxDuty : Nat) (chans : Nat → Bool) (dv : Nat → Nat)
    (n : Nat) : ∀ i ev, ev ∈ (SetDutyCycleGeneric_loop maxDuty chans dv i n).1 →
      ∃ c d, ev = Event.setDutyCycle c d := by
  induction n with
  | zero => intro i ev h; simp [SetDutyCycleGeneric_loop] at h
  | succ n ih =>
    intro i ev h
    unfold SetDutyCycleGeneric_loop at h
    split at h
    · simp at h
    · split at h
      · simp at h
      · simp only [List.mem_cons] at h
        rcases h with h | h
        · exact ⟨_, _, h⟩
        · exact ih _ _ h

theorem SetColorGeneric_frame (this : LED_Handle_t) (cv : Option (Nat → Nat)) (n : Nat) :
    SameRun this (SetColorGeneric this cv n).handle ∧
    (SetColorGeneric this cv n).handle.animationType = this.animationType ∧
    ∀ ev ∈ (SetColorGeneric this cv n).events, ∃ c d, ev = Event.setDutyCycle c d := by
  unfold SetColorGeneric
  split
  · simp [SameRun]
  · simp [SameRun]
  · split
    · simp [SameRun]
    · refine ⟨by simp [SameRun, LED_Animation_SetCurrentColor], rfl, ?_⟩
      intro ev hev
      exact SetColorGeneric_loop_events _ _ _ _ _ _ hev

theorem SetDutyCycleGeneric_frame (this : LED_Handle_t) (dv : Option (Nat → Nat)) (n : Nat) :
    (SetDutyCycleGeneric this dv n).handle = this ∧
    ∀ ev ∈ (SetDutyCycleGeneric this dv n).events, ∃ c d, ev = Event.setDutyCycle c d := by
  unfold SetDutyCycleGeneric
  split
  · simp
  · simp
  · split
    · simp
    · refine ⟨rfl, ?_⟩
      intro ev hev
      exact SetDutyCycleGeneric_loop_events _ _ _ _ _ _ hev

theorem abortOnError_frame (r : Result) :
    SameRun r.handle (abortOnError r).handle ∧
    (abortOnError r).status = r.status ∧
    ((abortOnError r).handle.animationType = r.handle.animationType ∨
      (abortOnError r).handle.animationType = LED_ANIMATION_NONE) ∧
    (r.status = LED_SUCCESS → abortOnError r = r) ∧
    ∀ ev ∈ (abortOnError r).events, ev ∈ r.events ∨
      ∃ t s, ev = Event.callback t s ∧ s ≠ LED_SUCCESS := by
  unfold abortOnError
  by_cases h : r.status = LED_SUCCESS
  · rw [if_neg (by simp [h])]
    exact ⟨by simp [SameRun], rfl, Or.inl rfl, fun _ => rfl, fun ev hev => Or.inl hev⟩
  · rw [if_pos h]
    refine ⟨by simp [SameRun], rfl, Or.inr rfl, fun h1 => absurd h1 h, ?_⟩
    intro ev hev
    simp only [List.mem_append] at hev
    rcases hev with hev | hev
    · exact Or.inl hev
    · split at hev
      · simp only [List.mem_singleton] at hev
        exact Or.inr ⟨_, _, hev, h⟩
      · simp at hev

theorem SameRun.trans {a b c : LED_Handle_t} (h1 : SameRun a b) (h2 : SameRun b c) :
    SameRun a c := by
  unfold SameRun at *
  obtain ⟨a1, a2, a3, a4, a5, a6, a7⟩ := h1
  obtain ⟨b1, b2, b3, b4, b5, b6, b7⟩ := h2
  exact ⟨b1.trans a1, b2.trans a2, b3.trans a3, b4.trans a4, b5.trans a5, b6.trans a6,
    b7.trans a7⟩

/-- What `ExecuteColorSetting` may change: only the current color and, on an
error, the archetype tag; its events are channel writes and, on an error,
the callback carrying the failing status. -/
theorem ExecuteColorSetting_frame (this : LED_Handle_t) (cv : Option (Nat → Nat)) :
    SameRun this (ExecuteColorSetting this cv).handle ∧
    ((ExecuteColorSetting this cv).handle.animationType = this.animationType ∨
      (ExecuteColorSetting this cv).handle.animationType = LED_ANIMATION_NONE) ∧
    ((ExecuteColorSetting this cv).status = LED_SUCCESS →
      (ExecuteColorSetting this cv).handle.animationType = this.animationType ∧
      ∀ ev ∈ (ExecuteColorSetting this cv).events, ∃ c d, ev = Event.setDutyCycle c d) ∧
    ∀ ev ∈ (ExecuteColorSetting this cv).events, (∃ c d, ev = Event.setDutyCycle c d) ∨
      ∃ t s, ev = Event.callback t s ∧ s ≠ LED_SUCCESS := by
  unfold ExecuteColorSetting
  cases cv with
  | none => simp [SameRun]
  | some f =>
    simp only
    obtain ⟨g1, g2, g3⟩ :=
      SetColorGeneric_frame this (some f) (CalculateColorCount this.controller.LedType)
    obtain ⟨a1, a2, a3, a4, a5⟩ :=
      abortOnError_frame
        (SetColorGeneric this (some f) (CalculateColorCount this.controller.LedType))
    refine ⟨g1.trans a1, ?_, ?_, ?_⟩
    · rcases a3 with a3 | a3
      · exact Or.inl (a3.trans g2)
      · exact Or.inr a3
    · intro hs
      rw [a2] at hs
      rw [a4 hs]
      exact ⟨g2, g3⟩
    · intro ev hev
      rcases a5 ev hev with h | h
      · exact Or.inl (g3 ev h)
      · exact Or.inr h

/-- What `ExecuteDutyCycleSetting` may change: on an error the archetype tag,
and nothing else. -/
theorem ExecuteDutyCycleSetting_frame (this : LED_Handle_t) (dv : Option (Nat → Nat)) :
    SameRun this (ExecuteDutyCycleSetting this dv).handle ∧
    ((ExecuteDutyCycleSetting this dv).handle.animationType = this.animationType ∨
      (ExecuteDutyCycleSetting this dv).handle.animationType = LED_ANIMATION_NONE) ∧
    ((ExecuteDutyCycleSetting this dv).status = LED_SUCCESS →
      (ExecuteDutyCycleSetting this dv).handle = this) ∧
    ∀ ev ∈ (ExecuteDutyCycleSetting this dv).events, (∃ c d, ev = Event.setDutyCycle c d) ∨
      ∃ t s, ev = Event.callback t s ∧ s ≠ LED_SUCCESS := by
  unfold ExecuteDutyCycleSetting
  cases dv with
  | none => simp [SameRun]
  | some f =>
    simp only
    obtain ⟨g1, g3⟩ :=
      SetDutyCycleGeneric_frame this (some f) (CalculateColorCount this.controller.LedType)
    obtain ⟨a1, a2, a3, a4, a5⟩ :=
      abortOnError_frame
        (SetDutyCycleGeneric this (some f) (CalculateColorCount this.controller.LedType))
    rw [g1] at a1 a3
    refine ⟨a1, a3, ?_, ?_⟩
    · intro hs
      rw [a2] at hs
      rw [a4 hs]
      exact g1
    · intro ev hev
      rcases a5 ev hev with h | h
      · exact Or.inl (g3 ev h)
      · exact Or.inr h

theorem beginColorRun_frame (env : Env) (this : LED_Handle_t) (tick : Nat) (rep : Int)
    (color : Nat) :
    (beginColorRun env this tick rep color).handle.startTime
      = (if this.startTime = 0 then tick else this.startTime) ∧
    (beginColorRun env this tick rep color).handle.repeatTimes
      = (if this.startTime = 0 then rep else this.repeatTimes) ∧
    (beginColorRun env this tick rep color).handle.isRunning = this.isRunning ∧
    (beginColorRun env this tick rep color).handle.animationData = this.animationData ∧
    (beginColorRun env this tick rep color).handle.callback = this.callback ∧
    (beginColorRun env this tick rep color).handle.lastTick = this.lastTick ∧
    (beginColorRun env this tick rep color).handle.controller = this.controller ∧
    ((beginColorRun env this tick rep color).handle.animationType = this.animationType ∨
      (beginColorRun env this tick rep color).handle.animationType = LED_ANIMATION_NONE) ∧
    ((beginColorRun env this tick rep color).status = LED_SUCCESS →
      (beginColorRun env this tick rep color).handle.animationType = this.animationType ∧
      ∀ ev ∈ (beginColorRun env this tick rep color).events,
        ∃ c d, ev = Event.setDutyCycle c d) ∧
    ∀ ev ∈ (beginColorRun env this tick rep color).events,
      (∃ c d, ev = Event.setDutyCycle c d) ∨ ∃ t s, ev = Event.callback t s ∧ s ≠ LED_SUCCESS := by
  unfold beginColorRun
  by_cases h : this.startTime = 0
  · simp only [h, if_true]
    obtain ⟨f1, f2, f3, f4⟩ :=
      ExecuteColorSetting_frame { this with startTime := tick, repeatTimes := rep }
        (env.colorAt color)
    obtain ⟨c1, c2, c3, c4, c5, c6, c7⟩ := f1
    exact ⟨c4, c7, c2, c3, c6, c5, c1, f2, f3, f4⟩
  · simp [h]


/-! ## Blink and Flash windows -/

theorem HandleRepeatLogic_frame (this : LED_Handle_t) (rep : Int) (stop : Bool) :
    (HandleRepeatLogic this rep stop).handle.startTime = this.startTime ∧
    (HandleRepeatLogic this rep stop).handle.animationType = this.animationType ∧
    (HandleRepeatLogic this rep stop).handle.animationData = this.animationData ∧
    (HandleRepeatLogic this rep stop).handle.callback = this.callback ∧
    (HandleRepeatLogic this rep stop).handle.lastTick = this.lastTick ∧
    (HandleRepeatLogic this rep stop).handle.controller = this.controller ∧
    Event.controllerStart ∉ (HandleRepeatLogic this rep stop).events ∧
    (stop = false → Event.controllerStop ∉ (HandleRepeatLogic this rep stop).events) := by
  unfold HandleRepeatLogic
  cases stop <;> simp only [] <;> split_ifs <;> first | contradiction | simp

/-- C8: in a running Blink whose first-tick color application (if this is
the first tick) succeeds, with e the time elapsed since the cycle start and
P the period: e < P/2 invokes the controller start hook, P/2 <= e < P the
stop hook, and e >= P resets the cycle start to the current tick and applies
the repeat logic; Update on a Blink handle with a new tick returns just that.
For P = 500 the windows are [0,250), [250,500) and 500 onwards. -/
theorem blink_symmetry (env : Env) (this : LED_Handle_t) (tick : Nat)
    (hd : this.animationData ≠ 0) (hr : this.isRunning = true)
    (hfirst : (beginColorRun env this tick (env.blink this.animationData).repeatTimes
      (env.blink this.animationData).color).status = LED_SUCCESS) :
    let Blink := env.blink this.animationData
    let first := beginColorRun env this tick Blink.repeatTimes Blink.color
    let e := sub32 tick first.handle.startTime
    let r := LED_AnimationBlinkExecute env this tick
    first.handle.startTime = (if this.startTime = 0 then tick else this.startTime) ∧
    Event.controllerStart ∉ first.events ∧ Event.controllerStop ∉ first.events ∧
    (e < Blink.periodMs / 2 →
      r = ⟨first.handle, first.events ++ [Event.controllerStart], LED_SUCCESS⟩) ∧
    (Blink.periodMs / 2 ≤ e → e < Blink.periodMs →
      r = ⟨first.handle, first.events ++ [Event.controllerStop], LED_SUCCESS⟩) ∧
    (Blink.periodMs ≤ e →
      r = ⟨(HandleRepeatLogic { first.handle with startTime := tick } Blink.repeatTimes
              false).handle,
            first.events ++ (HandleRepeatLogic { first.handle with startTime := tick }
              Blink.repeatTimes false).events, LED_SUCCESS⟩ ∧
      r.handle.startTime = tick ∧
      Event.controllerStart ∉ r.events ∧ Event.controllerStop ∉ r.events) ∧
    (this.animationType = LED_ANIMATION_BLINK → this.lastTick ≠ tick →
      LED_Animation_Update env this tick
        = some ⟨{ r.handle with lastTick := tick }, r.events, r.status⟩) := by
  intro Blink first e r
  obtain ⟨b1, -, -, -, -, -, -, -, b9, -⟩ :=
    beginColorRun_frame env this tick Blink.repeatTimes Blink.color
  have hev := (b9 hfirst).2
  have hns : Event.controllerStart ∉ first.events := by
    intro hm
    obtain ⟨c, d, hcd⟩ := hev _ hm
    cases hcd
  have hnp : Event.controllerStop ∉ first.events := by
    intro hm
    obtain ⟨c, d, hcd⟩ := hev _ hm
    cases hcd
  have hrun : this.isRunning ≠ false := by simp [hr]
  have hst : ¬ first.status ≠ LED_SUCCESS := by simpa using hfirst
  have hr_def : r = LED_AnimationBlinkExecute env this tick := rfl
  unfold LED_AnimationBlinkExecute at hr_def
  rw [if_neg hd, if_neg hrun] at hr_def
  simp only [] at hr_def
  rw [if_neg hst] at hr_def
  refine ⟨b1, hns, hnp, ?_, ?_, ?_, ?_⟩
  · intro he
    have h1 : ¬ sub32 tick first.handle.startTime ≥ Blink.periodMs := by
      have : e < Blink.periodMs := lt_of_lt_of_le he (Nat.div_le_self _ _)
      exact Nat.not_le.mpr this
    have h2 : ¬ sub32 tick first.handle.startTime ≥ Blink.periodMs / 2 := Nat.not_le.mpr he
    rw [hr_def, if_neg h1, if_neg h2]
  · intro he1 he2
    have h1 : ¬ sub32 tick first.handle.startTime ≥ Blink.periodMs := Nat.not_le.mpr he2
    rw [hr_def, if_neg h1, if_pos he1]
  · intro he
    have hre : r = ⟨(HandleRepeatLogic { first.handle with startTime := tick } Blink.repeatTimes
              false).handle,
            first.events ++ (HandleRepeatLogic { first.handle with startTime := tick }
              Blink.repeatTimes false).events, LED_SUCCESS⟩ := by
      rw [hr_def, if_pos he]
    obtain ⟨f1, -, -, -, -, -, f7, f8⟩ :=
      HandleRepeatLogic_frame { first.handle with startTime := tick } Blink.repeatTimes false
    refine ⟨hre, ?_, ?_, ?_⟩
    · rw [hre]; exact f1
    · rw [hre]
      simp only [List.mem_append, not_or]
      exact ⟨hns, f7⟩
    · rw [hre]
      simp only [List.mem_append, not_or]
      exact ⟨hnp, f8 rfl⟩
  · intro ht hl
    simp [LED_Animation_Update, hl, ht, IS_VALID_LED_ANIMATION_TYPE, dispatch, r]


theorem blink_symmetry_witness :
    ((8 : Nat) ≠ 0 ∧ (demoEnv.blink 8).periodMs = 500 ∧ sub32 1249 1000 = 249) ∧
    LED_AnimationBlinkExecute demoEnv
      { demoHandle with animationType := LED_ANIMATION_BLINK, animationData := 8,
                        isRunning := true, startTime := 1000, repeatTimes := 2 } 1249
      = ⟨{ demoHandle with animationType := LED_ANIMATION_BLINK, animationData := 8,
                           isRunning := true, startTime := 1000, repeatTimes := 2 },
          [Event.controllerStart], LED_SUCCESS⟩ :=
  ⟨⟨by decide, rfl, by decide⟩,
    (blink_symmetry demoEnv
      { demoHandle with animationType := LED_ANIMATION_BLINK, animationData := 8,
                        isRunning := true, startTime := 1000, repeatTimes := 2 } 1249
      (by decide) rfl rfl).2.2.2.1 (by decide)⟩

/-- The three windows of Flash when `onTimeMs + offTimeMs` fits 16 bits. -/
theorem flash_phases_within_u16 (env : Env) (this : LED_Handle_t) (tick : Nat)
    (hd : this.animationData ≠ 0) (hr : this.isRunning = true)
    (hfit : (env.flash this.animationData).onTimeMs + (env.flash this.animationData).offTimeMs
      ≤ 65535)
    (hfirst : (beginColorRun env this tick (env.flash this.animationData).repeatTimes
      (env.flash this.animationData).color).status = LED_SUCCESS) :
    let Flash := env.flash this.animationData
    let first := beginColorRun env this tick Flash.repeatTimes Flash.color
    let e := sub32 tick first.handle.startTime
    let r := LED_AnimationFlashExecute env this tick
    (e < Flash.onTimeMs →
      r = ⟨first.handle, first.events ++ [Event.controllerStart], LED_SUCCESS⟩) ∧
    (Flash.onTimeMs ≤ e → e < Flash.onTimeMs + Flash.offTimeMs →
      r = ⟨first.handle, first.events ++ [Event.controllerStop], LED_SUCCESS⟩) ∧
    (Flash.onTimeMs + Flash.offTimeMs ≤ e →
      r = ⟨(HandleRepeatLogic { first.handle with startTime := tick } Flash.repeatTimes
              false).handle,
            first.events ++ (HandleRepeatLogic { first.handle with startTime := tick }
              Flash.repeatTimes false).events, LED_SUCCESS⟩) := by
  intro Flash first e r
  have hrun : this.isRunning ≠ false := by simp [hr]
  have hst : ¬ first.status ≠ LED_SUCCESS := by simpa using hfirst
  have hu : u16 (Flash.onTimeMs + Flash.offTimeMs) = Flash.onTimeMs + Flash.offTimeMs := by
    have hfit1 : Flash.onTimeMs + Flash.offTimeMs ≤ 65535 := hfit
    unfold u16
    exact Nat.mod_eq_of_lt (by omega)
  have hr_def : r = LED_AnimationFlashExecute env this tick := rfl
  unfold LED_AnimationFlashExecute at hr_def
  rw [if_neg hd, if_neg hrun] at hr_def
  simp only [] at hr_def
  rw [if_neg hst, hu] at hr_def
  refine ⟨?_, ?_, ?_⟩
  · intro he
    have h1 : ¬ sub32 tick first.handle.startTime ≥ Flash.onTimeMs + Flash.offTimeMs := by
      have : e < Flash.onTimeMs + Flash.offTimeMs := by omega
      exact Nat.not_le.mpr this
    rw [hr_def, if_neg h1, if_pos he]
  · intro he1 he2
    have h1 : ¬ sub32 tick first.handle.startTime ≥ Flash.onTimeMs + Flash.offTimeMs :=
      Nat.not_le.mpr he2
    have h2 : ¬ sub32 tick first.handle.startTime < Flash.onTimeMs := Nat.not_lt.mpr he1
    rw [hr_def, if_neg h1, if_neg h2, if_pos he2]
  · intro he
    have h2 : ¬ sub32 tick first.handle.startTime < Flash.onTimeMs := by
      have : Flash.onTimeMs ≤ e := by omega
      exact Nat.not_lt.mpr this
    have h3 : ¬ sub32 tick first.handle.startTime < Flash.onTimeMs + Flash.offTimeMs :=
      Nat.not_lt.mpr he
    rw [hr_def, if_pos he, if_neg h2, if_neg h3]
    simp

/-- C9, the code at onTimeMs = offTimeMs = 40000: the period is stored in a
`uint16_t` and becomes 80000 mod 65536 = 14464, so at elapsed time 50000,
inside the off window [40000, 80000), the stop hook is not invoked and the
cycle is reset (start tick moved, repeat count decremented). -/
theorem flash_period_wraps :
    u16 ((longFlashEnv.flash 8).onTimeMs + (longFlashEnv.flash 8).offTimeMs) = 14464 ∧
    sub32 50001 1 = 50000 ∧
    (longFlashEnv.flash 8).onTimeMs ≤ 50000 ∧
    50000 < (longFlashEnv.flash 8).onTimeMs + (longFlashEnv.flash 8).offTimeMs ∧
    (LED_AnimationFlashExecute longFlashEnv
      { demoHandle with animationType := LED_ANIMATION_FLASH, animationData := 8,
                        isRunning := true, startTime := 1, repeatTimes := 2 } 50001).events
      = [] ∧
    (LED_AnimationFlashExecute longFlashEnv
      { demoHandle with animationType := LED_ANIMATION_FLASH, animationData := 8,
                        isRunning := true, startTime := 1, repeatTimes := 2 }
        50001).handle.startTime = 50001 ∧
    (LED_AnimationFlashExecute longFlashEnv
      { demoHandle with animationType := LED_ANIMATION_FLASH, animationData := 8,
                        isRunning := true, startTime := 1, repeatTimes := 2 }
        50001).handle.repeatTimes = 1 := by
  refine ⟨by decide, by decide, by decide, by decide, ?_, ?_, ?_⟩ <;> decide


/-! ## Infinite repeat -/

theorem NoSuccessCallback_nil : NoSuccessCallback [] := by
  intro t h
  cases h

theorem NoSuccessCallback_append {a b : List Event} (ha : NoSuccessCallback a)
    (hb : NoSuccessCallback b) : NoSuccessCallback (a ++ b) := by
  intro t h
  rcases List.mem_append.mp h with h | h
  · exact ha t h
  · exact hb t h

theorem NoSuccessCallback_of_writes {evs : List Event}
    (h : ∀ ev ∈ evs, (∃ c d, ev = Event.setDutyCycle c d) ∨
      ∃ t s, ev = Event.callback t s ∧ s ≠ LED_SUCCESS) : NoSuccessCallback evs := by
  intro t hm
  rcases h _ hm with ⟨c, d, hcd⟩ | ⟨t1, s, hts, hs⟩
  · cases hcd
  · cases hts
    exact hs rfl

theorem HandleRepeatLogic_infinite (this : LED_Handle_t) (stop : Bool)
    (h : this.repeatTimes = -1) :
    HandleRepeatLogic this (-1) stop = ⟨this, [], LED_SUCCESS⟩ := by
  unfold HandleRepeatLogic
  simp [h]

theorem beginRun_frame (this : LED_Handle_t) (tick : Nat) (rep : Int) :
    (beginRun this tick rep).1.isRunning = this.isRunning ∧
    (beginRun this tick rep).1.animationData = this.animationData ∧
    (beginRun this tick rep).1.animationType = this.animationType ∧
    (beginRun this tick rep).1.repeatTimes = (if this.startTime = 0 then rep else this.repeatTimes) ∧
    (beginRun this tick rep).1.startTime = (if this.startTime = 0 then tick else this.startTime) ∧
    (beginRun this tick rep).1.callback = this.callback ∧
    (beginRun this tick rep).1.controller = this.controller ∧
    (beginRun this tick rep).1.lastTick = this.lastTick ∧
    NoSuccessCallback (beginRun this tick rep).2 := by
  unfold beginRun
  by_cases h : this.startTime = 0
  · simp [h, NoSuccessCallback]
  · simp [h, NoSuccessCallback]

/-- The common end of the executors that finish a cycle through
`HandleRepeatLogic`: from a handle `b` whose cached repeat count is -1, an
application result `res` on `b`, and a configured repeat count -1. -/
theorem infinite_tail (h b : LED_Handle_t) (pre : List Event) (res : Result) (tick : Nat)
    (stop : Bool) (cond : Prop) [Decidable cond]
    (hrun : b.isRunning = true) (hdata : b.animationData = h.animationData)
    (htype : b.animationType = h.animationType) (hrep : b.repeatTimes = -1)
    (hpre : NoSuccessCallback pre)
    (hsame : SameRun b res.handle)
    (hty : res.handle.animationType = b.animationType ∨
      res.handle.animationType = LED_ANIMATION_NONE)
    (hev : ∀ ev ∈ res.events, (∃ c d, ev = Event.setDutyCycle c d) ∨
      ∃ t s, ev = Event.callback t s ∧ s ≠ LED_SUCCESS) :
    InfiniteStep h
      (if res.status ≠ LED_SUCCESS then ⟨res.handle, pre ++ res.events, res.status⟩
       else if cond then
        ⟨(HandleRepeatLogic { res.handle with startTime := tick } (-1) stop).handle,
          pre ++ res.events ++
            (HandleRepeatLogic { res.handle with startTime := tick } (-1) stop).events,
          LED_SUCCESS⟩
       else ⟨res.handle, pre ++ res.events, LED_SUCCESS⟩) ∧
    InfiniteStep h
      (if res.status ≠ LED_SUCCESS then ⟨res.handle, pre ++ res.events, res.status⟩
       else if cond then
        ⟨{ (HandleRepeatLogic res.handle (-1) stop).handle with startTime := tick },
          pre ++ res.events ++ (HandleRepeatLogic res.handle (-1) stop).events,
          LED_SUCCESS⟩
       else ⟨res.handle, pre ++ res.events, LED_SUCCESS⟩) := by
  obtain ⟨s1, s2, s3, s4, s5, s6, s7⟩ := hsame
  have hr1 : res.handle.repeatTimes = -1 := s7.trans hrep
  have hty1 : res.handle.animationType = h.animationType ∨
      res.handle.animationType = LED_ANIMATION_NONE := by
    rcases hty with hty | hty
    · exact Or.inl (hty.trans htype)
    · exact Or.inr hty
  have hev1 : NoSuccessCallback (pre ++ res.events) :=
    NoSuccessCallback_append hpre (NoSuccessCallback_of_writes hev)
  have hbase : ∀ s, InfiniteStep h ⟨res.handle, pre ++ res.events, s⟩ :=
    fun s => ⟨s2.trans hrun, s3.trans hdata, hty1, Or.inr hr1, hev1⟩
  rw [HandleRepeatLogic_infinite _ _ hr1,
    HandleRepeatLogic_infinite { res.handle with startTime := tick } stop hr1]
  constructor
  · split_ifs
    · exact hbase _
    · exact ⟨s2.trans hrun, s3.trans hdata, hty1, Or.inr hr1, by simpa using hev1⟩
    · exact hbase _
  · split_ifs
    · exact hbase _
    · exact ⟨s2.trans hrun, s3.trans hdata, hty1, Or.inr hr1, by simpa using hev1⟩
    · exact hbase _

theorem breath_infinite (env : Env) (h : LED_Handle_t) (tick : Nat) (r : Result)
    (hrun : h.isRunning = true) (hrep : (env.breath h.animationData).repeatTimes = -1)
    (hs : h.startTime = 0 ∨ h.repeatTimes = -1)
    (hx : LED_AnimationBreathExecute env h tick = some r) : InfiniteStep h r := by
  obtain ⟨b1, b2, b3, b4, b5, b6, b7, b8, b9⟩ := beginRun_frame h tick (-1)
  have hb : (beginRun h tick (-1)).1.repeatTimes = -1 := by
    rw [b4]; split_ifs with h0
    · rfl
    · exact hs.resolve_left h0
  unfold LED_AnimationBreathExecute at hx
  by_cases h1 : h.animationData = 0
  · rw [if_pos h1] at hx
    cases hx
    exact ⟨hrun, rfl, Or.inl rfl, hs, NoSuccessCallback_nil⟩
  rw [if_neg h1, if_neg (by simp [hrun])] at hx
  simp only [hrep] at hx
  by_cases h3 : (env.breath h.animationData).riseTimeMs
      + (env.breath h.animationData).fallTimeMs = 0
  · rw [if_pos h3] at hx
    cases hx
  rw [if_neg h3] at hx
  split at hx
  · cases hx
  · rename_i duty hduty
    obtain ⟨f1, f2, -, f4⟩ := ExecuteDutyCycleSetting_frame (beginRun h tick (-1)).1
      (some (fun i => duty.getD i 0))
    have key := (infinite_tail h (beginRun h tick (-1)).1 (beginRun h tick (-1)).2 _ tick
      (if (env.breath h.animationData).invert then false else true)
      (sub32 tick (beginRun h tick (-1)).1.startTime ≥
        (env.breath h.animationData).riseTimeMs + (env.breath h.animationData).fallTimeMs)
      (b1.trans hrun) b2 b3 hb b9 f1 f2 f4).1
    simp only [← apply_ite some, Option.some.injEq] at hx
    rw [← hx]
    exact key


theorem fadeIn_infinite (env : Env) (h : LED_Handle_t) (tick : Nat) (r : Result)
    (hrun : h.isRunning = true) (hrep : (env.fadeIn h.animationData).repeatTimes = -1)
    (hs : h.startTime = 0 ∨ h.repeatTimes = -1)
    (hx : LED_AnimationFadeInExecute env h tick = some r) : InfiniteStep h r := by
  obtain ⟨b1, b2, b3, b4, b5, b6, b7, b8, b9⟩ := beginRun_frame h tick (-1)
  have hb : (beginRun h tick (-1)).1.repeatTimes = -1 := by
    rw [b4]; split_ifs with h0
    · rfl
    · exact hs.resolve_left h0
  unfold LED_AnimationFadeInExecute at hx
  by_cases h1 : h.animationData = 0
  · rw [if_pos h1] at hx
    cases hx
    exact ⟨hrun, rfl, Or.inl rfl, hs, NoSuccessCallback_nil⟩
  rw [if_neg h1, if_neg (by simp [hrun])] at hx
  simp only [hrep] at hx
  split at hx
  · cases hx
  · rename_i duty hduty
    obtain ⟨f1, f2, -, f4⟩ := ExecuteDutyCycleSetting_frame (beginRun h tick (-1)).1
      (some (fun i => duty.getD i 0))
    have key := (infinite_tail h (beginRun h tick (-1)).1 (beginRun h tick (-1)).2 _ tick
      false
      (sub32 tick (beginRun h tick (-1)).1.startTime ≥ (env.fadeIn h.animationData).durationMs)
      (b1.trans hrun) b2 b3 hb b9 f1 f2 f4).2
    simp only [← apply_ite some, Option.some.injEq] at hx
    rw [← hx]
    exact key

theorem fadeOut_infinite (env : Env) (h : LED_Handle_t) (tick : Nat) (r : Result)
    (hrun : h.isRunning = true) (hrep : (env.fadeOut h.animationData).repeatTimes = -1)
    (hs : h.startTime = 0 ∨ h.repeatTimes = -1)
    (hx : LED_AnimationFadeOutExecute env h tick = some r) : InfiniteStep h r := by
  obtain ⟨b1, b2, b3, b4, b5, b6, b7, b8, b9⟩ := beginRun_frame h tick (-1)
  have hb : (beginRun h tick (-1)).1.repeatTimes = -1 := by
    rw [b4]; split_ifs with h0
    · rfl
    · exact hs.resolve_left h0
  unfold LED_AnimationFadeOutExecute at hx
  by_cases h1 : h.animationData = 0
  · rw [if_pos h1] at hx
    cases hx
    exact ⟨hrun, rfl, Or.inl rfl, hs, NoSuccessCallback_nil⟩
  rw [if_neg h1, if_neg (by simp [hrun])] at hx
  simp only [hrep] at hx
  split at hx
  · cases hx
  · rename_i duty hduty
    obtain ⟨f1, f2, -, f4⟩ := ExecuteDutyCycleSetting_frame (beginRun h tick (-1)).1
      (some (fun i => duty.getD i 0))
    have key := (infinite_tail h (beginRun h tick (-1)).1 (beginRun h tick (-1)).2 _ tick
      true
      (sub32 tick (beginRun h tick (-1)).1.startTime ≥ (env.fadeOut h.animationData).durationMs)
      (b1.trans hrun) b2 b3 hb b9 f1 f2 f4).2
    simp only [← apply_ite some, Option.some.injEq] at hx
    rw [← hx]
    exact key

theorem pulse_infinite (env : Env) (h : LED_Handle_t) (tick : Nat) (r : Result)
    (hrun : h.isRunning = true) (hrep : (env.pulse h.animationData).repeatTimes = -1)
    (hs : h.startTime = 0 ∨ h.repeatTimes = -1)
    (hx : LED_AnimationPulseExecute env h tick = some r) : InfiniteStep h r := by
  obtain ⟨b1, b2, b3, b4, b5, b6, b7, b8, b9⟩ := beginRun_frame h tick (-1)
  have hb : (beginRun h tick (-1)).1.repeatTimes = -1 := by
    rw [b4]; split_ifs with h0
    · rfl
    · exact hs.resolve_left h0
  unfold LED_AnimationPulseExecute at hx
  by_cases h1 : h.animationData = 0
  · rw [if_pos h1] at hx
    cases hx
    exact ⟨hrun, rfl, Or.inl rfl, hs, NoSuccessCallback_nil⟩
  rw [if_neg h1, if_neg (by simp [hrun])] at hx
  simp only [hrep] at hx
  by_cases h3 : (env.pulse h.animationData).riseTimeMs
      + (env.pulse h.animationData).holdOnTimeMs + (env.pulse h.animationData).fallTimeMs
      + (env.pulse h.animationData).holdOffTimeMs = 0
  · rw [if_pos h3] at hx
    cases hx
  rw [if_neg h3] at hx
  split at hx
  · cases hx
  · rename_i duty hduty
    obtain ⟨f1, f2, -, f4⟩ := ExecuteDutyCycleSetting_frame (beginRun h tick (-1)).1
      (some (fun i => duty.getD i 0))
    have key := (infinite_tail h (beginRun h tick (-1)).1 (beginRun h tick (-1)).2 _ tick
      false
      (sub32 tick (beginRun h tick (-1)).1.startTime ≥
        (env.pulse h.animationData).riseTimeMs
          + (env.pulse h.animationData).holdOnTimeMs + (env.pulse h.animationData).fallTimeMs
          + (env.pulse h.animationData).holdOffTimeMs)
      (b1.trans hrun) b2 b3 hb b9 f1 f2 f4).1
    simp only [← apply_ite some, Option.some.injEq] at hx
    rw [← hx]
    exact key

theorem colorCycle_infinite (env : Env) (h : LED_Handle_t) (tick : Nat) (r : Result)
    (hrun : h.isRunning = true) (hrep : (env.colorCycle h.animationData).repeatTimes = -1)
    (hs : h.startTime = 0 ∨ h.repeatTimes = -1)
    (hx : LED_AnimationColorCycleExecute env h tick = some r) : InfiniteStep h r := by
  obtain ⟨b1, b2, b3, b4, b5, b6, b7, b8, b9⟩ := beginRun_frame h tick (-1)
  have hb : (beginRun h tick (-1)).1.repeatTimes = -1 := by
    rw [b4]; split_ifs with h0
    · rfl
    · exact hs.resolve_left h0
  unfold LED_AnimationColorCycleExecute at hx
  by_cases h1 : h.animationData = 0
  · rw [if_pos h1] at hx
    cases hx
    exact ⟨hrun, rfl, Or.inl rfl, hs, NoSuccessCallback_nil⟩
  rw [if_neg h1, if_neg (by simp [hrun])] at hx
  simp only [hrep] at hx
  by_cases h3 : (env.colorCycle h.animationData).transitionMs
      + (env.colorCycle h.animationData).holdTimeMs = 0
  · rw [if_pos h3] at hx
    cases hx
  rw [if_neg h3] at hx
  by_cases h4 : (env.colorCycle h.animationData).colorCount = 0
  · rw [if_pos h4] at hx
    cases hx
  rw [if_neg h4] at hx
  by_cases h5 : (env.colorCycle h.animationData).colors = 0
  · rw [if_pos h5] at hx
    cases hx
  rw [if_neg h5] at hx
  split at hx
  · cases hx
  · rename_i result happ
    have hres : ∃ cv, result = ExecuteColorSetting (beginRun h tick (-1)).1 cv := by
      split_ifs at happ
      · cases happ
        exact ⟨_, rfl⟩
      · split at happ
        · cases happ
          exact ⟨_, rfl⟩
        · cases happ
    obtain ⟨cv, hcv⟩ := hres
    obtain ⟨f1, f2, -, f4⟩ := ExecuteColorSetting_frame (beginRun h tick (-1)).1 cv
    rw [← hcv] at f1 f2 f4
    have key := (infinite_tail h (beginRun h tick (-1)).1 (beginRun h tick (-1)).2 result tick
      (if (env.colorCycle h.animationData).leaveLastColor then true else false)
      (sub32 tick (beginRun h tick (-1)).1.startTime ≥
        (if (beginRun h tick (-1)).1.repeatTimes = -1 ∨ (beginRun h tick (-1)).1.repeatTimes > 1
          then mul32 ((env.colorCycle h.animationData).transitionMs
            + (env.colorCycle h.animationData).holdTimeMs)
            (env.colorCycle h.animationData).colorCount
          else sub32 (mul32 ((env.colorCycle h.animationData).transitionMs
            + (env.colorCycle h.animationData).holdTimeMs)
            (env.colorCycle h.animationData).colorCount)
            (env.colorCycle h.animationData).transitionMs))
      (b1.trans hrun) b2 b3 hb b9 f1 f2 f4).1
    simp only [← apply_ite some, Option.some.injEq] at hx
    rw [← hx]
    exact key

theorem alternating_infinite (env : Env) (h : LED_Handle_t) (tick : Nat) (r : Result)
    (hrun : h.isRunning = true) (hrep : (env.alternating h.animationData).repeatTimes = -1)
    (hs : h.startTime = 0 ∨ h.repeatTimes = -1)
    (hx : LED_AnimationAlternatingColorsExecute env h tick = some r) : InfiniteStep h r := by
  obtain ⟨b1, b2, b3, b4, b5, b6, b7, b8, b9⟩ := beginRun_frame h tick (-1)
  have hb : (beginRun h tick (-1)).1.repeatTimes = -1 := by
    rw [b4]; split_ifs with h0
    · rfl
    · exact hs.resolve_left h0
  unfold LED_AnimationAlternatingColorsExecute at hx
  by_cases h1 : h.animationData = 0
  · rw [if_pos h1] at hx
    cases hx
    exact ⟨hrun, rfl, Or.inl rfl, hs, NoSuccessCallback_nil⟩
  rw [if_neg h1, if_neg (by simp [hrun])] at hx
  simp only [hrep] at hx
  by_cases h2 : (env.alternating h.animationData).durationMs
      * (env.alternating h.animationData).colorCount ≥ 2147483648
  · rw [if_pos h2] at hx
    cases hx
  rw [if_neg h2] at hx
  by_cases h3 : u32 ((env.alternating h.animationData).durationMs
      * (env.alternating h.animationData).colorCount) = 0
  · rw [if_pos h3] at hx
    cases hx
  rw [if_neg h3] at hx
  by_cases h4 : (env.alternating h.animationData).durationMs = 0
  · rw [if_pos h4] at hx
    cases hx
  rw [if_neg h4] at hx
  by_cases h5 : (env.alternating h.animationData).colors = 0
  · rw [if_pos h5] at hx
    cases hx
  rw [if_neg h5] at hx
  have hnot : ¬ ((-1 : Int) ≠ -1 ∧ sub32 tick (beginRun h tick (-1)).1.startTime ≥
      mul32 (u32 ((env.alternating h.animationData).durationMs
        * (env.alternating h.animationData).colorCount)) (intToU32 (-1))) := by
    intro hc
    exact hc.1 rfl
  rw [if_neg hnot] at hx
  obtain ⟨f1, f2, -, f4⟩ := ExecuteColorSetting_frame (beginRun h tick (-1)).1
    (env.colorAt (env.ptrs (env.alternating h.animationData).colors
      (sub32 tick (beginRun h tick (-1)).1.startTime %
        u32 ((env.alternating h.animationData).durationMs
          * (env.alternating h.animationData).colorCount)
        / (env.alternating h.animationData).durationMs)))
  have key := (infinite_tail h (beginRun h tick (-1)).1 (beginRun h tick (-1)).2 _ tick
    false False (b1.trans hrun) b2 b3 hb b9 f1 f2 f4).1
  simp only [if_false] at key
  simp only [ite_self, ← apply_ite some, Option.some.injEq] at hx
  rw [← hx]
  exact key


theorem NoSuccessCallback_hook {pre : List Event} (hpre : NoSuccessCallback pre) :
    NoSuccessCallback (pre ++ [Event.controllerStart]) ∧
    NoSuccessCallback (pre ++ [Event.controllerStop]) := by
  constructor <;> refine NoSuccessCallback_append hpre ?_ <;> intro t hm <;> simp at hm

theorem blink_infinite (env : Env) (h : LED_Handle_t) (tick : Nat)
    (hrun : h.isRunning = true) (hrep : (env.blink h.animationData).repeatTimes = -1)
    (hs : h.startTime = 0 ∨ h.repeatTimes = -1) :
    InfiniteStep h (LED_AnimationBlinkExecute env h tick) := by
  obtain ⟨c1, c2, c3, c4, -, -, -, c8, -, c10⟩ :=
    beginColorRun_frame env h tick (-1) (env.blink h.animationData).color
  have hb : (beginColorRun env h tick (-1) (env.blink h.animationData).color).handle.repeatTimes
      = -1 := by
    rw [c2]; split_ifs with h0
    · rfl
    · exact hs.resolve_left h0
  have hev := NoSuccessCallback_of_writes c10
  unfold LED_AnimationBlinkExecute
  by_cases h1 : h.animationData = 0
  · rw [if_pos h1]
    exact ⟨hrun, rfl, Or.inl rfl, hs, NoSuccessCallback_nil⟩
  rw [if_neg h1, if_neg (by simp [hrun])]
  simp only [hrep]
  rw [HandleRepeatLogic_infinite _ _ (show ({ (beginColorRun env h tick (-1)
    (env.blink h.animationData).color).handle with startTime := tick } : LED_Handle_t).repeatTimes
      = -1 from hb)]
  split_ifs
  · exact ⟨c3.trans hrun, c4, c8, Or.inr hb, hev⟩
  · exact ⟨c3.trans hrun, c4, c8, Or.inr hb, by simpa using hev⟩
  · exact ⟨c3.trans hrun, c4, c8, Or.inr hb, (NoSuccessCallback_hook hev).2⟩
  · exact ⟨c3.trans hrun, c4, c8, Or.inr hb, (NoSuccessCallback_hook hev).1⟩

theorem flash_infinite (env : Env) (h : LED_Handle_t) (tick : Nat)
    (hrun : h.isRunning = true) (hrep : (env.flash h.animationData).repeatTimes = -1)
    (hs : h.startTime = 0 ∨ h.repeatTimes = -1) :
    InfiniteStep h (LED_AnimationFlashExecute env h tick) := by
  obtain ⟨c1, c2, c3, c4, -, -, -, c8, -, c10⟩ :=
    beginColorRun_frame env h tick (-1) (env.flash h.animationData).color
  have hb : (beginColorRun env h tick (-1) (env.flash h.animationData).color).handle.repeatTimes
      = -1 := by
    rw [c2]; split_ifs with h0
    · rfl
    · exact hs.resolve_left h0
  have hev := NoSuccessCallback_of_writes c10
  unfold LED_AnimationFlashExecute
  by_cases h1 : h.animationData = 0
  · rw [if_pos h1]
    exact ⟨hrun, rfl, Or.inl rfl, hs, NoSuccessCallback_nil⟩
  rw [if_neg h1, if_neg (by simp [hrun])]
  simp only [hrep]
  rw [HandleRepeatLogic_infinite _ _ (show ({ (beginColorRun env h tick (-1)
    (env.flash h.animationData).color).handle with startTime := tick } : LED_Handle_t).repeatTimes
      = -1 from hb)]
  split_ifs <;>
    first
    | exact ⟨c3.trans hrun, c4, c8, Or.inr hb, hev⟩
    | exact ⟨c3.trans hrun, c4, c8, Or.inr hb, by simpa using hev⟩
    | exact ⟨c3.trans hrun, c4, c8, Or.inr hb, by simpa using (NoSuccessCallback_hook hev).2⟩
    | exact ⟨c3.trans hrun, c4, c8, Or.inr hb, by simpa using (NoSuccessCallback_hook hev).1⟩

/-- One Update of an infinitely repeating run: the handle stays running on
the same config, and no completion is reported. -/
theorem infinite_update_step (env : Env) (h : LED_Handle_t) (tick : Nat) (r : Result)
    (hrun : h.isRunning = true)
    (hrep : configRepeatTimes env h.animationType h.animationData = some (-1))
    (hs : h.startTime = 0 ∨ h.repeatTimes = -1)
    (hx : LED_Animation_Update env h tick = some r) : InfiniteStep h r := by
  unfold LED_Animation_Update at hx
  by_cases h1 : h.lastTick = tick
  · rw [if_pos h1] at hx
    cases hx
    exact ⟨hrun, rfl, Or.inl rfl, hs, NoSuccessCallback_nil⟩
  rw [if_neg h1] at hx
  by_cases h2 : IS_VALID_LED_ANIMATION_TYPE h.animationType = false
  · rw [if_pos h2] at hx
    cases hx
    exact ⟨hrun, rfl, Or.inl rfl, hs, NoSuccessCallback_nil⟩
  rw [if_neg h2] at hx
  cases hd : dispatch env h tick with
  | none => rw [hd] at hx; cases hx
  | some r1 =>
    rw [hd] at hx
    cases hx
    have key : InfiniteStep h r1 := by
      unfold dispatch at hd
      cases ht : h.animationType <;> rw [ht] at hd hrep <;>
        simp only [configRepeatTimes, Option.some.injEq] at hrep <;>
        first
        | cases hrep
        | (cases hd; exact blink_infinite env h tick hrun hrep hs)
        | (cases hd; exact flash_infinite env h tick hrun hrep hs)
        | exact breath_infinite env h tick r1 hrun hrep hs hd
        | exact fadeIn_infinite env h tick r1 hrun hrep hs hd
        | exact fadeOut_infinite env h tick r1 hrun hrep hs hd
        | exact pulse_infinite env h tick r1 hrun hrep hs hd
        | exact alternating_infinite env h tick r1 hrun hrep hs hd
        | exact colorCycle_infinite env h tick r1 hrun hrep hs hd
    exact key


/-- A handle whose tag an error has reset to NONE is left as it is by
Update, apart from the tick it records. -/
theorem none_update_step (env : Env) (h : LED_Handle_t) (tick : Nat)
    (ht : h.animationType = LED_ANIMATION_NONE) :
    ∃ h1, LED_Animation_Update env h tick = some ⟨h1, [], LED_SUCCESS⟩ ∧
      h1.animationType = LED_ANIMATION_NONE ∧ h1.isRunning = h.isRunning := by
  by_cases hl : h.lastTick = tick
  · exact ⟨h, by simp [LED_Animation_Update, hl], ht, rfl⟩
  · exact ⟨{ h with lastTick := tick },
      by simp [LED_Animation_Update, hl, ht, IS_VALID_LED_ANIMATION_TYPE, dispatch,
        LED_AnimationNoneExecute], ht, rfl⟩

theorem infinite_run (env : Env) (ticks : List Nat) :
    ∀ (h : LED_Handle_t) (res : LED_Handle_t × List Event), h.isRunning = true →
      (h.animationType = LED_ANIMATION_NONE ∨
        (configRepeatTimes env h.animationType h.animationData = some (-1) ∧
          (h.startTime = 0 ∨ h.repeatTimes = -1))) →
      updateAll env h ticks = some res →
      res.1.isRunning = true ∧ NoSuccessCallback res.2 := by
  induction ticks with
  | nil =>
    intro h res hrun _ hx
    cases hx
    exact ⟨hrun, NoSuccessCallback_nil⟩
  | cons t ts ih =>
    intro h res hrun hinv hx
    unfold updateAll at hx
    cases hu : LED_Animation_Update env h t with
    | none => rw [hu] at hx; cases hx
    | some r =>
      rw [hu] at hx
      simp only [] at hx
      cases hrest : updateAll env r.handle ts with
      | none => rw [hrest] at hx; cases hx
      | some res1 =>
        rw [hrest] at hx
        cases hx
        have hstep : r.handle.isRunning = true ∧ NoSuccessCallback r.events ∧
            (r.handle.animationType = LED_ANIMATION_NONE ∨
              (configRepeatTimes env r.handle.animationType r.handle.animationData
                  = some (-1) ∧
                (r.handle.startTime = 0 ∨ r.handle.repeatTimes = -1))) := by
          rcases hinv with hnone | ⟨hrep, hs⟩
          · obtain ⟨h1, e1, e2, e3⟩ := none_update_step env h t hnone
            rw [hu] at e1
            cases e1
            exact ⟨e3.trans hrun, NoSuccessCallback_nil, Or.inl e2⟩
          · obtain ⟨s1, s2, s3, s4, s5⟩ := infinite_update_step env h t r hrun hrep hs hu
            refine ⟨s1, s5, ?_⟩
            rcases s3 with s3 | s3
            · exact Or.inr ⟨by rw [s3, s2]; exact hrep, s4⟩
            · exact Or.inl s3
        obtain ⟨g1, g2⟩ := ih r.handle res1 hstep.1 hstep.2.2 hrest
        exact ⟨g1, NoSuccessCallback_append hstep.2.1 g2⟩

/-- C7: for each of the eight archetypes with a repeat count, configured
with repeat count -1, after Start and whatever the sequence of Update ticks,
the completion callback is never invoked with the success status and the
running flag is still set. -/
theorem infinite_repeat_never_completes (env : Env) (this : LED_Handle_t) (ticks : List Nat)
    (res : LED_Handle_t × List Event)
    (hrep : configRepeatTimes env this.animationType this.animationData = some (-1))
    (hx : updateAll env (LED_Animation_Start this).handle ticks = some res) :
    res.1.isRunning = true ∧ NoSuccessCallback res.2 :=
  infinite_run env ticks (LED_Animation_Start this).handle res rfl
    (Or.inr ⟨hrep, Or.inl rfl⟩) hx

theorem infinite_repeat_never_completes_witness :
    ∃ res,
      configRepeatTimes demoEnv LED_ANIMATION_BREATH 8 = some (-1) ∧
      updateAll demoEnv
        (LED_Animation_Start
          { demoHandle with animationType := LED_ANIMATION_BREATH, animationData := 8 }).handle
        [1, 2, 601, 602] = some res ∧
      res.2.length = 13 ∧
      res.1.isRunning = true ∧ NoSuccessCallback res.2 :=
  ⟨_, rfl, rfl, by decide,
    infinite_repeat_never_completes demoEnv
      { demoHandle with animationType := LED_ANIMATION_BREATH, animationData := 8 }
      [1, 2, 601, 602] _ rfl rfl⟩


/-! ## Finite repeat of Blink -/

theorem SetColorGeneric_loop_ok (maxDuty : Nat) (chans : Nat → Bool) (cv : Nat → Nat)
    (n : Nat) : ∀ i, (∀ j, i ≤ j → j < i + n → cv j ≤ 255 ∧ chans j = true) →
      (SetColorGeneric_loop maxDuty chans cv i n).2 = LED_SUCCESS := by
  induction n with
  | zero => intro i _; rfl
  | succ n ih =>
    intro i h
    obtain ⟨h1, h2⟩ := h i (le_refl i) (by omega)
    unfold SetColorGeneric_loop
    rw [if_neg (by unfold LED_MAX_BRIGHTNESS; omega), if_neg (by simp [h2])]
    exact ih (i + 1) (fun j hj1 hj2 => h j (by omega) (by omega))

theorem CalculateColorCount_le (t : LED_Type_t) : CalculateColorCount t ≤ MAX_COLOR_CHANNELS := by
  cases t <;> decide

theorem ExecuteColorSetting_ok (env : Env) (h : LED_Handle_t) (c : Nat) (chans : Nat → Bool)
    (hc : c ≠ 0) (hpwm : h.controller.PwmConfig = some chans)
    (hch : ∀ i, i < CalculateColorCount h.controller.LedType → chans i = true) :
    (ExecuteColorSetting h (env.colorAt c)).status = LED_SUCCESS := by
  have hle := CalculateColorCount_le h.controller.LedType
  have hloop := SetColorGeneric_loop_ok h.controller.MaxDutyCycle chans
    (fun i => u8 (env.bytes c i)) (CalculateColorCount h.controller.LedType) 0
    (fun j _ hj => ⟨Nat.le_of_lt_succ (Nat.mod_lt _ (by decide)), hch j (by omega)⟩)
  simp only [ExecuteColorSetting, Env.colorAt, hc, if_false, SetColorGeneric, hpwm]
  rw [if_neg (by omega)]
  unfold abortOnError
  simp only [hloop, ne_eq, not_true_eq_false, if_false]

theorem filter_isCallback_of_writes {evs : List Event}
    (h : ∀ ev ∈ evs, ∃ c d, ev = Event.setDutyCycle c d) :
    evs.filter Event.isCallback = [] := by
  rw [List.filter_eq_nil_iff]
  intro ev hev
  obtain ⟨c, d, hcd⟩ := h ev hev
  rw [hcd]
  simp [Event.isCallback]

theorem updateAll_append (env : Env) (l1 l2 : List Nat) :
    ∀ (h h1 h2 : LED_Handle_t) (e1 e2 : List Event),
      updateAll env h l1 = some (h1, e1) → updateAll env h1 l2 = some (h2, e2) →
      updateAll env h (l1 ++ l2) = some (h2, e1 ++ e2) := by
  induction l1 with
  | nil =>
    intro h h1 h2 e1 e2 hx hy
    cases hx
    simpa using hy
  | cons t ts ih =>
    intro h h1 h2 e1 e2 hx hy
    unfold updateAll at hx
    cases hu : LED_Animation_Update env h t with
    | none => rw [hu] at hx; cases hx
    | some r =>
      rw [hu] at hx
      simp only [] at hx
      cases hrest : updateAll env r.handle ts with
      | none => rw [hrest] at hx; cases hx
      | some res1 =>
        obtain ⟨h3, e3⟩ := res1
        rw [hrest] at hx
        cases hx
        have := ih r.handle h1 h2 e3 e2 hrest hy
        simp [updateAll, hu, this]

/-- A handle that is not running is left alone by Blink, whatever the ticks. -/
theorem stopped_blink_run (env : Env) (ticks : List Nat) :
    ∀ h : LED_Handle_t, h.animationType = LED_ANIMATION_BLINK → h.isRunning = false →
      ∃ h1, updateAll env h ticks = some (h1, []) ∧ h1.isRunning = false := by
  induction ticks with
  | nil => intro h _ hr; exact ⟨h, rfl, hr⟩
  | cons t ts ih =>
    intro h ht hr
    have hu : ∃ h1 s, LED_Animation_Update env h t = some ⟨h1, [], s⟩ ∧
        h1.animationType = LED_ANIMATION_BLINK ∧ h1.isRunning = false := by
      by_cases hl : h.lastTick = t
      · exact ⟨h, LED_SUCCESS, by simp [LED_Animation_Update, hl], ht, hr⟩
      · by_cases hd : h.animationData = 0
        · exact ⟨{ h with lastTick := t }, LED_ERROR_NULL_POINTER,
            by simp [LED_Animation_Update, hl, ht, IS_VALID_LED_ANIMATION_TYPE, dispatch,
              LED_AnimationBlinkExecute, hd], ht, hr⟩
        · exact ⟨{ h with lastTick := t }, LED_SUCCESS,
            by simp [LED_Animation_Update, hl, ht, IS_VALID_LED_ANIMATION_TYPE, dispatch,
              LED_AnimationBlinkExecute, hd, hr], ht, hr⟩
    obtain ⟨h1, s, hu1, ht1, hr1⟩ := hu
    obtain ⟨h2, hu2, hr2⟩ := ih h1 ht1 hr1
    exact ⟨h2, by simp [updateAll, hu1, hu2], hr2⟩


/-- Update on a running Blink past its first tick, at a tick not yet
processed: the three branches of the executor. -/
theorem blink_started_update (env : Env) (h : LED_Handle_t) (tick : Nat)
    (ht : h.animationType = LED_ANIMATION_BLINK) (hd : h.animationData ≠ 0)
    (hr : h.isRunning = true) (hs : h.startTime ≠ 0) (hl : h.lastTick ≠ tick) :
    LED_Animation_Update env h tick =
      some (if sub32 tick h.startTime ≥ (env.blink h.animationData).periodMs then
          ⟨{ (HandleRepeatLogic { h with startTime := tick }
                (env.blink h.animationData).repeatTimes false).handle with lastTick := tick },
            (HandleRepeatLogic { h with startTime := tick }
                (env.blink h.animationData).repeatTimes false).events, LED_SUCCESS⟩
        else if sub32 tick h.startTime ≥ (env.blink h.animationData).periodMs / 2 then
          ⟨{ h with lastTick := tick }, [Event.controllerStop], LED_SUCCESS⟩
        else ⟨{ h with lastTick := tick }, [Event.controllerStart], LED_SUCCESS⟩) := by
  have hv : ¬ IS_VALID_LED_ANIMATION_TYPE h.animationType = false := by
    rw [ht]; decide
  have hdisp : dispatch env h tick = some (LED_AnimationBlinkExecute env h tick) := by
    unfold dispatch; rw [ht]
  have hb : beginColorRun env h tick (env.blink h.animationData).repeatTimes
      (env.blink h.animationData).color = ⟨h, [], LED_SUCCESS⟩ := by
    unfold beginColorRun; rw [if_neg hs]
  have hexec : LED_AnimationBlinkExecute env h tick =
      (if sub32 tick h.startTime ≥ (env.blink h.animationData).periodMs then
          ⟨(HandleRepeatLogic { h with startTime := tick }
                (env.blink h.animationData).repeatTimes false).handle,
            (HandleRepeatLogic { h with startTime := tick }
                (env.blink h.animationData).repeatTimes false).events, LED_SUCCESS⟩
        else if sub32 tick h.startTime ≥ (env.blink h.animationData).periodMs / 2 then
          ⟨h, [Event.controllerStop], LED_SUCCESS⟩
        else ⟨h, [Event.controllerStart], LED_SUCCESS⟩) := by
    unfold LED_AnimationBlinkExecute
    rw [if_neg hd, if_neg (by simp [hr])]
    simp only [hb]
    rw [if_neg (by simp)]
    split_ifs <;> simp
  unfold LED_Animation_Update
  rw [if_neg hl, if_neg hv, hdisp, hexec]
  split_ifs <;> rfl

/-- One tick in the middle of a finite Blink run. -/
theorem blink_mid_tick (env : Env) (h : LED_Handle_t) (p s last tick : Nat) (R : Int)
    (hinv : BlinkRun p s R last h) (hp : p ≠ 0) (hs1 : 1 ≤ s) (hst : s ≤ tick)
    (hlt : last < tick) (htick : tick < 4294967296)
    (hfin : (env.blink p).repeatTimes ≠ -1) :
    (tick - s < (env.blink p).periodMs →
      ∃ h1 evs, LED_Animation_Update env h tick = some ⟨h1, evs, LED_SUCCESS⟩ ∧
        BlinkRun p s R tick h1 ∧ evs.filter Event.isCallback = []) ∧
    ((env.blink p).periodMs ≤ tick - s → 2 ≤ R → R ≤ 127 →
      ∃ h1, LED_Animation_Update env h tick = some ⟨h1, [], LED_SUCCESS⟩ ∧
        BlinkRun p tick (R - 1) tick h1) ∧
    ((env.blink p).periodMs ≤ tick - s → R = 1 →
      ∃ h1, LED_Animation_Update env h tick
          = some ⟨h1, [Event.callback LED_ANIMATION_BLINK LED_SUCCESS], LED_SUCCESS⟩ ∧
        h1.animationType = LED_ANIMATION_BLINK ∧ h1.isRunning = false) := by
  obtain ⟨i1, i2, i3, i4, i5, i6, i7⟩ := hinv
  subst i2 i4 i5 i6
  have hsub : sub32 tick h.startTime = tick - h.startTime :=
    sub32_of_le tick h.startTime hst htick
  have hu := blink_started_update env h tick i1 hp i3 (by omega) (by omega)
  rw [hsub] at hu
  refine ⟨?_, ?_, ?_⟩
  · intro he
    rw [if_neg (by omega)] at hu
    by_cases h2 : tick - h.startTime ≥ (env.blink h.animationData).periodMs / 2
    · rw [if_pos h2] at hu
      exact ⟨_, _, hu, ⟨i1, rfl, i3, rfl, rfl, rfl, i7⟩, by simp [Event.isCallback]⟩
    · rw [if_neg h2] at hu
      exact ⟨_, _, hu, ⟨i1, rfl, i3, rfl, rfl, rfl, i7⟩, by simp [Event.isCallback]⟩
  · intro he hR2 hR127
    rw [if_pos he] at hu
    have hwrap : toInt8 (h.repeatTimes - 1) = h.repeatTimes - 1 := by unfold toInt8; omega
    have hrl : HandleRepeatLogic { h with startTime := tick }
        (env.blink h.animationData).repeatTimes false
        = ⟨{ h with startTime := tick, repeatTimes := h.repeatTimes - 1 }, [], LED_SUCCESS⟩ := by
      unfold HandleRepeatLogic
      simp only [hfin, ne_eq, not_false_eq_true, if_true, hwrap]
      rw [if_neg (by omega)]
    rw [hrl] at hu
    exact ⟨_, hu, ⟨i1, rfl, i3, rfl, rfl, rfl, i7⟩⟩
  · intro he hR1
    rw [if_pos he] at hu
    have hrl : HandleRepeatLogic { h with startTime := tick }
        (env.blink h.animationData).repeatTimes false
        = ⟨{ h with startTime := tick, repeatTimes := 0, isRunning := false },
            [Event.callback LED_ANIMATION_BLINK LED_SUCCESS], LED_ANIMATION_COMPLETED⟩ := by
      unfold HandleRepeatLogic
      simp [hfin, hR1, toInt8, i7, i1]
    rw [hrl] at hu
    exact ⟨_, hu, i1, rfl⟩

/-- The first tick of a Blink run: the color is applied, the cycle starts at
this tick and the configured repeat count is cached. -/
theorem blink_first_tick (env : Env) (this : LED_Handle_t) (p t0 : Nat) (chans : Nat → Bool)
    (hp : p ≠ 0) (hP : 1 ≤ (env.blink p).periodMs) (ht0 : t0 < 4294967296)
    (hlast : this.lastTick ≠ t0) (hcb : this.callback = true)
    (hcolor : (env.blink p).color ≠ 0) (hpwm : this.controller.PwmConfig = some chans)
    (hch : ∀ i, i < CalculateColorCount this.controller.LedType → chans i = true) :
    ∃ h1 evs, LED_Animation_Update env
        (LED_Animation_Start (LED_Animation_SetBlink env this p).handle).handle t0
        = some ⟨h1, evs, LED_SUCCESS⟩ ∧
      BlinkRun p t0 (env.blink p).repeatTimes t0 h1 ∧ evs.filter Event.isCallback = [] := by
  have hstart : (LED_Animation_Start (LED_Animation_SetBlink env this p).handle).handle
      = { this with animationType := LED_ANIMATION_BLINK, animationData := p,
                    isRunning := true, startTime := 0,
                    repeatTimes := (env.blink p).repeatTimes } := by
    simp [LED_Animation_Start, LED_Animation_SetBlink, hp]
  rw [hstart]
  obtain ⟨res, hres⟩ : ∃ res, res = ExecuteColorSetting
      { this with animationType := LED_ANIMATION_BLINK, animationData := p, isRunning := true,
                  startTime := t0, repeatTimes := (env.blink p).repeatTimes }
      (env.colorAt (env.blink p).color) := ⟨_, rfl⟩
  have hok : res.status = LED_SUCCESS := by
    rw [hres]
    exact ExecuteColorSetting_ok env _ (env.blink p).color chans hcolor hpwm hch
  obtain ⟨f1, -, f3, -⟩ := ExecuteColorSetting_frame
    { this with animationType := LED_ANIMATION_BLINK, animationData := p, isRunning := true,
                startTime := t0, repeatTimes := (env.blink p).repeatTimes }
    (env.colorAt (env.blink p).color)
  rw [← hres] at f1 f3
  obtain ⟨g1, g2⟩ := f3 hok
  obtain ⟨s1, s2, s3, s4, s5, s6, s7⟩ := f1
  have s4a : res.handle.startTime = t0 := s4
  have hsub : sub32 t0 res.handle.startTime = 0 := by
    rw [s4a, sub32_of_le t0 t0 (le_refl _) ht0]; omega
  have hfw := filter_isCallback_of_writes g2
  have hexec : LED_AnimationBlinkExecute env
      { this with animationType := LED_ANIMATION_BLINK, animationData := p, isRunning := true,
                  startTime := 0, repeatTimes := (env.blink p).repeatTimes } t0
      = (if 0 ≥ (env.blink p).periodMs / 2 then
          ⟨res.handle, res.events ++ [Event.controllerStop], LED_SUCCESS⟩
        else ⟨res.handle, res.events ++ [Event.controllerStart], LED_SUCCESS⟩) := by
    unfold LED_AnimationBlinkExecute beginColorRun
    simp only [if_neg hp, if_true, ← hres, hok, hsub]
    rw [if_neg (by simp), if_neg (by simp), if_neg (by omega)]
  have hupd : LED_Animation_Update env
      { this with animationType := LED_ANIMATION_BLINK, animationData := p, isRunning := true,
                  startTime := 0, repeatTimes := (env.blink p).repeatTimes } t0
      = some (if 0 ≥ (env.blink p).periodMs / 2 then
          ⟨{ res.handle with lastTick := t0 }, res.events ++ [Event.controllerStop],
            LED_SUCCESS⟩
        else ⟨{ res.handle with lastTick := t0 }, res.events ++ [Event.controllerStart],
            LED_SUCCESS⟩) := by
    unfold LED_Animation_Update dispatch
    simp only [if_neg hlast, IS_VALID_LED_ANIMATION_TYPE, hexec]
    rw [if_neg (by simp)]
    split_ifs <;> rfl
  rw [hupd]
  have hinv : BlinkRun p t0 (env.blink p).repeatTimes t0 { res.handle with lastTick := t0 } :=
    ⟨g1, s3, s2, s4, s7, rfl, s6.trans hcb⟩
  by_cases h2 : 0 ≥ (env.blink p).periodMs / 2
  · rw [if_pos h2]
    exact ⟨_, _, rfl, hinv, by simp [List.filter_append, hfw, Event.isCallback]⟩
  · rw [if_neg h2]
    exact ⟨_, _, rfl, hinv, by simp [List.filter_append, hfw, Event.isCallback]⟩


theorem updateAll_single (env : Env) (h h1 : LED_Handle_t) (t : Nat) (evs : List Event)
    (s : LED_Status_t) (hu : LED_Animation_Update env h t = some ⟨h1, evs, s⟩) :
    updateAll env h [t] = some (h1, evs) := by
  simp [updateAll, hu]

/-- The state of a finite Blink run after the ticks t0 .. t0 + n, before the
last cycle ends: k full cycles done, j ticks into the current one. -/
theorem blink_prefix (env : Env) (this : LED_Handle_t) (p t0 N : Nat) (chans : Nat → Bool)
    (hp : p ≠ 0) (hP : 1 ≤ (env.blink p).periodMs)
    (hN : (env.blink p).repeatTimes = (N : Int)) (hN127 : N ≤ 127)
    (ht0 : 1 ≤ t0) (hwrap : t0 + N * (env.blink p).periodMs < 4294967296)
    (hlast : this.lastTick ≠ t0) (hcb : this.callback = true)
    (hcolor : (env.blink p).color ≠ 0) (hpwm : this.controller.PwmConfig = some chans)
    (hch : ∀ i, i < CalculateColorCount this.controller.LedType → chans i = true) (n : Nat) :
    n < N * (env.blink p).periodMs →
    ∃ k j h evs, n = k * (env.blink p).periodMs + j ∧ j < (env.blink p).periodMs ∧
      updateAll env (LED_Animation_Start (LED_Animation_SetBlink env this p).handle).handle
        (List.range' t0 (n + 1)) = some (h, evs) ∧
      BlinkRun p (t0 + k * (env.blink p).periodMs) ((N : Int) - (k : Int)) (t0 + n) h ∧
      evs.filter Event.isCallback = [] := by
  induction n with
  | zero =>
    intro _
    obtain ⟨h1, evs, hu, hinv, hev⟩ :=
      blink_first_tick env this p t0 chans hp hP (by omega) hlast hcb hcolor hpwm hch
    refine ⟨0, 0, h1, evs, by simp, by omega, ?_, ?_, hev⟩
    · exact updateAll_single env _ h1 t0 evs _ hu
    · rw [hN] at hinv
      simpa using hinv
  | succ n ih =>
    intro hn
    obtain ⟨k, j, h, evs, hnk, hj, hrun, hinv, hev⟩ := ih (by omega)
    have hfin : (env.blink p).repeatTimes ≠ -1 := by rw [hN]; omega
    have hsucc : (k + 1) * (env.blink p).periodMs
        = k * (env.blink p).periodMs + (env.blink p).periodMs := Nat.succ_mul _ _
    have hkN : k < N := by
      by_contra hc
      have : N * (env.blink p).periodMs ≤ k * (env.blink p).periodMs :=
        Nat.mul_le_mul_right _ (by omega)
      omega
    obtain ⟨m1, m2, -⟩ := blink_mid_tick env h p (t0 + k * (env.blink p).periodMs) (t0 + n)
      (t0 + (n + 1)) ((N : Int) - (k : Int)) hinv hp (by omega) (by omega) (by omega)
      (by omega) hfin
    rw [List.range'_concat, Nat.one_mul]
    by_cases hcase : j + 1 < (env.blink p).periodMs
    · obtain ⟨h1, evs1, hu, hinv1, hev1⟩ := m1 (by omega)
      refine ⟨k, j + 1, h1, evs ++ evs1, by omega, hcase, ?_, hinv1, ?_⟩
      · exact updateAll_append env _ _ _ _ _ _ _ hrun (updateAll_single env _ _ _ _ _ hu)
      · rw [List.filter_append, hev, hev1]; rfl
    · have hk1 : k + 1 < N := by
        by_contra hc
        have : N * (env.blink p).periodMs ≤ (k + 1) * (env.blink p).periodMs :=
          Nat.mul_le_mul_right _ (by omega)
        omega
      obtain ⟨h1, hu, hinv1⟩ := m2 (by omega) (by omega) (by omega)
      refine ⟨k + 1, 0, h1, evs ++ [], by omega, by omega, ?_, ?_, ?_⟩
      · exact updateAll_append env _ _ _ _ _ _ _ hrun (updateAll_single env _ _ _ _ _ hu)
      · have e1 : t0 + (k + 1) * (env.blink p).periodMs = t0 + (n + 1) := by omega
        have e2 : (N : Int) - ((k + 1 : Nat) : Int) = (N : Int) - (k : Int) - 1 := by
          push_cast; ring
        rw [e1, e2]
        exact hinv1
      · rw [List.filter_append, hev]; rfl

/-- C6: a Blink with period P >= 1 and repeat count N in 1..127, after
SetBlink and Start, updated at the consecutive ticks t0, t0 + 1, ... (t0 >= 1,
no wraparound, t0 not the tick processed last, a callback registered and a
color that can be applied): up to tick t0 + N*P - 1 no callback is invoked
and the handle is running; with tick t0 + N*P the callback has been invoked
exactly once, with the Blink tag and the success status, and the running
flag is false then and after any later ticks. -/
theorem blink_finite_repeat (env : Env) (this : LED_Handle_t) (p t0 N : Nat)
    (chans : Nat → Bool)
    (hp : p ≠ 0) (hP : 1 ≤ (env.blink p).periodMs)
    (hN : (env.blink p).repeatTimes = (N : Int)) (hN1 : 1 ≤ N) (hN127 : N ≤ 127)
    (ht0 : 1 ≤ t0) (hwrap : t0 + N * (env.blink p).periodMs < 4294967296)
    (hlast : this.lastTick ≠ t0) (hcb : this.callback = true)
    (hcolor : (env.blink p).color ≠ 0) (hpwm : this.controller.PwmConfig = some chans)
    (hch : ∀ i, i < CalculateColorCount this.controller.LedType → chans i = true) :
    (∀ n, n < N * (env.blink p).periodMs →
      ∃ h evs,
        updateAll env (LED_Animation_Start (LED_Animation_SetBlink env this p).handle).handle
          (List.range' t0 (n + 1)) = some (h, evs) ∧
        h.isRunning = true ∧ evs.filter Event.isCallback = []) ∧
    (∀ later : List Nat, ∃ h evs,
        updateAll env (LED_Animation_Start (LED_Animation_SetBlink env this p).handle).handle
          (List.range' t0 (N * (env.blink p).periodMs + 1) ++ later) = some (h, evs) ∧
        h.isRunning = false ∧
        evs.filter Event.isCallback = [Event.callback LED_ANIMATION_BLINK LED_SUCCESS]) := by
  constructor
  · intro n hn
    obtain ⟨k, j, h, evs, -, -, hrun, hinv, hev⟩ :=
      blink_prefix env this p t0 N chans hp hP hN hN127 ht0 hwrap hlast hcb hcolor hpwm hch n hn
    exact ⟨h, evs, hrun, hinv.2.2.1, hev⟩
  · intro later
    have hNP : 1 ≤ N * (env.blink p).periodMs := Nat.mul_pos (by omega) (by omega)
    obtain ⟨k, j, h, evs, hnk, hj, hrun, hinv, hev⟩ :=
      blink_prefix env this p t0 N chans hp hP hN hN127 ht0 hwrap hlast hcb hcolor hpwm hch
        (N * (env.blink p).periodMs - 1) (by omega)
    have hfin : (env.blink p).repeatTimes ≠ -1 := by rw [hN]; omega
    have hsucc : (k + 1) * (env.blink p).periodMs
        = k * (env.blink p).periodMs + (env.blink p).periodMs := Nat.succ_mul _ _
    have hkN : k < N := by
      by_contra hc
      have : N * (env.blink p).periodMs ≤ k * (env.blink p).periodMs :=
        Nat.mul_le_mul_right _ (by omega)
      omega
    have hle : (k + 1) * (env.blink p).periodMs ≤ N * (env.blink p).periodMs :=
      Nat.mul_le_mul_right _ (by omega)
    have hjP : j + 1 = (env.blink p).periodMs := by omega
    have hk1 : k + 1 = N := by
      have : (k + 1) * (env.blink p).periodMs = N * (env.blink p).periodMs := by omega
      exact Nat.eq_of_mul_eq_mul_right (by omega) this
    obtain ⟨-, -, m3⟩ := blink_mid_tick env h p (t0 + k * (env.blink p).periodMs)
      (t0 + (N * (env.blink p).periodMs - 1)) (t0 + N * (env.blink p).periodMs)
      ((N : Int) - (k : Int)) hinv hp (by omega) (by omega) (by omega) (by omega) hfin
    obtain ⟨h1, hu, ht1, hr1⟩ := m3 (by omega) (by omega)
    obtain ⟨h2, hu2, hr2⟩ := stopped_blink_run env later h1 ht1 hr1
    have hsplit : List.range' t0 (N * (env.blink p).periodMs + 1)
        = List.range' t0 (N * (env.blink p).periodMs - 1 + 1)
          ++ [t0 + N * (env.blink p).periodMs] := by
      rw [List.range'_concat, Nat.one_mul]
      congr 2
      omega
    have hall := updateAll_append env _ _ _ _ _ _ _
      (updateAll_append env _ _ _ _ _ _ _ hrun (updateAll_single env _ _ _ _ _ hu)) hu2
    rw [← hsplit] at hall
    refine ⟨h2, _, hall, hr2, ?_⟩
    simp [List.filter_append, hev, Event.isCallback]


theorem blink_finite_repeat_witness :
    ((8 : Nat) ≠ 0 ∧ 1 ≤ (demoEnv.blink 8).periodMs ∧
      (demoEnv.blink 8).repeatTimes = ((2 : Nat) : Int) ∧
      1 + 2 * (demoEnv.blink 8).periodMs < 4294967296 ∧ demoHandle.lastTick ≠ 1 ∧
      demoHandle.callback = true ∧ (demoEnv.blink 8).color ≠ 0) ∧
    ∃ h evs,
      updateAll demoEnv
        (LED_Animation_Start (LED_Animation_SetBlink demoEnv demoHandle 8).handle).handle
        (List.range' 1 (2 * (demoEnv.blink 8).periodMs + 1) ++ []) = some (h, evs) ∧
      h.isRunning = false ∧
      evs.filter Event.isCallback = [Event.callback LED_ANIMATION_BLINK LED_SUCCESS] :=
  ⟨⟨by decide, by decide, rfl, by decide, by decide, rfl, by decide⟩,
    (blink_finite_repeat demoEnv demoHandle 8 1 2 (fun _ => true) (by decide) (by decide) rfl
      (by decide) (by decide) (by decide) (by decide) (by decide) rfl (by decide) rfl
      (fun _ _ => rfl)).2 []⟩

open LED_Transition_Type_t LED_Transition_State_t LED_Transition_Event_t

/-! ## What SetXxx does with the repeat count -/

/-- SetBlink and SetFlash copy the configured repeat count into the handle;
the six other SetXxx with a repeat count leave the handle's count as it was. -/
theorem set_repeat_count (env : Env) (this : LED_Handle_t) (cfg : Nat) (hcfg : cfg ≠ 0) :
    (LED_Animation_SetBlink env this cfg).handle.repeatTimes = (env.blink cfg).repeatTimes ∧
    (LED_Animation_SetFlash env this cfg).handle.repeatTimes = (env.flash cfg).repeatTimes ∧
    (LED_Animation_SetBreath this cfg).handle.repeatTimes = this.repeatTimes ∧
    (LED_Animation_SetFadeIn this cfg).handle.repeatTimes = this.repeatTimes ∧
    (LED_Animation_SetFadeOut this cfg).handle.repeatTimes = this.repeatTimes ∧
    (LED_Animation_SetPulse this cfg).handle.repeatTimes = this.repeatTimes ∧
    (LED_Animation_SetAlternatingColors this cfg).handle.repeatTimes = this.repeatTimes ∧
    (LED_Animation_SetColorCycle this cfg).handle.repeatTimes = this.repeatTimes := by
  simp [LED_Animation_SetBlink, LED_Animation_SetFlash, LED_Animation_SetBreath,
    LED_Animation_SetFadeIn, LED_Animation_SetFadeOut, LED_Animation_SetPulse,
    LED_Animation_SetAlternatingColors, LED_Animation_SetColorCycle, hcfg]

/-- C11, the code at SetBreath: on a handle whose repeat count is 0 and a
Breath config whose repeat count is 3, SetBreath returns success and the
handle's repeat count is still 0, not 3. -/
theorem set_breath_stale_repeat :
    demoHandle.repeatTimes = 0 ∧ (finiteEnv.breath 8).repeatTimes = 3 ∧
    (LED_Animation_SetBreath demoHandle 8).status = LED_SUCCESS ∧
    (LED_Animation_SetBreath demoHandle 8).handle.repeatTimes = 0 ∧
    (LED_Animation_SetBreath demoHandle 8).handle.repeatTimes
      ≠ (finiteEnv.breath 8).repeatTimes := by
  refine ⟨rfl, rfl, rfl, rfl, ?_⟩
  decide

/-! ## Initialization -/

/-- C13: Init returns the null-pointer error for a NULL handle, a NULL
controller, or a controller whose Start, Stop or PwmConfig is NULL; with
those present it returns the invalid-LED-type error when the topology tag is
none of RGB, RGY, RGBW, single, dual; in each failing case the handle is
unchanged.  Otherwise it returns success with tag NONE, config NULL, not
running, start tick 0 and the given controller and callback bound. -/
theorem init_validation (h : LED_Handle_t) (c : LED_Controller_t) (cb : Bool) :
    LED_Animation_Init_ptr none (some c) cb = (none, LED_ERROR_NULL_POINTER) ∧
    LED_Animation_Init_ptr (some h) none cb = (some h, LED_ERROR_NULL_POINTER) ∧
    (c.Start = false ∨ c.Stop = false ∨ c.PwmConfig = none →
      LED_Animation_Init_ptr (some h) (some c) cb = (some h, LED_ERROR_NULL_POINTER)) ∧
    (c.Start = true → c.Stop = true → c.PwmConfig ≠ none →
      c.LedType ∉ [LED_TYPE_RGB, LED_TYPE_RGY, LED_TYPE_RGBW, LED_TYPE_SINGLE_COLOR,
        LED_TYPE_DUAL_COLOR] →
      LED_Animation_Init_ptr (some h) (some c) cb = (some h, LED_ERROR_INVALID_LED_TYPE)) ∧
    (c.Start = true → c.Stop = true → c.PwmConfig ≠ none →
      c.LedType ∈ [LED_TYPE_RGB, LED_TYPE_RGY, LED_TYPE_RGBW, LED_TYPE_SINGLE_COLOR,
        LED_TYPE_DUAL_COLOR] →
      ∃ h1, LED_Animation_Init_ptr (some h) (some c) cb = (some h1, LED_SUCCESS) ∧
        h1.animationType = LED_ANIMATION_NONE ∧ h1.animationData = 0 ∧
        h1.isRunning = false ∧ h1.startTime = 0 ∧ h1.controller = c ∧ h1.callback = cb) := by
  refine ⟨rfl, rfl, ?_, ?_, ?_⟩
  · intro hnull
    have hv : LED_AnimationValidateController (some c) = LED_ERROR_NULL_POINTER := by
      unfold LED_AnimationValidateController
      rcases hnull with h1 | h1 | h1 <;> simp [h1]
    simp [LED_Animation_Init_ptr, LED_Animation_Init, hv]
  · intro h1 h2 h3 h4
    have hp : c.PwmConfig.isNone = false := by
      cases hc : c.PwmConfig with
      | none => exact absurd hc h3
      | some f => rfl
    have hv : LED_AnimationValidateController (some c) = LED_ERROR_INVALID_LED_TYPE := by
      unfold LED_AnimationValidateController
      cases ht : c.LedType <;> simp [ht] at h4 <;> simp [h1, h2, hp, ht, IS_VALID_LED_TYPE]
    simp [LED_Animation_Init_ptr, LED_Animation_Init, hv]
  · intro h1 h2 h3 h4
    have hp : c.PwmConfig.isNone = false := by
      cases hc : c.PwmConfig with
      | none => exact absurd hc h3
      | some f => rfl
    have hv : LED_AnimationValidateController (some c) = LED_SUCCESS := by
      unfold LED_AnimationValidateController
      cases ht : c.LedType <;> simp [ht] at h4 <;> simp [h1, h2, hp, ht, IS_VALID_LED_TYPE]
    refine ⟨{ h with controller := c, animationType := LED_ANIMATION_NONE, animationData := 0,
                     isRunning := false, startTime := 0, callback := cb }, ?_, rfl, rfl, rfl,
      rfl, rfl, rfl⟩
    simp [LED_Animation_Init_ptr, LED_Animation_Init, hv]

theorem init_validation_witness :
    (demoController.Start = true ∧ demoController.Stop = true ∧
      demoController.PwmConfig ≠ none) ∧
    ∃ h1, LED_Animation_Init_ptr (some demoHandle) (some demoController) true
        = (some h1, LED_SUCCESS) ∧
      h1.animationType = LED_ANIMATION_NONE ∧ h1.animationData = 0 ∧
      h1.isRunning = false ∧ h1.startTime = 0 ∧ h1.controller = demoController ∧
      h1.callback = true :=
  ⟨⟨rfl, rfl, by simp [demoController]⟩,
    (init_validation demoHandle demoController true).2.2.2.2 rfl rfl
      (by simp [demoController]) (by simp [demoController])⟩

/-! ## ExecAnimation -/

/-- C20: with a non-NULL target config, ExecAnimation on a handle that is not
Idle returns success and leaves the transition handle, the animation handle
in it included, exactly as it was; on an Idle handle it stores the target
config and tag and arms the start event, the state staying Idle. -/
theorem exec_animation_busy_noop (this : LED_Transition_Handle_t) (animData : Nat)
    (animType : LED_Animation_Type_t) (hdata : animData ≠ 0) :
    (this.state ≠ LED_TRANSITION_STATE_IDLE →
      LED_Transition_ExecAnimation this animData animType = (this, LED_SUCCESS)) ∧
    (this.state = LED_TRANSITION_STATE_IDLE →
      LED_Transition_ExecAnimation this animData animType
        = ({ this with targetAnimData := animData, targetAnimType := animType,
                       event := LED_TRANSITION_EVT_START }, LED_SUCCESS) ∧
      (LED_Transition_ExecAnimation this animData animType).1.state
        = LED_TRANSITION_STATE_IDLE ∧
      (LED_Transition_ExecAnimation this animData animType).1.LedHandle = this.LedHandle ∧
      (LED_Transition_ExecAnimation this animData animType).1.transitionType
        = this.transitionType) := by
  unfold LED_Transition_ExecAnimation
  constructor
  · intro hs
    rw [if_neg hdata, if_neg hs]
  · intro hs
    rw [if_neg hdata, if_pos hs]
    exact ⟨rfl, hs, rfl, rfl⟩

theorem exec_animation_busy_noop_witness :
    ((8 : Nat) ≠ 0 ∧
      ({ demoTransition with state := LED_TRANSITION_STATE_ONGOING }
        : LED_Transition_Handle_t).state ≠ LED_TRANSITION_STATE_IDLE) ∧
    LED_Transition_ExecAnimation { demoTransition with state := LED_TRANSITION_STATE_ONGOING } 8
        LED_ANIMATION_BLINK
      = ({ demoTransition with state := LED_TRANSITION_STATE_ONGOING }, LED_SUCCESS) :=
  ⟨⟨by decide, by decide⟩,
    (exec_animation_busy_noop { demoTransition with state := LED_TRANSITION_STATE_ONGOING } 8
      LED_ANIMATION_BLINK (by decide)).1 (by decide)⟩


/-! ## Channel loops in closed form -/

/-- When the loop of `SetColorGeneric` ends with success, every value it read
was at most 255 and it wrote each channel once, in index order, with the
scaled brightness. -/
theorem SetColorGeneric_loop_of_success (maxDuty : Nat) (chans : Nat → Bool) (cv : Nat → Nat)
    (n : Nat) : ∀ i, (SetColorGeneric_loop maxDuty chans cv i n).2 = LED_SUCCESS →
      (SetColorGeneric_loop maxDuty chans cv i n).1
        = (List.range' i n).map
            (fun j => Event.setDutyCycle j (u16 (BRIGHTNESS_TO_DUTY_CYCLE (cv j) maxDuty))) ∧
      ∀ j, i ≤ j → j < i + n → cv j ≤ 255 ∧ chans j = true := by
  induction n with
  | zero =>
    intro i _
    exact ⟨rfl, fun j h1 h2 => by omega⟩
  | succ n ih =>
    intro i h
    unfold SetColorGeneric_loop at h ⊢
    by_cases h1 : cv i > LED_MAX_BRIGHTNESS
    · rw [if_pos h1] at h; cases h
    · rw [if_neg h1] at h ⊢
      by_cases h2 : chans i = false
      · rw [if_pos h2] at h; cases h
      · rw [if_neg h2] at h ⊢
        obtain ⟨e1, e2⟩ := ih (i + 1) h
        refine ⟨?_, ?_⟩
        · simp only [List.range'_succ, List.map_cons, e1]
        · intro j hj1 hj2
          by_cases hji : j = i
          · subst hji
            exact ⟨by unfold LED_MAX_BRIGHTNESS at h1; omega, by simpa using h2⟩
          · exact e2 j (by omega) (by omega)

/-- The loop of `SetColorGeneric` stops with the null-pointer error at the
first channel without a setter, when the values before it are in range. -/
theorem SetColorGeneric_loop_null (maxDuty : Nat) (chans : Nat → Bool) (cv : Nat → Nat)
    (k : Nat) : ∀ i n, k < n → (∀ j, i ≤ j → j ≤ i + k → cv j ≤ 255) →
      (∀ j, i ≤ j → j < i + k → chans j = true) → chans (i + k) = false →
      (SetColorGeneric_loop maxDuty chans cv i n).2 = LED_ERROR_NULL_POINTER := by
  induction k with
  | zero =>
    intro i n hn hv _ hnull
    obtain ⟨m, rfl⟩ : ∃ m, n = m + 1 := ⟨n - 1, by omega⟩
    have := hv i (le_refl _) (by omega)
    unfold SetColorGeneric_loop
    rw [if_neg (by unfold LED_MAX_BRIGHTNESS; omega), if_pos (by simpa using hnull)]
  | succ k ih =>
    intro i n hn hv hch hnull
    obtain ⟨m, rfl⟩ : ∃ m, n = m + 1 := ⟨n - 1, by omega⟩
    have := hv i (le_refl _) (by omega)
    have hci := hch i (le_refl _) (by omega)
    unfold SetColorGeneric_loop
    rw [if_neg (by unfold LED_MAX_BRIGHTNESS; omega), if_neg (by simp [hci])]
    exact ih (i + 1) m (by omega) (fun j h1 h2 => hv j (by omega) (by omega))
      (fun j h1 h2 => hch j (by omega) (by omega))
      (by rw [show i + 1 + k = i + (k + 1) by omega]; exact hnull)

/-- The loop of `SetDutyCycleGeneric` writes the channels before the first
value above the maximum and stops there with the invalid-value error. -/
theorem SetDutyCycleGeneric_loop_offender (maxDuty : Nat) (chans : Nat → Bool)
    (dv : Nat → Nat) (k : Nat) : ∀ i n, k < n →
      (∀ j, i ≤ j → j < i + k → dv j ≤ maxDuty ∧ chans j = true) → dv (i + k) > maxDuty →
      SetDutyCycleGeneric_loop maxDuty chans dv i n
        = ((List.range' i k).map (fun j => Event.setDutyCycle j (u16 (dv j))),
            LED_ERROR_INVALID_VALUE) := by
  induction k with
  | zero =>
    intro i n hn _ hoff
    obtain ⟨m, rfl⟩ : ∃ m, n = m + 1 := ⟨n - 1, by omega⟩
    unfold SetDutyCycleGeneric_loop
    rw [if_pos (by simpa using hoff)]
    rfl
  | succ k ih =>
    intro i n hn hbefore hoff
    obtain ⟨m, rfl⟩ : ∃ m, n = m + 1 := ⟨n - 1, by omega⟩
    obtain ⟨b1, b2⟩ := hbefore i (le_refl _) (by omega)
    unfold SetDutyCycleGeneric_loop
    rw [if_neg (by omega), if_neg (by simp [b2])]
    have := ih (i + 1) m (by omega) (fun j h1 h2 => hbefore j (by omega) (by omega))
      (by rw [show i + 1 + k = i + (k + 1) by omega]; exact hoff)
    simp only [this, List.range'_succ, List.map_cons]

/-! ## Rejection of an out-of-range duty value -/

/-- C12 as stated fails: on the RGB controller with maximum duty 1000, the
duty vector 100, 2000, 0 is rejected with the invalid-value error, yet
channel 0 has been written 100 before the offending channel 1 is looked at. -/
theorem duty_rejected_after_write :
    (ExecuteDutyCycleSetting { demoHandle with animationType := LED_ANIMATION_BREATH }
      (some (fun i => [100, 2000, 0].getD i 0))).status = LED_ERROR_INVALID_VALUE ∧
    (ExecuteDutyCycleSetting { demoHandle with animationType := LED_ANIMATION_BREATH }
      (some (fun i => [100, 2000, 0].getD i 0))).events
      = [Event.setDutyCycle 0 100,
          Event.callback LED_ANIMATION_BREATH LED_ERROR_INVALID_VALUE] := by
  constructor <;> decide

/-- C12, amended: when channel k is the first whose duty value exceeds the
maximum (the channels before it being in range and having a setter),
ExecuteDutyCycleSetting returns the invalid-value error, resets the tag to
NONE, has written exactly the channels 0 .. k-1 (none at all when k = 0) and
no channel from k on, and then invokes the callback, if there is one, once
with the failing status. -/
theorem duty_rejected_at_first_offender (h : LED_Handle_t) (dv : Nat → Nat)
    (chans : Nat → Bool) (k : Nat) (hpwm : h.controller.PwmConfig = some chans)
    (hk : k < CalculateColorCount h.controller.LedType)
    (hbefore : ∀ j, j < k → dv j ≤ h.controller.MaxDutyCycle ∧ chans j = true)
    (hoff : dv k > h.controller.MaxDutyCycle) :
    ExecuteDutyCycleSetting h (some dv)
      = ⟨{ h with animationType := LED_ANIMATION_NONE },
          (List.range k).map (fun j => Event.setDutyCycle j (u16 (dv j))) ++
            (if h.callback then [Event.callback h.animationType LED_ERROR_INVALID_VALUE]
             else []),
          LED_ERROR_INVALID_VALUE⟩ := by
  have hle := CalculateColorCount_le h.controller.LedType
  have hloop := SetDutyCycleGeneric_loop_offender h.controller.MaxDutyCycle chans dv k 0
    (CalculateColorCount h.controller.LedType) hk
    (fun j _ hj => hbefore j (by omega)) (by simpa using hoff)
  simp only [ExecuteDutyCycleSetting, SetDutyCycleGeneric, hpwm]
  rw [if_neg (by omega), hloop]
  simp [abortOnError, List.range_eq_range']

theorem duty_rejected_at_first_offender_witness :
    (demoHandle.controller.PwmConfig = some (fun _ => true) ∧
      1 < CalculateColorCount demoHandle.controller.LedType ∧
      [100, 2000, 0].getD 1 0 > demoHandle.controller.MaxDutyCycle) ∧
    ExecuteDutyCycleSetting demoHandle (some (fun i => [100, 2000, 0].getD i 0))
      = ⟨{ demoHandle with animationType := LED_ANIMATION_NONE },
          (List.range 1).map (fun j => Event.setDutyCycle j (u16 ([100, 2000, 0].getD j 0))) ++
            (if demoHandle.callback then
              [Event.callback demoHandle.animationType LED_ERROR_INVALID_VALUE] else []),
          LED_ERROR_INVALID_VALUE⟩ :=
  ⟨⟨rfl, by decide, by decide⟩,
    duty_rejected_at_first_offender demoHandle (fun i => [100, 2000, 0].getD i 0)
      (fun _ => true) 1 rfl (by decide)
      (fun j hj => by
        have : j = 0 := by omega
        subst this
        exact ⟨by decide, rfl⟩)
      (by decide)⟩


/-! ## Channel count and initialization -/

/-- C14 as stated fails: an RGB controller (channel count 3) with only two
populated channels passes Init. -/
theorem init_accepts_channel_mismatch :
    CalculateColorCount LED_TYPE_RGB = 3 ∧
    populatedChannels (fun i => decide (i < 2)) 3 = 2 ∧
    (LED_Animation_Init demoHandle
      (some { demoController with PwmConfig := some (fun i => decide (i < 2)) }) true).status
      = LED_SUCCESS := by
  refine ⟨rfl, by decide, by decide⟩

/-- C14, amended: Init does not look at the channels: it succeeds for every
controller with Start, Stop and PwmConfig present and a valid topology tag,
whatever the number of populated channels.  A channel without a setter
among the first CalculateColorCount channels shows only when a color is
applied: ExecuteColorSetting then returns the null-pointer error. -/
theorem init_ignores_channels (h : LED_Handle_t) (c : LED_Controller_t) (cb : Bool)
    (chans : Nat → Bool) (hs : c.Start = true) (hp : c.Stop = true)
    (hpwm : c.PwmConfig = some chans) (hvalid : IS_VALID_LED_TYPE c.LedType = true) :
    (LED_Animation_Init h (some c) cb).status = LED_SUCCESS ∧
    (LED_Animation_Init h (some c) cb).handle.controller = c ∧
    ∀ (cv : Nat → Nat) (k : Nat), k < CalculateColorCount c.LedType →
      (∀ j, j ≤ k → cv j ≤ 255) → (∀ j, j < k → chans j = true) → chans k = false →
      (ExecuteColorSetting (LED_Animation_Init h (some c) cb).handle (some cv)).status
        = LED_ERROR_NULL_POINTER := by
  have hv : LED_AnimationValidateController (some c) = LED_SUCCESS := by
    simp [LED_AnimationValidateController, hs, hp, hpwm, hvalid]
  have hinit : LED_Animation_Init h (some c) cb
      = ⟨{ h with controller := c, animationType := LED_ANIMATION_NONE, animationData := 0,
                  isRunning := false, startTime := 0, callback := cb }, [], LED_SUCCESS⟩ := by
    simp [LED_Animation_Init, hv]
  rw [hinit]
  refine ⟨rfl, rfl, ?_⟩
  intro cv k hk hval hch hnull
  have hle := CalculateColorCount_le c.LedType
  have hloop := SetColorGeneric_loop_null c.MaxDutyCycle chans cv k 0
    (CalculateColorCount c.LedType) hk (fun j _ hj => hval j (by omega))
    (fun j _ hj => hch j (by omega)) (by simpa using hnull)
  simp only [ExecuteColorSetting, SetColorGeneric, hpwm]
  rw [if_neg (by omega)]
  simp [abortOnError, hloop]

theorem init_ignores_channels_witness :
    (demoController.Start = true ∧ demoController.Stop = true ∧
      IS_VALID_LED_TYPE demoController.LedType = true) ∧
    (LED_Animation_Init demoHandle
      (some { demoController with PwmConfig := some (fun i => decide (i < 2)) }) true).status
      = LED_SUCCESS :=
  ⟨⟨rfl, rfl, rfl⟩,
    (init_ignores_channels demoHandle
      { demoController with PwmConfig := some (fun i => decide (i < 2)) } true
      (fun i => decide (i < 2)) rfl rfl rfl rfl).1⟩

/-! ## The current-color snapshot -/

/-- C18: when ExecuteColorSetting of a color c succeeds on a controller with
n channels (maximum duty within 16 bits), GetColor on the resulting handle
returns success, the count n and the values c[0..n-1], and the call wrote
each channel i < n once, in order, with c[i] * MaxDutyCycle / 255. -/
theorem snapshot_round_trip (h : LED_Handle_t) (c : Nat → Nat)
    (hmax : h.controller.MaxDutyCycle ≤ 65535)
    (hok : (ExecuteColorSetting h (some c)).status = LED_SUCCESS) :
    LED_Animation_GetColor (ExecuteColorSetting h (some c)).handle
      = ((List.range (CalculateColorCount h.controller.LedType)).map c,
          CalculateColorCount h.controller.LedType, LED_SUCCESS) ∧
    (ExecuteColorSetting h (some c)).events
      = (List.range (CalculateColorCount h.controller.LedType)).map
          (fun i => Event.setDutyCycle i (c i * h.controller.MaxDutyCycle / 255)) := by
  have hle := CalculateColorCount_le h.controller.LedType
  cases hpwm : h.controller.PwmConfig with
  | none =>
    simp [ExecuteColorSetting, SetColorGeneric, hpwm, abortOnError] at hok
  | some chans =>
    have hres : ExecuteColorSetting h (some c)
        = abortOnError
            ⟨LED_Animation_SetCurrentColor h c (CalculateColorCount h.controller.LedType),
              (SetColorGeneric_loop h.controller.MaxDutyCycle chans c 0
                (CalculateColorCount h.controller.LedType)).1,
              (SetColorGeneric_loop h.controller.MaxDutyCycle chans c 0
                (CalculateColorCount h.controller.LedType)).2⟩ := by
      simp only [ExecuteColorSetting, SetColorGeneric, hpwm]
      rw [if_neg (by omega)]
    have hst : (SetColorGeneric_loop h.controller.MaxDutyCycle chans c 0
        (CalculateColorCount h.controller.LedType)).2 = LED_SUCCESS := by
      rw [hres, (abortOnError_frame _).2.1] at hok
      exact hok
    obtain ⟨e1, e2⟩ := SetColorGeneric_loop_of_success h.controller.MaxDutyCycle chans c
      (CalculateColorCount h.controller.LedType) 0 hst
    rw [hres, (abortOnError_frame _).2.2.2.1 hst]
    constructor
    · simp only [LED_Animation_GetColor, LED_Animation_SetCurrentColor]
      refine Prod.ext ?_ rfl
      apply List.map_congr_left
      intro i hi
      rw [List.mem_range] at hi
      simp [hi]
    · simp only [e1, List.range_eq_range']
      apply List.map_congr_left
      intro i hi
      have hi2 : i < CalculateColorCount h.controller.LedType := by
        simpa using (List.mem_range'_1.mp hi).2
      have hc := (e2 i (Nat.zero_le _) (by omega)).1
      have hb : c i * h.controller.MaxDutyCycle / 255 ≤ h.controller.MaxDutyCycle := by
        apply Nat.div_le_of_le_mul
        exact Nat.mul_le_mul_right _ hc
      simp only [BRIGHTNESS_TO_DUTY_CYCLE, u16]
      rw [Nat.mod_eq_of_lt (by omega)]

theorem snapshot_round_trip_witness :
    (demoHandle.controller.MaxDutyCycle ≤ 65535 ∧
      (ExecuteColorSetting demoHandle (some (fun i => [200, 100, 50].getD i 0))).status
        = LED_SUCCESS) ∧
    LED_Animation_GetColor
        (ExecuteColorSetting demoHandle (some (fun i => [200, 100, 50].getD i 0))).handle
      = ([200, 100, 50], 3, LED_SUCCESS) ∧
    (ExecuteColorSetting demoHandle (some (fun i => [200, 100, 50].getD i 0))).events
      = [Event.setDutyCycle 0 784, Event.setDutyCycle 1 392, Event.setDutyCycle 2 196] :=
  ⟨⟨by decide, by decide⟩,
    snapshot_round_trip demoHandle (fun i => [200, 100, 50].getD i 0) (by decide) (by decide)⟩


/-! ## Raw duty-cycle application and the snapshot -/

theorem ExecuteDutyCycleSetting_snapshot (h : LED_Handle_t) (dv : Option (Nat → Nat)) :
    (ExecuteDutyCycleSetting h dv).handle.currentColor = h.currentColor ∧
    (ExecuteDutyCycleSetting h dv).handle.controller = h.controller := by
  unfold ExecuteDutyCycleSetting
  cases dv with
  | none => exact ⟨rfl, rfl⟩
  | some f =>
    simp only
    obtain ⟨g1, -⟩ :=
      SetDutyCycleGeneric_frame h (some f) (CalculateColorCount h.controller.LedType)
    have hc : (SetDutyCycleGeneric h (some f)
        (CalculateColorCount h.controller.LedType)).handle.currentColor = h.currentColor := by
      rw [g1]
    have hk : (SetDutyCycleGeneric h (some f)
        (CalculateColorCount h.controller.LedType)).handle.controller = h.controller := by
      rw [g1]
    unfold abortOnError
    split_ifs
    · exact ⟨hc, hk⟩
    · exact ⟨hc, hk⟩
    · exact ⟨hc, hk⟩

theorem HandleRepeatLogic_snapshot (this : LED_Handle_t) (rep : Int) (stop : Bool) :
    (HandleRepeatLogic this rep stop).handle.currentColor = this.currentColor ∧
    (HandleRepeatLogic this rep stop).handle.controller = this.controller := by
  unfold HandleRepeatLogic
  simp only []
  split_ifs <;> exact ⟨rfl, rfl⟩

theorem beginRun_snapshot (this : LED_Handle_t) (tick : Nat) (rep : Int) :
    (beginRun this tick rep).1.currentColor = this.currentColor ∧
    (beginRun this tick rep).1.controller = this.controller := by
  unfold beginRun
  split_ifs <;> exact ⟨rfl, rfl⟩

/-- The common end of the curve-driven executors keeps the snapshot. -/
theorem snapshot_tail (h : LED_Handle_t) (pre : List Event) (res : Result) (tick : Nat)
    (rep : Int) (stop : Bool) (cond : Prop) [Decidable cond]
    (hc : res.handle.currentColor = h.currentColor)
    (hk : res.handle.controller = h.controller) :
    KeepsSnapshot h
      (if res.status ≠ LED_SUCCESS then ⟨res.handle, pre ++ res.events, res.status⟩
       else if cond then
        ⟨(HandleRepeatLogic { res.handle with startTime := tick } rep stop).handle,
          pre ++ res.events ++
            (HandleRepeatLogic { res.handle with startTime := tick } rep stop).events,
          LED_SUCCESS⟩
       else ⟨res.handle, pre ++ res.events, LED_SUCCESS⟩) ∧
    KeepsSnapshot h
      (if res.status ≠ LED_SUCCESS then ⟨res.handle, pre ++ res.events, res.status⟩
       else if cond then
        ⟨{ (HandleRepeatLogic res.handle rep stop).handle with startTime := tick },
          pre ++ res.events ++ (HandleRepeatLogic res.handle rep stop).events,
          LED_SUCCESS⟩
       else ⟨res.handle, pre ++ res.events, LED_SUCCESS⟩) := by
  obtain ⟨a1, a2⟩ := HandleRepeatLogic_snapshot { res.handle with startTime := tick } rep stop
  obtain ⟨b1, b2⟩ := HandleRepeatLogic_snapshot res.handle rep stop
  constructor
  · split_ifs
    · exact ⟨hc, hk⟩
    · exact ⟨a1.trans hc, a2.trans hk⟩
    · exact ⟨hc, hk⟩
  · split_ifs
    · exact ⟨hc, hk⟩
    · exact ⟨b1.trans hc, b2.trans hk⟩
    · exact ⟨hc, hk⟩

theorem breath_snapshot (env : Env) (h : LED_Handle_t) (tick : Nat) (r : Result)
    (hx : LED_AnimationBreathExecute env h tick = some r) : KeepsSnapshot h r := by
  obtain ⟨b1, b2⟩ := beginRun_snapshot h tick (env.breath h.animationData).repeatTimes
  unfold LED_AnimationBreathExecute at hx
  by_cases h1 : h.animationData = 0
  · rw [if_pos h1] at hx
    cases hx
    exact ⟨rfl, rfl⟩
  rw [if_neg h1] at hx
  by_cases h2 : h.isRunning = false
  · rw [if_pos h2] at hx
    cases hx
    exact ⟨rfl, rfl⟩
  rw [if_neg h2] at hx
  simp only [] at hx
  by_cases h3 : (env.breath h.animationData).riseTimeMs
      + (env.breath h.animationData).fallTimeMs = 0
  · rw [if_pos h3] at hx
    cases hx
  rw [if_neg h3] at hx
  split at hx
  · cases hx
  · rename_i duty hduty
    obtain ⟨f1, f2⟩ := ExecuteDutyCycleSetting_snapshot
      (beginRun h tick (env.breath h.animationData).repeatTimes).1
      (some (fun i => duty.getD i 0))
    have key := (snapshot_tail h (beginRun h tick (env.breath h.animationData).repeatTimes).2
      _ tick (env.breath h.animationData).repeatTimes
      (if (env.breath h.animationData).invert then false else true)
      (sub32 tick (beginRun h tick (env.breath h.animationData).repeatTimes).1.startTime ≥
        (env.breath h.animationData).riseTimeMs + (env.breath h.animationData).fallTimeMs)
      (f1.trans b1) (f2.trans b2)).1
    simp only [← apply_ite some, Option.some.injEq] at hx
    rw [← hx]
    exact key


theorem fadeIn_snapshot (env : Env) (h : LED_Handle_t) (tick : Nat) (r : Result)
    (hx : LED_AnimationFadeInExecute env h tick = some r) : KeepsSnapshot h r := by
  obtain ⟨b1, b2⟩ := beginRun_snapshot h tick (env.fadeIn h.animationData).repeatTimes
  unfold LED_AnimationFadeInExecute at hx
  by_cases h1 : h.animationData = 0
  · rw [if_pos h1] at hx
    cases hx
    exact ⟨rfl, rfl⟩
  rw [if_neg h1] at hx
  by_cases h2 : h.isRunning = false
  · rw [if_pos h2] at hx
    cases hx
    exact ⟨rfl, rfl⟩
  rw [if_neg h2] at hx
  simp only [] at hx
  split at hx
  · cases hx
  · rename_i duty hduty
    obtain ⟨f1, f2⟩ := ExecuteDutyCycleSetting_snapshot
      (beginRun h tick (env.fadeIn h.animationData).repeatTimes).1
      (some (fun i => duty.getD i 0))
    have key := (snapshot_tail h (beginRun h tick (env.fadeIn h.animationData).repeatTimes).2
      _ tick (env.fadeIn h.animationData).repeatTimes false
      (sub32 tick (beginRun h tick (env.fadeIn h.animationData).repeatTimes).1.startTime ≥
        (env.fadeIn h.animationData).durationMs)
      (f1.trans b1) (f2.trans b2)).2
    simp only [← apply_ite some, Option.some.injEq] at hx
    rw [← hx]
    exact key

theorem fadeOut_snapshot (env : Env) (h : LED_Handle_t) (tick : Nat) (r : Result)
    (hx : LED_AnimationFadeOutExecute env h tick = some r) : KeepsSnapshot h r := by
  obtain ⟨b1, b2⟩ := beginRun_snapshot h tick (env.fadeOut h.animationData).repeatTimes
  unfold LED_AnimationFadeOutExecute at hx
  by_cases h1 : h.animationData = 0
  · rw [if_pos h1] at hx
    cases hx
    exact ⟨rfl, rfl⟩
  rw [if_neg h1] at hx
  by_cases h2 : h.isRunning = false
  · rw [if_pos h2] at hx
    cases hx
    exact ⟨rfl, rfl⟩
  rw [if_neg h2] at hx
  simp only [] at hx
  split at hx
  · cases hx
  · rename_i duty hduty
    obtain ⟨f1, f2⟩ := ExecuteDutyCycleSetting_snapshot
      (beginRun h tick (env.fadeOut h.animationData).repeatTimes).1
      (some (fun i => duty.getD i 0))
    have key := (snapshot_tail h (beginRun h tick (env.fadeOut h.animationData).repeatTimes).2
      _ tick (env.fadeOut h.animationData).repeatTimes true
      (sub32 tick (beginRun h tick (env.fadeOut h.animationData).repeatTimes).1.startTime ≥
        (env.fadeOut h.animationData).durationMs)
      (f1.trans b1) (f2.trans b2)).2
    simp only [← apply_ite some, Option.some.injEq] at hx
    rw [← hx]
    exact key

theorem pulse_snapshot (env : Env) (h : LED_Handle_t) (tick : Nat) (r : Result)
    (hx : LED_AnimationPulseExecute env h tick = some r) : KeepsSnapshot h r := by
  obtain ⟨b1, b2⟩ := beginRun_snapshot h tick (env.pulse h.animationData).repeatTimes
  unfold LED_AnimationPulseExecute at hx
  by_cases h1 : h.animationData = 0
  · rw [if_pos h1] at hx
    cases hx
    exact ⟨rfl, rfl⟩
  rw [if_neg h1] at hx
  by_cases h2 : h.isRunning = false
  · rw [if_pos h2] at hx
    cases hx
    exact ⟨rfl, rfl⟩
  rw [if_neg h2] at hx
  simp only [] at hx
  by_cases h3 : (env.pulse h.animationData).riseTimeMs
      + (env.pulse h.animationData).holdOnTimeMs + (env.pulse h.animationData).fallTimeMs
      + (env.pulse h.animationData).holdOffTimeMs = 0
  · rw [if_pos h3] at hx
    cases hx
  rw [if_neg h3] at hx
  split at hx
  · cases hx
  · rename_i duty hduty
    obtain ⟨f1, f2⟩ := ExecuteDutyCycleSetting_snapshot
      (beginRun h tick (env.pulse h.animationData).repeatTimes).1
      (some (fun i => duty.getD i 0))
    have key := (snapshot_tail h (beginRun h tick (env.pulse h.animationData).repeatTimes).2
      _ tick (env.pulse h.animationData).repeatTimes false
      (sub32 tick (beginRun h tick (env.pulse h.animationData).repeatTimes).1.startTime ≥
        (env.pulse h.animationData).riseTimeMs
          + (env.pulse h.animationData).holdOnTimeMs + (env.pulse h.animationData).fallTimeMs
          + (env.pulse h.animationData).holdOffTimeMs)
      (f1.trans b1) (f2.trans b2)).1
    simp only [← apply_ite some, Option.some.injEq] at hx
    rw [← hx]
    exact key

/-- C19: ExecuteDutyCycleSetting leaves the current-color snapshot as it
was, for every handle and duty vector; so does every Update of a Breath,
FadeIn, FadeOut or Pulse handle, and GetColor after such an Update returns
what it returned before. -/
theorem duty_keeps_snapshot (env : Env) (h : LED_Handle_t) (dv : Option (Nat → Nat))
    (tick : Nat) (r : Result)
    (ht : h.animationType ∈ [LED_ANIMATION_BREATH, LED_ANIMATION_FADE_IN,
      LED_ANIMATION_FADE_OUT, LED_ANIMATION_PULSE])
    (hx : LED_Animation_Update env h tick = some r) :
    (ExecuteDutyCycleSetting h dv).handle.currentColor = h.currentColor ∧
    r.handle.currentColor = h.currentColor ∧
    LED_Animation_GetColor r.handle = LED_Animation_GetColor h := by
  have hkeep : r.handle.currentColor = h.currentColor ∧ r.handle.controller = h.controller := by
    unfold LED_Animation_Update at hx
    by_cases h1 : h.lastTick = tick
    · rw [if_pos h1] at hx
      cases hx
      exact ⟨rfl, rfl⟩
    rw [if_neg h1] at hx
    by_cases h2 : IS_VALID_LED_ANIMATION_TYPE h.animationType = false
    · rw [if_pos h2] at hx
      cases hx
      exact ⟨rfl, rfl⟩
    rw [if_neg h2] at hx
    cases hd : dispatch env h tick with
    | none => rw [hd] at hx; cases hx
    | some r1 =>
      rw [hd] at hx
      cases hx
      have key : KeepsSnapshot h r1 := by
        unfold dispatch at hd
        simp only [List.mem_cons, List.mem_singleton, List.not_mem_nil, or_false] at ht
        rcases ht with ht | ht | ht | ht <;> rw [ht] at hd
        · exact breath_snapshot env h tick r1 hd
        · exact fadeIn_snapshot env h tick r1 hd
        · exact fadeOut_snapshot env h tick r1 hd
        · exact pulse_snapshot env h tick r1 hd
      exact key
  refine ⟨(ExecuteDutyCycleSetting_snapshot h dv).1, hkeep.1, ?_⟩
  unfold LED_Animation_GetColor
  rw [hkeep.1, hkeep.2]

theorem duty_keeps_snapshot_witness :
    ∃ r, LED_Animation_Update demoEnv fadeInHandle 5 = some r ∧
      r.events ≠ [] ∧
      r.handle.currentColor = fadeInHandle.currentColor ∧
      LED_Animation_GetColor r.handle = ([9, 8, 7], 3, LED_SUCCESS) :=
  ⟨_, rfl, by decide,
    (duty_keeps_snapshot demoEnv fadeInHandle none 5 _ (by decide) rfl).2.1,
    (duty_keeps_snapshot demoEnv fadeInHandle none 5 _ (by decide) rfl).2.2⟩


/-! ## Completion of the last cycle -/

/-- The repeat logic on the last remaining repeat of a finite run: the run is
over, the callback (if any) reports success, and the controller is stopped
when asked for. -/
theorem HandleRepeatLogic_final (this : LED_Handle_t) (rep : Int) (stop : Bool)
    (hone : this.repeatTimes = 1) (hfin : rep ≠ -1) :
    HandleRepeatLogic this rep stop
      = ⟨{ this with repeatTimes := 0, isRunning := false },
          (if this.callback then [Event.callback this.animationType LED_SUCCESS] else []) ++
            (if stop then [Event.controllerStop] else []),
          LED_ANIMATION_COMPLETED⟩ := by
  unfold HandleRepeatLogic
  simp [hfin, hone, toInt8]

theorem stop_not_mem_writes {evs : List Event}
    (h : ∀ ev ∈ evs, ∃ c d, ev = Event.setDutyCycle c d) : Event.controllerStop ∉ evs := by
  intro hm
  obtain ⟨c, d, hcd⟩ := h _ hm
  cases hcd

theorem ExecuteDutyCycleSetting_success_events (h : LED_Handle_t) (dv : Option (Nat → Nat))
    (hok : (ExecuteDutyCycleSetting h dv).status = LED_SUCCESS) :
    ∀ ev ∈ (ExecuteDutyCycleSetting h dv).events, ∃ c d, ev = Event.setDutyCycle c d := by
  unfold ExecuteDutyCycleSetting at hok ⊢
  cases dv with
  | none => intro ev hev; cases hev
  | some f =>
    simp only at hok ⊢
    obtain ⟨-, a2, -, a4, -⟩ := abortOnError_frame
      (SetDutyCycleGeneric h (some f) (CalculateColorCount h.controller.LedType))
    rw [a2] at hok
    rw [a4 hok]
    exact (SetDutyCycleGeneric_frame h _ _).2

/-- The events of a completing tick: channel writes, then what the repeat
logic emits.  The stop hook is among them exactly when it was asked for, and
the only callback is the success report. -/
theorem completion_events (writes : List Event) (t : LED_Animation_Type_t) (cb stop : Bool)
    (hw : ∀ ev ∈ writes, ∃ c d, ev = Event.setDutyCycle c d) :
    (Event.controllerStop ∈ writes ++
        ((if cb then [Event.callback t LED_SUCCESS] else []) ++
          (if stop then [Event.controllerStop] else [])) ↔ stop = true) ∧
    (cb = true →
      (writes ++ ((if cb then [Event.callback t LED_SUCCESS] else []) ++
          (if stop then [Event.controllerStop] else []))).filter Event.isCallback
        = [Event.callback t LED_SUCCESS]) := by
  have hns := stop_not_mem_writes hw
  have hfw := filter_isCallback_of_writes hw
  constructor
  · cases cb <;> cases stop <;> simp [hns]
  · intro hcb
    subst hcb
    cases stop <;> simp [List.filter_append, hfw, Event.isCallback]

/-- C16: a running Breath with a finite repeat count, on the tick that ends
its last cycle (one repeat left, elapsed time at least rise + fall, duty
values applied without error): the running flag is cleared, the completion
callback is invoked once, with success, and the controller stop hook is
invoked if and only if invert is false. -/
theorem breath_completion (env : Env) (h : LED_Handle_t) (tick : Nat) (r : Result)
    (hrun : h.isRunning = true) (hd : h.animationData ≠ 0) (hs : h.startTime ≠ 0)
    (hcb : h.callback = true)
    (hfin : (env.breath h.animationData).repeatTimes ≠ -1) (hone : h.repeatTimes = 1)
    (hend : sub32 tick h.startTime ≥
      (env.breath h.animationData).riseTimeMs + (env.breath h.animationData).fallTimeMs)
    (hx : LED_AnimationBreathExecute env h tick = some r) (hok : r.status = LED_SUCCESS) :
    r.handle.isRunning = false ∧
    r.events.filter Event.isCallback = [Event.callback h.animationType LED_SUCCESS] ∧
    (Event.controllerStop ∈ r.events ↔ (env.breath h.animationData).invert = false) := by
  have hb : beginRun h tick (env.breath h.animationData).repeatTimes = (h, []) := by
    unfold beginRun; rw [if_neg hs]
  unfold LED_AnimationBreathExecute at hx
  rw [if_neg hd, if_neg (by simp [hrun])] at hx
  simp only [hb] at hx
  by_cases h3 : (env.breath h.animationData).riseTimeMs
      + (env.breath h.animationData).fallTimeMs = 0
  · rw [if_pos h3] at hx
    cases hx
  rw [if_neg h3] at hx
  split at hx
  · cases hx
  · rename_i duty hduty
    obtain ⟨-, -, f3, -⟩ := ExecuteDutyCycleSetting_frame h (some (fun i => duty.getD i 0))
    by_cases hst : (ExecuteDutyCycleSetting h (some (fun i => duty.getD i 0))).status
        ≠ LED_SUCCESS
    · rw [if_pos hst] at hx
      cases hx
      exact absurd hok hst
    · rw [if_neg hst, if_pos hend] at hx
      have hst1 : (ExecuteDutyCycleSetting h (some (fun i => duty.getD i 0))).status
          = LED_SUCCESS := by simpa using hst
      have hh := f3 hst1
      have hw := ExecuteDutyCycleSetting_success_events h _ hst1
      rw [hh, HandleRepeatLogic_final _ _ _ (show ({ h with startTime := tick }
        : LED_Handle_t).repeatTimes = 1 from hone) hfin] at hx
      cases hx
      obtain ⟨c1, c2⟩ := completion_events
        (ExecuteDutyCycleSetting h (some (fun i => duty.getD i 0))).events h.animationType
        h.callback (if (env.breath h.animationData).invert then false else true) hw
      refine ⟨rfl, ?_, ?_⟩
      · simpa [List.append_assoc] using c2 hcb
      · have c1' := c1
        simp only [List.nil_append, List.append_assoc]
        rw [c1']
        cases (env.breath h.animationData).invert <;> simp


theorem breath_completion_witness :
    ∃ r, LED_AnimationBreathExecute finiteEnv breathLastCycle 601 = some r ∧
      r.status = LED_SUCCESS ∧ (finiteEnv.breath 8).invert = false ∧
      r.handle.isRunning = false ∧
      r.events.filter Event.isCallback = [Event.callback LED_ANIMATION_BREATH LED_SUCCESS] ∧
      (Event.controllerStop ∈ r.events ↔ (finiteEnv.breath 8).invert = false) :=
  ⟨_, rfl, rfl, rfl,
    breath_completion finiteEnv breathLastCycle 601 _ rfl (by decide) (by decide) rfl
      (by decide) rfl (by decide) rfl rfl⟩

/-- A running ColorCycle with a finite repeat count, on the tick that ends its
last repeat: the run is over, success is reported once, and the controller
stop hook is invoked if and only if leaveLastColor is true. -/
theorem colorCycle_completion (env : Env) (h : LED_Handle_t) (tick : Nat) (r : Result)
    (hrun : h.isRunning = true) (hd : h.animationData ≠ 0) (hs : h.startTime ≠ 0)
    (hcb : h.callback = true)
    (hfin : (env.colorCycle h.animationData).repeatTimes ≠ -1) (hone : h.repeatTimes = 1)
    (hend : sub32 tick h.startTime ≥
      sub32 (mul32 ((env.colorCycle h.animationData).transitionMs
          + (env.colorCycle h.animationData).holdTimeMs)
        (env.colorCycle h.animationData).colorCount)
        (env.colorCycle h.animationData).transitionMs)
    (hx : LED_AnimationColorCycleExecute env h tick = some r) (hok : r.status = LED_SUCCESS) :
    r.handle.isRunning = false ∧
    r.events.filter Event.isCallback = [Event.callback h.animationType LED_SUCCESS] ∧
    (Event.controllerStop ∈ r.events ↔
      (env.colorCycle h.animationData).leaveLastColor = true) := by
  have hb : beginRun h tick (env.colorCycle h.animationData).repeatTimes = (h, []) := by
    unfold beginRun; rw [if_neg hs]
  unfold LED_AnimationColorCycleExecute at hx
  rw [if_neg hd, if_neg (by simp [hrun])] at hx
  have hnot : ¬ ((1 : Int) = -1 ∨ (1 : Int) > 1) := by decide
  simp only [hb, hone, if_neg hnot] at hx
  by_cases h3 : (env.colorCycle h.animationData).transitionMs
      + (env.colorCycle h.animationData).holdTimeMs = 0
  · rw [if_pos h3] at hx
    cases hx
  rw [if_neg h3] at hx
  by_cases h4 : (env.colorCycle h.animationData).colorCount = 0
  · rw [if_pos h4] at hx
    cases hx
  rw [if_neg h4] at hx
  by_cases h5 : (env.colorCycle h.animationData).colors = 0
  · rw [if_pos h5] at hx
    cases hx
  rw [if_neg h5] at hx
  split at hx
  · cases hx
  · rename_i result happ
    have hres : ∃ cv, result = ExecuteColorSetting h cv := by
      split_ifs at happ
      · cases happ
        exact ⟨_, rfl⟩
      · split at happ
        · cases happ
          exact ⟨_, rfl⟩
        · cases happ
    obtain ⟨cv, hcv⟩ := hres
    obtain ⟨f1, -, f3, -⟩ := ExecuteColorSetting_frame h cv
    rw [← hcv] at f1 f3
    by_cases hst : result.status ≠ LED_SUCCESS
    · rw [if_pos hst] at hx
      cases hx
      exact absurd hok hst
    · rw [if_neg hst, if_pos hend] at hx
      have hst1 : result.status = LED_SUCCESS := by simpa using hst
      obtain ⟨g1, g2⟩ := f3 hst1
      obtain ⟨s1, s2, s3, s4, s5, s6, s7⟩ := f1
      rw [HandleRepeatLogic_final _ _ _ (show ({ result.handle with startTime := tick }
        : LED_Handle_t).repeatTimes = 1 from s7.trans hone) hfin] at hx
      cases hx
      obtain ⟨c1, c2⟩ := completion_events result.events result.handle.animationType
        result.handle.callback
        (if (env.colorCycle h.animationData).leaveLastColor then true else false) g2
      have s6' : result.handle.callback = true := s6.trans hcb
      refine ⟨rfl, ?_, ?_⟩
      · have := c2 s6'
        rw [g1] at this
        simpa [List.append_assoc, g1] using this
      · simp only [List.nil_append, List.append_assoc]
        rw [c1]
        cases (env.colorCycle h.animationData).leaveLastColor <;> simp

/-- C15, the code with leaveLastColor set: a ColorCycle of two colors, hold
100 ms, transition 100 ms, one repeat left, reaches its end at elapsed time
300; on that tick the run completes and the controller stop hook is invoked,
although the last color was to be left on.  With leaveLastColor clear, the
same tick does not invoke the stop hook. -/
theorem colorCycle_leaveLastColor_stops :
    (finiteEnv.colorCycle 8).leaveLastColor = true ∧
    (LED_AnimationColorCycleExecute finiteEnv colorCycleLastRepeat 301).map
        (fun r => (r.handle.isRunning, r.events))
      = some (false, [Event.setDutyCycle 0 1000, Event.setDutyCycle 1 0,
          Event.setDutyCycle 2 0, Event.callback LED_ANIMATION_COLOR_CYCLE LED_SUCCESS,
          Event.controllerStop]) ∧
    (LED_AnimationColorCycleExecute
        { finiteEnv with colorCycle := fun _ => ⟨32, 2, 100, 100, 1, false⟩ }
        colorCycleLastRepeat 301).map (fun r => (r.handle.isRunning, r.events))
      = some (false, [Event.setDutyCycle 0 1000, Event.setDutyCycle 1 0,
          Event.setDutyCycle 2 0, Event.callback LED_ANIMATION_COLOR_CYCLE LED_SUCCESS]) := by
  refine ⟨rfl, ?_, ?_⟩ <;> decide


/-! ## ColorCycle at the phase boundaries -/

/-- With every channel populated and every value read at most 255,
ExecuteColorSetting succeeds, stores the values in the snapshot and writes
each channel once. -/
theorem ExecuteColorSetting_populated (h : LED_Handle_t) (f : Nat → Nat) (chans : Nat → Bool)
    (hpwm : h.controller.PwmConfig = some chans)
    (hch : ∀ i, i < CalculateColorCount h.controller.LedType → chans i = true)
    (hf : ∀ i, i < CalculateColorCount h.controller.LedType → f i ≤ 255) :
    ExecuteColorSetting h (some f)
      = ⟨LED_Animation_SetCurrentColor h f (CalculateColorCount h.controller.LedType),
          (List.range' 0 (CalculateColorCount h.controller.LedType)).map
            (fun j => Event.setDutyCycle j
              (u16 (BRIGHTNESS_TO_DUTY_CYCLE (f j) h.controller.MaxDutyCycle))),
          LED_SUCCESS⟩ := by
  have hle := CalculateColorCount_le h.controller.LedType
  have hst := SetColorGeneric_loop_ok h.controller.MaxDutyCycle chans f
    (CalculateColorCount h.controller.LedType) 0
    (fun j _ hj => ⟨hf j (by omega), hch j (by omega)⟩)
  obtain ⟨e1, -⟩ := SetColorGeneric_loop_of_success h.controller.MaxDutyCycle chans f
    (CalculateColorCount h.controller.LedType) 0 hst
  simp only [ExecuteColorSetting, SetColorGeneric, hpwm]
  rw [if_neg (by omega), (abortOnError_frame _).2.2.2.1 hst, e1, hst]

/-- The result of the ColorCycle executor once the color application of the
tick is known and has succeeded: it carries that application's snapshot and
its channel writes. -/
theorem colorCycle_shape (env : Env) (h : LED_Handle_t) (tick : Nat) (res : Result)
    (hrun : h.isRunning = true) (hd : h.animationData ≠ 0)
    (hcyc : (env.colorCycle h.animationData).transitionMs
      + (env.colorCycle h.animationData).holdTimeMs ≠ 0)
    (hcount : (env.colorCycle h.animationData).colorCount ≠ 0)
    (hcolors : (env.colorCycle h.animationData).colors ≠ 0)
    (happ :
      (if sub32 tick (beginRun h tick (env.colorCycle h.animationData).repeatTimes).1.startTime
            % ((env.colorCycle h.animationData).transitionMs
              + (env.colorCycle h.animationData).holdTimeMs)
          < (env.colorCycle h.animationData).holdTimeMs then
        some (ExecuteColorSetting (beginRun h tick (env.colorCycle h.animationData).repeatTimes).1
          (env.colorAt (env.ptrs (env.colorCycle h.animationData).colors
            ((sub32 tick (beginRun h tick
                (env.colorCycle h.animationData).repeatTimes).1.startTime
              / ((env.colorCycle h.animationData).transitionMs
                + (env.colorCycle h.animationData).holdTimeMs))
              % (env.colorCycle h.animationData).colorCount))))
      else
        match env.colorAt (env.ptrs (env.colorCycle h.animationData).colors
            ((sub32 tick (beginRun h tick
                (env.colorCycle h.animationData).repeatTimes).1.startTime
              / ((env.colorCycle h.animationData).transitionMs
                + (env.colorCycle h.animationData).holdTimeMs))
              % (env.colorCycle h.animationData).colorCount)),
          env.colorAt (env.ptrs (env.colorCycle h.animationData).colors
            (((sub32 tick (beginRun h tick
                (env.colorCycle h.animationData).repeatTimes).1.startTime
              / ((env.colorCycle h.animationData).transitionMs
                + (env.colorCycle h.animationData).holdTimeMs))
              % (env.colorCycle h.animationData).colorCount + 1)
              % (env.colorCycle h.animationData).colorCount)) with
        | some cur, some next =>
          some (ExecuteColorSetting
            (beginRun h tick (env.colorCycle h.animationData).repeatTimes).1
            (some (interpolatedColor env
              (sub32 (sub32 tick (beginRun h tick
                  (env.colorCycle h.animationData).repeatTimes).1.startTime
                % ((env.colorCycle h.animationData).transitionMs
                  + (env.colorCycle h.animationData).holdTimeMs))
                (env.colorCycle h.animationData).holdTimeMs)
              (env.colorCycle h.animationData).transitionMs cur next)))
        | _, _ => none) = some res)
    (hst : res.status = LED_SUCCESS) :
    ∃ r, LED_AnimationColorCycleExecute env h tick = some r ∧
      r.handle.currentColor = res.handle.currentColor ∧
      ∀ ev ∈ res.events, ev ∈ r.events := by
  unfold LED_AnimationColorCycleExecute
  rw [if_neg hd, if_neg (by simp [hrun])]
  simp only []
  rw [if_neg hcyc, if_neg hcount, if_neg hcolors, happ]
  simp only []
  rw [if_neg (by simp [hst])]
  split_ifs <;>
    exact ⟨_, rfl, by first | exact (HandleRepeatLogic_snapshot _ _ _).1 | rfl,
      by intro ev hev; simp [hev]⟩


theorem u8_u8 (x : Nat) : u8 (u8 x) = u8 x := by
  unfold u8
  exact Nat.mod_mod _ _

theorem sub32_self_of_lt (a : Nat) (ha : a < 4294967296) : sub32 a a = 0 := by
  rw [sub32_of_le a a (le_refl _) ha]
  omega

theorem sub32_lt (a b : Nat) : sub32 a b < 4294967296 := by
  unfold sub32
  exact Nat.mod_lt _ (by decide)

/-- At a tick whose time in the cycle is in the hold phase or exactly at its
end, the ColorCycle executor applies the palette entry of the current cycle,
on a three-channel controller with populated channels, when the float blend
is exact at numerator 0 (fraction 0.0). -/
theorem colorCycle_applies_palette (env : Env) (h : LED_Handle_t) (tick : Nat)
    (chans : Nat → Bool)
    (hrun : h.isRunning = true) (hd : h.animationData ≠ 0)
    (hT : 1 ≤ (env.colorCycle h.animationData).transitionMs)
    (hcount : 1 ≤ (env.colorCycle h.animationData).colorCount)
    (hcolors : (env.colorCycle h.animationData).colors ≠ 0)
    (hpal : ∀ j, j < (env.colorCycle h.animationData).colorCount →
      env.ptrs (env.colorCycle h.animationData).colors j ≠ 0)
    (hn : CalculateColorCount h.controller.LedType = 3)
    (hpwm : h.controller.PwmConfig = some chans) (hch : ∀ i, i < 3 → chans i = true)
    (hfloat : ∀ d c n, 1 ≤ d → env.blend 0 d c n = c)
    (hphase : colorCycleElapsed env h tick
        % ((env.colorCycle h.animationData).transitionMs
          + (env.colorCycle h.animationData).holdTimeMs)
        ≤ (env.colorCycle h.animationData).holdTimeMs) :
    ∃ r, LED_AnimationColorCycleExecute env h tick = some r ∧
      ∀ i, i < 3 →
        r.handle.currentColor i
          = paletteColor env (env.colorCycle h.animationData)
              ((colorCycleElapsed env h tick
                / ((env.colorCycle h.animationData).transitionMs
                  + (env.colorCycle h.animationData).holdTimeMs))
                % (env.colorCycle h.animationData).colorCount) i ∧
        Event.setDutyCycle i (u16 (BRIGHTNESS_TO_DUTY_CYCLE
            (paletteColor env (env.colorCycle h.animationData)
              ((colorCycleElapsed env h tick
                / ((env.colorCycle h.animationData).transitionMs
                  + (env.colorCycle h.animationData).holdTimeMs))
                % (env.colorCycle h.animationData).colorCount) i)
            h.controller.MaxDutyCycle)) ∈ r.events := by
  obtain ⟨-, bk⟩ := beginRun_snapshot h tick (env.colorCycle h.animationData).repeatTimes
  have hidx : (colorCycleElapsed env h tick
      / ((env.colorCycle h.animationData).transitionMs
        + (env.colorCycle h.animationData).holdTimeMs))
      % (env.colorCycle h.animationData).colorCount
      < (env.colorCycle h.animationData).colorCount := Nat.mod_lt _ (by omega)
  have hnidx : ((colorCycleElapsed env h tick
      / ((env.colorCycle h.animationData).transitionMs
        + (env.colorCycle h.animationData).holdTimeMs))
      % (env.colorCycle h.animationData).colorCount + 1)
      % (env.colorCycle h.animationData).colorCount
      < (env.colorCycle h.animationData).colorCount := Nat.mod_lt _ (by omega)
  have hp1 := hpal _ hidx
  have hp2 := hpal _ hnidx
  -- whatever is applied agrees with the palette entry on the three channels
  have key : ∀ f : Nat → Nat,
      (∀ i, i < 3 → f i = paletteColor env (env.colorCycle h.animationData)
        ((colorCycleElapsed env h tick
          / ((env.colorCycle h.animationData).transitionMs
            + (env.colorCycle h.animationData).holdTimeMs))
          % (env.colorCycle h.animationData).colorCount) i) →
      ∃ res : Result, res = ExecuteColorSetting
          (beginRun h tick (env.colorCycle h.animationData).repeatTimes).1 (some f) ∧
        res.status = LED_SUCCESS ∧
        ∀ i, i < 3 →
          res.handle.currentColor i
            = paletteColor env (env.colorCycle h.animationData)
                ((colorCycleElapsed env h tick
                  / ((env.colorCycle h.animationData).transitionMs
                    + (env.colorCycle h.animationData).holdTimeMs))
                  % (env.colorCycle h.animationData).colorCount) i ∧
          Event.setDutyCycle i (u16 (BRIGHTNESS_TO_DUTY_CYCLE
              (paletteColor env (env.colorCycle h.animationData)
                ((colorCycleElapsed env h tick
                  / ((env.colorCycle h.animationData).transitionMs
                    + (env.colorCycle h.animationData).holdTimeMs))
                  % (env.colorCycle h.animationData).colorCount) i)
              h.controller.MaxDutyCycle)) ∈ res.events := by
    intro f hf
    have hle : ∀ i, i < 3 → f i ≤ 255 := by
      intro i hi
      rw [hf i hi]
      exact Nat.le_of_lt_succ (Nat.mod_lt _ (by decide))
    have heq := ExecuteColorSetting_populated
      (beginRun h tick (env.colorCycle h.animationData).repeatTimes).1 f chans
      (by rw [bk]; exact hpwm) (by rw [bk, hn]; exact hch) (by rw [bk, hn]; exact hle)
    rw [bk, hn] at heq
    refine ⟨_, rfl, by rw [heq], ?_⟩
    intro i hi
    rw [heq]
    constructor
    · simp only [LED_Animation_SetCurrentColor, if_pos hi]
      exact hf i hi
    · simp only [List.mem_map]
      exact ⟨i, by simp [List.mem_range'_1, hi], by rw [hf i hi]⟩
  have hfin : ∀ res : Result, res.status = LED_SUCCESS →
      (∀ i, i < 3 →
        res.handle.currentColor i
          = paletteColor env (env.colorCycle h.animationData)
              ((colorCycleElapsed env h tick
                / ((env.colorCycle h.animationData).transitionMs
                  + (env.colorCycle h.animationData).holdTimeMs))
                % (env.colorCycle h.animationData).colorCount) i ∧
        Event.setDutyCycle i (u16 (BRIGHTNESS_TO_DUTY_CYCLE
            (paletteColor env (env.colorCycle h.animationData)
              ((colorCycleElapsed env h tick
                / ((env.colorCycle h.animationData).transitionMs
                  + (env.colorCycle h.animationData).holdTimeMs))
                % (env.colorCycle h.animationData).colorCount) i)
            h.controller.MaxDutyCycle)) ∈ res.events) →
      ∀ r : Result, r.handle.currentColor = res.handle.currentColor →
      (∀ ev ∈ res.events, ev ∈ r.events) →
      ∀ i, i < 3 →
        r.handle.currentColor i
          = paletteColor env (env.colorCycle h.animationData)
              ((colorCycleElapsed env h tick
                / ((env.colorCycle h.animationData).transitionMs
                  + (env.colorCycle h.animationData).holdTimeMs))
                % (env.colorCycle h.animationData).colorCount) i ∧
        Event.setDutyCycle i (u16 (BRIGHTNESS_TO_DUTY_CYCLE
            (paletteColor env (env.colorCycle h.animationData)
              ((colorCycleElapsed env h tick
                / ((env.colorCycle h.animationData).transitionMs
                  + (env.colorCycle h.animationData).holdTimeMs))
                % (env.colorCycle h.animationData).colorCount) i)
            h.controller.MaxDutyCycle)) ∈ r.events := by
    intro res _ hres r hc hev i hi
    obtain ⟨q1, q2⟩ := hres i hi
    exact ⟨by rw [hc]; exact q1, hev _ q2⟩
  unfold colorCycleElapsed at hphase hidx hnidx hp1 hp2 key hfin ⊢
  rcases Nat.lt_or_eq_of_le hphase with hlt | heq
  · -- hold phase
    obtain ⟨res, hres, hst, hprop⟩ := key
      (fun i => u8 (env.bytes (env.ptrs (env.colorCycle h.animationData).colors
        ((sub32 tick (beginRun h tick (env.colorCycle h.animationData).repeatTimes).1.startTime
          / ((env.colorCycle h.animationData).transitionMs
            + (env.colorCycle h.animationData).holdTimeMs))
          % (env.colorCycle h.animationData).colorCount)) i))
      (fun i _ => rfl)
    obtain ⟨r, hr, hc, hev⟩ := colorCycle_shape env h tick res hrun hd (by omega) (by omega)
      hcolors (by rw [if_pos hlt, hres]; unfold Env.colorAt; rw [if_neg hp1]) hst
    exact ⟨r, hr, hfin res hst hprop r hc hev⟩
  · -- first instant of the transition phase
    have hzero : sub32 (sub32 tick
        (beginRun h tick (env.colorCycle h.animationData).repeatTimes).1.startTime
        % ((env.colorCycle h.animationData).transitionMs
          + (env.colorCycle h.animationData).holdTimeMs))
        (env.colorCycle h.animationData).holdTimeMs = 0 := by
      rw [heq]
      apply sub32_self_of_lt
      have := sub32_lt tick
        (beginRun h tick (env.colorCycle h.animationData).repeatTimes).1.startTime
      have hmod := Nat.mod_le (sub32 tick
        (beginRun h tick (env.colorCycle h.animationData).repeatTimes).1.startTime)
        ((env.colorCycle h.animationData).transitionMs
          + (env.colorCycle h.animationData).holdTimeMs)
      omega
    obtain ⟨res, hres, hst, hprop⟩ := key
      (interpolatedColor env 0 (env.colorCycle h.animationData).transitionMs
        (fun i => u8 (env.bytes (env.ptrs (env.colorCycle h.animationData).colors
          ((sub32 tick
              (beginRun h tick (env.colorCycle h.animationData).repeatTimes).1.startTime
            / ((env.colorCycle h.animationData).transitionMs
              + (env.colorCycle h.animationData).holdTimeMs))
            % (env.colorCycle h.animationData).colorCount)) i))
        (fun i => u8 (env.bytes (env.ptrs (env.colorCycle h.animationData).colors
          (((sub32 tick
              (beginRun h tick (env.colorCycle h.animationData).repeatTimes).1.startTime
            / ((env.colorCycle h.animationData).transitionMs
              + (env.colorCycle h.animationData).holdTimeMs))
            % (env.colorCycle h.animationData).colorCount + 1)
            % (env.colorCycle h.animationData).colorCount)) i)))
      (by
        intro i hi
        have hi3 : i = 0 ∨ i = 1 ∨ i = 2 := by omega
        rcases hi3 with rfl | rfl | rfl <;>
          simp [interpolatedColor, hfloat _ _ _ hT, u8_u8, paletteColor])
    obtain ⟨r, hr, hc, hev⟩ := colorCycle_shape env h tick res hrun hd (by omega) (by omega)
      hcolors (by
        rw [if_neg (by omega), hzero, hres]
        unfold Env.colorAt
        rw [if_neg hp1, if_neg hp2]) hst
    exact ⟨r, hr, hfin res hst hprop r hc hev⟩


/-- C17: a running ColorCycle with hold time H, transition time T >= 1 and at
least two palette colors (none of them NULL), on a three-channel controller
with populated channels, the float blend being exact at fraction 0.  On a
tick whose time in the cycle is exactly H the color applied (snapshot and
channel writes) is the current palette entry; on a tick whose elapsed time is
exactly k * (H + T) it is palette entry k mod colorCount. -/
theorem colorCycle_boundary (env : Env) (h : LED_Handle_t) (tick : Nat) (chans : Nat → Bool)
    (hrun : h.isRunning = true) (hd : h.animationData ≠ 0)
    (hT : 1 ≤ (env.colorCycle h.animationData).transitionMs)
    (hcount : 2 ≤ (env.colorCycle h.animationData).colorCount)
    (hcolors : (env.colorCycle h.animationData).colors ≠ 0)
    (hpal : ∀ j, j < (env.colorCycle h.animationData).colorCount →
      env.ptrs (env.colorCycle h.animationData).colors j ≠ 0)
    (hn : CalculateColorCount h.controller.LedType = 3)
    (hpwm : h.controller.PwmConfig = some chans) (hch : ∀ i, i < 3 → chans i = true)
    (hfloat : ∀ d c n, 1 ≤ d → env.blend 0 d c n = c) :
    (colorCycleElapsed env h tick
        % ((env.colorCycle h.animationData).transitionMs
          + (env.colorCycle h.animationData).holdTimeMs)
        = (env.colorCycle h.animationData).holdTimeMs →
      ∃ r, LED_AnimationColorCycleExecute env h tick = some r ∧
        ∀ i, i < 3 →
          r.handle.currentColor i
            = paletteColor env (env.colorCycle h.animationData)
                ((colorCycleElapsed env h tick
                  / ((env.colorCycle h.animationData).transitionMs
                    + (env.colorCycle h.animationData).holdTimeMs))
                  % (env.colorCycle h.animationData).colorCount) i ∧
          Event.setDutyCycle i (u16 (BRIGHTNESS_TO_DUTY_CYCLE
              (paletteColor env (env.colorCycle h.animationData)
                ((colorCycleElapsed env h tick
                  / ((env.colorCycle h.animationData).transitionMs
                    + (env.colorCycle h.animationData).holdTimeMs))
                  % (env.colorCycle h.animationData).colorCount) i)
              h.controller.MaxDutyCycle)) ∈ r.events) ∧
    (∀ k, colorCycleElapsed env h tick
        = k * ((env.colorCycle h.animationData).transitionMs
          + (env.colorCycle h.animationData).holdTimeMs) →
      ∃ r, LED_AnimationColorCycleExecute env h tick = some r ∧
        ∀ i, i < 3 →
          r.handle.currentColor i
            = paletteColor env (env.colorCycle h.animationData)
                (k % (env.colorCycle h.animationData).colorCount) i ∧
          Event.setDutyCycle i (u16 (BRIGHTNESS_TO_DUTY_CYCLE
              (paletteColor env (env.colorCycle h.animationData)
                (k % (env.colorCycle h.animationData).colorCount) i)
              h.controller.MaxDutyCycle)) ∈ r.events) := by
  constructor
  · intro hH
    exact colorCycle_applies_palette env h tick chans hrun hd hT (by omega) hcolors hpal hn
      hpwm hch hfloat (le_of_eq hH)
  · intro k hk
    have hpos : 0 < (env.colorCycle h.animationData).transitionMs
        + (env.colorCycle h.animationData).holdTimeMs := by omega
    have hmod : colorCycleElapsed env h tick
        % ((env.colorCycle h.animationData).transitionMs
          + (env.colorCycle h.animationData).holdTimeMs) = 0 := by
      rw [hk]
      exact Nat.mul_mod_left _ _
    have hdiv : colorCycleElapsed env h tick
        / ((env.colorCycle h.animationData).transitionMs
          + (env.colorCycle h.animationData).holdTimeMs) = k := by
      rw [hk]
      exact Nat.mul_div_cancel _ hpos
    have key := colorCycle_applies_palette env h tick chans hrun hd hT (by omega) hcolors hpal
      hn hpwm hch hfloat (by rw [hmod]; exact Nat.zero_le _)
    rw [hdiv] at key
    exact key

theorem colorCycle_boundary_witness :
    (colorCycleRunning.isRunning = true ∧
      1 ≤ (demoEnv.colorCycle colorCycleRunning.animationData).transitionMs ∧
      2 ≤ (demoEnv.colorCycle colorCycleRunning.animationData).colorCount ∧
      colorCycleElapsed demoEnv colorCycleRunning 101
        % ((demoEnv.colorCycle colorCycleRunning.animationData).transitionMs
          + (demoEnv.colorCycle colorCycleRunning.animationData).holdTimeMs)
        = (demoEnv.colorCycle colorCycleRunning.animationData).holdTimeMs) ∧
    ∃ r, LED_AnimationColorCycleExecute demoEnv colorCycleRunning 101 = some r ∧
      ∀ i, i < 3 →
        r.handle.currentColor i
          = paletteColor demoEnv (demoEnv.colorCycle colorCycleRunning.animationData)
              ((colorCycleElapsed demoEnv colorCycleRunning 101
                / ((demoEnv.colorCycle colorCycleRunning.animationData).transitionMs
                  + (demoEnv.colorCycle colorCycleRunning.animationData).holdTimeMs))
                % (demoEnv.colorCycle colorCycleRunning.animationData).colorCount) i ∧
        Event.setDutyCycle i (u16 (BRIGHTNESS_TO_DUTY_CYCLE
            (paletteColor demoEnv (demoEnv.colorCycle colorCycleRunning.animationData)
              ((colorCycleElapsed demoEnv colorCycleRunning 101
                / ((demoEnv.colorCycle colorCycleRunning.animationData).transitionMs
                  + (demoEnv.colorCycle colorCycleRunning.animationData).holdTimeMs))
                % (demoEnv.colorCycle colorCycleRunning.animationData).colorCount) i)
            colorCycleRunning.controller.MaxDutyCycle)) ∈ r.events :=
  ⟨⟨rfl, by decide, by decide, by decide⟩,
    (colorCycle_boundary demoEnv colorCycleRunning 101 (fun _ => true) rfl (by decide)
      (by decide) (by decide) (by decide) (fun _ _ => (by decide : (16 : Nat) ≠ 0)) rfl rfl (fun _ _ => rfl)
      (fun d c n hd => by
        show (c * d + 0 * n - 0 * c) / d = c
        simp only [Nat.zero_mul, Nat.add_zero, Nat.sub_zero]
        exact Nat.mul_div_cancel c (by omega))).1 (by decide)⟩

open LED_Transition_Type_t LED_Transition_State_t LED_Transition_Event_t
open LED_Transition_Status_t

/-! ## The handoff block and the Ongoing step -/

/-- The handoff block, field by field. -/
theorem performHandoff_eq (this : LED_Transition_Handle_t) :
    performHandoff this =
      ({ this with
          LedHandle := { this.LedHandle with
            animationType := this.targetAnimType, animationData := this.targetAnimData,
            isRunning := true, startTime := 0 }
          state := LED_TRANSITION_STATE_IDLE
          event := LED_TRANSITION_EVT_INVALID },
        if this.LedHandle.callback then
          [TransitionEvent.callback this.LedHandle.animationType
            LED_STATUS_ANIMATION_TRANSITION_COMPLETED]
        else []) := rfl

/-- The handoff block is a handoff. -/
theorem performHandoff_handedOff (this : LED_Transition_Handle_t) :
    HandedOff this (performHandoff this) :=
  ⟨rfl, rfl, rfl, rfl, rfl, rfl⟩

/-- The handoff block writes no channel. -/
theorem performHandoff_no_write (this : LED_Transition_Handle_t) :
    (performHandoff this).2.filter TransitionEvent.isWrite = [] := by
  rw [performHandoff_eq]
  by_cases hc : this.LedHandle.callback = true
  · simp [hc, TransitionEvent.isWrite]
  · simp [hc]

/-- With the engine not running, the Ongoing step is the handoff block. -/
theorem ongoing_stopped (tenv : TransitionEnv) (this : LED_Transition_Handle_t) (tick : Nat)
    (hrun : this.LedHandle.isRunning = false) :
    LED_Transition_StateOngoing tenv this tick = some (performHandoff this) := by
  unfold LED_Transition_StateOngoing
  simp [hrun]

/-- With policy IMMINENT, the Ongoing step is the handoff block. -/
theorem ongoing_imminent (tenv : TransitionEnv) (this : LED_Transition_Handle_t) (tick : Nat)
    (hp : this.transitionType = LED_TRANSITION_IMMINENT) :
    LED_Transition_StateOngoing tenv this tick = some (performHandoff this) := by
  unfold LED_Transition_StateOngoing
  by_cases hrun : this.LedHandle.isRunning = false
  · simp [hrun]
  · simp [hrun, hp]

/-- In state ONGOING the step of `Update` is the Ongoing step. -/
theorem transitionStep_ongoing (tenv : TransitionEnv) (this : LED_Transition_Handle_t)
    (tick : Nat) (hs : this.state = LED_TRANSITION_STATE_ONGOING) :
    transitionStep tenv this tick = LED_Transition_StateOngoing tenv this tick := by
  unfold transitionStep
  rw [hs]

/-- A call of `Update` with a new tick, from the step it performs: the tick
is forwarded to the engine's `LED_Animation_Update` on the handle the step
left, and the call is defined exactly when that is. -/
theorem update_of_step (tenv : TransitionEnv) (lt : Nat) (this this1 : LED_Transition_Handle_t)
    (evs : List TransitionEvent) (tick : Nat) (hlt : lt ≠ tick)
    (hstep : transitionStep tenv this tick = some (this1, evs)) :
    LED_Transition_Update tenv lt this tick =
      (LED_Animation_Update tenv.env this1.LedHandle tick).map (fun r =>
        (⟨{ this1 with LedHandle := r.handle }, tick,
          evs ++ r.events.map TransitionEvent.engine, LED_SUCCESS⟩ : TransitionResult)) := by
  unfold LED_Transition_Update
  rw [if_neg hlt, hstep]
  simp only []
  cases h : LED_Animation_Update tenv.env this1.LedHandle tick <;> simp

/-- The engine's events are none of the transition manager's own callbacks. -/
theorem filter_transitionCallback_engine (evs : List Event) :
    (evs.map TransitionEvent.engine).filter TransitionEvent.isTransitionCallback = [] := by
  induction evs with
  | nil => rfl
  | cons e es ih => simp [TransitionEvent.isTransitionCallback]

/-- C25: in state ONGOING with the engine's running flag false, whatever the
policy and the elapsed time, the Ongoing step (the step `Update` performs) is
defined and hands off: the engine holds the target config and tag and is
started (running, start marker reset), the callback, when one is registered,
is invoked once with the transition-completed status, and the state is IDLE. -/
theorem ongoing_nothing_running (tenv : TransitionEnv) (this : LED_Transition_Handle_t)
    (tick : Nat) (hs : this.state = LED_TRANSITION_STATE_ONGOING)
    (hrun : this.LedHandle.isRunning = false) :
    ∃ r, transitionStep tenv this tick = some r ∧
      LED_Transition_StateOngoing tenv this tick = some r ∧
      r.1.state = LED_TRANSITION_STATE_IDLE ∧
      r.1.LedHandle.animationData = this.targetAnimData ∧
      r.1.LedHandle.animationType = this.targetAnimType ∧
      r.1.LedHandle.isRunning = true ∧
      r.1.LedHandle.startTime = 0 ∧
      (this.LedHandle.callback = true →
        r.2 = [TransitionEvent.callback this.LedHandle.animationType
          LED_STATUS_ANIMATION_TRANSITION_COMPLETED]) := by
  refine ⟨performHandoff this, ?_, ongoing_stopped tenv this tick hrun, rfl, rfl, rfl, rfl, rfl,
    ?_⟩
  · rw [transitionStep_ongoing tenv this tick hs]
    exact ongoing_stopped tenv this tick hrun
  · intro hc
    rw [performHandoff_eq]
    simp [hc]

open LED_Transition_Type_t LED_Transition_State_t LED_Transition_Event_t
open LED_Transition_Status_t

theorem ongoing_nothing_running_witness :
    (stoppedEngineTransition LED_TRANSITION_AT_CLEAN_ENTRY).state
        = LED_TRANSITION_STATE_ONGOING ∧
    (stoppedEngineTransition LED_TRANSITION_AT_CLEAN_ENTRY).LedHandle.isRunning = false ∧
    ∃ r, transitionStep demoTransitionEnv
          (stoppedEngineTransition LED_TRANSITION_AT_CLEAN_ENTRY) 7000 = some r ∧
      LED_Transition_StateOngoing demoTransitionEnv
          (stoppedEngineTransition LED_TRANSITION_AT_CLEAN_ENTRY) 7000 = some r ∧
      r.1.state = LED_TRANSITION_STATE_IDLE ∧
      r.1.LedHandle.animationData = 12 ∧
      r.1.LedHandle.animationType = LED_ANIMATION_BLINK ∧
      r.1.LedHandle.isRunning = true ∧
      r.1.LedHandle.startTime = 0 ∧
      (true = true →
        r.2 = [TransitionEvent.callback LED_ANIMATION_BREATH
          LED_STATUS_ANIMATION_TRANSITION_COMPLETED]) :=
  ⟨rfl, rfl,
    ongoing_nothing_running demoTransitionEnv
      (stoppedEngineTransition LED_TRANSITION_AT_CLEAN_ENTRY) 7000 rfl rfl⟩

/-- C24: in state ONGOING with policy IMMINENT, an `Update` with a new tick
performs the handoff: the callback (one being registered) is invoked once
with the transition-completed status, the engine is given the pending target
config and tag and started (running, start marker reset), the state returns
to IDLE, and the tick is then forwarded to the engine. -/
theorem imminent_handoff (tenv : TransitionEnv) (lt : Nat) (this : LED_Transition_Handle_t)
    (tick : Nat) (hs : this.state = LED_TRANSITION_STATE_ONGOING)
    (hp : this.transitionType = LED_TRANSITION_IMMINENT) (hlt : lt ≠ tick)
    (hcb : this.LedHandle.callback = true) :
    ∃ r, transitionStep tenv this tick = some r ∧
      r.2 = [TransitionEvent.callback this.LedHandle.animationType
        LED_STATUS_ANIMATION_TRANSITION_COMPLETED] ∧
      r.1.LedHandle.animationData = this.targetAnimData ∧
      r.1.LedHandle.animationType = this.targetAnimType ∧
      r.1.LedHandle.isRunning = true ∧
      r.1.LedHandle.startTime = 0 ∧
      r.1.state = LED_TRANSITION_STATE_IDLE ∧
      LED_Transition_Update tenv lt this tick =
        (LED_Animation_Update tenv.env r.1.LedHandle tick).map (fun e =>
          (⟨{ r.1 with LedHandle := e.handle }, tick,
            r.2 ++ e.events.map TransitionEvent.engine, LED_SUCCESS⟩ : TransitionResult)) ∧
      ∀ u, LED_Transition_Update tenv lt this tick = some u →
        u.handle.state = LED_TRANSITION_STATE_IDLE ∧
        u.events.filter TransitionEvent.isTransitionCallback
          = [TransitionEvent.callback this.LedHandle.animationType
              LED_STATUS_ANIMATION_TRANSITION_COMPLETED] := by
  have hstep : transitionStep tenv this tick = some (performHandoff this) := by
    rw [transitionStep_ongoing tenv this tick hs]
    exact ongoing_imminent tenv this tick hp
  have hev : (performHandoff this).2 = [TransitionEvent.callback this.LedHandle.animationType
      LED_STATUS_ANIMATION_TRANSITION_COMPLETED] := by
    rw [performHandoff_eq]
    simp [hcb]
  have hup := update_of_step tenv lt this (performHandoff this).1 (performHandoff this).2 tick
    hlt hstep
  refine ⟨performHandoff this, hstep, hev, rfl, rfl, rfl, rfl, rfl, hup, ?_⟩
  intro u hu
  rw [hup] at hu
  cases he : LED_Animation_Update tenv.env (performHandoff this).1.LedHandle tick with
  | none => rw [he] at hu; cases hu
  | some e =>
    rw [he] at hu
    simp only [Option.map_some', Option.some.injEq] at hu
    rw [← hu]
    refine ⟨rfl, ?_⟩
    simp only [List.filter_append, filter_transitionCallback_engine, List.append_nil, hev]
    rfl

theorem imminent_handoff_witness :
    ∃ r, transitionStep demoTransitionEnv (ongoingTransition LED_TRANSITION_IMMINENT) 1001
        = some r ∧
      r.2 = [TransitionEvent.callback LED_ANIMATION_BREATH
        LED_STATUS_ANIMATION_TRANSITION_COMPLETED] ∧
      r.1.LedHandle.animationData = 12 ∧
      r.1.LedHandle.animationType = LED_ANIMATION_BLINK ∧
      r.1.LedHandle.isRunning = true ∧
      r.1.LedHandle.startTime = 0 ∧
      r.1.state = LED_TRANSITION_STATE_IDLE ∧
      LED_Transition_Update demoTransitionEnv 1000
          (ongoingTransition LED_TRANSITION_IMMINENT) 1001 =
        (LED_Animation_Update demoTransitionEnv.env r.1.LedHandle 1001).map (fun e =>
          (⟨{ r.1 with LedHandle := e.handle }, 1001,
            r.2 ++ e.events.map TransitionEvent.engine, LED_SUCCESS⟩ : TransitionResult)) ∧
      ∀ u, LED_Transition_Update demoTransitionEnv 1000
          (ongoingTransition LED_TRANSITION_IMMINENT) 1001 = some u →
        u.handle.state = LED_TRANSITION_STATE_IDLE ∧
        u.events.filter TransitionEvent.isTransitionCallback
          = [TransitionEvent.callback LED_ANIMATION_BREATH
              LED_STATUS_ANIMATION_TRANSITION_COMPLETED] :=
  imminent_handoff demoTransitionEnv 1000 (ongoingTransition LED_TRANSITION_IMMINENT) 1001
    rfl rfl (by decide) rfl

open LED_Transition_Type_t LED_Transition_State_t LED_Transition_Event_t
open LED_Transition_Status_t

/-! ## Waiting for natural completion -/

/-- The Ongoing step with policy UPON_COMPLETION and a running engine. -/
theorem ongoing_upon_completion (tenv : TransitionEnv) (this : LED_Transition_Handle_t)
    (tick : Nat) (hp : this.transitionType = LED_TRANSITION_UPON_COMPLETION)
    (hrun : this.LedHandle.isRunning = true) :
    LED_Transition_StateOngoing tenv this tick =
      if sub32 tick this.lastTick > tenv.TRANSITION_UPON_COMPLETION_TIMEOUT_MS then
        some ({ this with transitionType := LED_TRANSITION_IMMINENT }, [])
      else some (this, []) := by
  unfold LED_Transition_StateOngoing
  simp [hrun, hp]

/-- The engine's `Update` that follows the step touches neither the state nor
the policy nor the pending target of the transition handle. -/
theorem update_keeps_step_fields (tenv : TransitionEnv) (lt : Nat)
    (this this1 : LED_Transition_Handle_t) (evs : List TransitionEvent) (tick : Nat)
    (u : TransitionResult) (hlt : lt ≠ tick)
    (hstep : transitionStep tenv this tick = some (this1, evs))
    (hu : LED_Transition_Update tenv lt this tick = some u) :
    u.handle.state = this1.state ∧ u.handle.transitionType = this1.transitionType ∧
    u.handle.targetAnimData = this1.targetAnimData ∧
    u.handle.targetAnimType = this1.targetAnimType ∧
    u.handle.lastTick = this1.lastTick ∧ u.last_tick = tick := by
  rw [update_of_step tenv lt this this1 evs tick hlt hstep] at hu
  cases he : LED_Animation_Update tenv.env this1.LedHandle tick with
  | none => rw [he] at hu; cases hu
  | some e =>
    rw [he] at hu
    simp only [Option.map_some', Option.some.injEq] at hu
    rw [← hu]
    exact ⟨rfl, rfl, rfl, rfl, rfl, rfl⟩

/-- C28: in state ONGOING with policy UPON_COMPLETION.  While the engine is
running and the elapsed time since setup does not exceed the timeout, the
Ongoing step changes nothing (engine config, tag, running flag, state and
policy).  Once the running flag is false the step hands off.  Once the
elapsed time exceeds the timeout with the engine running, the step sets the
policy to IMMINENT and nothing else, and after the `Update` that did so the
next step hands off. -/
theorem upon_completion_waits (tenv : TransitionEnv) (lt : Nat)
    (this : LED_Transition_Handle_t) (tick : Nat)
    (hs : this.state = LED_TRANSITION_STATE_ONGOING)
    (hp : this.transitionType = LED_TRANSITION_UPON_COMPLETION) :
    (this.LedHandle.isRunning = true →
      sub32 tick this.lastTick ≤ tenv.TRANSITION_UPON_COMPLETION_TIMEOUT_MS →
      transitionStep tenv this tick = some (this, [])) ∧
    (this.LedHandle.isRunning = false →
      ∃ r, transitionStep tenv this tick = some r ∧ HandedOff this r) ∧
    (this.LedHandle.isRunning = true →
      sub32 tick this.lastTick > tenv.TRANSITION_UPON_COMPLETION_TIMEOUT_MS →
      transitionStep tenv this tick
        = some ({ this with transitionType := LED_TRANSITION_IMMINENT }, []) ∧
      ∀ u, lt ≠ tick → LED_Transition_Update tenv lt this tick = some u →
        u.handle.state = LED_TRANSITION_STATE_ONGOING ∧
        u.handle.transitionType = LED_TRANSITION_IMMINENT ∧
        u.handle.targetAnimData = this.targetAnimData ∧
        u.handle.targetAnimType = this.targetAnimType ∧
        ∀ tick2, ∃ r, transitionStep tenv u.handle tick2 = some r ∧ HandedOff u.handle r) := by
  refine ⟨?_, ?_, ?_⟩
  · intro hrun hle
    rw [transitionStep_ongoing tenv this tick hs, ongoing_upon_completion tenv this tick hp hrun,
      if_neg (by omega)]
  · intro hrun
    refine ⟨performHandoff this, ?_, performHandoff_handedOff this⟩
    rw [transitionStep_ongoing tenv this tick hs]
    exact ongoing_stopped tenv this tick hrun
  · intro hrun hgt
    have hstep : transitionStep tenv this tick
        = some ({ this with transitionType := LED_TRANSITION_IMMINENT }, []) := by
      rw [transitionStep_ongoing tenv this tick hs,
        ongoing_upon_completion tenv this tick hp hrun, if_pos hgt]
    refine ⟨hstep, ?_⟩
    intro u hlt hu
    have hk := update_keeps_step_fields tenv lt this _ _ tick u hlt hstep hu
    refine ⟨hk.1.trans hs, hk.2.1, hk.2.2.1, hk.2.2.2.1, ?_⟩
    intro tick2
    refine ⟨performHandoff u.handle, ?_, performHandoff_handedOff u.handle⟩
    rw [transitionStep_ongoing tenv u.handle tick2 (hk.1.trans hs)]
    exact ongoing_imminent tenv u.handle tick2 hk.2.1

theorem upon_completion_waits_witness :
    (sub32 1500 (ongoingTransition LED_TRANSITION_UPON_COMPLETION).lastTick ≤ 5000 ∧
      transitionStep demoTransitionEnv (ongoingTransition LED_TRANSITION_UPON_COMPLETION) 1500
        = some (ongoingTransition LED_TRANSITION_UPON_COMPLETION, [])) ∧
    (sub32 6001 (ongoingTransition LED_TRANSITION_UPON_COMPLETION).lastTick > 5000 ∧
      (transitionStep demoTransitionEnv (ongoingTransition LED_TRANSITION_UPON_COMPLETION) 6001
        = some ({ ongoingTransition LED_TRANSITION_UPON_COMPLETION with
            transitionType := LED_TRANSITION_IMMINENT }, []))) :=
  ⟨⟨by decide,
      (upon_completion_waits demoTransitionEnv 0
        (ongoingTransition LED_TRANSITION_UPON_COMPLETION) 1500 rfl rfl).1 rfl (by decide)⟩,
    ⟨by decide,
      ((upon_completion_waits demoTransitionEnv 0
        (ongoingTransition LED_TRANSITION_UPON_COMPLETION) 6001 rfl rfl).2.2 rfl
          (by decide)).1⟩⟩

/-! ## The states the machine can be in -/

/-- Setting the next state to one of IDLE, SETUP, ONGOING gives that state. -/
theorem SetNextState_state (this : LED_Transition_Handle_t) (s : LED_Transition_State_t)
    (hs : ReachableState s) : (LED_Transition_SetNextState this s).state = s := by
  rcases hs with h | h | h <;> subst h <;> rfl

/-- The Idle step leaves a state among IDLE and SETUP or the one it found. -/
theorem stateIdle_state (this : LED_Transition_Handle_t) :
    (LED_Transition_StateIdle this).state = this.state ∨
      (LED_Transition_StateIdle this).state = LED_TRANSITION_STATE_SETUP := by
  unfold LED_Transition_StateIdle
  split_ifs
  · right; rfl
  · left; rfl

/-- The Setup step ends in ONGOING with the tick recorded. -/
theorem stateSetup_state (tenv : TransitionEnv) (this : LED_Transition_Handle_t) (tick : Nat)
    (r : LED_Transition_Handle_t × List TransitionEvent)
    (h : LED_Transition_StateSetup tenv this tick = some r) :
    r.1.state = LED_TRANSITION_STATE_ONGOING ∧ r.1.lastTick = tick := by
  unfold LED_Transition_StateSetup at h
  split at h
  · cases h
  · simp only [] at h
    split at h
    · cases h
    · cases h
      exact ⟨rfl, rfl⟩

/-- The interpolation functions touch only the engine's handle. -/
theorem applyInterpolated_state (this : LED_Transition_Handle_t) (color : Nat → Nat) :
    (applyInterpolated this color).1.state = this.state ∧
    (applyInterpolated this color).1.transitionType = this.transitionType := ⟨rfl, rfl⟩

/-- The Ongoing step leaves the state it found or IDLE. -/
theorem stateOngoing_state (tenv : TransitionEnv) (this : LED_Transition_Handle_t) (tick : Nat)
    (r : LED_Transition_Handle_t × List TransitionEvent)
    (h : LED_Transition_StateOngoing tenv this tick = some r) :
    r.1.state = this.state ∨ r.1.state = LED_TRANSITION_STATE_IDLE := by
  unfold LED_Transition_StateOngoing at h
  by_cases hrun : this.LedHandle.isRunning = false
  · rw [if_pos hrun] at h
    cases h
    right; rfl
  · rw [if_neg hrun] at h
    simp only [] at h
    split at h
    · cases h; right; rfl
    · cases h; left; rfl
    · split_ifs at h <;> cases h <;> first | exact Or.inr rfl | exact Or.inl rfl
    · split_ifs at h <;> cases h <;> first | exact Or.inr rfl | exact Or.inl rfl
    · split at h
      · cases h
      · split_ifs at h <;> cases h <;> first | exact Or.inr rfl | exact Or.inl rfl
    · cases h; left; rfl

/-- Every step of `Update` keeps the state among IDLE, SETUP, ONGOING. -/
theorem transitionStep_reachable (tenv : TransitionEnv) (this : LED_Transition_Handle_t)
    (tick : Nat) (r : LED_Transition_Handle_t × List TransitionEvent)
    (hs : ReachableState this.state) (h : transitionStep tenv this tick = some r) :
    ReachableState r.1.state := by
  unfold transitionStep at h
  rcases hs with hs | hs | hs <;> rw [hs] at h <;> simp only [] at h
  · cases h
    rcases stateIdle_state this with h1 | h1
    · left; exact h1.trans hs
    · right; left; exact h1
  · right; right
    exact (stateSetup_state tenv this tick r h).1
  · rcases stateOngoing_state tenv this tick r h with h1 | h1
    · right; right; exact h1.trans hs
    · left; exact h1

/-- Every call of the public interface keeps the state among IDLE, SETUP,
ONGOING. -/
theorem applyCall_reachable (tenv : TransitionEnv) (s s1 : TransitionSystem)
    (c : TransitionCall) (hs : ReachableState s.handle.state)
    (h : applyCall tenv s c = some s1) : ReachableState s1.handle.state := by
  cases c with
  | setMapping m n =>
    simp only [applyCall, Option.some.injEq] at h
    rw [← h]
    show ReachableState (LED_Transition_SetMapping s.handle m n).1.state
    unfold LED_Transition_SetMapping
    split_ifs <;> exact hs
  | execAnimation d t =>
    simp only [applyCall, Option.some.injEq] at h
    rw [← h]
    show ReachableState (LED_Transition_ExecAnimation s.handle d t).1.state
    unfold LED_Transition_ExecAnimation
    split_ifs <;> exact hs
  | update tick =>
    simp only [applyCall] at h
    cases hu : LED_Transition_Update tenv s.last_tick s.handle tick with
    | none => rw [hu] at h; cases h
    | some u =>
      rw [hu] at h
      simp only [Option.some.injEq] at h
      rw [← h]
      show ReachableState u.handle.state
      by_cases hlt : s.last_tick = tick
      · unfold LED_Transition_Update at hu
        rw [if_pos hlt] at hu
        cases hu
        exact hs
      · cases hstep : transitionStep tenv s.handle tick with
        | none =>
          unfold LED_Transition_Update at hu
          rw [if_neg hlt, hstep] at hu
          cases hu
        | some r =>
          have hk := update_keeps_step_fields tenv s.last_tick s.handle r.1 r.2 tick u hlt
            hstep hu
          rw [hk.1]
          exact transitionStep_reachable tenv s.handle tick r hs hstep

/-- Every finite sequence of calls keeps the state among IDLE, SETUP,
ONGOING. -/
theorem applyCalls_reachable (tenv : TransitionEnv) (cs : List TransitionCall) :
    ∀ s s1 : TransitionSystem, ReachableState s.handle.state →
      applyCalls tenv s cs = some s1 → ReachableState s1.handle.state := by
  induction cs with
  | nil =>
    intro s s1 hs h
    simp only [applyCalls, Option.some.injEq] at h
    rw [← h]
    exact hs
  | cons c cs ih =>
    intro s s1 hs h
    simp only [applyCalls] at h
    cases hc : applyCall tenv s c with
    | none => rw [hc] at h; cases h
    | some s2 =>
      rw [hc] at h
      exact ih s2 s1 (applyCall_reachable tenv s s2 c hs hc) h

/-- C21: from the handle `LED_Transition_Init` produces (on whatever the
memory of the handle held before, and whatever the file-level `last_tick`),
after every finite sequence of `SetMapping`, `ExecAnimation` and `Update`
calls the state is IDLE, SETUP or ONGOING; it is never COMPLETED and never
INVALID. -/
theorem completed_unreachable (tenv : TransitionEnv) (this0 : LED_Transition_Handle_t)
    (led : LED_Handle_t) (lt : Nat) (cs : List TransitionCall) (s : TransitionSystem)
    (h : applyCalls tenv ⟨(LED_Transition_Init this0 (some led)).1, lt⟩ cs = some s) :
    ReachableState s.handle.state ∧
    s.handle.state ≠ LED_TRANSITION_STATE_COMPLETED ∧
    s.handle.state ≠ LED_TRANSITION_STATE_INVALID := by
  have hr : ReachableState s.handle.state :=
    applyCalls_reachable tenv cs _ s (Or.inl rfl) h
  refine ⟨hr, ?_, ?_⟩
  · rcases hr with h1 | h1 | h1 <;> rw [h1] <;> decide
  · rcases hr with h1 | h1 | h1 <;> rw [h1] <;> decide

open LED_Transition_Type_t LED_Transition_State_t LED_Transition_Event_t
open LED_Transition_Status_t

theorem completed_unreachable_witness :
    ∃ s, applyCalls demoTransitionEnv
        ⟨(LED_Transition_Init demoTransition (some breathRunning)).1, 0⟩
        [TransitionCall.setMapping 40 4, TransitionCall.execAnimation 12 LED_ANIMATION_BLINK,
          TransitionCall.update 1, TransitionCall.update 2] = some s ∧
      s.handle.state = LED_TRANSITION_STATE_ONGOING ∧
      (ReachableState s.handle.state ∧
        s.handle.state ≠ LED_TRANSITION_STATE_COMPLETED ∧
        s.handle.state ≠ LED_TRANSITION_STATE_INVALID) :=
  ⟨_, rfl, rfl,
    completed_unreachable demoTransitionEnv demoTransition breathRunning 0
      [TransitionCall.setMapping 40 4, TransitionCall.execAnimation 12 LED_ANIMATION_BLINK,
        TransitionCall.update 1, TransitionCall.update 2] _ rfl⟩

open LED_Transition_Type_t LED_Transition_State_t LED_Transition_Event_t
open LED_Transition_Status_t

/-! ## Rule lookup -/

/-- The loop of the lookup stops at the least index on which the test holds. -/
theorem findTransitionIndex_least (p : Nat → Bool) (n : Nat) :
    ∀ i k, i ≤ k → k < i + n → p k = true → (∀ j, i ≤ j → j < k → p j = false) →
      findTransitionIndex p i n = some k := by
  induction n with
  | zero => intro i k h1 h2; omega
  | succ n ih =>
    intro i k h1 h2 hk hmin
    unfold findTransitionIndex
    by_cases hik : i = k
    · subst hik
      rw [if_pos hk]
    · have hpi : p i = false := hmin i (Nat.le_refl i) (by omega)
      rw [if_neg (by simp [hpi])]
      exact ih (i + 1) k (by omega) (by omega) hk (fun j hj1 hj2 => hmin j (by omega) hj2)

/-- The loop of the lookup finds nothing when the test fails on every entry. -/
theorem findTransitionIndex_none (p : Nat → Bool) (n : Nat) :
    ∀ i, (∀ j, i ≤ j → j < i + n → p j = false) → findTransitionIndex p i n = none := by
  induction n with
  | zero => intro i _; rfl
  | succ n ih =>
    intro i h
    unfold findTransitionIndex
    rw [if_neg (by simp [h i (Nat.le_refl i) (by omega)])]
    exact ih (i + 1) (fun j hj1 hj2 => h j (by omega) (by omega))

/-- The lookup changes no field of the handle but the policy. -/
theorem findTransition_fields (tenv : TransitionEnv) (this f : LED_Transition_Handle_t)
    (b : Bool) (h : LED_Transition_FindTransition tenv this = some (f, b)) :
    f = { this with transitionType := f.transitionType } := by
  unfold LED_Transition_FindTransition at h
  split_ifs at h
  split at h
  · simp only [Option.some.injEq, Prod.mk.injEq] at h
    rw [← h.1]
  · simp only [Option.some.injEq, Prod.mk.injEq] at h
    rw [← h.1]

/-- The Setup step from the resolved policy `p`: the Interpolate check, the
tick, the transition-started callback and the move to ONGOING. -/
theorem setup_after_lookup (tenv : TransitionEnv) (this : LED_Transition_Handle_t) (tick : Nat)
    (p : LED_Transition_Type_t) (hres : resolvedPolicy tenv this = some p) :
    LED_Transition_StateSetup tenv this tick =
      (if p = LED_TRANSITION_INTERPOLATE then
          LED_Transition_HandleInterpolate tenv { this with transitionType := p }
        else some { this with transitionType := p }).map (fun this2 =>
        (LED_Transition_SetNextState { this2 with lastTick := tick }
            LED_TRANSITION_STATE_ONGOING,
          LED_Transition_CallCallbackIfExists { this2 with lastTick := tick }
            LED_STATUS_ANIMATION_TRANSITION_STARTED)) := by
  unfold resolvedPolicy at hres
  unfold LED_Transition_StateSetup
  cases hf : LED_Transition_FindTransition tenv this with
  | none => rw [hf] at hres; cases hres
  | some fb =>
    obtain ⟨f, b⟩ := fb
    rw [hf] at hres
    simp only [Option.map_some', Option.some.injEq] at hres
    have hfield := findTransition_fields tenv this f b hf
    have h1 : (if b = false then LED_Transition_SetDefaultType f else f)
        = { this with transitionType := p } := by
      rw [← hres]
      cases b
      · simp only [if_true]
        rw [hfield]
        rfl
      · simp only [Bool.true_eq_false, if_false]
        exact hfield
    simp only []
    rw [h1]
    cases (if p = LED_TRANSITION_INTERPOLATE then
          LED_Transition_HandleInterpolate tenv { this with transitionType := p }
        else some { this with transitionType := p }) <;> rfl

/-- The array `targetColor` after the Interpolate check holds the starting
color of the target on the channels of the controller. -/
theorem targetStartColor_eq (tenv : TransitionEnv) (this : LED_Transition_Handle_t) (i : Nat)
    (hi : i < CalculateColorCount this.LedHandle.controller.LedType) :
    (if tenv.LED_Animation_ShouldStartHigh this.targetAnimType this.targetAnimData = false then
        fun i => if i < CalculateColorCount this.LedHandle.controller.LedType then 0
          else tenv.LED_Animation_GetTargetColor this.targetAnimData this.targetAnimType
            this.targetColor (CalculateColorCount this.LedHandle.controller.LedType) i
      else tenv.LED_Animation_GetTargetColor this.targetAnimData this.targetAnimType
        this.targetColor (CalculateColorCount this.LedHandle.controller.LedType)) i
      = targetStartColor tenv this i := by
  unfold targetStartColor
  by_cases hh : tenv.LED_Animation_ShouldStartHigh this.targetAnimType this.targetAnimData
      = false
  · simp [hh, hi]
  · simp [hh]

/-- The Interpolate check of the Setup step when the current color can be
read: the policy becomes IMMINENT exactly when the color read equals the
starting color of the target on every channel of the controller; the engine,
the pending target, the state and the tick stay as they were. -/
theorem handleInterpolate_policy (tenv : TransitionEnv) (this : LED_Transition_Handle_t)
    (cur : Nat → Nat) (m : Nat)
    (hc : tenv.LED_Animation_GetCurrentColor this.LedHandle
      (CalculateColorCount this.LedHandle.controller.LedType) = some (cur, m)) :
    ∃ r, LED_Transition_HandleInterpolate tenv this = some r ∧
      r.LedHandle = this.LedHandle ∧ r.targetAnimData = this.targetAnimData ∧
      r.targetAnimType = this.targetAnimType ∧ r.state = this.state ∧
      r.lastTick = this.lastTick ∧
      ((∀ i, i < CalculateColorCount this.LedHandle.controller.LedType →
          cur i = targetStartColor tenv this i) → r.transitionType = LED_TRANSITION_IMMINENT) ∧
      ((∃ i, i < CalculateColorCount this.LedHandle.controller.LedType ∧
          cur i ≠ targetStartColor tenv this i) → r.transitionType = this.transitionType) := by
  unfold LED_Transition_HandleInterpolate
  simp only [hc]
  refine ⟨_, rfl, rfl, rfl, rfl, rfl, rfl, ?_, ?_⟩
  · intro hall
    have hany : ((List.range (CalculateColorCount this.LedHandle.controller.LedType)).any
        (fun i => decide
          ((if i < CalculateColorCount this.LedHandle.controller.LedType then cur i
              else this.currentColor i) ≠
            (if tenv.LED_Animation_ShouldStartHigh this.targetAnimType this.targetAnimData
                = false then
              fun i => if i < CalculateColorCount this.LedHandle.controller.LedType then 0
                else tenv.LED_Animation_GetTargetColor this.targetAnimData this.targetAnimType
                  this.targetColor (CalculateColorCount this.LedHandle.controller.LedType) i
            else tenv.LED_Animation_GetTargetColor this.targetAnimData this.targetAnimType
              this.targetColor (CalculateColorCount this.LedHandle.controller.LedType)) i)))
        = false := by
      rw [Bool.eq_false_iff]
      intro hex
      rw [List.any_eq_true] at hex
      obtain ⟨i, hi, hne⟩ := hex
      rw [List.mem_range] at hi
      rw [decide_eq_true_eq, if_pos hi, targetStartColor_eq tenv this i hi] at hne
      exact hne (hall i hi)
    show (if _ = false then LED_TRANSITION_IMMINENT else this.transitionType)
      = LED_TRANSITION_IMMINENT
    rw [if_pos hany]
  · intro hex
    obtain ⟨i, hi, hne⟩ := hex
    have hany : ((List.range (CalculateColorCount this.LedHandle.controller.LedType)).any
        (fun i => decide
          ((if i < CalculateColorCount this.LedHandle.controller.LedType then cur i
              else this.currentColor i) ≠
            (if tenv.LED_Animation_ShouldStartHigh this.targetAnimType this.targetAnimData
                = false then
              fun i => if i < CalculateColorCount this.LedHandle.controller.LedType then 0
                else tenv.LED_Animation_GetTargetColor this.targetAnimData this.targetAnimType
                  this.targetColor (CalculateColorCount this.LedHandle.controller.LedType) i
            else tenv.LED_Animation_GetTargetColor this.targetAnimData this.targetAnimType
              this.targetColor (CalculateColorCount this.LedHandle.controller.LedType)) i)))
        = true := by
      rw [List.any_eq_true]
      refine ⟨i, List.mem_range.mpr hi, ?_⟩
      rw [decide_eq_true_eq, if_pos hi, targetStartColor_eq tenv this i hi]
      exact hne
    show (if _ = false then LED_TRANSITION_IMMINENT else this.transitionType)
      = this.transitionType
    rw [if_neg (by rw [hany]; decide)]

/-- C22: the Setup step on a handle whose rule table is either set or empty.
The policy it resolves is the `TransitionType` of the first entry, in table
order, whose `StartAnim` is the engine's current config pointer and whose
`EndAnim` is the pending target config; it is IMMINENT when no entry matches
(an empty or unset table included).  The step then stores the resolved policy
(a resolved INTERPOLATE may be stored as IMMINENT), records the tick and moves
to ONGOING in every case. -/
theorem setup_rule_lookup (tenv : TransitionEnv) (this : LED_Transition_Handle_t) (tick : Nat)
    (hmap : this.transitionMap = 0 → this.mapSize = 0) :
    (∀ k, k < this.mapSize →
      ((tenv.rules this.transitionMap k).StartAnim = this.LedHandle.animationData ∧
        (tenv.rules this.transitionMap k).EndAnim = this.targetAnimData) →
      (∀ j, j < k →
        ¬((tenv.rules this.transitionMap j).StartAnim = this.LedHandle.animationData ∧
          (tenv.rules this.transitionMap j).EndAnim = this.targetAnimData)) →
      resolvedPolicy tenv this = some (tenv.rules this.transitionMap k).TransitionType) ∧
    ((∀ j, j < this.mapSize →
        ¬((tenv.rules this.transitionMap j).StartAnim = this.LedHandle.animationData ∧
          (tenv.rules this.transitionMap j).EndAnim = this.targetAnimData)) →
      resolvedPolicy tenv this = some LED_TRANSITION_IMMINENT) ∧
    (∃ p, resolvedPolicy tenv this = some p ∧
      ((p = LED_TRANSITION_INTERPOLATE →
          (tenv.LED_Animation_GetCurrentColor this.LedHandle
            (CalculateColorCount this.LedHandle.controller.LedType)).isSome = true) →
        ∃ r, LED_Transition_StateSetup tenv this tick = some r ∧
          r.1.state = LED_TRANSITION_STATE_ONGOING ∧ r.1.lastTick = tick ∧
          (p ≠ LED_TRANSITION_INTERPOLATE → r.1.transitionType = p) ∧
          (p = LED_TRANSITION_INTERPOLATE →
            r.1.transitionType = LED_TRANSITION_INTERPOLATE ∨
              r.1.transitionType = LED_TRANSITION_IMMINENT))) := by
  have hnull : ¬(this.transitionMap = 0 ∧ this.mapSize ≠ 0) := fun h => h.2 (hmap h.1)
  refine ⟨?_, ?_, ?_⟩
  · intro k hk hmatch hfirst
    have hfind : findTransitionIndex (ruleMatches tenv this) 0 this.mapSize = some k := by
      apply findTransitionIndex_least _ _ 0 k (Nat.zero_le k) (by omega)
      · simp [ruleMatches, hmatch.1, hmatch.2]
      · intro j _ hj
        have := hfirst j hj
        simpa [ruleMatches] using this
    simp [resolvedPolicy, LED_Transition_FindTransition, hnull, hfind]
  · intro hno
    have hfind : findTransitionIndex (ruleMatches tenv this) 0 this.mapSize = none := by
      apply findTransitionIndex_none
      intro j _ hj
      have := hno j (by omega)
      simpa [ruleMatches] using this
    simp [resolvedPolicy, LED_Transition_FindTransition, hnull, hfind,
      LED_Transition_SetDefaultType]
  · have hdef : ∃ p, resolvedPolicy tenv this = some p := by
      unfold resolvedPolicy LED_Transition_FindTransition
      rw [if_neg hnull]
      cases findTransitionIndex (ruleMatches tenv this) 0 this.mapSize <;> simp
    obtain ⟨p, hp⟩ := hdef
    refine ⟨p, hp, ?_⟩
    intro hhelper
    rw [setup_after_lookup tenv this tick p hp]
    by_cases hpi : p = LED_TRANSITION_INTERPOLATE
    · rw [if_pos hpi]
      have hsome := hhelper hpi
      cases hc : tenv.LED_Animation_GetCurrentColor this.LedHandle
          (CalculateColorCount this.LedHandle.controller.LedType) with
      | none => rw [hc] at hsome; cases hsome
      | some cm =>
        obtain ⟨cur, m⟩ := cm
        obtain ⟨r, hr, -, -, -, -, -, himm, hint⟩ :=
          handleInterpolate_policy tenv { this with transitionType := p } cur m hc
        rw [hr]
        refine ⟨_, rfl, rfl, rfl, fun h => absurd hpi h, fun _ => ?_⟩
        show r.transitionType = LED_TRANSITION_INTERPOLATE ∨
          r.transitionType = LED_TRANSITION_IMMINENT
        by_cases hall : ∀ i, i < CalculateColorCount this.LedHandle.controller.LedType →
            cur i = targetStartColor tenv { this with transitionType := p } i
        · right; exact himm hall
        · left
          rw [hint (by
            by_contra hno
            apply hall
            intro i hi
            by_contra hne
            exact hno ⟨i, hi, hne⟩)]
          exact hpi
    · rw [if_neg hpi]
      exact ⟨_, rfl, rfl, rfl, fun _ => rfl, fun h => absurd h hpi⟩

open LED_Transition_Type_t LED_Transition_State_t LED_Transition_Event_t
open LED_Transition_Status_t

theorem setup_rule_lookup_witness :
    ((setupTransition 40 12).transitionMap = 0 → (setupTransition 40 12).mapSize = 0) ∧
    ((demoRules 40 1).EndAnim = (demoRules 40 2).EndAnim ∧
      (demoRules 40 1).StartAnim = (demoRules 40 2).StartAnim) ∧
    resolvedPolicy demoTransitionEnv (setupTransition 40 12)
      = some LED_TRANSITION_UPON_COMPLETION :=
  ⟨fun h => absurd h (by decide), ⟨rfl, rfl⟩,
    (setup_rule_lookup demoTransitionEnv (setupTransition 40 12) 1000
      (fun h => absurd h (by decide))).1 1 (by decide) ⟨rfl, rfl⟩
      (fun j hj => by
        have hj0 : j = 0 := by omega
        subst hj0
        decide)⟩

/-! ## Interpolate: the check in Setup and the length of the blend -/

/-- C29: the Setup step with resolved policy INTERPOLATE, the current color
being read as the engine's snapshot.  If the snapshot equals the starting
color of the target (its first color, or zero when the target starts low) on
every channel of the controller, the policy stored on entering ONGOING is
IMMINENT, and every Ongoing step from there is the handoff and writes no
channel; if they differ on some channel the stored policy is INTERPOLATE. -/
theorem interpolate_downgrade (tenv : TransitionEnv) (this : LED_Transition_Handle_t)
    (tick : Nat) (cur : Nat → Nat) (m : Nat)
    (hres : resolvedPolicy tenv this = some LED_TRANSITION_INTERPOLATE)
    (hc : tenv.LED_Animation_GetCurrentColor this.LedHandle
      (CalculateColorCount this.LedHandle.controller.LedType) = some (cur, m))
    (hsnap : ∀ i, i < CalculateColorCount this.LedHandle.controller.LedType →
      cur i = this.LedHandle.currentColor i) :
    ∃ r, LED_Transition_StateSetup tenv this tick = some r ∧
      r.1.state = LED_TRANSITION_STATE_ONGOING ∧
      ((∀ i, i < CalculateColorCount this.LedHandle.controller.LedType →
          this.LedHandle.currentColor i = targetStartColor tenv this i) →
        r.1.transitionType = LED_TRANSITION_IMMINENT ∧
        ∀ tick2, ∃ r2, LED_Transition_StateOngoing tenv r.1 tick2 = some r2 ∧
          r2.2.filter TransitionEvent.isWrite = [] ∧
          r2.1.state = LED_TRANSITION_STATE_IDLE) ∧
      ((∃ i, i < CalculateColorCount this.LedHandle.controller.LedType ∧
          this.LedHandle.currentColor i ≠ targetStartColor tenv this i) →
        r.1.transitionType = LED_TRANSITION_INTERPOLATE) := by
  obtain ⟨r0, hr0, -, -, -, -, -, himm, hint⟩ :=
    handleInterpolate_policy tenv { this with transitionType := LED_TRANSITION_INTERPOLATE }
      cur m hc
  rw [setup_after_lookup tenv this tick _ hres, if_pos rfl, hr0]
  refine ⟨_, rfl, rfl, ?_, ?_⟩
  · intro hall
    have hpol : r0.transitionType = LED_TRANSITION_IMMINENT :=
      himm (fun i hi => (hsnap i hi).trans (hall i hi))
    refine ⟨hpol, ?_⟩
    intro tick2
    refine ⟨_, ongoing_imminent tenv _ tick2 hpol, performHandoff_no_write _, rfl⟩
  · intro hex
    obtain ⟨i, hi, hne⟩ := hex
    have hpol : r0.transitionType = LED_TRANSITION_INTERPOLATE :=
      hint ⟨i, hi, fun h => hne ((hsnap i hi).symm.trans h)⟩
    exact hpol

theorem interpolate_downgrade_witness :
    (resolvedPolicy demoTransitionEnv (setupTransition 40 20)
        = some LED_TRANSITION_INTERPOLATE ∧
      ∀ i, i < 3 → (setupTransition 40 20).LedHandle.currentColor i
        = targetStartColor demoTransitionEnv (setupTransition 40 20) i) ∧
    ∃ r, LED_Transition_StateSetup demoTransitionEnv (setupTransition 40 20) 1000 = some r ∧
      r.1.transitionType = LED_TRANSITION_IMMINENT :=
  ⟨⟨rfl, fun i hi => by
      have h3 : i = 0 ∨ i = 1 ∨ i = 2 := by omega
      rcases h3 with h | h | h <;> subst h <;> rfl⟩,
    (interpolate_downgrade demoTransitionEnv (setupTransition 40 20) 1000
      (setupTransition 40 20).LedHandle.currentColor 3 rfl rfl (fun _ _ => rfl)).elim
      (fun r hr => ⟨r, hr.1, (hr.2.2.1 (fun i hi => by
        have hi3 : i < 3 := hi
        have h3 : i = 0 ∨ i = 1 ∨ i = 2 := by omega
        rcases h3 with h | h | h <;> subst h <;> rfl)).1⟩)⟩

/-- The lookup reads only `StartAnim`, `EndAnim` and `TransitionType` of the
rules: with another table that agrees on these three fields, every `Update`
gives the same result, whatever the `Duration` fields hold. -/
theorem update_ignores_duration (tenv : TransitionEnv)
    (rules2 : Nat → Nat → LED_Transition_Config_t)
    (hsame : ∀ m i, (rules2 m i).StartAnim = (tenv.rules m i).StartAnim ∧
      (rules2 m i).EndAnim = (tenv.rules m i).EndAnim ∧
      (rules2 m i).TransitionType = (tenv.rules m i).TransitionType)
    (lt : Nat) (this : LED_Transition_Handle_t) (tick : Nat) :
    LED_Transition_Update { tenv with rules := rules2 } lt this tick
      = LED_Transition_Update tenv lt this tick := by
  have hm : ruleMatches { tenv with rules := rules2 } this = ruleMatches tenv this := by
    funext i
    simp [ruleMatches, (hsame this.transitionMap i).1, (hsame this.transitionMap i).2.1]
  have hfind : LED_Transition_FindTransition { tenv with rules := rules2 } this
      = LED_Transition_FindTransition tenv this := by
    unfold LED_Transition_FindTransition
    rw [hm]
    cases findTransitionIndex (ruleMatches tenv this) 0 this.mapSize with
    | none => rfl
    | some i => simp only [(hsame this.transitionMap i).2.2]
  have hsetup : LED_Transition_StateSetup { tenv with rules := rules2 } this tick
      = LED_Transition_StateSetup tenv this tick := by
    unfold LED_Transition_StateSetup
    rw [hfind]
    rfl
  have hstep : transitionStep { tenv with rules := rules2 } this tick
      = transitionStep tenv this tick := by
    unfold transitionStep
    rw [hsetup]
    rfl
  unfold LED_Transition_Update
  rw [hstep]

/-- C23, the code at two rules that differ only in `Duration` (50 ms in the
table at address 40, 150 ms in the table at 48, both with policy INTERPOLATE,
the macro `TRANSITION_INTERPOLATE_TIME_MS` being 200): after Setup at tick
1000 the Ongoing step does not hand off at elapsed 50 with the first rule nor
at elapsed 150 with the second (state ONGOING, engine still on config 8), and
with both rules hands off at elapsed 200 (state IDLE, engine on config 20). -/
theorem rule_duration_ignored :
    ((demoRules 40 3).TransitionType = LED_TRANSITION_INTERPOLATE ∧
      (demoRules 40 3).Duration = 50 ∧
      (demoRules 48 3).TransitionType = LED_TRANSITION_INTERPOLATE ∧
      (demoRules 48 3).Duration = 150) ∧
    ongoingAfterSetup demoTransitionEnv (setupDark 40) 1000 1050
      = some (LED_TRANSITION_STATE_ONGOING, 8) ∧
    ongoingAfterSetup demoTransitionEnv (setupDark 40) 1000 1199
      = some (LED_TRANSITION_STATE_ONGOING, 8) ∧
    ongoingAfterSetup demoTransitionEnv (setupDark 40) 1000 1200
      = some (LED_TRANSITION_STATE_IDLE, 20) ∧
    ongoingAfterSetup demoTransitionEnv (setupDark 48) 1000 1150
      = some (LED_TRANSITION_STATE_ONGOING, 8) ∧
    ongoingAfterSetup demoTransitionEnv (setupDark 48) 1000 1199
      = some (LED_TRANSITION_STATE_ONGOING, 8) ∧
    ongoingAfterSetup demoTransitionEnv (setupDark 48) 1000 1200
      = some (LED_TRANSITION_STATE_IDLE, 20) := by
  refine ⟨⟨rfl, rfl, rfl, rfl⟩, ?_, ?_, ?_, ?_, ?_, ?_⟩ <;> rfl

open LED_Transition_Type_t LED_Transition_State_t LED_Transition_Event_t
open LED_Transition_Status_t

/-! ## Waiting for a clean entry -/

/-- The Ongoing step with policy AT_CLEAN_ENTRY and a running engine, from
what the read of the current color returns: the handoff when the bytes read
are all zero over the count the read leaves, and the policy IMMINENT once the
timeout has passed. -/
theorem ongoing_clean_entry (tenv : TransitionEnv) (this : LED_Transition_Handle_t)
    (tick : Nat) (color : Nat → Nat) (c1 : Nat)
    (hp : this.transitionType = LED_TRANSITION_AT_CLEAN_ENTRY)
    (hrun : this.LedHandle.isRunning = true)
    (hc : tenv.LED_Animation_GetCurrentColor this.LedHandle
      (u8 (CalculateColorCount_value this.LedHandle.animationType.value)) = some (color, c1)) :
    LED_Transition_StateOngoing tenv this tick =
      if sub32 tick this.lastTick > tenv.TRANSITION_AT_CLEAN_ENTRY_TIMEOUT_MS then
        some ({ (if AreColorsOff color (u8 c1) then performHandoff this else (this, [])).1 with
            transitionType := LED_TRANSITION_IMMINENT },
          (if AreColorsOff color (u8 c1) then performHandoff this else (this, [])).2)
      else some (if AreColorsOff color (u8 c1) then performHandoff this else (this, [])) := by
  unfold LED_Transition_StateOngoing
  simp [hrun, hp, hc]

/-- The timeout of AT_CLEAN_ENTRY when the bytes the step reads are not all
zero over the count it uses: nothing changes while the elapsed time is within
the timeout; past it the step sets the policy to IMMINENT and nothing else,
and the step after that is the handoff. -/
theorem clean_entry_timeout (tenv : TransitionEnv) (this : LED_Transition_Handle_t)
    (tick : Nat) (color : Nat → Nat) (c1 : Nat)
    (hp : this.transitionType = LED_TRANSITION_AT_CLEAN_ENTRY)
    (hrun : this.LedHandle.isRunning = true)
    (hc : tenv.LED_Animation_GetCurrentColor this.LedHandle
      (u8 (CalculateColorCount_value this.LedHandle.animationType.value)) = some (color, c1))
    (hoff : AreColorsOff color (u8 c1) = false) :
    (sub32 tick this.lastTick ≤ tenv.TRANSITION_AT_CLEAN_ENTRY_TIMEOUT_MS →
      LED_Transition_StateOngoing tenv this tick = some (this, [])) ∧
    (sub32 tick this.lastTick > tenv.TRANSITION_AT_CLEAN_ENTRY_TIMEOUT_MS →
      LED_Transition_StateOngoing tenv this tick
        = some ({ this with transitionType := LED_TRANSITION_IMMINENT }, []) ∧
      ∀ (led : LED_Handle_t) (tick2 : Nat),
        LED_Transition_StateOngoing tenv
          { this with transitionType := LED_TRANSITION_IMMINENT, LedHandle := led } tick2
        = some (performHandoff
          { this with transitionType := LED_TRANSITION_IMMINENT, LedHandle := led })) := by
  have hstep := ongoing_clean_entry tenv this tick color c1 hp hrun hc
  rw [hoff] at hstep
  constructor
  · intro hle
    rw [hstep, if_neg (by omega)]
    rfl
  · intro hgt
    rw [hstep, if_pos hgt]
    exact ⟨rfl, fun led tick2 => ongoing_imminent tenv _ tick2 rfl⟩

/-- C27, the code at a running Breath on the three-channel demo controller
that displays 200, 100, 50, with policy AT_CLEAN_ENTRY and 5 ms elapsed of a
timeout of 2000 ms.  The count the step passes on is that of the archetype tag
read as an LED type (0 for BREATH), not that of the controller (3).  With the
current color read by that count, the step hands off although no channel is
zero; with the current color read as `LED_Animation_GetColor` reads it, the
three bytes do not fit the array of length 0 and the step is undefined. -/
theorem clean_entry_counts_by_tag :
    ((ongoingTransition LED_TRANSITION_AT_CLEAN_ENTRY).LedHandle.isRunning = true ∧
      (ongoingTransition LED_TRANSITION_AT_CLEAN_ENTRY).LedHandle.animationType
        = LED_ANIMATION_BREATH ∧
      sub32 1005 (ongoingTransition LED_TRANSITION_AT_CLEAN_ENTRY).lastTick
        ≤ demoTransitionEnv.TRANSITION_AT_CLEAN_ENTRY_TIMEOUT_MS) ∧
    (CalculateColorCount
        (ongoingTransition LED_TRANSITION_AT_CLEAN_ENTRY).LedHandle.controller.LedType = 3 ∧
      AreColorsOff (ongoingTransition LED_TRANSITION_AT_CLEAN_ENTRY).LedHandle.currentColor 3
        = false ∧
      CalculateColorCount_value LED_ANIMATION_BREATH.value = 0) ∧
    (LED_Transition_StateOngoing demoTransitionEnv
        (ongoingTransition LED_TRANSITION_AT_CLEAN_ENTRY) 1005).map
      (fun r => (r.1.state, r.1.LedHandle.animationData, r.1.LedHandle.animationType,
        r.1.LedHandle.isRunning))
      = some (LED_TRANSITION_STATE_IDLE, 12, LED_ANIMATION_BLINK, true) ∧
    LED_Transition_StateOngoing demoTransitionEnvByAddress
      (ongoingTransition LED_TRANSITION_AT_CLEAN_ENTRY) 1005 = none := by
  refine ⟨⟨rfl, rfl, by decide⟩, ⟨rfl, rfl, rfl⟩, rfl, rfl⟩

/-- C26, the code at a running FadeIn that displays 9, 8, 7 (never all
zero), with policy AT_CLEAN_ENTRY since tick 1000 and a timeout of 2000 ms: the
`Update` at tick 1005, 5 ms after setup, does not leave state and policy as
they were but hands off (state IDLE, engine on the pending Blink at address
12), because the count the step uses is that of the tag FADE_IN read as an
LED type, which is 0.  With the current color read as `LED_Animation_GetColor`
reads it the same `Update` is undefined. -/
theorem clean_entry_early_handoff :
    (cleanEntryOnFadeIn.LedHandle.isRunning = true ∧
      cleanEntryOnFadeIn.state = LED_TRANSITION_STATE_ONGOING ∧
      cleanEntryOnFadeIn.transitionType = LED_TRANSITION_AT_CLEAN_ENTRY ∧
      AreColorsOff cleanEntryOnFadeIn.LedHandle.currentColor
        (CalculateColorCount cleanEntryOnFadeIn.LedHandle.controller.LedType) = false ∧
      sub32 1005 cleanEntryOnFadeIn.lastTick
        ≤ demoTransitionEnv.TRANSITION_AT_CLEAN_ENTRY_TIMEOUT_MS) ∧
    (LED_Transition_Update demoTransitionEnv 1000 cleanEntryOnFadeIn 1005).map
      (fun u => (u.handle.state, u.handle.transitionType, u.handle.LedHandle.animationData,
        u.handle.LedHandle.animationType))
      = some (LED_TRANSITION_STATE_IDLE, LED_TRANSITION_AT_CLEAN_ENTRY, 12,
          LED_ANIMATION_BLINK) ∧
    (LED_Transition_Update demoTransitionEnvByAddress 1000 cleanEntryOnFadeIn 1005).isNone
      = true := by
  refine ⟨⟨rfl, rfl, rfl, rfl, by decide⟩, rfl, rfl⟩


/-! ## The duration the executors pass to the fade curve -/

/-- The curve is undefined on duration 0. -/
theorem curve_zero_duration (e m : Nat) (dir : Bool) :
    CalculateFadeBrightness e 0 m dir = none := by
  unfold CalculateFadeBrightness GetFadeBrightnessQuadratic
  rw [if_pos rfl]

/-- The duty-cycle loop is undefined when the value of its first channel is. -/
theorem fill_none_of_first (f : Nat → Option Nat) (i n : Nat) (h : f i = none) :
    fillDutyCycleValues f i (n + 1) = none := by
  unfold fillDutyCycleValues
  rw [h]

/-- The Breath brightness is the value of its curve call, and within a cycle
that call has a non-zero duration. -/
theorem breath_call (B : LED_Animation_Breath_t) (t m : Nat) :
    GetBreathBrightness t B m = (breathCurveCall t B m).eval ∧
    (t < B.riseTimeMs + B.fallTimeMs → (breathCurveCall t B m).duration ≠ 0) := by
  unfold GetBreathBrightness breathCurveCall CurveCall.eval
  by_cases h : t < B.riseTimeMs
  · simp only [if_pos h]
    exact ⟨trivial, fun _ => by omega⟩
  · simp only [if_neg h]
    exact ⟨trivial, fun _ => by omega⟩

/-- The Pulse brightness is the value of its curve call when the branch taken
makes one, and that call has a non-zero duration; the other branches give the
peak, zero, or leave the value unassigned. -/
theorem pulse_call (P : LED_Animation_Pulse_t) (t m : Nat) :
    (∀ c, pulseCurveCall t P m = some c →
      GetPulseBrightness t P m = c.eval ∧ c.duration ≠ 0) ∧
    (pulseCurveCall t P m = none →
      GetPulseBrightness t P m = some m ∨ GetPulseBrightness t P m = some 0 ∨
        GetPulseBrightness t P m = none) := by
  unfold GetPulseBrightness pulseCurveCall CurveCall.eval
  simp only []
  by_cases h1 : t < P.riseTimeMs
  · rw [if_pos h1, if_pos h1]
    refine ⟨fun c hc => ?_, fun hc => by cases hc⟩
    simp only [Option.some.injEq] at hc
    rw [← hc]
    exact ⟨rfl, by show P.riseTimeMs ≠ 0; omega⟩
  · rw [if_neg h1, if_neg h1]
    by_cases h2 : t < P.riseTimeMs + P.holdOnTimeMs
    · rw [if_pos h2, if_pos h2]
      exact ⟨fun c hc => (by cases hc), fun _ => Or.inl rfl⟩
    · rw [if_neg h2, if_neg h2]
      by_cases h3 : t < P.riseTimeMs + P.holdOnTimeMs + P.fallTimeMs
      · rw [if_pos h3, if_pos h3]
        refine ⟨fun c hc => ?_, fun hc => by cases hc⟩
        simp only [Option.some.injEq] at hc
        rw [← hc]
        exact ⟨rfl, by show P.fallTimeMs ≠ 0; omega⟩
      · rw [if_neg h3, if_neg h3]
        refine ⟨fun c hc => (by cases hc), fun _ => ?_⟩
        split_ifs
        · right; left; rfl
        · right; right; rfl

/-- A running FadeIn whose `durationMs` is 0, on a controller with at least
one channel and with a non-NULL color, is undefined on every tick: the curve
is called with duration 0 for the first channel. -/
theorem fadeIn_zero_undefined (env : Env) (h : LED_Handle_t) (tick : Nat)
    (hrun : h.isRunning = true) (hd : h.animationData ≠ 0)
    (hcol : (env.fadeIn h.animationData).color ≠ 0)
    (hn : 1 ≤ CalculateColorCount h.controller.LedType)
    (hz : (env.fadeIn h.animationData).durationMs = 0) :
    LED_AnimationFadeInExecute env h tick = none := by
  unfold LED_AnimationFadeInExecute
  rw [if_neg hd, if_neg (by simp [hrun])]
  simp only []
  obtain ⟨n, hn1⟩ : ∃ n, CalculateColorCount h.controller.LedType = n + 1 :=
    ⟨CalculateColorCount h.controller.LedType - 1, by omega⟩
  rw [hn1, fill_none_of_first]
  rw [hz]
  unfold channelPeak Env.colorAt
  rw [if_neg hcol]
  exact curve_zero_duration _ _ _

/-- A running FadeOut whose `durationMs` is 0, on a controller with at least
one channel and with a non-NULL color, is undefined on every tick. -/
theorem fadeOut_zero_undefined (env : Env) (h : LED_Handle_t) (tick : Nat)
    (hrun : h.isRunning = true) (hd : h.animationData ≠ 0)
    (hcol : (env.fadeOut h.animationData).color ≠ 0)
    (hn : 1 ≤ CalculateColorCount h.controller.LedType)
    (hz : (env.fadeOut h.animationData).durationMs = 0) :
    LED_AnimationFadeOutExecute env h tick = none := by
  unfold LED_AnimationFadeOutExecute
  rw [if_neg hd, if_neg (by simp [hrun])]
  simp only []
  obtain ⟨n, hn1⟩ : ∃ n, CalculateColorCount h.controller.LedType = n + 1 :=
    ⟨CalculateColorCount h.controller.LedType - 1, by omega⟩
  rw [hn1, fill_none_of_first]
  rw [hz]
  unfold channelPeak Env.colorAt
  rw [if_neg hcol]
  exact curve_zero_duration _ _ _

/-- The curve is undefined exactly on a duration of 0 or a peak of 0. -/
theorem curve_none_iff (e d m : Nat) (dir : Bool) :
    CalculateFadeBrightness e d m dir = none ↔ d = 0 ∨ m = 0 := by
  unfold CalculateFadeBrightness GetFadeBrightnessQuadratic
  by_cases hd : d = 0
  · simp [hd]
  · by_cases hm : m = 0
    · simp [hd, hm]
    · simp only [if_neg hd, if_neg hm]
      split_ifs <;> simp [hd, hm]

/-- A call of the curve with a non-zero duration is undefined exactly when
its peak is 0. -/
theorem call_none_iff (c : CurveCall) (hd : c.duration ≠ 0) :
    c.eval = none ↔ c.maxDutyCycle = 0 := by
  unfold CurveCall.eval
  rw [curve_none_iff]
  exact ⟨fun h => h.resolve_left hd, Or.inr⟩

/-- The duty-cycle loop is undefined exactly when the value of one of its
channels is. -/
theorem fill_none_iff (f : Nat → Option Nat) : ∀ (n a : Nat),
    fillDutyCycleValues f a n = none ↔ ∃ j, a ≤ j ∧ j < a + n ∧ f j = none
  | 0, a => by
    unfold fillDutyCycleValues
    constructor
    · intro h
      cases h
    · rintro ⟨j, h1, h2, -⟩
      omega
  | n + 1, a => by
    have ih := fill_none_iff f n (a + 1)
    unfold fillDutyCycleValues
    cases hfa : f a with
    | none =>
      simp only [true_iff]
      exact ⟨a, le_refl _, by omega, hfa⟩
    | some v =>
      cases hrest : fillDutyCycleValues f (a + 1) n with
      | none =>
        simp only [true_iff]
        obtain ⟨j, h1, h2, h3⟩ := ih.1 hrest
        exact ⟨j, by omega, by omega, h3⟩
      | some vs =>
        refine ⟨fun hx => (by cases hx), ?_⟩
        rintro ⟨j, h1, h2, h3⟩
        exfalso
        by_cases hja : j = a
        · rw [hja, hfa] at h3
          cases h3
        · have hn := ih.2 ⟨j, by omega, by omega, h3⟩
          rw [hrest] at hn
          cases hn

/-- The calls of a channel loop over a non-NULL color: one for each channel
whose brightness evaluation makes a call. -/
theorem channelCurveCalls_mem (env : Env) (h : LED_Handle_t) (color : Nat)
    (call : Nat → Option CurveCall) (hcol : color ≠ 0) (c : CurveCall) :
    c ∈ channelCurveCalls env h color call ↔
      ∃ i, i < CalculateColorCount h.controller.LedType ∧
        call (BRIGHTNESS_TO_DUTY_CYCLE (u8 (env.bytes color i)) h.controller.MaxDutyCycle)
          = some c := by
  unfold channelCurveCalls Env.colorAt
  rw [if_neg hcol]
  simp only [List.mem_filterMap, List.mem_range]

/-- The channel loop of an executor is undefined exactly when one of the
calls of the curve it makes is, if the brightness of a channel is undefined
only through such a call. -/
theorem loop_none_iff (env : Env) (h : LED_Handle_t) (color : Nat)
    (brightness : Nat → Option Nat) (call : Nat → Option CurveCall) (hcol : color ≠ 0)
    (hb : ∀ m, brightness m = none ↔ ∃ c, call m = some c ∧ c.eval = none) :
    fillDutyCycleValues (fun i => (channelPeak env h color i).bind brightness) 0
        (CalculateColorCount h.controller.LedType) = none ↔
      ∃ c, c ∈ channelCurveCalls env h color call ∧ c.eval = none := by
  rw [fill_none_iff]
  have hpeak : ∀ j, channelPeak env h color j
      = some (BRIGHTNESS_TO_DUTY_CYCLE (u8 (env.bytes color j)) h.controller.MaxDutyCycle) := by
    intro j
    unfold channelPeak Env.colorAt
    rw [if_neg hcol]
  constructor
  · rintro ⟨j, -, h2, h3⟩
    rw [hpeak j] at h3
    obtain ⟨c, hc1, hc2⟩ := (hb _).1 h3
    exact ⟨c, (channelCurveCalls_mem env h color call hcol c).2 ⟨j, by omega, hc1⟩, hc2⟩
  · rintro ⟨c, hc1, hc2⟩
    obtain ⟨i, hi, hci⟩ := (channelCurveCalls_mem env h color call hcol c).1 hc1
    refine ⟨i, Nat.zero_le _, by omega, ?_⟩
    rw [hpeak i]
    exact (hb _).2 ⟨c, hci, hc2⟩

/-- Keeping every element of a list keeps its length. -/
theorem filterMap_some_length {α β : Type} (g : α → β) (l : List α) :
    (l.filterMap (fun i => some (g i))).length = l.length := by
  induction l with
  | nil => rfl
  | cons x xs ih => simp only [List.filterMap_cons, List.length_cons, ih]

/-- The channel loop over a non-NULL color makes one call per channel when
the brightness evaluation always makes one. -/
theorem channelCurveCalls_length (env : Env) (h : LED_Handle_t) (color : Nat)
    (call : Nat → CurveCall) (hcol : color ≠ 0) :
    (channelCurveCalls env h color (fun m => some (call m))).length
      = CalculateColorCount h.controller.LedType := by
  unfold channelCurveCalls Env.colorAt
  rw [if_neg hcol]
  simp only []
  rw [filterMap_some_length, List.length_range]

/-- Within its cycle the Pulse brightness is undefined only through its call
of the curve. -/
theorem pulse_none_iff (P : LED_Animation_Pulse_t) (t m : Nat)
    (ht : t < P.riseTimeMs + P.holdOnTimeMs + P.fallTimeMs + P.holdOffTimeMs) :
    GetPulseBrightness t P m = none ↔ ∃ c, pulseCurveCall t P m = some c ∧ c.eval = none := by
  constructor
  · intro hx
    cases hc : pulseCurveCall t P m with
    | none =>
      rcases (pulse_call P t m).2 hc with h1 | h1 | h1
      · rw [h1] at hx
        cases hx
      · rw [h1] at hx
        cases hx
      · exfalso
        unfold GetPulseBrightness at h1
        simp only [] at h1
        split_ifs at h1
        all_goals first | cases h1 | (unfold pulseCurveCall at hc; simp_all)
    | some c =>
      refine ⟨c, rfl, ?_⟩
      rw [← ((pulse_call P t m).1 c hc).1]
      exact hx
  · rintro ⟨c, hc1, hc2⟩
    rw [((pulse_call P t m).1 c hc1).1]
    exact hc2

/-- A running Breath with a non-zero cycle time is undefined exactly when its
channel loop is. -/
theorem breathExecute_none_iff (env : Env) (h : LED_Handle_t) (tick : Nat)
    (hrun : h.isRunning = true) (hdata : h.animationData ≠ 0)
    (htot : (env.breath h.animationData).riseTimeMs
      + (env.breath h.animationData).fallTimeMs ≠ 0) :
    LED_AnimationBreathExecute env h tick = none ↔
      fillDutyCycleValues
        (fun i => (channelPeak env h (env.breath h.animationData).color i).bind
          (GetBreathBrightness
            (sub32 tick (beginRun h tick (env.breath h.animationData).repeatTimes).1.startTime
              % ((env.breath h.animationData).riseTimeMs
                + (env.breath h.animationData).fallTimeMs))
            (env.breath h.animationData))) 0
        (CalculateColorCount h.controller.LedType) = none := by
  unfold LED_AnimationBreathExecute
  rw [if_neg hdata, if_neg (by simp [hrun])]
  simp only []
  rw [if_neg htot]
  constructor
  · intro hx
    by_contra hne
    obtain ⟨duty, hd⟩ := Option.ne_none_iff_exists'.mp hne
    rw [hd] at hx
    simp only [] at hx
    split_ifs at hx
  · intro hf
    rw [hf]

/-- A running Pulse with a non-zero cycle time is undefined exactly when its
channel loop is. -/
theorem pulseExecute_none_iff (env : Env) (h : LED_Handle_t) (tick : Nat)
    (hrun : h.isRunning = true) (hdata : h.animationData ≠ 0)
    (htot : (env.pulse h.animationData).riseTimeMs + (env.pulse h.animationData).holdOnTimeMs
      + (env.pulse h.animationData).fallTimeMs
      + (env.pulse h.animationData).holdOffTimeMs ≠ 0) :
    LED_AnimationPulseExecute env h tick = none ↔
      fillDutyCycleValues
        (fun i => (channelPeak env h (env.pulse h.animationData).color i).bind
          (GetPulseBrightness
            (sub32 tick (beginRun h tick (env.pulse h.animationData).repeatTimes).1.startTime
              % ((env.pulse h.animationData).riseTimeMs
                + (env.pulse h.animationData).holdOnTimeMs
                + (env.pulse h.animationData).fallTimeMs
                + (env.pulse h.animationData).holdOffTimeMs))
            (env.pulse h.animationData))) 0
        (CalculateColorCount h.controller.LedType) = none := by
  unfold LED_AnimationPulseExecute
  rw [if_neg hdata, if_neg (by simp [hrun])]
  simp only []
  rw [if_neg htot]
  constructor
  · intro hx
    by_contra hne
    obtain ⟨duty, hd⟩ := Option.ne_none_iff_exists'.mp hne
    rw [hd] at hx
    simp only [] at hx
    split_ifs at hx
  · intro hf
    rw [hf]

/-- A running FadeIn is undefined exactly when its channel loop is. -/
theorem fadeInExecute_none_iff (env : Env) (h : LED_Handle_t) (tick : Nat)
    (hrun : h.isRunning = true) (hdata : h.animationData ≠ 0) :
    LED_AnimationFadeInExecute env h tick = none ↔
      fillDutyCycleValues
        (fun i => (channelPeak env h (env.fadeIn h.animationData).color i).bind
          (fun maxDutyCycle => CalculateFadeBrightness
            (sub32 tick (beginRun h tick (env.fadeIn h.animationData).repeatTimes).1.startTime)
            (env.fadeIn h.animationData).durationMs maxDutyCycle true)) 0
        (CalculateColorCount h.controller.LedType) = none := by
  unfold LED_AnimationFadeInExecute
  rw [if_neg hdata, if_neg (by simp [hrun])]
  simp only []
  constructor
  · intro hx
    by_contra hne
    obtain ⟨duty, hd⟩ := Option.ne_none_iff_exists'.mp hne
    rw [hd] at hx
    simp only [] at hx
    split_ifs at hx
  · intro hf
    rw [hf]

/-- A running FadeOut is undefined exactly when its channel loop is. -/
theorem fadeOutExecute_none_iff (env : Env) (h : LED_Handle_t) (tick : Nat)
    (hrun : h.isRunning = true) (hdata : h.animationData ≠ 0) :
    LED_AnimationFadeOutExecute env h tick = none ↔
      fillDutyCycleValues
        (fun i => (channelPeak env h (env.fadeOut h.animationData).color i).bind
          (fun maxDutyCycle => CalculateFadeBrightness
            (sub32 tick (beginRun h tick (env.fadeOut h.animationData).repeatTimes).1.startTime)
            (env.fadeOut h.animationData).durationMs maxDutyCycle false)) 0
        (CalculateColorCount h.controller.LedType) = none := by
  unfold LED_AnimationFadeOutExecute
  rw [if_neg hdata, if_neg (by simp [hrun])]
  simp only []
  constructor
  · intro hx
    by_contra hne
    obtain ⟨duty, hd⟩ := Option.ne_none_iff_exists'.mp hne
    rw [hd] at hx
    simp only [] at hx
    split_ifs at hx
  · intro hf
    rw [hf]

/-- Within a cycle the call of the curve in `GetBreathBrightness` passes a
time below the duration it passes (16-bit phase times). -/
theorem breath_call_phase (B : LED_Animation_Breath_t) (t m : Nat)
    (hr : B.riseTimeMs ≤ 65535) (hf : B.fallTimeMs ≤ 65535)
    (ht : t < B.riseTimeMs + B.fallTimeMs) :
    (breathCurveCall t B m).elapsed < (breathCurveCall t B m).duration := by
  unfold breathCurveCall
  by_cases h : t < B.riseTimeMs
  · simp only [if_pos h]
    exact h
  · simp only [if_neg h]
    show sub32 t B.riseTimeMs < B.fallTimeMs
    rw [sub32_of_le t B.riseTimeMs (by omega) (by omega)]
    omega

/-- The call of the curve in `GetPulseBrightness`, when the branch taken makes
one, passes a time below the duration it passes (16-bit phase times). -/
theorem pulse_call_phase (P : LED_Animation_Pulse_t) (t m : Nat) (c : CurveCall)
    (hr : P.riseTimeMs ≤ 65535) (hon : P.holdOnTimeMs ≤ 65535) (hf : P.fallTimeMs ≤ 65535)
    (hc : pulseCurveCall t P m = some c) : c.elapsed < c.duration := by
  unfold pulseCurveCall at hc
  by_cases h1 : t < P.riseTimeMs
  · rw [if_pos h1] at hc
    simp only [Option.some.injEq] at hc
    rw [← hc]
    exact h1
  · rw [if_neg h1] at hc
    by_cases h2 : t < P.riseTimeMs + P.holdOnTimeMs
    · rw [if_pos h2] at hc
      cases hc
    · rw [if_neg h2] at hc
      by_cases h3 : t < P.riseTimeMs + P.holdOnTimeMs + P.fallTimeMs
      · rw [if_pos h3] at hc
        simp only [Option.some.injEq] at hc
        rw [← hc]
        show sub32 (sub32 t P.riseTimeMs) P.holdOnTimeMs < P.fallTimeMs
        rw [sub32_of_le t P.riseTimeMs (by omega) (by omega),
          sub32_of_le (t - P.riseTimeMs) P.holdOnTimeMs (by omega) (by omega)]
        omega
      · rw [if_neg h3] at hc
        cases hc

/-- Every call of the curve the Breath executor makes has a non-zero
duration. -/
theorem breathCurveCalls_duration (env : Env) (h : LED_Handle_t) (tick : Nat) (c : CurveCall)
    (hc : c ∈ breathCurveCalls env h tick) : c.duration ≠ 0 := by
  unfold breathCurveCalls at hc
  by_cases h1 : h.animationData = 0
  · rw [if_pos h1] at hc
    cases hc
  rw [if_neg h1] at hc
  by_cases h2 : h.isRunning = false
  · rw [if_pos h2] at hc
    cases hc
  rw [if_neg h2] at hc
  simp only [] at hc
  by_cases h3 : (env.breath h.animationData).riseTimeMs
      + (env.breath h.animationData).fallTimeMs = 0
  · rw [if_pos h3] at hc
    cases hc
  rw [if_neg h3] at hc
  · by_cases hcol : (env.breath h.animationData).color = 0
    · unfold channelCurveCalls Env.colorAt at hc
      rw [if_pos hcol] at hc
      cases hc
    · obtain ⟨i, -, hi⟩ := (channelCurveCalls_mem env h _ _ hcol c).1 hc
      simp only [Option.some.injEq] at hi
      rw [← hi]
      exact (breath_call _ _ _).2 (Nat.mod_lt _ (Nat.pos_of_ne_zero h3))

/-- Every call of the curve the Pulse executor makes has a non-zero
duration. -/
theorem pulseCurveCalls_duration (env : Env) (h : LED_Handle_t) (tick : Nat) (c : CurveCall)
    (hc : c ∈ pulseCurveCalls env h tick) : c.duration ≠ 0 := by
  unfold pulseCurveCalls at hc
  by_cases h1 : h.animationData = 0
  · rw [if_pos h1] at hc
    cases hc
  rw [if_neg h1] at hc
  by_cases h2 : h.isRunning = false
  · rw [if_pos h2] at hc
    cases hc
  rw [if_neg h2] at hc
  simp only [] at hc
  by_cases h3 : (env.pulse h.animationData).riseTimeMs
      + (env.pulse h.animationData).holdOnTimeMs + (env.pulse h.animationData).fallTimeMs
      + (env.pulse h.animationData).holdOffTimeMs = 0
  · rw [if_pos h3] at hc
    cases hc
  rw [if_neg h3] at hc
  · by_cases hcol : (env.pulse h.animationData).color = 0
    · unfold channelCurveCalls Env.colorAt at hc
      rw [if_pos hcol] at hc
      cases hc
    · obtain ⟨i, -, hi⟩ := (channelCurveCalls_mem env h _ _ hcol c).1 hc
      exact ((pulse_call _ _ _).1 c hi).2

/-- Every call of the curve the FadeIn executor makes passes `durationMs`. -/
theorem fadeInCurveCalls_duration (env : Env) (h : LED_Handle_t) (tick : Nat) (c : CurveCall)
    (hc : c ∈ fadeInCurveCalls env h tick) :
    c.duration = (env.fadeIn h.animationData).durationMs := by
  unfold fadeInCurveCalls at hc
  by_cases h1 : h.animationData = 0
  · rw [if_pos h1] at hc
    cases hc
  rw [if_neg h1] at hc
  by_cases h2 : h.isRunning = false
  · rw [if_pos h2] at hc
    cases hc
  rw [if_neg h2] at hc
  simp only [] at hc
  · by_cases hcol : (env.fadeIn h.animationData).color = 0
    · unfold channelCurveCalls Env.colorAt at hc
      rw [if_pos hcol] at hc
      cases hc
    · obtain ⟨i, -, hi⟩ := (channelCurveCalls_mem env h _ _ hcol c).1 hc
      simp only [Option.some.injEq] at hi
      rw [← hi]
      rfl

/-- Every call of the curve the FadeOut executor makes passes `durationMs`. -/
theorem fadeOutCurveCalls_duration (env : Env) (h : LED_Handle_t) (tick : Nat) (c : CurveCall)
    (hc : c ∈ fadeOutCurveCalls env h tick) :
    c.duration = (env.fadeOut h.animationData).durationMs := by
  unfold fadeOutCurveCalls at hc
  by_cases h1 : h.animationData = 0
  · rw [if_pos h1] at hc
    cases hc
  rw [if_neg h1] at hc
  by_cases h2 : h.isRunning = false
  · rw [if_pos h2] at hc
    cases hc
  rw [if_neg h2] at hc
  simp only [] at hc
  · by_cases hcol : (env.fadeOut h.animationData).color = 0
    · unfold channelCurveCalls Env.colorAt at hc
      rw [if_pos hcol] at hc
      cases hc
    · obtain ⟨i, -, hi⟩ := (channelCurveCalls_mem env h _ _ hcol c).1 hc
      simp only [Option.some.injEq] at hi
      rw [← hi]
      rfl

/-- Every call of the curve the Breath executor makes passes a time below
the duration it passes (16-bit phase times). -/
theorem breathCurveCalls_phase (env : Env) (h : LED_Handle_t) (tick : Nat)
    (hr : (env.breath h.animationData).riseTimeMs ≤ 65535)
    (hf : (env.breath h.animationData).fallTimeMs ≤ 65535) (c : CurveCall)
    (hc : c ∈ breathCurveCalls env h tick) : c.elapsed < c.duration := by
  unfold breathCurveCalls at hc
  by_cases h1 : h.animationData = 0
  · rw [if_pos h1] at hc
    cases hc
  rw [if_neg h1] at hc
  by_cases h2 : h.isRunning = false
  · rw [if_pos h2] at hc
    cases hc
  rw [if_neg h2] at hc
  simp only [] at hc
  by_cases h3 : (env.breath h.animationData).riseTimeMs
      + (env.breath h.animationData).fallTimeMs = 0
  · rw [if_pos h3] at hc
    cases hc
  rw [if_neg h3] at hc
  by_cases hcol : (env.breath h.animationData).color = 0
  · unfold channelCurveCalls Env.colorAt at hc
    rw [if_pos hcol] at hc
    cases hc
  · obtain ⟨i, -, hi⟩ := (channelCurveCalls_mem env h _ _ hcol c).1 hc
    simp only [Option.some.injEq] at hi
    rw [← hi]
    exact breath_call_phase _ _ _ hr hf (Nat.mod_lt _ (Nat.pos_of_ne_zero h3))

/-- Every call of the curve the Pulse executor makes passes a time below the
duration it passes (16-bit phase times). -/
theorem pulseCurveCalls_phase (env : Env) (h : LED_Handle_t) (tick : Nat)
    (hr : (env.pulse h.animationData).riseTimeMs ≤ 65535)
    (hon : (env.pulse h.animationData).holdOnTimeMs ≤ 65535)
    (hf : (env.pulse h.animationData).fallTimeMs ≤ 65535) (c : CurveCall)
    (hc : c ∈ pulseCurveCalls env h tick) : c.elapsed < c.duration := by
  unfold pulseCurveCalls at hc
  by_cases h1 : h.animationData = 0
  · rw [if_pos h1] at hc
    cases hc
  rw [if_neg h1] at hc
  by_cases h2 : h.isRunning = false
  · rw [if_pos h2] at hc
    cases hc
  rw [if_neg h2] at hc
  simp only [] at hc
  by_cases h3 : (env.pulse h.animationData).riseTimeMs
      + (env.pulse h.animationData).holdOnTimeMs + (env.pulse h.animationData).fallTimeMs
      + (env.pulse h.animationData).holdOffTimeMs = 0
  · rw [if_pos h3] at hc
    cases hc
  rw [if_neg h3] at hc
  by_cases hcol : (env.pulse h.animationData).color = 0
  · unfold channelCurveCalls Env.colorAt at hc
    rw [if_pos hcol] at hc
    cases hc
  · obtain ⟨i, -, hi⟩ := (channelCurveCalls_mem env h _ _ hcol c).1 hc
    exact pulse_call_phase _ _ _ c hr hon hf hi

/-- A running Breath with a non-zero cycle time and a non-NULL color makes one
call of the curve per channel, and is undefined exactly when one of these
calls is. -/
theorem breath_calls_link (env : Env) (h : LED_Handle_t) (tick : Nat)
    (hrun : h.isRunning = true) (hdata : h.animationData ≠ 0)
    (hcol : (env.breath h.animationData).color ≠ 0)
    (htot : (env.breath h.animationData).riseTimeMs
      + (env.breath h.animationData).fallTimeMs ≠ 0) :
    (breathCurveCalls env h tick).length = CalculateColorCount h.controller.LedType ∧
    (LED_AnimationBreathExecute env h tick = none ↔
      ∃ c, c ∈ breathCurveCalls env h tick ∧ c.eval = none) := by
  have hcalls : breathCurveCalls env h tick
      = channelCurveCalls env h (env.breath h.animationData).color
        (fun m => some (breathCurveCall
          (sub32 tick (beginRun h tick (env.breath h.animationData).repeatTimes).1.startTime
            % ((env.breath h.animationData).riseTimeMs
              + (env.breath h.animationData).fallTimeMs))
          (env.breath h.animationData) m)) := by
    unfold breathCurveCalls
    rw [if_neg hdata, if_neg (by simp [hrun])]
    simp only []
    rw [if_neg htot]
  rw [hcalls]
  refine ⟨channelCurveCalls_length env h _ _ hcol, ?_⟩
  rw [breathExecute_none_iff env h tick hrun hdata htot]
  apply loop_none_iff env h _ _ _ hcol
  intro m
  rw [(breath_call _ _ m).1]
  constructor
  · intro hx
    exact ⟨_, rfl, hx⟩
  · rintro ⟨c, hc1, hc2⟩
    simp only [Option.some.injEq] at hc1
    rw [hc1]
    exact hc2

/-- A running Pulse with a non-zero cycle time and a non-NULL color is
undefined exactly when one of the calls of the curve it makes is. -/
theorem pulse_calls_link (env : Env) (h : LED_Handle_t) (tick : Nat)
    (hrun : h.isRunning = true) (hdata : h.animationData ≠ 0)
    (hcol : (env.pulse h.animationData).color ≠ 0)
    (htot : (env.pulse h.animationData).riseTimeMs + (env.pulse h.animationData).holdOnTimeMs
      + (env.pulse h.animationData).fallTimeMs
      + (env.pulse h.animationData).holdOffTimeMs ≠ 0) :
    LED_AnimationPulseExecute env h tick = none ↔
      ∃ c, c ∈ pulseCurveCalls env h tick ∧ c.eval = none := by
  have hcalls : pulseCurveCalls env h tick
      = channelCurveCalls env h (env.pulse h.animationData).color
        (pulseCurveCall
          (sub32 tick (beginRun h tick (env.pulse h.animationData).repeatTimes).1.startTime
            % ((env.pulse h.animationData).riseTimeMs
              + (env.pulse h.animationData).holdOnTimeMs
              + (env.pulse h.animationData).fallTimeMs
              + (env.pulse h.animationData).holdOffTimeMs))
          (env.pulse h.animationData)) := by
    unfold pulseCurveCalls
    rw [if_neg hdata, if_neg (by simp [hrun])]
    simp only []
    rw [if_neg htot]
  rw [hcalls, pulseExecute_none_iff env h tick hrun hdata htot]
  apply loop_none_iff env h _ _ _ hcol
  intro m
  exact pulse_none_iff _ _ m (Nat.mod_lt _ (Nat.pos_of_ne_zero htot))

/-- A running FadeIn with a non-NULL color makes one call of the curve per
channel, and is undefined exactly when one of these calls is. -/
theorem fadeIn_calls_link (env : Env) (h : LED_Handle_t) (tick : Nat)
    (hrun : h.isRunning = true) (hdata : h.animationData ≠ 0)
    (hcol : (env.fadeIn h.animationData).color ≠ 0) :
    (fadeInCurveCalls env h tick).length = CalculateColorCount h.controller.LedType ∧
    (LED_AnimationFadeInExecute env h tick = none ↔
      ∃ c, c ∈ fadeInCurveCalls env h tick ∧ c.eval = none) := by
  have hcalls : fadeInCurveCalls env h tick
      = channelCurveCalls env h (env.fadeIn h.animationData).color
        (fun m => some (fadeInCurveCall
          (sub32 tick (beginRun h tick (env.fadeIn h.animationData).repeatTimes).1.startTime)
          (env.fadeIn h.animationData) m)) := by
    unfold fadeInCurveCalls
    rw [if_neg hdata, if_neg (by simp [hrun])]
  rw [hcalls]
  refine ⟨channelCurveCalls_length env h _ _ hcol, ?_⟩
  rw [fadeInExecute_none_iff env h tick hrun hdata]
  apply loop_none_iff env h _ _ _ hcol
  intro m
  constructor
  · intro hx
    exact ⟨_, rfl, hx⟩
  · rintro ⟨c, hc1, hc2⟩
    simp only [Option.some.injEq] at hc1
    rw [← hc1] at hc2
    exact hc2

/-- A running FadeOut with a non-NULL color makes one call of the curve per
channel, and is undefined exactly when one of these calls is. -/
theorem fadeOut_calls_link (env : Env) (h : LED_Handle_t) (tick : Nat)
    (hrun : h.isRunning = true) (hdata : h.animationData ≠ 0)
    (hcol : (env.fadeOut h.animationData).color ≠ 0) :
    (fadeOutCurveCalls env h tick).length = CalculateColorCount h.controller.LedType ∧
    (LED_AnimationFadeOutExecute env h tick = none ↔
      ∃ c, c ∈ fadeOutCurveCalls env h tick ∧ c.eval = none) := by
  have hcalls : fadeOutCurveCalls env h tick
      = channelCurveCalls env h (env.fadeOut h.animationData).color
        (fun m => some (fadeOutCurveCall
          (sub32 tick (beginRun h tick (env.fadeOut h.animationData).repeatTimes).1.startTime)
          (env.fadeOut h.animationData) m)) := by
    unfold fadeOutCurveCalls
    rw [if_neg hdata, if_neg (by simp [hrun])]
  rw [hcalls]
  refine ⟨channelCurveCalls_length env h _ _ hcol, ?_⟩
  rw [fadeOutExecute_none_iff env h tick hrun hdata]
  apply loop_none_iff env h _ _ _ hcol
  intro m
  constructor
  · intro hx
    exact ⟨_, rfl, hx⟩
  · rintro ⟨c, hc1, hc2⟩
    simp only [Option.some.injEq] at hc1
    rw [← hc1] at hc2
    exact hc2

/-- The duty-cycle loop stores the values of the calls of the curve, when the
value of every channel is that of a call. -/
theorem fill_eq_callValues (f : Nat → Option Nat) (g : Nat → Option CurveCall)
    (hfg : ∀ i, ∃ c, g i = some c ∧ f i = c.eval) : ∀ (n a : Nat),
    fillDutyCycleValues f a n = callValues ((List.range' a n).filterMap g)
  | 0, a => by
    unfold fillDutyCycleValues
    rfl
  | n + 1, a => by
    have ih := fill_eq_callValues f g hfg n (a + 1)
    obtain ⟨c, hc1, hc2⟩ := hfg a
    unfold fillDutyCycleValues
    rw [List.range'_succ, List.filterMap_cons, hc1]
    simp only []
    unfold callValues
    rw [hc2, ih]

/-- The channel loop of an executor over a non-NULL color stores the values
of the calls of the curve it makes, when the brightness of every channel is
the value of a call. -/
theorem loop_eq_callValues (env : Env) (h : LED_Handle_t) (color : Nat)
    (brightness : Nat → Option Nat) (call : Nat → Option CurveCall) (hcol : color ≠ 0)
    (hb : ∀ m, ∃ c, call m = some c ∧ brightness m = c.eval) :
    fillDutyCycleValues (fun i => (channelPeak env h color i).bind brightness) 0
        (CalculateColorCount h.controller.LedType)
      = callValues (channelCurveCalls env h color call) := by
  have hcalls : channelCurveCalls env h color call
      = (List.range' 0 (CalculateColorCount h.controller.LedType)).filterMap
        (fun i => call (BRIGHTNESS_TO_DUTY_CYCLE (u8 (env.bytes color i))
          h.controller.MaxDutyCycle)) := by
    unfold channelCurveCalls Env.colorAt
    rw [if_neg hcol, List.range_eq_range']
  rw [hcalls]
  apply fill_eq_callValues
  intro i
  obtain ⟨c, hc1, hc2⟩ := hb (BRIGHTNESS_TO_DUTY_CYCLE (u8 (env.bytes color i))
    h.controller.MaxDutyCycle)
  refine ⟨c, hc1, ?_⟩
  show (channelPeak env h color i).bind brightness = c.eval
  unfold channelPeak Env.colorAt
  rw [if_neg hcol]
  exact hc2

/-- In its rise and its fall phase the Pulse brightness is the value of a
call of the curve, whatever the peak. -/
theorem pulse_call_total (P : LED_Animation_Pulse_t) (t m0 : Nat) (c0 : CurveCall)
    (h0 : pulseCurveCall t P m0 = some c0) (m : Nat) :
    ∃ c, pulseCurveCall t P m = some c ∧ GetPulseBrightness t P m = c.eval := by
  have hsome : ∃ c, pulseCurveCall t P m = some c := by
    unfold pulseCurveCall at h0 ⊢
    by_cases h1 : t < P.riseTimeMs
    · rw [if_pos h1]
      exact ⟨_, rfl⟩
    · rw [if_neg h1] at h0 ⊢
      by_cases h2 : t < P.riseTimeMs + P.holdOnTimeMs
      · rw [if_pos h2] at h0
        cases h0
      · rw [if_neg h2] at h0 ⊢
        by_cases h3 : t < P.riseTimeMs + P.holdOnTimeMs + P.fallTimeMs
        · rw [if_pos h3]
          exact ⟨_, rfl⟩
        · rw [if_neg h3] at h0
          cases h0
  obtain ⟨c, hc⟩ := hsome
  exact ⟨c, hc, ((pulse_call P t m).1 c hc).1⟩

/-- The duty values a running Breath applies are the values of the calls of
the curve it makes: when it returns, its side effects begin with the start of
the run (if any) and the application of those values. -/
theorem breath_calls_values (env : Env) (h : LED_Handle_t) (tick : Nat)
    (hrun : h.isRunning = true) (hdata : h.animationData ≠ 0)
    (hcol : (env.breath h.animationData).color ≠ 0)
    (htot : (env.breath h.animationData).riseTimeMs
      + (env.breath h.animationData).fallTimeMs ≠ 0)
    (r : Result) (hx : LED_AnimationBreathExecute env h tick = some r) :
    ∃ duty, callValues (breathCurveCalls env h tick) = some duty ∧
      List.IsPrefix
        ((beginRun h tick (env.breath h.animationData).repeatTimes).2 ++
          (ExecuteDutyCycleSetting (beginRun h tick (env.breath h.animationData).repeatTimes).1
            (some (fun i => duty.getD i 0))).events)
        r.events := by
  have hcalls : breathCurveCalls env h tick
      = channelCurveCalls env h (env.breath h.animationData).color
        (fun m => some (breathCurveCall
          (sub32 tick (beginRun h tick (env.breath h.animationData).repeatTimes).1.startTime
            % ((env.breath h.animationData).riseTimeMs
              + (env.breath h.animationData).fallTimeMs))
          (env.breath h.animationData) m)) := by
    unfold breathCurveCalls
    rw [if_neg hdata, if_neg (by simp [hrun])]
    simp only []
    rw [if_neg htot]
  rw [hcalls]
  unfold LED_AnimationBreathExecute at hx
  rw [if_neg hdata, if_neg (by simp [hrun])] at hx
  simp only [] at hx
  rw [if_neg htot, loop_eq_callValues env h _ _
    (fun m => some (breathCurveCall
      (sub32 tick (beginRun h tick (env.breath h.animationData).repeatTimes).1.startTime
        % ((env.breath h.animationData).riseTimeMs
          + (env.breath h.animationData).fallTimeMs))
      (env.breath h.animationData) m)) hcol
    (fun m => ⟨_, rfl, (breath_call _ _ m).1⟩)] at hx
  cases hcv : callValues (channelCurveCalls env h (env.breath h.animationData).color
      (fun m => some (breathCurveCall
        (sub32 tick (beginRun h tick (env.breath h.animationData).repeatTimes).1.startTime
          % ((env.breath h.animationData).riseTimeMs
            + (env.breath h.animationData).fallTimeMs))
        (env.breath h.animationData) m))) with
  | none =>
    rw [hcv] at hx
    cases hx
  | some duty =>
    rw [hcv] at hx
    simp only [] at hx
    refine ⟨duty, rfl, ?_⟩
    split at hx
    · cases hx
      exact List.prefix_refl _
    · split at hx
      · cases hx
        exact List.prefix_append _ _
      · cases hx
        exact List.prefix_refl _

/-- The duty values a running Pulse applies in its rise and its fall phase
(where it calls the curve) are the values of the calls it makes. -/
theorem pulse_calls_values (env : Env) (h : LED_Handle_t) (tick : Nat)
    (hrun : h.isRunning = true) (hdata : h.animationData ≠ 0)
    (hne : pulseCurveCalls env h tick ≠ [])
    (r : Result) (hx : LED_AnimationPulseExecute env h tick = some r) :
    ∃ duty, callValues (pulseCurveCalls env h tick) = some duty ∧
      List.IsPrefix
        ((beginRun h tick (env.pulse h.animationData).repeatTimes).2 ++
          (ExecuteDutyCycleSetting (beginRun h tick (env.pulse h.animationData).repeatTimes).1
            (some (fun i => duty.getD i 0))).events)
        r.events := by
  have htot : (env.pulse h.animationData).riseTimeMs + (env.pulse h.animationData).holdOnTimeMs
      + (env.pulse h.animationData).fallTimeMs
      + (env.pulse h.animationData).holdOffTimeMs ≠ 0 := by
    intro h3
    apply hne
    unfold pulseCurveCalls
    rw [if_neg hdata, if_neg (by simp [hrun])]
    simp only []
    rw [if_pos h3]
  have hcol : (env.pulse h.animationData).color ≠ 0 := by
    intro h3
    apply hne
    unfold pulseCurveCalls
    rw [if_neg hdata, if_neg (by simp [hrun])]
    simp only []
    rw [if_neg htot]
    unfold channelCurveCalls Env.colorAt
    rw [if_pos h3]
  have hcalls : pulseCurveCalls env h tick
      = channelCurveCalls env h (env.pulse h.animationData).color
        (pulseCurveCall
          (sub32 tick (beginRun h tick (env.pulse h.animationData).repeatTimes).1.startTime
            % ((env.pulse h.animationData).riseTimeMs
              + (env.pulse h.animationData).holdOnTimeMs
              + (env.pulse h.animationData).fallTimeMs
              + (env.pulse h.animationData).holdOffTimeMs))
          (env.pulse h.animationData)) := by
    unfold pulseCurveCalls
    rw [if_neg hdata, if_neg (by simp [hrun])]
    simp only []
    rw [if_neg htot]
  rw [hcalls] at hne ⊢
  obtain ⟨c0, hc0⟩ := List.exists_mem_of_ne_nil _ hne
  obtain ⟨i0, -, hi0⟩ := (channelCurveCalls_mem env h _ _ hcol c0).1 hc0
  unfold LED_AnimationPulseExecute at hx
  rw [if_neg hdata, if_neg (by simp [hrun])] at hx
  simp only [] at hx
  rw [if_neg htot, loop_eq_callValues env h _ _
    (pulseCurveCall
      (sub32 tick (beginRun h tick (env.pulse h.animationData).repeatTimes).1.startTime
        % ((env.pulse h.animationData).riseTimeMs
          + (env.pulse h.animationData).holdOnTimeMs
          + (env.pulse h.animationData).fallTimeMs
          + (env.pulse h.animationData).holdOffTimeMs))
      (env.pulse h.animationData)) hcol
    (fun m => pulse_call_total _ _ _ c0 hi0 m)] at hx
  cases hcv : callValues (channelCurveCalls env h (env.pulse h.animationData).color
      (pulseCurveCall
        (sub32 tick (beginRun h tick (env.pulse h.animationData).repeatTimes).1.startTime
          % ((env.pulse h.animationData).riseTimeMs
            + (env.pulse h.animationData).holdOnTimeMs
            + (env.pulse h.animationData).fallTimeMs
            + (env.pulse h.animationData).holdOffTimeMs))
        (env.pulse h.animationData))) with
  | none =>
    rw [hcv] at hx
    cases hx
  | some duty =>
    rw [hcv] at hx
    simp only [] at hx
    refine ⟨duty, rfl, ?_⟩
    split at hx
    · cases hx
      exact List.prefix_refl _
    · split at hx
      · cases hx
        exact List.prefix_append _ _
      · cases hx
        exact List.prefix_refl _

/-- The duty values a running FadeIn applies are the values of the calls of
the curve it makes. -/
theorem fadeIn_calls_values (env : Env) (h : LED_Handle_t) (tick : Nat)
    (hrun : h.isRunning = true) (hdata : h.animationData ≠ 0)
    (hcol : (env.fadeIn h.animationData).color ≠ 0)
    (r : Result) (hx : LED_AnimationFadeInExecute env h tick = some r) :
    ∃ duty, callValues (fadeInCurveCalls env h tick) = some duty ∧
      List.IsPrefix
        ((beginRun h tick (env.fadeIn h.animationData).repeatTimes).2 ++
          (ExecuteDutyCycleSetting (beginRun h tick (env.fadeIn h.animationData).repeatTimes).1
            (some (fun i => duty.getD i 0))).events)
        r.events := by
  have hcalls : fadeInCurveCalls env h tick
      = channelCurveCalls env h (env.fadeIn h.animationData).color
        (fun m => some (fadeInCurveCall
          (sub32 tick (beginRun h tick (env.fadeIn h.animationData).repeatTimes).1.startTime)
          (env.fadeIn h.animationData) m)) := by
    unfold fadeInCurveCalls
    rw [if_neg hdata, if_neg (by simp [hrun])]
  rw [hcalls]
  unfold LED_AnimationFadeInExecute at hx
  rw [if_neg hdata, if_neg (by simp [hrun])] at hx
  simp only [] at hx
  rw [loop_eq_callValues env h _
    (fun maxDutyCycle => CalculateFadeBrightness
      (sub32 tick (beginRun h tick (env.fadeIn h.animationData).repeatTimes).1.startTime)
      (env.fadeIn h.animationData).durationMs maxDutyCycle true)
    (fun m => some (fadeInCurveCall
      (sub32 tick (beginRun h tick (env.fadeIn h.animationData).repeatTimes).1.startTime)
      (env.fadeIn h.animationData) m)) hcol
    (fun m => ⟨_, rfl, rfl⟩)] at hx
  cases hcv : callValues (channelCurveCalls env h (env.fadeIn h.animationData).color
      (fun m => some (fadeInCurveCall
        (sub32 tick (beginRun h tick (env.fadeIn h.animationData).repeatTimes).1.startTime)
        (env.fadeIn h.animationData) m))) with
  | none =>
    rw [hcv] at hx
    cases hx
  | some duty =>
    rw [hcv] at hx
    simp only [] at hx
    refine ⟨duty, rfl, ?_⟩
    split at hx
    · cases hx
      exact List.prefix_refl _
    · split at hx
      · cases hx
        exact List.prefix_append _ _
      · cases hx
        exact List.prefix_refl _

/-- The duty values a running FadeOut applies are the values of the calls of
the curve it makes. -/
theorem fadeOut_calls_values (env : Env) (h : LED_Handle_t) (tick : Nat)
    (hrun : h.isRunning = true) (hdata : h.animationData ≠ 0)
    (hcol : (env.fadeOut h.animationData).color ≠ 0)
    (r : Result) (hx : LED_AnimationFadeOutExecute env h tick = some r) :
    ∃ duty, callValues (fadeOutCurveCalls env h tick) = some duty ∧
      List.IsPrefix
        ((beginRun h tick (env.fadeOut h.animationData).repeatTimes).2 ++
          (ExecuteDutyCycleSetting (beginRun h tick (env.fadeOut h.animationData).repeatTimes).1
            (some (fun i => duty.getD i 0))).events)
        r.events := by
  have hcalls : fadeOutCurveCalls env h tick
      = channelCurveCalls env h (env.fadeOut h.animationData).color
        (fun m => some (fadeOutCurveCall
          (sub32 tick (beginRun h tick (env.fadeOut h.animationData).repeatTimes).1.startTime)
          (env.fadeOut h.animationData) m)) := by
    unfold fadeOutCurveCalls
    rw [if_neg hdata, if_neg (by simp [hrun])]
  rw [hcalls]
  unfold LED_AnimationFadeOutExecute at hx
  rw [if_neg hdata, if_neg (by simp [hrun])] at hx
  simp only [] at hx
  rw [loop_eq_callValues env h _
    (fun maxDutyCycle => CalculateFadeBrightness
      (sub32 tick (beginRun h tick (env.fadeOut h.animationData).repeatTimes).1.startTime)
      (env.fadeOut h.animationData).durationMs maxDutyCycle false)
    (fun m => some (fadeOutCurveCall
      (sub32 tick (beginRun h tick (env.fadeOut h.animationData).repeatTimes).1.startTime)
      (env.fadeOut h.animationData) m)) hcol
    (fun m => ⟨_, rfl, rfl⟩)] at hx
  cases hcv : callValues (channelCurveCalls env h (env.fadeOut h.animationData).color
      (fun m => some (fadeOutCurveCall
        (sub32 tick (beginRun h tick (env.fadeOut h.animationData).repeatTimes).1.startTime)
        (env.fadeOut h.animationData) m))) with
  | none =>
    rw [hcv] at hx
    cases hx
  | some duty =>
    rw [hcv] at hx
    simp only [] at hx
    refine ⟨duty, rfl, ?_⟩
    split at hx
    · cases hx
      exact List.prefix_refl _
    · split at hx
      · cases hx
        exact List.prefix_append _ _
      · cases hx
        exact List.prefix_refl _

/-- An equivalence with "some call is undefined" where all calls have a
non-zero duration is an equivalence with "some call has peak 0". -/
theorem none_iff_zero_peak (calls : List CurveCall) (p : Prop)
    (hdur : ∀ c, c ∈ calls → c.duration ≠ 0)
    (hp : p ↔ ∃ c, c ∈ calls ∧ c.eval = none) :
    p ↔ ∃ c, c ∈ calls ∧ c.maxDutyCycle = 0 := by
  rw [hp]
  constructor
  · rintro ⟨c, hc1, hc2⟩
    exact ⟨c, hc1, (call_none_iff c (hdur c hc1)).1 hc2⟩
  · rintro ⟨c, hc1, hc2⟩
    exact ⟨c, hc1, (call_none_iff c (hdur c hc1)).2 hc2⟩

/-- C30, the code at a running FadeIn whose `durationMs` is 0 (color 200,
100, 50 on the demo controller): on the tick 5 the executor calls the curve
for channel 0 with elapsed 0, duration 0 and peak 784, a division by zero, so
that the executor and `Update` are undefined; the zero duration is neither
rejected nor replaced by a jump. -/
theorem fadeIn_zero_duration_reaches_curve :
    (fadeInHandle.isRunning = true ∧
      (zeroFadeEnv.fadeIn fadeInHandle.animationData).durationMs = 0) ∧
    (LED_Animation_SetFadeIn fadeInHandle 8).status = LED_SUCCESS ∧
    channelPeak zeroFadeEnv fadeInHandle (zeroFadeEnv.fadeIn 8).color 0 = some 784 ∧
    (fadeInCurveCall (sub32 5 (beginRun fadeInHandle 5 (-1)).1.startTime)
        (zeroFadeEnv.fadeIn 8) 784).duration = 0 ∧
    (fadeInCurveCall (sub32 5 (beginRun fadeInHandle 5 (-1)).1.startTime)
        (zeroFadeEnv.fadeIn 8) 784).eval = none ∧
    LED_AnimationFadeInExecute zeroFadeEnv fadeInHandle 5 = none ∧
    LED_Animation_Update zeroFadeEnv fadeInHandle 5 = none := by
  refine ⟨⟨rfl, rfl⟩, rfl, rfl, rfl, rfl, rfl, rfl⟩

/-- C30 as amended, on a tick of a running handle with animation data.
Breath and Pulse: every call of the fade curve the executor makes on the tick
(the time in cycle being the elapsed time modulo the cycle time) has a
duration that is not 0, config times of 0 included, and with 16-bit phase
times the time it passes is below that duration (the phase contains the time
in cycle); with a cycle time that is not 0 and a non-NULL color the executor
is undefined exactly when one of these calls is, which is exactly when a
channel has peak 0, and Breath makes one call per channel.  FadeIn and
FadeOut: every call the executor makes passes `durationMs` as it is, one call
per channel (non-NULL color), and the executor is undefined exactly when one
of these calls is: for `durationMs >= 1` exactly when a channel has peak 0,
and for `durationMs = 0` on every tick (at least one channel), the curve
being evaluated with duration 0.  In all four, when the executor returns, the
duty values it applies are the values of these calls (for Pulse: in the
phases that call the curve), and the brightness functions
`GetBreathBrightness` and `GetPulseBrightness` return the value of the
call. -/
theorem curve_duration_guard (env : Env) (h : LED_Handle_t) (tick : Nat)
    (hrun : h.isRunning = true) (hdata : h.animationData ≠ 0) :
    ((∀ c, c ∈ breathCurveCalls env h tick → c.duration ≠ 0) ∧
      ((env.breath h.animationData).riseTimeMs ≤ 65535 →
        (env.breath h.animationData).fallTimeMs ≤ 65535 →
        ∀ c, c ∈ breathCurveCalls env h tick → c.elapsed < c.duration) ∧
      ((env.breath h.animationData).color ≠ 0 →
        (env.breath h.animationData).riseTimeMs
          + (env.breath h.animationData).fallTimeMs ≠ 0 →
        (breathCurveCalls env h tick).length = CalculateColorCount h.controller.LedType ∧
        (LED_AnimationBreathExecute env h tick = none ↔
          ∃ c, c ∈ breathCurveCalls env h tick ∧ c.eval = none) ∧
        (LED_AnimationBreathExecute env h tick = none ↔
          ∃ c, c ∈ breathCurveCalls env h tick ∧ c.maxDutyCycle = 0) ∧
        (∀ r, LED_AnimationBreathExecute env h tick = some r →
          ∃ duty, callValues (breathCurveCalls env h tick) = some duty ∧
            List.IsPrefix
              ((beginRun h tick (env.breath h.animationData).repeatTimes).2 ++
                (ExecuteDutyCycleSetting
                  (beginRun h tick (env.breath h.animationData).repeatTimes).1
                  (some (fun i => duty.getD i 0))).events)
              r.events))) ∧
    ((∀ c, c ∈ pulseCurveCalls env h tick → c.duration ≠ 0) ∧
      ((env.pulse h.animationData).riseTimeMs ≤ 65535 →
        (env.pulse h.animationData).holdOnTimeMs ≤ 65535 →
        (env.pulse h.animationData).fallTimeMs ≤ 65535 →
        ∀ c, c ∈ pulseCurveCalls env h tick → c.elapsed < c.duration) ∧
      ((env.pulse h.animationData).color ≠ 0 →
        (env.pulse h.animationData).riseTimeMs + (env.pulse h.animationData).holdOnTimeMs
          + (env.pulse h.animationData).fallTimeMs
          + (env.pulse h.animationData).holdOffTimeMs ≠ 0 →
        (LED_AnimationPulseExecute env h tick = none ↔
          ∃ c, c ∈ pulseCurveCalls env h tick ∧ c.eval = none) ∧
        (LED_AnimationPulseExecute env h tick = none ↔
          ∃ c, c ∈ pulseCurveCalls env h tick ∧ c.maxDutyCycle = 0)) ∧
      (pulseCurveCalls env h tick ≠ [] →
        ∀ r, LED_AnimationPulseExecute env h tick = some r →
          ∃ duty, callValues (pulseCurveCalls env h tick) = some duty ∧
            List.IsPrefix
              ((beginRun h tick (env.pulse h.animationData).repeatTimes).2 ++
                (ExecuteDutyCycleSetting
                  (beginRun h tick (env.pulse h.animationData).repeatTimes).1
                  (some (fun i => duty.getD i 0))).events)
              r.events)) ∧
    ((∀ c, c ∈ fadeInCurveCalls env h tick →
        c.duration = (env.fadeIn h.animationData).durationMs) ∧
      ((env.fadeIn h.animationData).color ≠ 0 →
        (fadeInCurveCalls env h tick).length = CalculateColorCount h.controller.LedType ∧
        (LED_AnimationFadeInExecute env h tick = none ↔
          ∃ c, c ∈ fadeInCurveCalls env h tick ∧ c.eval = none) ∧
        (1 ≤ (env.fadeIn h.animationData).durationMs →
          (LED_AnimationFadeInExecute env h tick = none ↔
            ∃ c, c ∈ fadeInCurveCalls env h tick ∧ c.maxDutyCycle = 0)) ∧
        ((env.fadeIn h.animationData).durationMs = 0 →
          1 ≤ CalculateColorCount h.controller.LedType →
          LED_AnimationFadeInExecute env h tick = none) ∧
        (∀ r, LED_AnimationFadeInExecute env h tick = some r →
          ∃ duty, callValues (fadeInCurveCalls env h tick) = some duty ∧
            List.IsPrefix
              ((beginRun h tick (env.fadeIn h.animationData).repeatTimes).2 ++
                (ExecuteDutyCycleSetting
                  (beginRun h tick (env.fadeIn h.animationData).repeatTimes).1
                  (some (fun i => duty.getD i 0))).events)
              r.events))) ∧
    ((∀ c, c ∈ fadeOutCurveCalls env h tick →
        c.duration = (env.fadeOut h.animationData).durationMs) ∧
      ((env.fadeOut h.animationData).color ≠ 0 →
        (fadeOutCurveCalls env h tick).length = CalculateColorCount h.controller.LedType ∧
        (LED_AnimationFadeOutExecute env h tick = none ↔
          ∃ c, c ∈ fadeOutCurveCalls env h tick ∧ c.eval = none) ∧
        (1 ≤ (env.fadeOut h.animationData).durationMs →
          (LED_AnimationFadeOutExecute env h tick = none ↔
            ∃ c, c ∈ fadeOutCurveCalls env h tick ∧ c.maxDutyCycle = 0)) ∧
        ((env.fadeOut h.animationData).durationMs = 0 →
          1 ≤ CalculateColorCount h.controller.LedType →
          LED_AnimationFadeOutExecute env h tick = none) ∧
        (∀ r, LED_AnimationFadeOutExecute env h tick = some r →
          ∃ duty, callValues (fadeOutCurveCalls env h tick) = some duty ∧
            List.IsPrefix
              ((beginRun h tick (env.fadeOut h.animationData).repeatTimes).2 ++
                (ExecuteDutyCycleSetting
                  (beginRun h tick (env.fadeOut h.animationData).repeatTimes).1
                  (some (fun i => duty.getD i 0))).events)
              r.events))) ∧
    (∀ (B : LED_Animation_Breath_t) (t m : Nat),
      GetBreathBrightness t B m = (breathCurveCall t B m).eval) ∧
    (∀ (P : LED_Animation_Pulse_t) (t m : Nat) (c : CurveCall),
      pulseCurveCall t P m = some c → GetPulseBrightness t P m = c.eval) := by
  refine ⟨⟨breathCurveCalls_duration env h tick,
      fun hr hf => breathCurveCalls_phase env h tick hr hf, fun hcol htot => ?_⟩,
    ⟨pulseCurveCalls_duration env h tick,
      fun hr hon hf => pulseCurveCalls_phase env h tick hr hon hf, fun hcol htot => ?_,
      fun hne r hx => pulse_calls_values env h tick hrun hdata hne r hx⟩,
    ⟨fadeInCurveCalls_duration env h tick, fun hcol => ?_⟩,
    ⟨fadeOutCurveCalls_duration env h tick, fun hcol => ?_⟩,
    fun B t m => (breath_call B t m).1,
    fun P t m c hc => ((pulse_call P t m).1 c hc).1⟩
  · obtain ⟨h1, h2⟩ := breath_calls_link env h tick hrun hdata hcol htot
    exact ⟨h1, h2, none_iff_zero_peak _ _ (breathCurveCalls_duration env h tick) h2,
      fun r hx => breath_calls_values env h tick hrun hdata hcol htot r hx⟩
  · have h2 := pulse_calls_link env h tick hrun hdata hcol htot
    exact ⟨h2, none_iff_zero_peak _ _ (pulseCurveCalls_duration env h tick) h2⟩
  · obtain ⟨h1, h2⟩ := fadeIn_calls_link env h tick hrun hdata hcol
    refine ⟨h1, h2, fun hd => ?_,
      fun hz hn => fadeIn_zero_undefined env h tick hrun hdata hcol hn hz,
      fun r hx => fadeIn_calls_values env h tick hrun hdata hcol r hx⟩
    refine none_iff_zero_peak _ _ (fun c hc => ?_) h2
    rw [fadeInCurveCalls_duration env h tick c hc]
    omega
  · obtain ⟨h1, h2⟩ := fadeOut_calls_link env h tick hrun hdata hcol
    refine ⟨h1, h2, fun hd => ?_,
      fun hz hn => fadeOut_zero_undefined env h tick hrun hdata hcol hn hz,
      fun r hx => fadeOut_calls_values env h tick hrun hdata hcol r hx⟩
    refine none_iff_zero_peak _ _ (fun c hc => ?_) h2
    rw [fadeOutCurveCalls_duration env h tick c hc]
    omega

theorem curve_duration_guard_witness :
    ((curveRunning LED_ANIMATION_BREATH).isRunning = true ∧
      (curveRunning LED_ANIMATION_BREATH).animationData ≠ 0) ∧
    (noRiseBreathEnv.breath 8).riseTimeMs = 0 ∧
    breathCurveCalls noRiseBreathEnv (curveRunning LED_ANIMATION_BREATH) 31
      = [⟨30, 300, 784, false⟩, ⟨30, 300, 392, false⟩, ⟨30, 300, 196, false⟩] ∧
    callValues (breathCurveCalls noRiseBreathEnv (curveRunning LED_ANIMATION_BREATH) 31)
      = some [635, 317, 159] ∧
    (LED_AnimationBreathExecute noRiseBreathEnv (curveRunning LED_ANIMATION_BREATH) 31).isSome
      = true ∧
    (∀ c, c ∈ breathCurveCalls noRiseBreathEnv (curveRunning LED_ANIMATION_BREATH) 31 →
      c.duration ≠ 0) :=
  ⟨⟨rfl, by decide⟩, rfl, rfl, rfl, rfl,
    (curve_duration_guard noRiseBreathEnv (curveRunning LED_ANIMATION_BREATH) 31 rfl
      (by decide)).1.1⟩

open LED_Transition_Type_t LED_Transition_State_t LED_Transition_Event_t
open LED_Transition_Status_t

/-! ## The dedup of the transition manager -/

/-- C37: `LED_Transition_Update` compares the tick with the one file-level
`last_tick`.  When an `Update` on handle A with a tick has returned, an
`Update` on any other handle B with the same tick returns success without a
step of the state machine and without forwarding the tick to B's engine: B,
its engine included, is unchanged and nothing is invoked.  Likewise an
`Update` with tick 0 while `last_tick` still holds its initial value. -/
theorem transition_dedup_shared (tenv : TransitionEnv) (lt : Nat)
    (A B : LED_Transition_Handle_t) (tick : Nat) (rA : TransitionResult)
    (hA : LED_Transition_Update tenv lt A tick = some rA) :
    rA.last_tick = tick ∧
    LED_Transition_Update tenv rA.last_tick B tick = some ⟨B, tick, [], LED_SUCCESS⟩ ∧
    LED_Transition_Update tenv initialLastTick B 0 = some ⟨B, 0, [], LED_SUCCESS⟩ := by
  have hlast : rA.last_tick = tick := by
    unfold LED_Transition_Update at hA
    by_cases hlt : lt = tick
    · rw [if_pos hlt] at hA
      simp only [Option.some.injEq] at hA
      rw [← hA]
      exact hlt
    · rw [if_neg hlt] at hA
      split at hA
      · cases hA
      · split at hA
        · cases hA
        · simp only [Option.some.injEq] at hA
          rw [← hA]
  refine ⟨hlast, ?_, ?_⟩
  · rw [hlast]
    unfold LED_Transition_Update
    rw [if_pos rfl]
  · unfold LED_Transition_Update initialLastTick
    rw [if_pos rfl]

theorem transition_dedup_shared_witness :
    ∃ rA, LED_Transition_Update demoTransitionEnv 1000
        (ongoingTransition LED_TRANSITION_IMMINENT) 1001 = some rA ∧
      rA.handle.state = LED_TRANSITION_STATE_IDLE ∧
      rA.last_tick = 1001 ∧
      LED_Transition_Update demoTransitionEnv rA.last_tick (setupTransition 40 12) 1001
        = some ⟨setupTransition 40 12, 1001, [], LED_SUCCESS⟩ ∧
      LED_Transition_Update demoTransitionEnv initialLastTick (setupTransition 40 12) 0
        = some ⟨setupTransition 40 12, 0, [], LED_SUCCESS⟩ :=
  ⟨_, rfl, rfl,
    transition_dedup_shared demoTransitionEnv 1000 (ongoingTransition LED_TRANSITION_IMMINENT)
      (setupTransition 40 12) 1001 _ rfl⟩

/-! ## The size of the rule table -/

/-- The loop of the lookup returns an index within the entries scanned. -/
theorem findTransitionIndex_lt (p : Nat → Bool) (n : Nat) :
    ∀ i k, findTransitionIndex p i n = some k → i ≤ k ∧ k < i + n := by
  induction n with
  | zero => intro i k h; cases h
  | succ n ih =>
    intro i k h
    unfold findTransitionIndex at h
    split_ifs at h
    · simp only [Option.some.injEq] at h
      omega
    · have := ih (i + 1) k h
      omega

/-- The loop of the lookup reads the test only on the entries scanned. -/
theorem findTransitionIndex_congr (p q : Nat → Bool) (n : Nat) :
    ∀ i, (∀ j, i ≤ j → j < i + n → p j = q j) →
      findTransitionIndex p i n = findTransitionIndex q i n := by
  induction n with
  | zero => intro i _; rfl
  | succ n ih =>
    intro i h
    unfold findTransitionIndex
    rw [h i (Nat.le_refl i) (by omega),
      ih (i + 1) (fun j hj1 hj2 => h j (by omega) (by omega))]

/-- The lookup reads only the first `mapSize` entries of the table. -/
theorem findTransition_scans_mapSize (tenv : TransitionEnv)
    (rules2 : Nat → Nat → LED_Transition_Config_t) (this : LED_Transition_Handle_t)
    (hsame : ∀ i, i < this.mapSize → rules2 this.transitionMap i
      = tenv.rules this.transitionMap i) :
    LED_Transition_FindTransition { tenv with rules := rules2 } this
      = LED_Transition_FindTransition tenv this := by
  have hm : findTransitionIndex (ruleMatches { tenv with rules := rules2 } this) 0 this.mapSize
      = findTransitionIndex (ruleMatches tenv this) 0 this.mapSize := by
    apply findTransitionIndex_congr
    intro j _ hj
    have hj2 : rules2 this.transitionMap j = tenv.rules this.transitionMap j :=
      hsame j (by omega)
    simp only [ruleMatches, hj2]
  unfold LED_Transition_FindTransition
  rw [hm]
  cases hf : findTransitionIndex (ruleMatches tenv this) 0 this.mapSize with
  | none => rfl
  | some k =>
    have hk := (findTransitionIndex_lt _ _ 0 k hf).2
    show (if _ then none else some (_, true)) = (if _ then none else some (_, true))
    have h2 : rules2 this.transitionMap k = tenv.rules this.transitionMap k :=
      hsame k (by omega)
    simp only [h2]

/-- C39: `LED_Transition_SetMapping` with a non-NULL map and a size n >= 1
returns success and stores n mod 256 in the 8-bit `mapSize`, and the lookup
then reads only the first n mod 256 rules; for n = 256 the size stored is 0
and the policy resolved is IMMINENT whatever the table holds.  With a NULL map
or n = 0 the call returns the null-pointer error and leaves the handle, the
table and the size stored before included, as it was. -/
theorem mapping_size_mod_256 (tenv : TransitionEnv) (this : LED_Transition_Handle_t)
    (map n : Nat) :
    (map ≠ 0 → 1 ≤ n →
      LED_Transition_SetMapping this map n
        = ({ this with transitionMap := map, mapSize := n % 256 }, LED_SUCCESS) ∧
      ∀ rules2 : Nat → Nat → LED_Transition_Config_t,
        (∀ i, i < n % 256 → rules2 map i = tenv.rules map i) →
        LED_Transition_FindTransition { tenv with rules := rules2 }
            (LED_Transition_SetMapping this map n).1
          = LED_Transition_FindTransition tenv (LED_Transition_SetMapping this map n).1) ∧
    (map ≠ 0 →
      (LED_Transition_SetMapping this map 256).2 = LED_SUCCESS ∧
      (LED_Transition_SetMapping this map 256).1.mapSize = 0 ∧
      resolvedPolicy tenv (LED_Transition_SetMapping this map 256).1
        = some LED_TRANSITION_IMMINENT) ∧
    (map = 0 ∨ n = 0 →
      LED_Transition_SetMapping this map n = (this, LED_ERROR_NULL_POINTER)) := by
  refine ⟨?_, ?_, ?_⟩
  · intro hmap hn
    have hset : LED_Transition_SetMapping this map n
        = ({ this with transitionMap := map, mapSize := n % 256 }, LED_SUCCESS) := by
      unfold LED_Transition_SetMapping
      rw [if_neg (by omega)]
      rfl
    refine ⟨hset, ?_⟩
    intro rules2 hsame
    rw [hset]
    exact findTransition_scans_mapSize tenv rules2 _ hsame
  · intro hmap
    have hset : LED_Transition_SetMapping this map 256
        = ({ this with transitionMap := map, mapSize := 0 }, LED_SUCCESS) := by
      unfold LED_Transition_SetMapping
      rw [if_neg (by omega)]
      rfl
    rw [hset]
    refine ⟨rfl, rfl, ?_⟩
    unfold resolvedPolicy LED_Transition_FindTransition
    simp [findTransitionIndex, LED_Transition_SetDefaultType]
  · intro h
    unfold LED_Transition_SetMapping
    rw [if_pos h]

theorem mapping_size_mod_256_witness :
    ((40 : Nat) ≠ 0 ∧ 1 ≤ 260) ∧
    LED_Transition_SetMapping demoTransition 40 260
      = ({ demoTransition with transitionMap := 40, mapSize := 4 }, LED_SUCCESS) :=
  ⟨⟨by decide, by decide⟩,
    ((mapping_size_mod_256 demoTransitionEnv demoTransition 40 260).1 (by decide)
      (by decide)).1⟩

open LED_Transition_Type_t LED_Transition_State_t LED_Transition_Event_t
open LED_Transition_Status_t

/-! ## A repeat count of 0 -/

/-- One cycle boundary of a finite run whose remaining count is not 1: the
count is decremented in 8 bits and nothing else happens. -/
theorem HandleRepeatLogic_continue (h : LED_Handle_t) (rep : Int) (stop : Bool)
    (hrep : rep ≠ -1) (hnz : toInt8 (h.repeatTimes - 1) ≠ 0) :
    HandleRepeatLogic h rep stop
      = ⟨{ h with repeatTimes := toInt8 (h.repeatTimes - 1) }, [], LED_SUCCESS⟩ := by
  unfold HandleRepeatLogic
  simp only [ne_eq, hrep, not_false_eq_true, if_true]
  rw [if_neg hnz]

/-- The boundaries of a run, the last one apart. -/
theorem repeatBoundaries_succ (rep : Int) (stop : Bool) (k : Nat) :
    ∀ h, repeatBoundaries rep stop (k + 1) h
      = ((HandleRepeatLogic (repeatBoundaries rep stop k h).1 rep stop).handle,
          (repeatBoundaries rep stop k h).2
            ++ (HandleRepeatLogic (repeatBoundaries rep stop k h).1 rep stop).events) := by
  induction k with
  | zero =>
    intro h
    simp [repeatBoundaries]
  | succ k ih =>
    intro h
    rw [repeatBoundaries, ih]
    simp [repeatBoundaries, List.append_assoc]

/-- As long as the 8-bit count does not reach 0, `k` boundaries of a finite
run only decrement the count. -/
theorem repeatBoundaries_continue (rep : Int) (stop : Bool) (hrep : rep ≠ -1) (k : Nat) :
    ∀ h : LED_Handle_t, -128 ≤ h.repeatTimes → h.repeatTimes ≤ 127 →
      (∀ j : Nat, 1 ≤ j → j ≤ k → toInt8 (h.repeatTimes - j) ≠ 0) →
      repeatBoundaries rep stop k h
        = ({ h with repeatTimes := toInt8 (h.repeatTimes - k) }, []) := by
  induction k with
  | zero =>
    intro h h1 h2 _
    have : toInt8 (h.repeatTimes - (0 : Nat)) = h.repeatTimes := by
      unfold toInt8
      omega
    rw [this]
    rfl
  | succ k ih =>
    intro h h1 h2 hall
    rw [repeatBoundaries_succ, ih h h1 h2 (fun j hj1 hj2 => hall j hj1 (by omega))]
    have hstep : toInt8 (toInt8 (h.repeatTimes - (k : Nat)) - 1)
        = toInt8 (h.repeatTimes - ((k + 1 : Nat) : Int)) := by
      unfold toInt8
      push_cast
      omega
    have hnz : toInt8 (toInt8 (h.repeatTimes - (k : Nat)) - 1) ≠ 0 := by
      rw [hstep]
      exact hall (k + 1) (by omega) (Nat.le_refl _)
    rw [HandleRepeatLogic_continue _ rep stop hrep hnz]
    simp only [List.append_nil, hstep]

/-- C40: a repeat count of 0.  On a handle whose remaining count is 0 and
with a config repeat count of 0, `HandleRepeatLogic` decrements the count to
-1, returns success, leaves the running flag as it is and invokes nothing; so
does the Blink executor at its first cycle boundary.  After k boundaries, for
k from 1 to 255, the run has not completed (running flag untouched, nothing
invoked, count not 0); the 256th boundary completes it: the running flag is
cleared and the callback, when registered, is invoked with success. -/
theorem repeat_zero_wraps (h : LED_Handle_t) (stop : Bool) (hz : h.repeatTimes = 0) :
    HandleRepeatLogic h 0 stop = ⟨{ h with repeatTimes := -1 }, [], LED_SUCCESS⟩ ∧
    (∀ k : Nat, 1 ≤ k → k ≤ 255 →
      (repeatBoundaries 0 stop k h).1.isRunning = h.isRunning ∧
      (repeatBoundaries 0 stop k h).2 = [] ∧
      (repeatBoundaries 0 stop k h).1.repeatTimes ≠ 0) ∧
    ((repeatBoundaries 0 stop 256 h).1.isRunning = false ∧
      (repeatBoundaries 0 stop 256 h).1.repeatTimes = 0 ∧
      (h.callback = true →
        Event.callback h.animationType LED_SUCCESS ∈ (repeatBoundaries 0 stop 256 h).2)) ∧
    (∀ (env : Env) (tick : Nat), h.animationData ≠ 0 → h.isRunning = true →
      h.startTime ≠ 0 → (env.blink h.animationData).repeatTimes = 0 →
      sub32 tick h.startTime ≥ (env.blink h.animationData).periodMs →
      (LED_AnimationBlinkExecute env h tick).handle.repeatTimes = -1 ∧
      (LED_AnimationBlinkExecute env h tick).handle.isRunning = true ∧
      (LED_AnimationBlinkExecute env h tick).events = [] ∧
      (LED_AnimationBlinkExecute env h tick).status = LED_SUCCESS) := by
  have h0 : (0 : Int) ≠ -1 := by decide
  have hcont : ∀ k : Nat, k ≤ 255 →
      repeatBoundaries 0 stop k h = ({ h with repeatTimes := toInt8 (h.repeatTimes - k) }, []) := by
    intro k hk
    apply repeatBoundaries_continue 0 stop h0 k h (by omega) (by omega)
    intro j hj1 hj2
    rw [hz]
    unfold toInt8
    omega
  refine ⟨?_, ?_, ?_, ?_⟩
  · have := HandleRepeatLogic_continue h 0 stop h0 (by rw [hz]; decide)
    rw [this, hz]
    rfl
  · intro k hk1 hk2
    rw [hcont k hk2]
    refine ⟨rfl, rfl, ?_⟩
    show toInt8 (h.repeatTimes - k) ≠ 0
    rw [hz]
    unfold toInt8
    omega
  · rw [repeatBoundaries_succ 0 stop 255 h, hcont 255 (Nat.le_refl _), hz]
    have h255 : toInt8 ((0 : Int) - (255 : Nat)) = 1 := by decide
    rw [h255]
    unfold HandleRepeatLogic
    simp only [ne_eq, h0, not_false_eq_true, if_true]
    have h1 : toInt8 ((1 : Int) - 1) = 0 := by decide
    simp only [h1, if_true, List.nil_append]
    refine ⟨trivial, trivial, ?_⟩
    intro hcb
    simp [hcb]
  · intro env tick hd hrun hst hrep hel
    unfold LED_AnimationBlinkExecute
    rw [if_neg hd]
    simp only []
    rw [if_neg (by simp [hrun])]
    have hfirst : beginColorRun env h tick (env.blink h.animationData).repeatTimes
        (env.blink h.animationData).color = ⟨h, [], LED_SUCCESS⟩ := by
      unfold beginColorRun
      rw [if_neg hst]
    rw [hfirst]
    simp only [ne_eq, not_true_eq_false, if_false]
    rw [if_pos hel, hrep]
    have := HandleRepeatLogic_continue { h with startTime := tick } 0 false h0
      (by show toInt8 (h.repeatTimes - 1) ≠ 0; rw [hz]; decide)
    rw [this]
    refine ⟨?_, hrun, rfl, rfl⟩
    show toInt8 (h.repeatTimes - 1) = -1
    rw [hz]
    decide

theorem repeat_zero_wraps_witness :
    demoHandle.repeatTimes = 0 ∧
    HandleRepeatLogic demoHandle 0 false
      = ⟨{ demoHandle with repeatTimes := -1 }, [], LED_SUCCESS⟩ ∧
    (repeatBoundaries 0 false 255 demoHandle).1.repeatTimes ≠ 0 ∧
    (repeatBoundaries 0 false 256 demoHandle).1.repeatTimes = 0 :=
  ⟨rfl, (repeat_zero_wraps demoHandle false rfl).1,
    ((repeat_zero_wraps demoHandle false rfl).2.1 255 (by decide) (by decide)).2.2,
    (repeat_zero_wraps demoHandle false rfl).2.2.1.2.1⟩

open LED_Transition_Type_t LED_Transition_State_t LED_Transition_Event_t
open LED_Transition_Status_t

/-! ## A rule with a policy outside the four -/

/-- With a policy that is none of the four and a running engine, the Ongoing
step does nothing, at every tick. -/
theorem ongoing_invalid_policy (tenv : TransitionEnv) (this : LED_Transition_Handle_t)
    (tick : Nat) (hrun : this.LedHandle.isRunning = true)
    (hp : IS_VALID_TRANSITION_TYPE this.transitionType = false) :
    LED_Transition_StateOngoing tenv this tick = some (this, []) := by
  unfold LED_Transition_StateOngoing
  rw [if_neg (by simp [hrun])]
  cases ht : this.transitionType <;> rw [ht] at hp <;>
    first | rfl | exact absurd hp (by decide)

/-- C38, the code at a rule table whose matching rule has `TransitionType`
0 (`LED_TRANSITION_INVALID`): the Setup step stores that value as the policy,
which is none of the four valid ones, and moves to ONGOING; from there, with
the Breath engine running, the Ongoing step at every tick leaves the handle as
it is: no handoff and no timeout. -/
theorem invalid_policy_stalls :
    (invalidRuleEnv.rules 40 0).TransitionType = LED_TRANSITION_INVALID ∧
    LED_Transition_StateSetup invalidRuleEnv (setupTransition 40 12) 1000
      = some (ongoingTransition LED_TRANSITION_INVALID,
          [TransitionEvent.callback LED_ANIMATION_BREATH
            LED_STATUS_ANIMATION_TRANSITION_STARTED]) ∧
    IS_VALID_TRANSITION_TYPE (ongoingTransition LED_TRANSITION_INVALID).transitionType
      = false ∧
    (ongoingTransition LED_TRANSITION_INVALID).LedHandle.isRunning = true ∧
    ∀ tick, LED_Transition_StateOngoing invalidRuleEnv
        (ongoingTransition LED_TRANSITION_INVALID) tick
      = some (ongoingTransition LED_TRANSITION_INVALID, []) :=
  ⟨rfl, rfl, rfl, rfl, fun tick => ongoing_invalid_policy _ _ tick rfl rfl⟩

/-! ## A channel of brightness 0 in the curve -/

/-- With a peak of 0 the quadratic curve divides by zero, whatever the
elapsed time, the duration and the direction. -/
theorem curve_zero_peak (e d : Nat) (dir : Bool) :
    GetFadeBrightnessQuadratic e d 0 dir = none := by
  unfold GetFadeBrightnessQuadratic
  by_cases hd : d = 0
  · rw [if_pos hd]
  · rw [if_neg hd]
    simp only [if_true]

/-- C36, the code at a channel of brightness 0: the peak duty of channels 1
and 2 of the color 255, 0, 0 is 0, and `GetFadeBrightnessQuadratic` with
duration 200 and peak 0 divides by that peak, rising or falling, at elapsed
0, 10 and 200; a running FadeIn on that color is undefined on its first tick. -/
theorem zero_peak_divides_by_zero :
    (channelPeak redFadeEnv fadeInHandle (redFadeEnv.fadeIn 8).color 0 = some 1000 ∧
      channelPeak redFadeEnv fadeInHandle (redFadeEnv.fadeIn 8).color 1 = some 0) ∧
    (GetFadeBrightnessQuadratic 0 200 0 true = none ∧
      GetFadeBrightnessQuadratic 10 200 0 true = none ∧
      GetFadeBrightnessQuadratic 200 200 0 true = none ∧
      GetFadeBrightnessQuadratic 10 200 0 false = none) ∧
    GetFadeBrightnessQuadratic 10 200 1000 true = some 2 ∧
    LED_AnimationFadeInExecute redFadeEnv fadeInHandle 5 = none ∧
    LED_Animation_Update redFadeEnv fadeInHandle 5 = none := by
  refine ⟨⟨rfl, rfl⟩, ⟨rfl, rfl, rfl, rfl⟩, rfl, rfl, rfl⟩


/-! ## The slot of AlternatingColors -/

/-- C34: for a Pulse config (16-bit times) and a time in cycle t below the
cycle length rise + holdOn + fall + holdOff, `GetPulseBrightness` assigns its
value on exactly one branch: the rising curve for t < rise, the peak for
rise <= t < rise + holdOn, the falling curve (at t - rise - holdOn) for
rise + holdOn <= t < rise + holdOn + fall, and 0 from there on; and for a peak
in 1..65535 the value exists and is at most the peak. -/
theorem pulse_phases (P : LED_Animation_Pulse_t) (t m : Nat)
    (hr : P.riseTimeMs ≤ 65535) (hon : P.holdOnTimeMs ≤ 65535)
    (hf : P.fallTimeMs ≤ 65535) (hoff : P.holdOffTimeMs ≤ 65535)
    (ht : t < P.riseTimeMs + P.holdOnTimeMs + P.fallTimeMs + P.holdOffTimeMs) :
    (t < P.riseTimeMs →
      GetPulseBrightness t P m = CalculateFadeBrightness t P.riseTimeMs m true) ∧
    (P.riseTimeMs ≤ t → t < P.riseTimeMs + P.holdOnTimeMs →
      GetPulseBrightness t P m = some m) ∧
    (P.riseTimeMs + P.holdOnTimeMs ≤ t →
      t < P.riseTimeMs + P.holdOnTimeMs + P.fallTimeMs →
      GetPulseBrightness t P m
        = CalculateFadeBrightness (t - P.riseTimeMs - P.holdOnTimeMs) P.fallTimeMs m false) ∧
    (P.riseTimeMs + P.holdOnTimeMs + P.fallTimeMs ≤ t → GetPulseBrightness t P m = some 0) ∧
    (1 ≤ m → m ≤ 65535 → ∃ v, GetPulseBrightness t P m = some v ∧ v ≤ m) := by
  unfold GetPulseBrightness
  simp only []
  by_cases h1 : t < P.riseTimeMs
  · rw [if_pos h1]
    refine ⟨fun _ => rfl, fun h _ => False.elim (by omega), fun h _ => False.elim (by omega),
      fun h => False.elim (by omega), ?_⟩
    intro hm1 hm2
    unfold CalculateFadeBrightness
    rw [fade_rising_eq t P.riseTimeMs m (by omega) hr hm1 hm2 (by omega)]
    exact ⟨_, rfl, sq_div_le _ _ (normalized_le t P.riseTimeMs m (by omega))⟩
  · rw [if_neg h1]
    by_cases h2 : t < P.riseTimeMs + P.holdOnTimeMs
    · rw [if_pos h2]
      exact ⟨fun h => False.elim (h1 h), fun _ _ => rfl, fun h _ => False.elim (by omega),
        fun h => False.elim (by omega), fun _ _ => ⟨m, rfl, Nat.le_refl m⟩⟩
    · rw [if_neg h2]
      by_cases h3 : t < P.riseTimeMs + P.holdOnTimeMs + P.fallTimeMs
      · rw [if_pos h3]
        have hsub : sub32 (sub32 t P.riseTimeMs) P.holdOnTimeMs
            = t - P.riseTimeMs - P.holdOnTimeMs := by
          rw [sub32_of_le t P.riseTimeMs (by omega) (by omega),
            sub32_of_le _ P.holdOnTimeMs (by omega) (by omega)]
        rw [hsub]
        refine ⟨fun h => False.elim (h1 h), fun _ h => False.elim (h2 h), fun _ _ => rfl,
          fun h => False.elim (by omega), ?_⟩
        intro hm1 hm2
        unfold CalculateFadeBrightness
        rw [fade_falling_eq (t - P.riseTimeMs - P.holdOnTimeMs) P.fallTimeMs m (by omega) hf
          hm1 hm2 (by omega)]
        exact ⟨_, rfl, sq_div_le _ _ (Nat.sub_le _ _)⟩
      · rw [if_neg h3, if_pos ht]
        exact ⟨fun h => False.elim (h1 h), fun _ h => False.elim (h2 h),
          fun _ h => False.elim (h3 h), fun _ => rfl, fun _ _ => ⟨0, rfl, Nat.zero_le m⟩⟩

theorem pulse_phases_witness :
    (120 < (demoEnv.pulse 8).riseTimeMs + (demoEnv.pulse 8).holdOnTimeMs
        + (demoEnv.pulse 8).fallTimeMs + (demoEnv.pulse 8).holdOffTimeMs ∧
      (demoEnv.pulse 8).riseTimeMs ≤ 120 ∧
      120 < (demoEnv.pulse 8).riseTimeMs + (demoEnv.pulse 8).holdOnTimeMs) ∧
    GetPulseBrightness 120 (demoEnv.pulse 8) 784 = some 784 :=
  ⟨⟨by decide, by decide, by decide⟩,
    (pulse_phases (demoEnv.pulse 8) 120 784 (by decide) (by decide) (by decide) (by decide)
      (by decide)).2.1 (by decide) (by decide)⟩

open LED_Transition_Type_t LED_Transition_State_t LED_Transition_Event_t
open LED_Transition_Status_t

/-! ## The first tick of a run at tick 0 -/

/-- C31, the code at a Solid with `executionTimeMs` 0 on a handle whose
`lastTick` holds 7: after `SetSolid` and `Start`, the `Update` at tick 0 runs
the first-tick block and records 0 as start tick, which is the value of the
unset start marker, so the `Update` at tick 1 runs the block again: the start
hook is invoked twice and the color is written to the channels twice. -/
theorem solid_initialised_twice :
    (staleTickHandle.lastTick = 7 ∧ (demoEnv.solid 8).executionTimeMs = 0) ∧
    (updateAll demoEnv
        (LED_Animation_Start (LED_Animation_SetSolid staleTickHandle 8).handle).handle
        [0, 1]).map (fun p => p.2)
      = some [Event.controllerStart, Event.setDutyCycle 0 1000, Event.setDutyCycle 1 0,
          Event.setDutyCycle 2 0, Event.controllerStart, Event.setDutyCycle 0 1000,
          Event.setDutyCycle 1 0, Event.setDutyCycle 2 0] ∧
    (updateAll demoEnv
        (LED_Animation_Start (LED_Animation_SetSolid staleTickHandle 8).handle).handle
        [0, 1]).map (fun p => (countStart p.2, writesTo 0 p.2))
      = some (2, [1000, 1000]) ∧
    (updateAll demoEnv
        (LED_Animation_Start (LED_Animation_SetSolid staleTickHandle 8).handle).handle
        [5, 6]).map (fun p => (countStart p.2, writesTo 0 p.2))
      = some (1, [1000]) := by
  refine ⟨⟨rfl, rfl⟩, ?_, ?_, ?_⟩ <;> decide

/-! ## A FadeIn whose ticks pass the duration -/

/-- C32, the code at a FadeIn of 200 ms on the color 200, 100, 50 (peaks
784, 392, 196 of a maximum duty of 1000) with repeat count 1, started and
updated at tick 1.  An `Update` at tick 211 (elapsed 210) writes the duty 863
to channel 0, above its peak 784, before the run completes.  An `Update` at
tick 251 (elapsed 250) computes 1225, above the maximum duty: nothing is
written, the callback is invoked with the invalid-value error, the tag is
reset to NONE and the running flag stays set; later ticks invoke nothing more. -/
theorem fadeIn_overshoot :
    ((fadeOnceEnv.fadeIn 8).durationMs = 200 ∧ (fadeOnceEnv.fadeIn 8).repeatTimes = 1 ∧
      channelPeak fadeOnceEnv demoHandle (fadeOnceEnv.fadeIn 8).color 0 = some 784) ∧
    (updateAll fadeOnceEnv
        (LED_Animation_Start (LED_Animation_SetFadeIn demoHandle 8).handle).handle
        [1, 211]).map (fun p => (writesTo 0 p.2, p.1.isRunning))
      = some ([0, 863], false) ∧
    CalculateFadeBrightness 250 200 784 true = some 1225 ∧
    (updateAll fadeOnceEnv
        (LED_Animation_Start (LED_Animation_SetFadeIn demoHandle 8).handle).handle
        [1, 251]).map (fun p => (p.2, p.1.animationType, p.1.isRunning))
      = some ([Event.controllerStart, Event.setDutyCycle 0 0, Event.setDutyCycle 1 0,
          Event.setDutyCycle 2 0,
          Event.callback LED_ANIMATION_FADE_IN LED_ERROR_INVALID_VALUE],
        LED_ANIMATION_NONE, true) ∧
    (updateAll fadeOnceEnv
        (LED_Animation_Start (LED_Animation_SetFadeIn demoHandle 8).handle).handle
        [1, 251, 300, 400]).map (fun p => (p.2.filter Event.isCallback, p.1.isRunning))
      = some ([Event.callback LED_ANIMATION_FADE_IN LED_ERROR_INVALID_VALUE], true) := by
  refine ⟨⟨rfl, rfl, rfl⟩, ?_, ?_, ?_, ?_⟩ <;> decide

/-! ## The linear blend -/

/-- A non-negative product below 2^31 survives the passage through
`uint32_t` and back to `int32_t`. -/
theorem toInt32_intToU32_nat (n : Nat) (h : n ≤ 255000) :
    toInt32 (intToU32 (n : Int)) = (n : Int) := by
  unfold toInt32 intToU32 u32
  split_ifs <;> omega

/-- A negative product above -2^31 survives the passage through `uint32_t`
and back to `int32_t`. -/
theorem toInt32_intToU32_neg (n : Nat) (h : n ≤ 255000) :
    toInt32 (intToU32 (-(n : Int))) = -(n : Int) := by
  unfold toInt32 intToU32 u32
  split_ifs <;> omega

/-- The blended byte when the target is not below the current byte. -/
theorem linearChannel_up (f cur tgt : Nat) (hle : cur ≤ tgt) (hf : f ≤ 1000)
    (htgt : tgt ≤ 255) :
    linearChannel f cur tgt = cur + f * (tgt - cur) / 1000 ∧
    f * (tgt - cur) / 1000 ≤ tgt - cur := by
  have hb : f * (tgt - cur) ≤ 1000 * (tgt - cur) := Nat.mul_le_mul_right _ hf
  have hq : f * (tgt - cur) / 1000 ≤ tgt - cur := Nat.div_le_of_le_mul hb
  refine ⟨?_, hq⟩
  have hx : (f : Int) * ((tgt : Int) - (cur : Int)) = ((f * (tgt - cur) : Nat) : Int) := by
    rw [Nat.cast_mul, Nat.cast_sub hle]
  unfold linearChannel
  rw [hx]
  generalize f * (tgt - cur) = n at hb hq ⊢
  rw [toInt32_intToU32_nat n (by omega), Int.tdiv_eq_ediv (by omega) (by decide)]
  omega

/-- The blended byte when the target is not above the current byte. -/
theorem linearChannel_down (f cur tgt : Nat) (hle : tgt ≤ cur) (hf : f ≤ 1000)
    (hcur : cur ≤ 255) :
    linearChannel f cur tgt = cur - f * (cur - tgt) / 1000 ∧
    f * (cur - tgt) / 1000 ≤ cur - tgt := by
  have hb : f * (cur - tgt) ≤ 1000 * (cur - tgt) := Nat.mul_le_mul_right _ hf
  have hq : f * (cur - tgt) / 1000 ≤ cur - tgt := Nat.div_le_of_le_mul hb
  refine ⟨?_, hq⟩
  have hx : (f : Int) * ((tgt : Int) - (cur : Int)) = -((f * (cur - tgt) : Nat) : Int) := by
    rw [Nat.cast_mul, Nat.cast_sub hle]
    ring
  unfold linearChannel
  rw [hx]
  generalize f * (cur - tgt) = n at hb hq ⊢
  rw [toInt32_intToU32_neg n (by omega), Int.neg_tdiv,
    Int.tdiv_eq_ediv (by omega) (by decide)]
  omega

/-- The scaled fraction when the product with 1000 fits 32 bits. -/
theorem fractionScaled_eq (tenv : TransitionEnv) (e : Nat)
    (hT : tenv.TRANSITION_INTERPOLATE_TIME_MS ≤ 4294967)
    (he : e < tenv.TRANSITION_INTERPOLATE_TIME_MS) :
    fractionScaled tenv e = e * 1000 / tenv.TRANSITION_INTERPOLATE_TIME_MS ∧
    fractionScaled tenv e ≤ 1000 := by
  have hle : e * 1000 / tenv.TRANSITION_INTERPOLATE_TIME_MS ≤ 1000 := by
    apply Nat.div_le_of_le_mul
    have := Nat.mul_le_mul_right 1000 (Nat.le_of_lt he)
    omega
  have heq : fractionScaled tenv e = e * 1000 / tenv.TRANSITION_INTERPOLATE_TIME_MS := by
    unfold fractionScaled mul32
    simp only []
    rw [Nat.mod_eq_of_lt he, Nat.mod_eq_of_lt (by omega), if_neg (by omega)]
  exact ⟨heq, by rw [heq]; exact hle⟩

/-- C35, the code at an interpolation time of 5000000 ms: the product
elapsed * 1000 is taken in 32 bits, so that the scaled fraction is 858 at
elapsed 4294967 and 0 at elapsed 4294968, both below the interpolation time,
and a channel going from 0 to 255 holds 218 at the first and falls back to 0
at the second. -/
theorem linear_blend_wraps :
    (slowBlendEnv.TRANSITION_INTERPOLATE_TIME_MS = 5000000 ∧
      4294967 < 4294968 ∧ 4294968 < slowBlendEnv.TRANSITION_INTERPOLATE_TIME_MS) ∧
    fractionScaled slowBlendEnv 4294967 = 858 ∧
    fractionScaled slowBlendEnv 4294968 = 0 ∧
    linearChannel (fractionScaled slowBlendEnv 4294967) 0 255 = 218 ∧
    linearChannel (fractionScaled slowBlendEnv 4294968) 0 255 = 0 ∧
    ¬(linearChannel (fractionScaled slowBlendEnv 4294967) 0 255
      ≤ linearChannel (fractionScaled slowBlendEnv 4294968) 0 255) := by
  refine ⟨⟨rfl, by decide, by decide⟩, ?_, ?_, ?_, ?_, ?_⟩ <;> decide

/-- C35 as amended: for an interpolation time T in 1..4294967, current and
target bytes in 0..255 and elapsed times e1 <= e2 < T, the scaled fraction
`PerformLinearInterpolation` uses is e * 1000 / T and lies in 0..1000, and the
byte it computes for a channel lies between the current and the target byte
(so the 8-bit store does not wrap), is the current byte at elapsed 0, and at
e2 is at least as close to the target as at e1. -/
theorem linear_blend_between (tenv : TransitionEnv) (this : LED_Transition_Handle_t)
    (e1 e2 cur tgt : Nat)
    (hT : tenv.TRANSITION_INTERPOLATE_TIME_MS ≤ 4294967)
    (he : e1 ≤ e2) (he2 : e2 < tenv.TRANSITION_INTERPOLATE_TIME_MS)
    (hcur : cur ≤ 255) (htgt : tgt ≤ 255) :
    PerformLinearInterpolation tenv this e1
      = applyInterpolated this (fun i =>
          linearChannel (fractionScaled tenv e1) (this.currentColor i) (this.targetColor i)) ∧
    fractionScaled tenv e1 = e1 * 1000 / tenv.TRANSITION_INTERPOLATE_TIME_MS ∧
    fractionScaled tenv e1 ≤ 1000 ∧
    linearChannel (fractionScaled tenv 0) cur tgt = cur ∧
    (cur ≤ tgt →
      cur ≤ linearChannel (fractionScaled tenv e1) cur tgt ∧
      linearChannel (fractionScaled tenv e1) cur tgt
        ≤ linearChannel (fractionScaled tenv e2) cur tgt ∧
      linearChannel (fractionScaled tenv e2) cur tgt ≤ tgt) ∧
    (tgt ≤ cur →
      tgt ≤ linearChannel (fractionScaled tenv e2) cur tgt ∧
      linearChannel (fractionScaled tenv e2) cur tgt
        ≤ linearChannel (fractionScaled tenv e1) cur tgt ∧
      linearChannel (fractionScaled tenv e1) cur tgt ≤ cur) := by
  obtain ⟨hf1, hf1le⟩ := fractionScaled_eq tenv e1 hT (by omega)
  obtain ⟨hf2, hf2le⟩ := fractionScaled_eq tenv e2 hT he2
  obtain ⟨hf0, -⟩ := fractionScaled_eq tenv 0 hT (by omega)
  have hmono : fractionScaled tenv e1 ≤ fractionScaled tenv e2 := by
    rw [hf1, hf2]
    exact Nat.div_le_div_right (Nat.mul_le_mul_right 1000 he)
  have hzero : fractionScaled tenv 0 = 0 := by
    rw [hf0]
    simp
  refine ⟨rfl, hf1, hf1le, ?_, ?_, ?_⟩
  · rw [hzero]
    by_cases hle : cur ≤ tgt
    · rw [(linearChannel_up 0 cur tgt hle (by omega) htgt).1]
      simp
    · rw [(linearChannel_down 0 cur tgt (by omega) (by omega) hcur).1]
      simp
  · intro hle
    obtain ⟨h1, h1b⟩ := linearChannel_up (fractionScaled tenv e1) cur tgt hle hf1le htgt
    obtain ⟨h2, h2b⟩ := linearChannel_up (fractionScaled tenv e2) cur tgt hle hf2le htgt
    have hq : fractionScaled tenv e1 * (tgt - cur) / 1000
        ≤ fractionScaled tenv e2 * (tgt - cur) / 1000 :=
      Nat.div_le_div_right (Nat.mul_le_mul_right _ hmono)
    rw [h1, h2]
    omega
  · intro hle
    obtain ⟨h1, h1b⟩ := linearChannel_down (fractionScaled tenv e1) cur tgt hle hf1le hcur
    obtain ⟨h2, h2b⟩ := linearChannel_down (fractionScaled tenv e2) cur tgt hle hf2le hcur
    have hq : fractionScaled tenv e1 * (cur - tgt) / 1000
        ≤ fractionScaled tenv e2 * (cur - tgt) / 1000 :=
      Nat.div_le_div_right (Nat.mul_le_mul_right _ hmono)
    rw [h1, h2]
    omega

theorem linear_blend_between_witness :
    (demoTransitionEnv.TRANSITION_INTERPOLATE_TIME_MS ≤ 4294967 ∧ 50 ≤ 100 ∧
      100 < demoTransitionEnv.TRANSITION_INTERPOLATE_TIME_MS ∧ 200 ≤ 255 ∧ 100 ≤ 255) ∧
    fractionScaled demoTransitionEnv 50 = 50 * 1000 / 200 ∧
    (100 ≤ linearChannel (fractionScaled demoTransitionEnv 100) 200 100 ∧
      linearChannel (fractionScaled demoTransitionEnv 100) 200 100
        ≤ linearChannel (fractionScaled demoTransitionEnv 50) 200 100 ∧
      linearChannel (fractionScaled demoTransitionEnv 50) 200 100 ≤ 200) :=
  ⟨⟨by decide, by decide, by decide, by decide, by decide⟩,
    (linear_blend_between demoTransitionEnv demoTransition 50 100 200 100 (by decide)
      (by decide) (by decide) (by decide) (by decide)).2.1,
    (linear_blend_between demoTransitionEnv demoTransition 50 100 200 100 (by decide)
      (by decide) (by decide) (by decide) (by decide)).2.2.2.2.2 (by decide)⟩

end LedAnimation
